import Mathlib

/-!
# Bundle-space decomposition: classifier and state operators

A shallow embedding of

* `BundleSpaceComponentFactory::identifyBundleSpaceComponentType`,
  `GetNumberOfComponents`, `MakeBundleSpaceComponent` and `MakeBundleSpaceComponents`
  (`datastructures/src/BundleSpaceComponentFactory.cpp`),
* `QuotientSpace::identifyQuotientSpaceType`, `QuotientSpace::computeQuotientSpace`,
  `QuotientSpace::mergeStates`, `QuotientSpace::projectX1Subspace`,
  `QuotientSpace::projectQ0Subspace`, `QuotientSpace::sample`,
  `QuotientSpace::sampleQuotient`, `QuotientSpace::getImportance` and
  `QuotientSpace::clear` (`datastructures/src/QuotientSpace.cpp`), and
* the constructor of `BundleSpace` with `MakeFiberSpace`, `checkBundleSpace` and
  `checkBundleSpaceMeasure`, the static counter of identifiers with `resetCounter`,
  `BundleSpace::mergeStates`, `BundleSpace::projectFiber`, `BundleSpace::projectBase`
  and `BundleSpace::sampleBundle` (`datastructures/src/BundleSpace.cpp`).

Every way in which the C++ leaves a function other than by `return` is made
explicit: an operation returns `Except Fault _`, where a `Fault` is a thrown
exception, a call of `exit`, the return of a variable that was never assigned, or
undefined behaviour (a `static_cast` to the wrong class, an access outside an
array).  `unsigned int` arithmetic is arithmetic modulo `2 ^ 32`, and the one
`double` division, in `getImportance`, is rounded to the nearest `double`.
Coordinates are only ever copied, so their type is a parameter.
-/

namespace ompl

/-! ## Outcomes -/

/-- The `what()` strings of the `ompl::Exception`s thrown by the embedded code
(and `std::out_of_range`, thrown by `std::vector::at`). -/
inductive ExceptionWhat
  /-- "Invalid dimensionality" -/
  | Invalid_dimensionality
  /-- "INVALID_STATE_TYPE" -/
  | INVALID_STATE_TYPE
  /-- "Invalid dimensions." -/
  | Invalid_dimensions
  /-- "Invalid BundleSpace type" (no full stop) -/
  | Invalid_BundleSpace_type
  /-- "Invalid BundleSpace type." (with full stop) -/
  | Invalid_BundleSpace_type_dot
  /-- "BundleSpaceType not yet implemented." -/
  | BundleSpaceType_not_yet_implemented
  /-- "Different Number Of Components" -/
  | Different_Number_Of_Components
  /-- "BundleSpace Dimensions are wrong." -/
  | BundleSpace_Dimensions_are_wrong
  /-- "Space has zero or infinite measure." -/
  | Space_has_zero_or_infinite_measure
  /-- The exception of `std::vector::at` on an index past the end. -/
  | out_of_range
  deriving DecidableEq, Repr

/-- Ways in which the embedded C++ leaves a function without a result. -/
inductive Fault
  /-- A C++ exception was thrown. -/
  | exception (what : ExceptionWhat)
  /-- The process was ended by `exit(status)`. -/
  | exit (status : Nat)
  /-- A local variable was returned without ever having been assigned. -/
  | uninitialised
  /-- Behaviour the C++ standard leaves undefined: a `static_cast` to a class
  the object does not have, or an access outside a `values` array. -/
  | undefinedBehaviour
  deriving DecidableEq, Repr

deriving instance DecidableEq for Except

/-! ## Space descriptors -/

/-- Modelled from the spec: the structural type tag of a space descriptor
(`ompl/base/StateSpaceTypes.h`, not part of the sources at hand).  The tags
the embedded code compares against are listed; every other tag is
`STATE_SPACE_UNKNOWN`, which is also the tag of a plain compound space. -/
inductive StateSpaceType
  | STATE_SPACE_UNKNOWN
  | STATE_SPACE_REAL_VECTOR
  | STATE_SPACE_SO2
  | STATE_SPACE_SO3
  | STATE_SPACE_SE2
  | STATE_SPACE_SE3
  | STATE_SPACE_TIME
  | STATE_SPACE_DISCRETE
  deriving DecidableEq, Repr

/-- Modelled from the spec: the space descriptor (`ompl::base::StateSpace`, not
part of the sources at hand): a type tag, a dimension and, for a compound
space, the ordered list of subspaces. -/
inductive StateSpace
  | simple (type : StateSpaceType) (dimension : Nat)
  | compound (type : StateSpaceType) (dimension : Nat) (subspaces : List StateSpace)

namespace StateSpace

/-- Accessor `StateSpace::getType()`. -/
def getType : StateSpace → StateSpaceType
  | simple t _ => t
  | compound t _ _ => t

/-- Accessor `StateSpace::getDimension()`. -/
def getDimension : StateSpace → Nat
  | simple _ d => d
  | compound _ d _ => d

/-- Accessor `StateSpace::isCompound()`. -/
def isCompound : StateSpace → Bool
  | simple _ _ => false
  | compound _ _ _ => true

/-- The call chain `space->as<CompoundStateSpace>()->getSubspaces()`: `as` is
a `static_cast`, so on a space that is not compound the behaviour is
undefined. -/
def getSubspaces : StateSpace → Except Fault (List StateSpace)
  | simple _ _ => .error .undefinedBehaviour
  | compound _ _ subs => .ok subs

/-- The dimension of a compound space is the sum of the dimensions of its
subspaces (one level; a non-compound space has nothing to check). -/
def DimensionIsSum : StateSpace → Prop
  | simple _ _ => True
  | compound _ d subs => d = (subs.map getDimension).sum

instance (s : StateSpace) : Decidable (DimensionIsSum s) := by
  cases s <;> unfold DimensionIsSum <;> infer_instance

end StateSpace

/-- Element access `v.at(i)` of `std::vector`. -/
def vectorAt {β : Type} (v : List β) (i : Nat) : Except Fault β :=
  match v.get? i with
  | some x => .ok x
  | none => .error (.exception .out_of_range)

/-- Conversion of a `size_t` to `unsigned int`. -/
def toUnsigned (k : Nat) : Nat := k % 2 ^ 32

/-- The vector space `RealVectorStateSpace(n)`. -/
def RealVectorStateSpace (n : Nat) : StateSpace :=
  .simple .STATE_SPACE_REAL_VECTOR n

/-- The rotation space `SO2StateSpace()`, of dimension 1. -/
def SO2StateSpace : StateSpace := .simple .STATE_SPACE_SO2 1

/-- The rotation space `SO3StateSpace()`, of dimension 3. -/
def SO3StateSpace : StateSpace := .simple .STATE_SPACE_SO3 3

/-- The pose space `SE2StateSpace()`: the compound of `R^2` and `SO2`, tagged
`STATE_SPACE_SE2`. -/
def SE2StateSpace : StateSpace :=
  .compound .STATE_SPACE_SE2 3 [RealVectorStateSpace 2, SO2StateSpace]

/-- The pose space `SE3StateSpace()`: the compound of `R^3` and `SO3`, tagged
`STATE_SPACE_SE3`. -/
def SE3StateSpace : StateSpace :=
  .compound .STATE_SPACE_SE3 6 [RealVectorStateSpace 3, SO3StateSpace]

/-- The compound `X + RealVectorStateSpace(n)` of a space `X` and a vector space
(pose plus extra degrees of freedom); a compound built by `+` carries the tag
`STATE_SPACE_UNKNOWN`. -/
def XRN (X : StateSpace) (n : Nat) : StateSpace :=
  .compound .STATE_SPACE_UNKNOWN (X.getDimension + n) [X, RealVectorStateSpace n]

/-! ## The classifier -/

/-- Modelled from the spec: the decomposition types
(`BundleSpaceComponentTypes.h`, not part of the sources at hand), named as
`BundleSpaceComponentFactory.cpp` uses them, without the `BUNDLE_SPACE_`
prefix. -/
inductive BundleSpaceComponentType
  | NO_PROJECTION
  | EMPTY_SET_PROJECTION
  | IDENTITY_PROJECTION
  | CONSTRAINED_RELAXATION
  | RN_RM
  | SE2_R2
  | SE2RN_R2
  | SE2RN_SE2
  | SE2RN_SE2RM
  | SO2RN_SO2
  | SO2RN_SO2RM
  | SE3_R3
  | SE3RN_R3
  | SE3RN_SE3
  | SE3RN_SE3RM
  | UNKNOWN
  deriving DecidableEq, Repr

/-- Embedding of `BundleSpaceComponentFactory::identifyBundleSpaceComponentType`.  `Base`
is `none` for the null pointer.  The nesting of the conditionals follows the
source line by line; the local `type` that the source assigns and returns at
the end is the value of the branch, and a branch that assigns nothing is
`Fault.uninitialised`. -/
def identifyBundleSpaceComponentType (Bundle : StateSpace) (Base? : Option StateSpace) :
    Except Fault BundleSpaceComponentType :=
  match Base? with
  | none => .ok .NO_PROJECTION
  | some Base =>
    if !Bundle.isCompound then
      if Bundle.getType = .STATE_SPACE_REAL_VECTOR then
        let n := Bundle.getDimension
        if Base.getType = .STATE_SPACE_REAL_VECTOR then
          let m := Base.getDimension
          if n > m ∧ m > 0 then .ok .RN_RM
          else if n = m ∧ m > 0 then .ok .IDENTITY_PROJECTION
          else if m = 0 then .ok .EMPTY_SET_PROJECTION
          else .error (.exception .Invalid_dimensionality)
        else .error (.exception .INVALID_STATE_TYPE)
      else .error (.exception .INVALID_STATE_TYPE)
    else if Bundle.getType = .STATE_SPACE_SE2 then
      if Base.getType = .STATE_SPACE_REAL_VECTOR then
        if Base.getDimension = 2 then .ok .SE2_R2
        else if Base.getDimension = 0 then .ok .EMPTY_SET_PROJECTION
        else .error (.exception .Invalid_dimensions)
      else if Base.getType = .STATE_SPACE_SE2 then .ok .IDENTITY_PROJECTION
      else .error (.exception .INVALID_STATE_TYPE)
    else if Bundle.getType = .STATE_SPACE_SE3 then
      if Base.getType = .STATE_SPACE_REAL_VECTOR then
        if Base.getDimension = 3 then .ok .SE3_R3
        else if Base.getDimension = 0 then .ok .EMPTY_SET_PROJECTION
        else .error (.exception .Invalid_dimensions)
      else
        -- the inner `if`/`else` assigns `type` or throws; the two statements
        -- that follow it throw unconditionally
        if Base.getType = .STATE_SPACE_SE3 then .error (.exception .Invalid_BundleSpace_type)
        else .error (.exception .Invalid_BundleSpace_type)
    else do
      let Bundle_decomposed ← Bundle.getSubspaces
      let Bundle_subspaces := toUnsigned Bundle_decomposed.length
      if Bundle_subspaces = 2 then
        let B0 ← vectorAt Bundle_decomposed 0
        let B1 ← vectorAt Bundle_decomposed 1
        if B0.getType = .STATE_SPACE_SE3 ∧ B1.getType = .STATE_SPACE_REAL_VECTOR then
          let n := B1.getDimension
          if Base.getType = .STATE_SPACE_SE3 then .ok .SE3RN_SE3
          else if Base.getType = .STATE_SPACE_REAL_VECTOR then
            let m := Base.getDimension
            if m = 3 then .ok .SE3RN_R3
            else if m = 0 then .ok .EMPTY_SET_PROJECTION
            else .error (.exception .Invalid_dimensions)
          else do
            let Base_decomposed ← Base.getSubspaces
            let Base_subspaces := toUnsigned Base_decomposed.length
            if Base_subspaces = 2 then
              if B0.getType = .STATE_SPACE_SE3 ∧ B1.getType = .STATE_SPACE_REAL_VECTOR then do
                let m := (← vectorAt Base_decomposed 1).getDimension
                if m < n ∧ m > 0 then .ok .SE3RN_SE3RM
                else if m = n then .ok .IDENTITY_PROJECTION
                else if m = 0 then .ok .EMPTY_SET_PROJECTION
                else .error (.exception .Invalid_dimensions)
              else .error .uninitialised
            else .error (.exception .Invalid_BundleSpace_type)
        else if B0.getType = .STATE_SPACE_SE2 ∧ B1.getType = .STATE_SPACE_REAL_VECTOR then
          let n := B1.getDimension
          if Base.getType = .STATE_SPACE_SE2 then .ok .SE2RN_SE2
          else if Base.getType = .STATE_SPACE_REAL_VECTOR then
            let m := Base.getDimension
            if m = 2 then .ok .SE2RN_R2
            else if m = 0 then .ok .EMPTY_SET_PROJECTION
            else .error (.exception .Invalid_dimensions)
          else do
            let Base_decomposed ← Base.getSubspaces
            let Base_subspaces := toUnsigned Base_decomposed.length
            if Base_subspaces = 2 then
              if B0.getType = .STATE_SPACE_SE2 ∧ B1.getType = .STATE_SPACE_REAL_VECTOR then do
                let m := (← vectorAt Base_decomposed 1).getDimension
                if m < n ∧ m > 0 then .ok .SE2RN_SE2RM
                else if m = n then .ok .IDENTITY_PROJECTION
                else .error (.exception .Invalid_dimensions)
              else .error .uninitialised
            else .error (.exception .Invalid_BundleSpace_type)
        else if B0.getType = .STATE_SPACE_SO2 ∧ B1.getType = .STATE_SPACE_REAL_VECTOR then
          if Base.getType = .STATE_SPACE_SO2 then .ok .SO2RN_SO2
          else if Base.isCompound then do
            let Base_decomposed ← Base.getSubspaces
            let Base_subspaces := toUnsigned Base_decomposed.length
            if Base_subspaces = 2 then
              if B0.getType = .STATE_SPACE_SO2 ∧ B1.getType = .STATE_SPACE_REAL_VECTOR then do
                let n := B1.getDimension
                let m := (← vectorAt Base_decomposed 1).getDimension
                if m < n ∧ m > 0 then .ok .SO2RN_SO2RM
                else if m = n then .ok .IDENTITY_PROJECTION
                else .error (.exception .Invalid_dimensions)
              else .error (.exception .Invalid_BundleSpace_type_dot)
            else .error (.exception .Invalid_BundleSpace_type_dot)
          else .error (.exception .Invalid_BundleSpace_type_dot)
        else if B0.getType = .STATE_SPACE_REAL_VECTOR ∧ B1.getType = .STATE_SPACE_REAL_VECTOR then
          .ok .UNKNOWN
        else if B0.isCompound ∧ B1.isCompound then .ok .UNKNOWN
        else .error (.exception .Invalid_BundleSpace_type_dot)
      else if Bundle_subspaces ≥ 1 then
        if !Base.isCompound then .error (.exception .Invalid_BundleSpace_type_dot)
        else do
          let Base_decomposed ← Base.getSubspaces
          let Base_subspaces := toUnsigned Base_decomposed.length
          if Bundle_subspaces ≠ Base_subspaces then
            .error (.exception .Invalid_BundleSpace_type_dot)
          else .ok .UNKNOWN
      else .error (.exception .Invalid_BundleSpace_type_dot)

/-! ## State buffers -/

/-- Modelled from the spec: a rotation state of `SO3StateSpace` (a quaternion). -/
structure SO3State (α : Type) where
  x : α
  y : α
  z : α
  w : α

/-- Modelled from the spec: a pose state of `SE2StateSpace`, read and written
through `getX`/`getY`/`getYaw` and `setX`/`setY`/`setXY`/`setYaw`. -/
structure SE2State (α : Type) where
  x : α
  y : α
  yaw : α

/-- Modelled from the spec: a pose state of `SE3StateSpace`, read and written
through `getX`/`getY`/`getZ`, `setXYZ` and `rotation()`. -/
structure SE3State (α : Type) where
  x : α
  y : α
  z : α
  rotation : SO3State α

/-- Modelled from the spec: a state buffer (`ompl::base::State`, not part of the
sources at hand).  The embedded code only copies coordinates, so the type `α` of
a coordinate is left open.  A vector state is its `values` array. -/
inductive State (α : Type)
  | RealVector (values : List α)
  | SO2 (value : α)
  | SO3 (q : SO3State α)
  | SE2 (s : SE2State α)
  | SE3 (s : SE3State α)
  | Compound (components : List (State α))

namespace State
variable {α : Type}

/-- The cast `q->as<RealVectorStateSpace::StateType>()`. -/
def asRealVector : State α → Except Fault (List α)
  | RealVector v => .ok v
  | _ => .error .undefinedBehaviour

/-- The cast `q->as<SO2StateSpace::StateType>()`. -/
def asSO2 : State α → Except Fault α
  | SO2 v => .ok v
  | _ => .error .undefinedBehaviour

/-- The cast `q->as<SO3StateSpace::StateType>()`. -/
def asSO3 : State α → Except Fault (SO3State α)
  | SO3 q => .ok q
  | _ => .error .undefinedBehaviour

/-- The cast `q->as<SE2StateSpace::StateType>()`. -/
def asSE2 : State α → Except Fault (SE2State α)
  | SE2 s => .ok s
  | _ => .error .undefinedBehaviour

/-- The cast `q->as<SE3StateSpace::StateType>()`. -/
def asSE3 : State α → Except Fault (SE3State α)
  | SE3 s => .ok s
  | _ => .error .undefinedBehaviour

/-- The cast `q->as<CompoundState>()`, giving the `components` array. -/
def asCompound : State α → Except Fault (List (State α))
  | Compound cs => .ok cs
  | _ => .error .undefinedBehaviour

end State

section Buffers
variable {α : Type}

/-- The `i`-th entry `components[i]` of a compound state. -/
def component (cs : List (State α)) (i : Nat) : Except Fault (State α) :=
  match cs.get? i with
  | some c => .ok c
  | none => .error .undefinedBehaviour

/-- Read of `values[k]`. -/
def readValue (values : List α) (k : Nat) : Except Fault α :=
  match values.get? k with
  | some x => .ok x
  | none => .error .undefinedBehaviour

/-- Write `values[k] = x`. -/
def writeValue (values : List α) (k : Nat) (x : α) : Except Fault (List α) :=
  if k < values.length then .ok (values.set k x) else .error .undefinedBehaviour

/-- The assignment `dst->values[i] = src->values[j]`. -/
def assignValue (dst : List α) (i : Nat) (src : List α) (j : Nat) : Except Fault (List α) :=
  match readValue src j with
  | .ok x => writeValue dst i x
  | .error e => .error e

/-- The loop `for (unsigned int k = lo; k < hi; k++) body`, threading the
buffer that the body writes. -/
def forLoop {σ : Type} (lo hi : Nat) (body : Nat → σ → Except Fault σ) (s : σ) :
    Except Fault σ :=
  (List.range' lo (hi - lo)).foldlM (fun s k => body k s) s

end Buffers

/-- Subtraction of `unsigned int`s. -/
def usub (a b : Nat) : Nat := (a % 2 ^ 32 + (2 ^ 32 - b % 2 ^ 32)) % 2 ^ 32

/-- Addition of `unsigned int`s. -/
def uadd (a b : Nat) : Nat := (a + b) % 2 ^ 32

/-! ## The legacy quotient space -/

/-- Modelled from the spec: the decomposition types of the legacy quotient space
(`QuotientSpace.h`, not part of the sources at hand), named as
`QuotientSpace.cpp` uses them. -/
inductive QuotientSpaceType
  | UNKNOWN
  | ATOMIC_RN
  | IDENTITY_SPACE_RN
  | IDENTITY_SPACE_SE2
  | IDENTITY_SPACE_SE2RN
  | IDENTITY_SPACE_SO2RN
  | IDENTITY_SPACE_SE3
  | IDENTITY_SPACE_SE3RN
  | RN_RM
  | SE2_R2
  | SE2RN_R2
  | SE2RN_SE2
  | SE2RN_SE2RM
  | SO2RN_SO2
  | SO2RN_SO2RM
  | SE3_R3
  | SE3RN_R3
  | SE3RN_SE3
  | SE3RN_SE3RM
  deriving DecidableEq, Repr

/-- The members of `QuotientSpace` that `mergeStates`, `projectX1Subspace` and
`projectQ0Subspace` read: the type, the three dimensions (all `unsigned int`),
the quotient `X1` (`none` for the null pointer) and whether `parent_` is set. -/
structure QuotientSpace where
  type_ : QuotientSpaceType
  Q1_dimension_ : Nat
  Q0_dimension_ : Nat
  X1_dimension_ : Nat
  X1 : Option StateSpace
  hasParent : Bool

/-- Embedding of `QuotientSpace::identifyQuotientSpaceType`.  Every unhandled
shape ends the process with `exit(0)`; a branch that leaves the member `type_`
as it was is `Fault.uninitialised`. -/
def identifyQuotientSpaceType (Q1 Q0 : StateSpace) : Except Fault QuotientSpaceType :=
  if !Q1.isCompound then
    if Q1.getType = .STATE_SPACE_REAL_VECTOR then
      let n := Q1.getDimension
      if Q0.getType = .STATE_SPACE_REAL_VECTOR then
        let m := Q0.getDimension
        if n > m ∧ m > 0 then .ok .RN_RM
        else if n = m ∧ m > 0 then .ok .IDENTITY_SPACE_RN
        else .error (.exit 0)
      else .error (.exit 0)
    else .error (.exit 0)
  else if Q1.getType = .STATE_SPACE_SE2 then
    if Q0.getType = .STATE_SPACE_REAL_VECTOR then
      if Q0.getDimension = 2 then .ok .SE2_R2
      else .error (.exit 0)
    else if Q0.getType = .STATE_SPACE_SE2 then .ok .IDENTITY_SPACE_SE2
    else .error (.exit 0)
  else if Q1.getType = .STATE_SPACE_SE3 then
    if Q0.getType = .STATE_SPACE_REAL_VECTOR then
      if Q0.getDimension = 3 then .ok .SE3_R3
      else .error (.exit 0)
    else
      -- `type_` is assigned or the process exits; the statement that follows
      -- the inner `if`/`else` exits unconditionally
      if Q0.getType = .STATE_SPACE_SE3 then .error (.exit 0)
      else .error (.exit 0)
  else do
    let Q1_decomposed ← Q1.getSubspaces
    let Q1_subspaces := toUnsigned Q1_decomposed.length
    if Q1_subspaces = 2 then
      let A0 ← vectorAt Q1_decomposed 0
      let A1 ← vectorAt Q1_decomposed 1
      if A0.getType = .STATE_SPACE_SE3 ∧ A1.getType = .STATE_SPACE_REAL_VECTOR then
        let n := A1.getDimension
        if Q0.getType = .STATE_SPACE_SE3 then .ok .SE3RN_SE3
        else if Q0.getType = .STATE_SPACE_REAL_VECTOR then
          let m := Q0.getDimension
          if m = 3 then .ok .SE3RN_R3
          else .error (.exit 0)
        else do
          let Q0_decomposed ← Q0.getSubspaces
          let Q0_subspaces := toUnsigned Q0_decomposed.length
          if Q0_subspaces = 2 then
            if A0.getType = .STATE_SPACE_SE3 ∧ A1.getType = .STATE_SPACE_REAL_VECTOR then do
              let m := (← vectorAt Q0_decomposed 1).getDimension
              if m < n ∧ m > 0 then .ok .SE3RN_SE3RM
              else if m = n then .ok .IDENTITY_SPACE_SE3RN
              else .error (.exit 0)
            else .error .uninitialised
          else .error (.exit 0)
      else if A0.getType = .STATE_SPACE_SE2 ∧ A1.getType = .STATE_SPACE_REAL_VECTOR then
        let n := A1.getDimension
        if Q0.getType = .STATE_SPACE_SE2 then .ok .SE2RN_SE2
        else if Q0.getType = .STATE_SPACE_REAL_VECTOR then
          let m := Q0.getDimension
          if m = 2 then .ok .SE2RN_R2
          else .error (.exit 0)
        else do
          let Q0_decomposed ← Q0.getSubspaces
          let Q0_subspaces := toUnsigned Q0_decomposed.length
          if Q0_subspaces = 2 then
            if A0.getType = .STATE_SPACE_SE2 ∧ A1.getType = .STATE_SPACE_REAL_VECTOR then do
              let m := (← vectorAt Q0_decomposed 1).getDimension
              if m < n ∧ m > 0 then .ok .SE2RN_SE2RM
              else if m = n then .ok .IDENTITY_SPACE_SE2RN
              else .error (.exit 0)
            else .error .uninitialised
          else .error (.exit 0)
      else if A0.getType = .STATE_SPACE_SO2 ∧ A1.getType = .STATE_SPACE_REAL_VECTOR then
        if Q0.getType = .STATE_SPACE_SO2 then .ok .SO2RN_SO2
        else if Q0.isCompound then do
          let Q0_decomposed ← Q0.getSubspaces
          let Q0_subspaces := toUnsigned Q0_decomposed.length
          if Q0_subspaces = 2 then
            if A0.getType = .STATE_SPACE_SO2 ∧ A1.getType = .STATE_SPACE_REAL_VECTOR then do
              let n := A1.getDimension
              let m := (← vectorAt Q0_decomposed 1).getDimension
              if m < n ∧ m > 0 then .ok .SO2RN_SO2RM
              else if m = n then .ok .IDENTITY_SPACE_SO2RN
              else .error (.exit 0)
            else .error (.exit 0)
          else .error (.exit 0)
        else .error (.exit 0)
      else .error (.exit 0)
    else .error (.exit 0)

/-- Embedding of `QuotientSpace::computeQuotientSpace`, called by the constructor
of a quotient space that has a parent: the result is the object with the members
`type_`, `Q1_dimension_`, `Q0_dimension_`, `X1_dimension_` as the function sets
them and `X1` as the constructor stores the returned quotient (`none` for the
null pointer of the identity types).  The coordinate bounds copied into `X1` are
the subject of `computeQuotientSpaceBounds` below. -/
def computeQuotientSpace (Q1 Q0 : StateSpace) : Except Fault QuotientSpace := do
  let type_ ← identifyQuotientSpaceType Q1 Q0
  let Q1_dimension_ := Q1.getDimension
  let Q0_dimension_ := Q0.getDimension
  if Q0_dimension_ = 0 ∨ Q1_dimension_ = 0 then .error (.exit 0)
  else
    let self (X1_dimension_ : Nat) (X1 : Option StateSpace) : QuotientSpace :=
      { type_ := type_, Q1_dimension_ := Q1_dimension_, Q0_dimension_ := Q0_dimension_,
        X1_dimension_ := X1_dimension_, X1 := X1, hasParent := true }
    match type_ with
    | .IDENTITY_SPACE_RN | .IDENTITY_SPACE_SE2 | .IDENTITY_SPACE_SE2RN
    | .IDENTITY_SPACE_SO2RN | .IDENTITY_SPACE_SE3 | .IDENTITY_SPACE_SE3RN =>
      .ok (self 0 none)
    | .RN_RM =>
      let N := usub Q1_dimension_ Q0_dimension_
      .ok (self N (some (RealVectorStateSpace N)))
    | .SE2_R2 => .ok (self 1 (some SO2StateSpace))
    | .SE3_R3 => .ok (self 3 (some SO3StateSpace))
    | .SE2RN_SE2 | .SE3RN_SE3 | .SO2RN_SO2 => do
      let Q1_decomposed ← Q1.getSubspaces
      let X1_dimension_ := (← vectorAt Q1_decomposed 1).getDimension
      .ok (self X1_dimension_ (some (RealVectorStateSpace X1_dimension_)))
    | .SE2RN_R2 => do
      let Q1_decomposed ← Q1.getSubspaces
      let _ ← (← vectorAt Q1_decomposed 0).getSubspaces
      let N := (← vectorAt Q1_decomposed 1).getDimension
      .ok (self (uadd 1 N) (some (XRN SO2StateSpace N)))
    | .SE3RN_R3 => do
      let Q1_decomposed ← Q1.getSubspaces
      let _ ← (← vectorAt Q1_decomposed 0).getSubspaces
      let N := (← vectorAt Q1_decomposed 1).getDimension
      .ok (self (uadd 3 N) (some (XRN SO3StateSpace N)))
    | .SE2RN_SE2RM | .SO2RN_SO2RM | .SE3RN_SE3RM => do
      let Q1_decomposed ← Q1.getSubspaces
      let Q0_decomposed ← Q0.getSubspaces
      let N := (← vectorAt Q1_decomposed 1).getDimension
      let M := (← vectorAt Q0_decomposed 1).getDimension
      let X1_dimension_ := usub N M
      .ok (self X1_dimension_ (some (RealVectorStateSpace X1_dimension_)))
    | .UNKNOWN | .ATOMIC_RN => .error (.exit 0)

section Operators
variable {α : Type}

/-- Embedding of `QuotientSpace::mergeStates(qQ0, qX1, qQ1)`: the result is the
output buffer `qQ1` after the call.  Before its `switch` the source dereferences
the pointers `X1` and `parent_`, which is undefined when either is null. -/
def QuotientSpace.mergeStates (self : QuotientSpace) (qQ0 qX1 qQ1 : State α) :
    Except Fault (State α) :=
  -- `X1->getStateSpace()` and `parent_->getSpaceInformation()` come first
  if self.X1.isNone ∨ !self.hasParent then .error .undefinedBehaviour else
  match self.type_ with
  | .IDENTITY_SPACE_RN | .IDENTITY_SPACE_SE2 | .IDENTITY_SPACE_SE2RN
  | .IDENTITY_SPACE_SO2RN | .IDENTITY_SPACE_SE3 | .IDENTITY_SPACE_SE3RN =>
    .error (.exit 0)
  | .RN_RM => do
    let sQ1 ← qQ1.asRealVector
    let sQ0 ← qQ0.asRealVector
    let sX1 ← qX1.asRealVector
    let sQ1 ← forLoop 0 self.Q0_dimension_ (fun k sQ1 => assignValue sQ1 k sQ0 k) sQ1
    let sQ1 ← forLoop self.Q0_dimension_ self.Q1_dimension_
      (fun k sQ1 => assignValue sQ1 k sX1 (usub k self.Q0_dimension_)) sQ1
    .ok (.RealVector sQ1)
  | .SE2_R2 => do
    let sQ1 ← qQ1.asSE2
    let sQ0 ← qQ0.asRealVector
    let sX1 ← qX1.asSO2
    let v0 ← readValue sQ0 0
    let v1 ← readValue sQ0 1
    let sQ1 := { sQ1 with x := v0, y := v1 }
    let sQ1 := { sQ1 with yaw := sX1 }
    .ok (.SE2 sQ1)
  | .SE3_R3 => do
    let sQ1 ← qQ1.asSE3
    let sQ0 ← qQ0.asRealVector
    let sX1 ← qX1.asSO3
    let v0 ← readValue sQ0 0
    let v1 ← readValue sQ0 1
    let v2 ← readValue sQ0 2
    let sQ1 := { sQ1 with x := v0, y := v1, z := v2 }
    let sQ1 := { sQ1 with rotation := { x := sX1.x, y := sX1.y, z := sX1.z, w := sX1.w } }
    .ok (.SE3 sQ1)
  | .SE3RN_R3 => do
    let cQ1 ← qQ1.asCompound
    let sQ1_SE3 ← (← component cQ1 0).asSE3
    let sQ1_RN ← (← component cQ1 1).asRealVector
    let sQ0 ← qQ0.asRealVector
    let cX1 ← qX1.asCompound
    let sX1_SO3 ← (← component cX1 0).asSO3
    let sX1_RN ← (← component cX1 1).asRealVector
    let v0 ← readValue sQ0 0
    let v1 ← readValue sQ0 1
    let v2 ← readValue sQ0 2
    let sQ1_SE3 := { sQ1_SE3 with x := v0, y := v1, z := v2 }
    let sQ1_SE3 := { sQ1_SE3 with
      rotation := { x := sX1_SO3.x, y := sX1_SO3.y, z := sX1_SO3.z, w := sX1_SO3.w } }
    let sQ1_RN ← forLoop 0 (usub self.X1_dimension_ 3)
      (fun k sQ1_RN => assignValue sQ1_RN k sX1_RN k) sQ1_RN
    .ok (.Compound ((cQ1.set 0 (.SE3 sQ1_SE3)).set 1 (.RealVector sQ1_RN)))
  | .SE2RN_SE2 => do
    let cQ1 ← qQ1.asCompound
    let sQ1_SE2 ← (← component cQ1 0).asSE2
    let sQ1_RN ← (← component cQ1 1).asRealVector
    let sQ0 ← qQ0.asSE2
    let sX1 ← qX1.asRealVector
    let sQ1_SE2 := { sQ1_SE2 with x := sQ0.x }
    let sQ1_SE2 := { sQ1_SE2 with y := sQ0.y }
    let sQ1_SE2 := { sQ1_SE2 with yaw := sQ0.yaw }
    let sQ1_RN ← forLoop 0 self.X1_dimension_
      (fun k sQ1_RN => assignValue sQ1_RN k sX1 k) sQ1_RN
    .ok (.Compound ((cQ1.set 0 (.SE2 sQ1_SE2)).set 1 (.RealVector sQ1_RN)))
  | .SO2RN_SO2 => do
    let cQ1 ← qQ1.asCompound
    let _ ← (← component cQ1 0).asSO2
    let sQ1_RN ← (← component cQ1 1).asRealVector
    let sQ0 ← qQ0.asSO2
    let sX1 ← qX1.asRealVector
    let sQ1_SO2 := sQ0
    let sQ1_RN ← forLoop 0 self.X1_dimension_
      (fun k sQ1_RN => assignValue sQ1_RN k sX1 k) sQ1_RN
    .ok (.Compound ((cQ1.set 0 (.SO2 sQ1_SO2)).set 1 (.RealVector sQ1_RN)))
  | .SO2RN_SO2RM => do
    let cQ1 ← qQ1.asCompound
    let _ ← (← component cQ1 0).asSO2
    let sQ1_RN ← (← component cQ1 1).asRealVector
    let cQ0 ← qQ0.asCompound
    let sQ0_SO2 ← (← component cQ0 0).asSO2
    let sQ0_RM ← (← component cQ0 1).asRealVector
    let sX1 ← qX1.asRealVector
    let sQ1_SO2 := sQ0_SO2
    let M := usub (usub self.Q1_dimension_ self.X1_dimension_) 1
    let N := self.X1_dimension_
    let sQ1_RN ← forLoop 0 M (fun k sQ1_RN => assignValue sQ1_RN k sQ0_RM k) sQ1_RN
    let sQ1_RN ← forLoop M (uadd M N)
      (fun k sQ1_RN => assignValue sQ1_RN k sX1 (usub k M)) sQ1_RN
    .ok (.Compound ((cQ1.set 0 (.SO2 sQ1_SO2)).set 1 (.RealVector sQ1_RN)))
  | .SE2RN_R2 => do
    let cQ1 ← qQ1.asCompound
    let sQ1_SE2 ← (← component cQ1 0).asSE2
    let sQ1_RN ← (← component cQ1 1).asRealVector
    let sQ0 ← qQ0.asRealVector
    let cX1 ← qX1.asCompound
    let sX1_SO2 ← (← component cX1 0).asSO2
    let sX1_RN ← (← component cX1 1).asRealVector
    let v0 ← readValue sQ0 0
    let sQ1_SE2 := { sQ1_SE2 with x := v0 }
    let v1 ← readValue sQ0 1
    let sQ1_SE2 := { sQ1_SE2 with y := v1 }
    let sQ1_SE2 := { sQ1_SE2 with yaw := sX1_SO2 }
    let sQ1_RN ← forLoop 0 (usub self.X1_dimension_ 1)
      (fun k sQ1_RN => assignValue sQ1_RN k sX1_RN k) sQ1_RN
    .ok (.Compound ((cQ1.set 0 (.SE2 sQ1_SE2)).set 1 (.RealVector sQ1_RN)))
  | .SE2RN_SE2RM => do
    let cQ1 ← qQ1.asCompound
    let sQ1_SE2 ← (← component cQ1 0).asSE2
    let sQ1_RN ← (← component cQ1 1).asRealVector
    let cQ0 ← qQ0.asCompound
    let sQ0_SE2 ← (← component cQ0 0).asSE2
    let sQ0_RM ← (← component cQ0 1).asRealVector
    let sX1 ← qX1.asRealVector
    let sQ1_SE2 := { sQ1_SE2 with x := sQ0_SE2.x }
    let sQ1_SE2 := { sQ1_SE2 with y := sQ0_SE2.y }
    let sQ1_SE2 := { sQ1_SE2 with yaw := sQ0_SE2.yaw }
    let M := usub (usub self.Q1_dimension_ self.X1_dimension_) 3
    let N := self.X1_dimension_
    let sQ1_RN ← forLoop 0 M (fun k sQ1_RN => assignValue sQ1_RN k sQ0_RM k) sQ1_RN
    let sQ1_RN ← forLoop M (uadd M N)
      (fun k sQ1_RN => assignValue sQ1_RN k sX1 (usub k M)) sQ1_RN
    .ok (.Compound ((cQ1.set 0 (.SE2 sQ1_SE2)).set 1 (.RealVector sQ1_RN)))
  | .SE3RN_SE3 => do
    let cQ1 ← qQ1.asCompound
    let sQ1_SE3 ← (← component cQ1 0).asSE3
    let sQ1_RN ← (← component cQ1 1).asRealVector
    let sQ0 ← qQ0.asSE3
    let sQ0_rotation := sQ0.rotation
    let sX1 ← qX1.asRealVector
    let sQ1_SE3 := { sQ1_SE3 with x := sQ0.x, y := sQ0.y, z := sQ0.z }
    let sQ1_SE3 := { sQ1_SE3 with
      rotation := { x := sQ0_rotation.x, y := sQ0_rotation.y, z := sQ0_rotation.z,
                    w := sQ0_rotation.w } }
    let sQ1_RN ← forLoop 0 self.X1_dimension_
      (fun k sQ1_RN => assignValue sQ1_RN k sX1 k) sQ1_RN
    .ok (.Compound ((cQ1.set 0 (.SE3 sQ1_SE3)).set 1 (.RealVector sQ1_RN)))
  | .SE3RN_SE3RM => do
    let cQ1 ← qQ1.asCompound
    let sQ1_SE3 ← (← component cQ1 0).asSE3
    let sQ1_RN ← (← component cQ1 1).asRealVector
    let cQ0 ← qQ0.asCompound
    let sQ0_SE3 ← (← component cQ0 0).asSE3
    let sQ0_SE3_rotation := sQ0_SE3.rotation
    let sQ0_RM ← (← component cQ0 1).asRealVector
    let sX1 ← qX1.asRealVector
    let sQ1_SE3 := { sQ1_SE3 with x := sQ0_SE3.x, y := sQ0_SE3.y, z := sQ0_SE3.z }
    let sQ1_SE3 := { sQ1_SE3 with
      rotation := { x := sQ0_SE3_rotation.x, y := sQ0_SE3_rotation.y,
                    z := sQ0_SE3_rotation.z, w := sQ0_SE3_rotation.w } }
    let M := usub (usub self.Q1_dimension_ self.X1_dimension_) 6
    let N := self.X1_dimension_
    let sQ1_RN ← forLoop 0 M (fun k sQ1_RN => assignValue sQ1_RN k sQ0_RM k) sQ1_RN
    let sQ1_RN ← forLoop M (uadd M N)
      (fun k sQ1_RN => assignValue sQ1_RN k sX1 (usub k M)) sQ1_RN
    .ok (.Compound ((cQ1.set 0 (.SE3 sQ1_SE3)).set 1 (.RealVector sQ1_RN)))
  | .UNKNOWN | .ATOMIC_RN => .error (.exit 0)

/-- Embedding of `QuotientSpace::projectX1Subspace(q, qX1)`: the result is the
output buffer `qX1` after the call. -/
def QuotientSpace.projectX1Subspace (self : QuotientSpace) (q qX1 : State α) :
    Except Fault (State α) :=
  match self.type_ with
  | .RN_RM => do
    let sQ1 ← q.asRealVector
    let sX1 ← qX1.asRealVector
    let sX1 ← forLoop self.Q0_dimension_ self.Q1_dimension_
      (fun k sX1 => assignValue sX1 (usub k self.Q0_dimension_) sQ1 k) sX1
    .ok (.RealVector sX1)
  | .SE2_R2 => do
    let sQ1 ← q.asSE2
    let _ ← qX1.asSO2
    .ok (.SO2 sQ1.yaw)
  | .SE3_R3 => do
    let sQ1 ← q.asSE3
    let sQ1_SO3 := sQ1.rotation
    let _ ← qX1.asSO3
    .ok (.SO3 { x := sQ1_SO3.x, y := sQ1_SO3.y, z := sQ1_SO3.z, w := sQ1_SO3.w })
  | .SE3RN_R3 => do
    let cQ1 ← q.asCompound
    let sQ1_SE3 ← (← component cQ1 0).asSE3
    let sQ1_SO3 := sQ1_SE3.rotation
    let sQ1_RN ← (← component cQ1 1).asRealVector
    let cX1 ← qX1.asCompound
    let _ ← (← component cX1 0).asSO3
    let sX1_RN ← (← component cX1 1).asRealVector
    let sX1_SO3 : SO3State α :=
      { x := sQ1_SO3.x, y := sQ1_SO3.y, z := sQ1_SO3.z, w := sQ1_SO3.w }
    let sX1_RN ← forLoop 0 (usub self.X1_dimension_ 3)
      (fun k sX1_RN => assignValue sX1_RN k sQ1_RN k) sX1_RN
    .ok (.Compound ((cX1.set 0 (.SO3 sX1_SO3)).set 1 (.RealVector sX1_RN)))
  | .SE2RN_R2 => do
    let cQ1 ← q.asCompound
    let sQ1_SE2 ← (← component cQ1 0).asSE2
    let sQ1_RN ← (← component cQ1 1).asRealVector
    let cX1 ← qX1.asCompound
    let _ ← (← component cX1 0).asSO2
    let sX1_RN ← (← component cX1 1).asRealVector
    let sX1_SO2 := sQ1_SE2.yaw
    let sX1_RN ← forLoop 0 (usub self.X1_dimension_ 1)
      (fun k sX1_RN => assignValue sX1_RN k sQ1_RN k) sX1_RN
    .ok (.Compound ((cX1.set 0 (.SO2 sX1_SO2)).set 1 (.RealVector sX1_RN)))
  | .SE2RN_SE2RM | .SO2RN_SO2RM => do
    let cQ1 ← q.asCompound
    let sQ1_RN ← (← component cQ1 1).asRealVector
    let sX1 ← qX1.asRealVector
    let N := usub (usub self.Q1_dimension_ self.X1_dimension_) 3
    let sX1 ← forLoop N (usub self.Q1_dimension_ 3)
      (fun k sX1 => assignValue sX1 (usub k N) sQ1_RN k) sX1
    .ok (.RealVector sX1)
  | .SE2RN_SE2 | .SE3RN_SE3 | .SO2RN_SO2 => do
    let cQ1 ← q.asCompound
    let sQ1_RN ← (← component cQ1 1).asRealVector
    let sX1 ← qX1.asRealVector
    let sX1 ← forLoop 0 self.X1_dimension_ (fun k sX1 => assignValue sX1 k sQ1_RN k) sX1
    .ok (.RealVector sX1)
  | .SE3RN_SE3RM => do
    let cQ1 ← q.asCompound
    let sQ1_RN ← (← component cQ1 1).asRealVector
    let sX1 ← qX1.asRealVector
    let N := usub (usub self.Q1_dimension_ self.X1_dimension_) 6
    let sX1 ← forLoop N (usub self.Q1_dimension_ 6)
      (fun k sX1 => assignValue sX1 (usub k N) sQ1_RN k) sX1
    .ok (.RealVector sX1)
  | .UNKNOWN | .ATOMIC_RN | .IDENTITY_SPACE_RN | .IDENTITY_SPACE_SE2 | .IDENTITY_SPACE_SE2RN
  | .IDENTITY_SPACE_SO2RN | .IDENTITY_SPACE_SE3 | .IDENTITY_SPACE_SE3RN =>
    .error (.exit 0)

/-- Embedding of `QuotientSpace::projectQ0Subspace(q, qQ0)`: the result is the
output buffer `qQ0` after the call.  For the identity types the source calls
`copyState(qQ0, q)`, after which the buffer holds a copy of `q`. -/
def QuotientSpace.projectQ0Subspace (self : QuotientSpace) (q qQ0 : State α) :
    Except Fault (State α) :=
  match self.type_ with
  | .IDENTITY_SPACE_RN | .IDENTITY_SPACE_SE2 | .IDENTITY_SPACE_SE2RN
  | .IDENTITY_SPACE_SO2RN | .IDENTITY_SPACE_SE3 | .IDENTITY_SPACE_SE3RN =>
    .ok q
  | .RN_RM => do
    let sQ1 ← q.asRealVector
    let sQ0 ← qQ0.asRealVector
    let sQ0 ← forLoop 0 self.Q0_dimension_ (fun k sQ0 => assignValue sQ0 k sQ1 k) sQ0
    .ok (.RealVector sQ0)
  | .SE2_R2 => do
    let sQ1 ← q.asSE2
    let sQ0 ← qQ0.asRealVector
    let sQ0 ← writeValue sQ0 0 sQ1.x
    let sQ0 ← writeValue sQ0 1 sQ1.y
    .ok (.RealVector sQ0)
  | .SE2RN_R2 => do
    let cQ1 ← q.asCompound
    let sQ1 ← (← component cQ1 0).asSE2
    let sQ0 ← qQ0.asRealVector
    let sQ0 ← writeValue sQ0 0 sQ1.x
    let sQ0 ← writeValue sQ0 1 sQ1.y
    .ok (.RealVector sQ0)
  | .SE2RN_SE2 => do
    let cQ1 ← q.asCompound
    let sQ1_SE2 ← (← component cQ1 0).asSE2
    let sQ0_SE2 ← qQ0.asSE2
    let sQ0_SE2 := { sQ0_SE2 with x := sQ1_SE2.x }
    let sQ0_SE2 := { sQ0_SE2 with y := sQ1_SE2.y }
    let sQ0_SE2 := { sQ0_SE2 with yaw := sQ1_SE2.yaw }
    .ok (.SE2 sQ0_SE2)
  | .SO2RN_SO2 => do
    let cQ1 ← q.asCompound
    let sQ1_SO2 ← (← component cQ1 0).asSO2
    let _ ← qQ0.asSO2
    .ok (.SO2 sQ1_SO2)
  | .SO2RN_SO2RM => do
    let cQ1 ← q.asCompound
    let sQ1_SO2 ← (← component cQ1 0).asSO2
    let sQ1_RN ← (← component cQ1 1).asRealVector
    let cQ0 ← qQ0.asCompound
    let _ ← (← component cQ0 0).asSO2
    let sQ0_RM ← (← component cQ0 1).asRealVector
    let sQ0_SO2 := sQ1_SO2
    let sQ0_RM ← forLoop 0 (usub self.Q0_dimension_ 1)
      (fun k sQ0_RM => assignValue sQ0_RM k sQ1_RN k) sQ0_RM
    .ok (.Compound ((cQ0.set 0 (.SO2 sQ0_SO2)).set 1 (.RealVector sQ0_RM)))
  | .SE2RN_SE2RM => do
    let cQ1 ← q.asCompound
    let sQ1_SE2 ← (← component cQ1 0).asSE2
    let sQ1_RN ← (← component cQ1 1).asRealVector
    let cQ0 ← qQ0.asCompound
    let sQ0_SE2 ← (← component cQ0 0).asSE2
    let sQ0_RN ← (← component cQ0 1).asRealVector
    let sQ0_SE2 := { sQ0_SE2 with x := sQ1_SE2.x }
    let sQ0_SE2 := { sQ0_SE2 with y := sQ1_SE2.y }
    let sQ0_SE2 := { sQ0_SE2 with yaw := sQ1_SE2.yaw }
    let sQ0_RN ← forLoop 0 (usub self.Q0_dimension_ 3)
      (fun k sQ0_RN => assignValue sQ0_RN k sQ1_RN k) sQ0_RN
    .ok (.Compound ((cQ0.set 0 (.SE2 sQ0_SE2)).set 1 (.RealVector sQ0_RN)))
  | .SE3_R3 => do
    let sQ1 ← q.asSE3
    let sQ0 ← qQ0.asRealVector
    let sQ0 ← writeValue sQ0 0 sQ1.x
    let sQ0 ← writeValue sQ0 1 sQ1.y
    let sQ0 ← writeValue sQ0 2 sQ1.z
    .ok (.RealVector sQ0)
  | .SE3RN_R3 => do
    let cQ1 ← q.asCompound
    let sQ1_SE3 ← (← component cQ1 0).asSE3
    let sQ0 ← qQ0.asRealVector
    let sQ0 ← writeValue sQ0 0 sQ1_SE3.x
    let sQ0 ← writeValue sQ0 1 sQ1_SE3.y
    let sQ0 ← writeValue sQ0 2 sQ1_SE3.z
    .ok (.RealVector sQ0)
  | .SE3RN_SE3 => do
    let cQ1 ← q.asCompound
    let sQ1_SE3 ← (← component cQ1 0).asSE3
    let sQ1_SE3_rotation := sQ1_SE3.rotation
    let sQ0 ← qQ0.asSE3
    let sQ0 := { sQ0 with x := sQ1_SE3.x, y := sQ1_SE3.y, z := sQ1_SE3.z }
    let sQ0 := { sQ0 with
      rotation := { x := sQ1_SE3_rotation.x, y := sQ1_SE3_rotation.y,
                    z := sQ1_SE3_rotation.z, w := sQ1_SE3_rotation.w } }
    .ok (.SE3 sQ0)
  | .SE3RN_SE3RM => do
    let cQ1 ← q.asCompound
    let sQ1_SE3 ← (← component cQ1 0).asSE3
    let sQ1_SE3_rotation := sQ1_SE3.rotation
    let sQ1_RN ← (← component cQ1 1).asRealVector
    let cQ0 ← qQ0.asCompound
    let sQ0_SE3 ← (← component cQ0 0).asSE3
    let sQ0_RN ← (← component cQ0 1).asRealVector
    let sQ0_SE3 := { sQ0_SE3 with x := sQ1_SE3.x, y := sQ1_SE3.y, z := sQ1_SE3.z }
    let sQ0_SE3 := { sQ0_SE3 with
      rotation := { x := sQ1_SE3_rotation.x, y := sQ1_SE3_rotation.y,
                    z := sQ1_SE3_rotation.z, w := sQ1_SE3_rotation.w } }
    let sQ0_RN ← forLoop 0 (usub self.Q0_dimension_ 6)
      (fun k sQ0_RN => assignValue sQ0_RN k sQ1_RN k) sQ0_RN
    .ok (.Compound ((cQ0.set 0 (.SE3 sQ0_SE3)).set 1 (.RealVector sQ0_RN)))
  | .UNKNOWN | .ATOMIC_RN => .error (.exit 1)

end Operators

/-! ## The component factory -/

/-- Conversion of an `unsigned int` to `int`. -/
def toInt (k : Nat) : Int :=
  if k % 2 ^ 32 < 2 ^ 31 then ((k % 2 ^ 32 : Nat) : Int) else ((k % 2 ^ 32 : Nat) : Int) - 2 ^ 32

/-- Embedding of `BundleSpaceComponentFactory::GetNumberOfComponents`.  The count
of subspaces `getSubspaceCount()` is an `unsigned int` stored in an `int`. -/
def GetNumberOfComponents (space : StateSpace) : Except Fault Int :=
  if space.isCompound then do
    let compound ← space.getSubspaces
    let nrComponents := toInt (toUnsigned compound.length)
    if nrComponents = 2 then
      let type := space.getType
      if type = .STATE_SPACE_SE2 ∨ type = .STATE_SPACE_SE3 then .ok 1
      else do
        let decomposed ← space.getSubspaces
        let t0 := (← vectorAt decomposed 0).getType
        let t1 := (← vectorAt decomposed 1).getType
        if (t0 = .STATE_SPACE_SO2 ∧ t1 = .STATE_SPACE_REAL_VECTOR) ∨
            (t0 = .STATE_SPACE_SO3 ∧ t1 = .STATE_SPACE_REAL_VECTOR) ∨
            (t0 = .STATE_SPACE_SE2 ∧ t1 = .STATE_SPACE_REAL_VECTOR) ∨
            (t0 = .STATE_SPACE_SE3 ∧ t1 = .STATE_SPACE_REAL_VECTOR) then .ok 1
        else .ok nrComponents
    else .ok nrComponents
  else .ok 1

/-- A built component (`BundleSpaceComponent`): the two spaces it was constructed
from (`none` for the null Base), the type set by `setType`, and the Fiber stored
by `initFiberSpace` (`none` for the null pointer).  The subclass that the factory
instantiates is the one named after the type. -/
structure BundleSpaceComponent where
  BundleSpace : StateSpace
  BaseSpace : Option StateSpace
  type_ : BundleSpaceComponentType
  FiberSpace : Option StateSpace

/-- The virtual `computeFiberSpace()` of the component classes, which
`initFiberSpace()` calls and whose bodies are not part of the sources at hand: a
parameter of the factory, given the type that selects the class and the two
spaces. -/
abbrev ComputeFiberSpace : Type :=
  BundleSpaceComponentType → StateSpace → Option StateSpace → Except Fault (Option StateSpace)

/-- Modelled from the spec: a `computeFiberSpace` that derives no Fiber, as the spec
has it for the types without a Fiber; it stands in for the absent class bodies
where a concrete one is needed. -/
def noFiberSpace : ComputeFiberSpace := fun _ _ _ => .ok none

/-- Embedding of `BundleSpaceComponentFactory::MakeBundleSpaceComponent(Bundle, Base,
areValidityCheckersEquivalent)`; the overload `MakeBundleSpaceComponent(Bundle)` is
the call with `none` and `false`.  Every `else if` of the source instantiates the
class of its type, then `setType(type)` and `initFiberSpace()` follow; the final
`else` throws. -/
def MakeBundleSpaceComponent (computeFiberSpace : ComputeFiberSpace) (Bundle : StateSpace)
    (Base : Option StateSpace) (areValidityCheckersEquivalent : Bool) :
    Except Fault BundleSpaceComponent := do
  let type ← identifyBundleSpaceComponentType Bundle Base
  let type : BundleSpaceComponentType :=
    if type = .IDENTITY_PROJECTION ∧ !areValidityCheckersEquivalent then
      .CONSTRAINED_RELAXATION
    else type
  match type with
  | .NO_PROJECTION | .EMPTY_SET_PROJECTION | .IDENTITY_PROJECTION | .CONSTRAINED_RELAXATION
  | .RN_RM | .SE2_R2 | .SE2RN_R2 | .SE2RN_SE2 | .SE2RN_SE2RM | .SO2RN_SO2 | .SO2RN_SO2RM
  | .SE3_R3 | .SE3RN_R3 | .SE3RN_SE3 | .SE3RN_SE3RM => do
    let FiberSpace ← computeFiberSpace type Bundle Base
    .ok { BundleSpace := Bundle, BaseSpace := Base, type_ := type, FiberSpace := FiberSpace }
  | .UNKNOWN => .error (.exception .BundleSpaceType_not_yet_implemented)

/-- Modelled from the spec: a planning space (`ompl::base::SpaceInformation`, not
part of the sources at hand) as far as the factory reads it: its state space and
its feasibility predicate, of a type `ν` with an equality test `==`. -/
structure SpaceInformation (ν : Type) where
  getStateSpace : StateSpace
  getStateValidityChecker : ν

/-- Embedding of the two overloads `BundleSpaceComponentFactory::MakeBundleSpaceComponents(Bundle)`
(`Base?` is `none`) and `MakeBundleSpaceComponents(Bundle, Base)`.  The loops
`for (int m = 0; m < bundleSpaceComponents; m++)` thread the vector `components`
that `push_back` extends. -/
def MakeBundleSpaceComponents {ν : Type} [BEq ν] (computeFiberSpace : ComputeFiberSpace)
    (Bundle : SpaceInformation ν) (Base? : Option (SpaceInformation ν)) :
    Except Fault (List BundleSpaceComponent) :=
  match Base? with
  | none => do
    let Bundle_space := Bundle.getStateSpace
    let bundleSpaceComponents ← GetNumberOfComponents Bundle_space
    if bundleSpaceComponents > 1 then do
      let Bundle_decomposed ← Bundle_space.getSubspaces
      forLoop 0 bundleSpaceComponents.toNat (fun m components => do
        let BundleM ← vectorAt Bundle_decomposed m
        let componentM ← MakeBundleSpaceComponent computeFiberSpace BundleM none false
        .ok (components ++ [componentM])) []
    else do
      let component ← MakeBundleSpaceComponent computeFiberSpace Bundle_space none false
      .ok [component]
  | some Base => do
    let Bundle_space := Bundle.getStateSpace
    let bundleSpaceComponents ← GetNumberOfComponents Bundle_space
    let Base_space := Base.getStateSpace
    let baseSpaceComponents ← GetNumberOfComponents Base_space
    if baseSpaceComponents ≠ bundleSpaceComponents then
      .error (.exception .Different_Number_Of_Components)
    else
      let areValidityCheckersEquivalent : Bool :=
        if Base.getStateValidityChecker == Bundle.getStateValidityChecker then true else false
      if bundleSpaceComponents > 1 then do
        let Bundle_decomposed ← Bundle_space.getSubspaces
        let Base_decomposed ← Base_space.getSubspaces
        forLoop 0 bundleSpaceComponents.toNat (fun m components => do
          let BaseM ← vectorAt Base_decomposed m
          let BundleM ← vectorAt Bundle_decomposed m
          let componentM ← MakeBundleSpaceComponent computeFiberSpace BundleM (some BaseM)
            areValidityCheckersEquivalent
          .ok (components ++ [componentM])) []
      else do
        let component ← MakeBundleSpaceComponent computeFiberSpace Bundle_space
          (some Base_space) areValidityCheckersEquivalent
        .ok [component]

/-! ## Outcomes of the classifier -/

/-- The outcomes the classifier is meant to have, and undefined behaviour: a type
other than `CONSTRAINED_RELAXATION` (which only the factory assigns), a thrown
exception, or undefined behaviour; not the return of the local `type` without an
assignment, and not an `exit`. -/
def Settled : Except Fault BundleSpaceComponentType → Prop
  | .ok t => t ≠ .CONSTRAINED_RELAXATION
  | .error (.exception _) => True
  | .error .undefinedBehaviour => True
  | .error (.exit _) => False
  | .error .uninitialised => False

/-! ## Round-trip laws -/

/-- The round-trip laws of one quotient space at given states and output
buffers: merging the Base state `b` and the Fiber state `f` into the buffer `out`
succeeds and projecting the result gives back `b` and `f`; and projecting the
Bundle state `x` succeeds and merging the two projections gives back `x`.
`outB` and `outF` are the buffers the projections write into. -/
def RoundTrip {α : Type} (self : QuotientSpace) (b f x out outB outF : State α) : Prop :=
  (∃ y, self.mergeStates b f out = .ok y ∧
      self.projectQ0Subspace y outB = .ok b ∧ self.projectX1Subspace y outF = .ok f) ∧
  (∃ xb xf, self.projectQ0Subspace x outB = .ok xb ∧ self.projectX1Subspace x outF = .ok xf ∧
      self.mergeStates xb xf out = .ok x)

/-! ## Coordinate bounds of the quotient -/

/-- Modelled from the spec: the bounds of a vector space (`ompl::base::RealVectorBounds`,
not part of the sources at hand): the arrays `low` and `high`. -/
structure RealVectorBounds (α : Type) where
  low : List α
  high : List α

namespace RealVectorBounds
variable {α : Type}

/-- Modelled from the spec: the constructor `RealVectorBounds(dim)`, which resizes
both arrays to `dim` entries holding the value-initialised coordinate `zero`. -/
def ofDimension (dim : Nat) (zero : α) : RealVectorBounds α :=
  { low := List.replicate dim zero, high := List.replicate dim zero }

/-- Modelled from the spec: `setLow(index, value)`, the assignment
`low[index] = value`. -/
def setLow (self : RealVectorBounds α) (index : Nat) (value : α) :
    Except Fault (RealVectorBounds α) := do
  let low ← writeValue self.low index value
  .ok { self with low := low }

/-- Modelled from the spec: `setHigh(index, value)`, the assignment
`high[index] = value`. -/
def setHigh (self : RealVectorBounds α) (index : Nat) (value : α) :
    Except Fault (RealVectorBounds α) := do
  let high ← writeValue self.high index value
  .ok { self with high := high }

end RealVectorBounds

/-- The bounds that `QuotientSpace::computeQuotientSpace` sets on the vector part of
the quotient `X1` (`none` where `X1` has no vector part or there is no `X1`); the
rest of the function is `computeQuotientSpace` above.  The accessor `getBounds()` of
the vector spaces is the parameter `getBounds`, `zero` is the coordinate `0.0` that
`RealVectorBounds(N)` starts from, and `setBounds` is taken to store the bounds it
is given. -/
def computeQuotientSpaceBounds {α : Type} (getBounds : StateSpace → RealVectorBounds α)
    (zero : α) (Q1 Q0 : StateSpace) : Except Fault (Option (RealVectorBounds α)) := do
  let type_ ← identifyQuotientSpaceType Q1 Q0
  let Q1_dimension_ := Q1.getDimension
  let Q0_dimension_ := Q0.getDimension
  if Q0_dimension_ = 0 ∨ Q1_dimension_ = 0 then .error (.exit 0)
  else
    match type_ with
    | .IDENTITY_SPACE_RN | .IDENTITY_SPACE_SE2 | .IDENTITY_SPACE_SE2RN
    | .IDENTITY_SPACE_SO2RN | .IDENTITY_SPACE_SE3 | .IDENTITY_SPACE_SE3RN =>
      .ok none
    | .RN_RM => do
      let N := usub Q1_dimension_ Q0_dimension_
      let Q1_bounds := getBounds Q1
      let X1_bounds := RealVectorBounds.ofDimension N zero
      let X1_bounds ← forLoop 0 N (fun k X1_bounds => do
        let X1_bounds ← X1_bounds.setLow k (← vectorAt Q1_bounds.low (uadd k Q0_dimension_))
        X1_bounds.setHigh k (← vectorAt Q1_bounds.high (uadd k Q0_dimension_))) X1_bounds
      .ok (some X1_bounds)
    | .SE2_R2 | .SE3_R3 => .ok none
    | .SE2RN_SE2 | .SE3RN_SE3 | .SO2RN_SO2 => do
      let Q1_decomposed ← Q1.getSubspaces
      let _ ← vectorAt Q1_decomposed 1
      .ok (some (getBounds (← vectorAt Q1_decomposed 1)))
    | .SE2RN_R2 | .SE3RN_R3 => do
      let Q1_decomposed ← Q1.getSubspaces
      let _ ← (← vectorAt Q1_decomposed 0).getSubspaces
      let Q1_RN ← vectorAt Q1_decomposed 1
      .ok (some (getBounds Q1_RN))
    | .SE2RN_SE2RM | .SO2RN_SO2RM | .SE3RN_SE3RM => do
      let Q1_decomposed ← Q1.getSubspaces
      let Q0_decomposed ← Q0.getSubspaces
      let N := (← vectorAt Q1_decomposed 1).getDimension
      let M := (← vectorAt Q0_decomposed 1).getDimension
      let X1_dimension_ := usub N M
      let Q1_bounds := getBounds (← vectorAt Q1_decomposed 1)
      let X1_bounds := RealVectorBounds.ofDimension X1_dimension_ zero
      let X1_bounds ← forLoop 0 X1_dimension_ (fun k X1_bounds => do
        let X1_bounds ← X1_bounds.setLow k (← vectorAt Q1_bounds.low (uadd k M))
        X1_bounds.setHigh k (← vectorAt Q1_bounds.high (uadd k M))) X1_bounds
      .ok (some X1_bounds)
    | .UNKNOWN | .ATOMIC_RN => .error (.exit 0)

/-! ## Identity types, sampling and importance of the legacy quotient space -/

/-- The six identity types: the labels of the first `case` group of `mergeStates`,
`projectQ0Subspace` and `computeQuotientSpace`. -/
def QuotientSpaceType.isIdentity : QuotientSpaceType → Bool
  | .IDENTITY_SPACE_RN | .IDENTITY_SPACE_SE2 | .IDENTITY_SPACE_SE2RN
  | .IDENTITY_SPACE_SO2RN | .IDENTITY_SPACE_SE3 | .IDENTITY_SPACE_SE3RN => true
  | _ => false

/-- The dimension of the quotient space `X1`, 0 when there is none (as
`BundleSpace::getFiberDimension` has it for the Fiber). -/
def QuotientSpace.getX1SpaceDimension (self : QuotientSpace) : Nat :=
  match self.X1 with
  | some X1_space => X1_space.getDimension
  | none => 0

/-- The quotient space of `Q1` over `Q0` is constructed with type `t`; its member
`X1_dimension_` is `d`, its quotient space `X1` has dimension `d` (and is absent when
`t` is an identity type), its members `Q0_dimension_` and `Q1_dimension_` are the
dimensions of `Q0` and `Q1`, and `dimension(Q0) + d = dimension(Q1)`. -/
def DerivedFiber (Q1 Q0 : StateSpace) (t : QuotientSpaceType) (d : Nat) : Prop :=
  match computeQuotientSpace Q1 Q0 with
  | .ok self =>
    self.type_ = t ∧ self.X1_dimension_ = d ∧ self.getX1SpaceDimension = d ∧
    self.X1.isNone = t.isIdentity ∧
    self.Q0_dimension_ = Q0.getDimension ∧ self.Q1_dimension_ = Q1.getDimension ∧
    Q0.getDimension + d = Q1.getDimension
  | .error _ => False

instance (Q1 Q0 : StateSpace) (t : QuotientSpaceType) (d : Nat) :
    Decidable (DerivedFiber Q1 Q0 t d) := by
  unfold DerivedFiber
  split <;> infer_instance

/-- The two counters of a `QuotientSpace`, both `unsigned int`. -/
structure SampleCounters where
  totalNumberOfSamples_ : Nat
  totalNumberOfFeasibleSamples_ : Nat
  deriving DecidableEq, Repr

/-- Modelled from the spec: the counters of a freshly constructed node (their
initial value is given in `QuotientSpace.h`, not part of the sources at hand; the
constructor does not assign them). -/
def SampleCounters.fresh : SampleCounters :=
  { totalNumberOfSamples_ := 0, totalNumberOfFeasibleSamples_ := 0 }

/-- Embedding of `QuotientSpace::clear`, as far as the counters go: the two counters
are set to 0, and the last statement `pdef_->clearSolutionPaths()` dereferences the
problem definition `pdef_` of the planner, which is null (`none`) as long as none
was set.  `BaseT::clear()`, the two flags and the reset of `X1_sampler_` do not touch
the counters. -/
def QuotientSpace.clear {π : Type} (pdef_ : Option π) (_counters : SampleCounters) :
    Except Fault SampleCounters :=
  let counters : SampleCounters :=
    { totalNumberOfSamples_ := 0, totalNumberOfFeasibleSamples_ := 0 }
  match pdef_ with
  | some _ => .ok counters
  | none => .error .undefinedBehaviour

/-- What the external samplers write during one call of `sample`: `Q1_sample` is
the state `Q1_sampler_->sampleUniform` writes, `X1_sample` the state
`X1_sampler_->sampleUniform` writes into `s_X1_tmp_`, and `Q0_sample` the state
`parent_->sampleQuotient` writes. -/
structure Draw (α : Type) where
  Q1_sample : State α
  X1_sample : State α
  Q0_sample : State α

/-- Embedding of `QuotientSpace::sample(q_random)`.  `isValid` is the external
feasibility check `Q1->isValid`.  The result is the returned `bool`, the buffer
`q_random` after the call and the counters after the call. -/
def QuotientSpace.sample {α : Type} (self : QuotientSpace) (isValid : State α → Bool)
    (draw : Draw α) (q_random : State α) (counters : SampleCounters) :
    Except Fault (Bool × State α × SampleCounters) := do
  let q_random ←
    (if !self.hasParent then
      .ok draw.Q1_sample
    else if self.X1_dimension_ > 0 then
      self.mergeStates draw.Q0_sample draw.X1_sample q_random
    else
      .ok draw.Q0_sample)
  let valid := isValid q_random
  let totalNumberOfSamples_ := uadd counters.totalNumberOfSamples_ 1
  let totalNumberOfFeasibleSamples_ :=
    if valid then uadd counters.totalNumberOfFeasibleSamples_ 1
    else counters.totalNumberOfFeasibleSamples_
  .ok (valid, q_random,
    { totalNumberOfSamples_ := totalNumberOfSamples_,
      totalNumberOfFeasibleSamples_ := totalNumberOfFeasibleSamples_ })

/-- Successive calls of `sample` on the same node and buffer, one per entry of
`draws`; the result is the counters after the last call. -/
def QuotientSpace.sampleRepeatedly {α : Type} (self : QuotientSpace) (isValid : State α → Bool)
    (q_random : State α) : List (Draw α) → SampleCounters → Except Fault SampleCounters
  | [], counters => .ok counters
  | draw :: draws, counters => do
    let (_, q_random, counters) ← self.sample isValid draw q_random counters
    self.sampleRepeatedly isValid q_random draws counters

/-- The quotient `a / b` of two naturals rounded to the nearest integer, a tie going
to the even one: the rounding of the significand in the default mode of IEEE 754
arithmetic. -/
def roundToNearestEven (a b : Nat) : Nat :=
  let q := a / b
  let r := a % b
  if 2 * r < b then q
  else if b < 2 * r then q + 1
  else if q % 2 = 0 then q
  else q + 1

/-- The `double` quotient `1.0 / d` for a `double` `d` that holds the integer `d`,
`1 <= d <= 2 ^ 53`, as the rational it denotes.  With `2 ^ k <= d < 2 ^ (k + 1)` the
exact quotient lies in `(2 ^ -(k + 1), 2 ^ -k]`, where the `double`s are the
multiples of `2 ^ -(k + 53)`: the result is the multiple nearest to the exact
quotient, with the 53-bit significand `roundToNearestEven (2 ^ (k + 53)) d`. -/
def doubleReciprocal (d : Nat) : ℚ :=
  let k := Nat.log 2 d
  (roundToNearestEven (2 ^ (k + 53)) d : ℚ) / 2 ^ (k + 53)

/-- Embedding of `QuotientSpace::getImportance`: `1.0 / (N + 1)` for
`N = (double) totalNumberOfSamples_`, as the rational the returned `double` denotes.
The conversion of the `unsigned int` and the sum `N + 1` are exact in `double`
(both are integers of at most 33 bits); the quotient is rounded. -/
def QuotientSpace.getImportance (counters : SampleCounters) : ℚ :=
  let N := counters.totalNumberOfSamples_
  doubleReciprocal (N + 1)

/-! ## Nodes of the bundle-space hierarchy -/

/-- Modelled from the spec: a `double` as far as `checkBundleSpaceMeasure` compares
it: a finite value, one of the two infinities, or not-a-number. -/
inductive Double
  | finite (q : ℚ)
  | posInf
  | negInf
  | nan
  deriving DecidableEq

/-- The comparison `x >= std::numeric_limits<double>::infinity()`. -/
def Double.geInfinity : Double → Bool
  | .posInf => true
  | _ => false

/-- The comparison `x <= 0`. -/
def Double.leZero : Double → Bool
  | .finite q => decide (q ≤ 0)
  | .negInf => true
  | _ => false

/-- The measure of `space` is `<= 0` or infinite. -/
def ZeroOrInfiniteMeasure (getMeasure : StateSpace → Double) (space : StateSpace) : Prop :=
  (getMeasure space).leZero = true ∨ (getMeasure space).geInfinity = true

instance (getMeasure : StateSpace → Double) (space : StateSpace) :
    Decidable (ZeroOrInfiniteMeasure getMeasure space) := by
  unfold ZeroOrInfiniteMeasure
  infer_instance

/-- The members of `BundleSpace` that its validation reads: the planning space
`Bundle`, the planning space `Base` (`none` for the null pointer of a node without
parent), the state space of `Fiber` (`none` for the null pointer) and the
components built by the factory. -/
structure BundleSpace (ν : Type) where
  Bundle : SpaceInformation ν
  Base : Option (SpaceInformation ν)
  Fiber : Option StateSpace
  components_ : List BundleSpaceComponent

namespace BundleSpace
variable {ν : Type}

/-- Embedding of `BundleSpace::getFiberDimension`. -/
def getFiberDimension (self : BundleSpace ν) : Nat :=
  match self.Fiber with
  | some Fiber => Fiber.getDimension
  | none => 0

/-- Embedding of `BundleSpace::getBaseDimension`. -/
def getBaseDimension (self : BundleSpace ν) : Nat :=
  match self.Base with
  | some Base => Base.getStateSpace.getDimension
  | none => 0

/-- Embedding of `BundleSpace::getBundleDimension`. -/
def getBundleDimension (self : BundleSpace ν) : Nat :=
  self.Bundle.getStateSpace.getDimension

/-- Embedding of `BundleSpace::checkBundleSpaceMeasure`; the accessor
`StateSpace::getMeasure()` is the parameter `getMeasure`. -/
def checkBundleSpaceMeasure (getMeasure : StateSpace → Double) (space : StateSpace) :
    Except Fault Unit :=
  if (getMeasure space).geInfinity ∨ (getMeasure space).leZero then
    .error (.exception .Space_has_zero_or_infinite_measure)
  else .ok ()

/-- Embedding of `BundleSpace::checkBundleSpace`; the sum of the two `unsigned int`
dimensions is taken modulo `2 ^ 32`. -/
def checkBundleSpace (getMeasure : StateSpace → Double) (self : BundleSpace ν) :
    Except Fault Unit := do
  let Bundle_space := self.Bundle.getStateSpace
  checkBundleSpaceMeasure getMeasure Bundle_space
  match self.Base with
  | some Base => checkBundleSpaceMeasure getMeasure Base.getStateSpace
  | none => .ok ()
  match self.Fiber with
  | some Fiber_space => do
    checkBundleSpaceMeasure getMeasure Fiber_space
    if uadd self.getBaseDimension self.getFiberDimension ≠ self.getBundleDimension then
      .error (.exception .BundleSpace_Dimensions_are_wrong)
    else .ok ()
  | none => .ok ()

/-- Embedding of `BundleSpace::MakeFiberSpace`: the state space of `Fiber` (`none`
when the member stays null).  With several components the Fiber is the compound of
the components' Fibers, built by `addSubspace`, whose dimension is the sum of their
dimensions; reading the dimension of a component's null Fiber is undefined. -/
def MakeFiberSpace (components_ : List BundleSpaceComponent) :
    Except Fault (Option StateSpace) :=
  if components_.length > 1 then do
    let subspaces ← forLoop 0 components_.length (fun m subspaces => do
      match (← vectorAt components_ m).FiberSpace with
      | some FiberM => .ok (subspaces ++ [FiberM])
      | none => .error .undefinedBehaviour) []
    .ok (some (.compound .STATE_SPACE_UNKNOWN
      ((subspaces.map StateSpace.getDimension).sum % 2 ^ 32) subspaces))
  else
    match components_.head? with
    | some component => .ok component.FiberSpace
    | none => .error .undefinedBehaviour

/-- Embedding of the constructor `BundleSpace::BundleSpace(si, parent_)` up to and
including `checkBundleSpace()`; what follows allocates samplers and scratch states. -/
def construct [BEq ν] (computeFiberSpace : ComputeFiberSpace)
    (getMeasure : StateSpace → Double) (si : SpaceInformation ν)
    (parent_ : Option (BundleSpace ν)) : Except Fault (BundleSpace ν) :=
  match parent_ with
  | none => do
    let components_ ← MakeBundleSpaceComponents computeFiberSpace si none
    let self : BundleSpace ν :=
      { Bundle := si, Base := none, Fiber := none, components_ := components_ }
    checkBundleSpace getMeasure self
    .ok self
  | some parent => do
    let Base := parent.Bundle
    let components_ ← MakeBundleSpaceComponents computeFiberSpace si (some Base)
    let Fiber ← MakeFiberSpace components_
    let self : BundleSpace ν :=
      { Bundle := si, Base := some Base, Fiber := Fiber, components_ := components_ }
    checkBundleSpace getMeasure self
    .ok self

end BundleSpace

/-! ## The operators and the sampling of a bundle-space node -/

/-- Modelled from the spec: the virtual operators `mergeStates`, `projectFiber` and
`projectBase` of the component classes, whose bodies are not part of the sources at
hand: parameters of the node.  Each takes the component and the buffers and gives
the output buffer after the call. -/
structure ComponentOperators (α : Type) where
  mergeStates : BundleSpaceComponent → State α → State α → State α → Except Fault (State α)
  projectFiber : BundleSpaceComponent → State α → State α → Except Fault (State α)
  projectBase : BundleSpaceComponent → State α → State α → Except Fault (State α)

namespace BundleSpace
variable {ν α : Type}

/-- Embedding of `BundleSpace::hasParent`: the constructor sets `Base` to the
parent's `Bundle` exactly when `parent_` is not null. -/
def hasParent (self : BundleSpace ν) : Bool := self.Base.isSome

/-- Embedding of `BundleSpace::mergeStates(xBase, xFiber, xBundle)`: the result is the
output buffer `xBundle` after the call.  The component's operator writes the `m`-th
sub-state of `xBundle`. -/
def mergeStates (ops : ComponentOperators α) (self : BundleSpace ν)
    (xBase xFiber xBundle : State α) : Except Fault (State α) :=
  let M := toUnsigned self.components_.length
  if M > 1 then
    forLoop 0 M (fun m xBundle => do
      let xmBase ← component (← xBase.asCompound) m
      let xmFiber ← component (← xFiber.asCompound) m
      let cBundle ← xBundle.asCompound
      let xmBundle ← component cBundle m
      let xmBundle ← ops.mergeStates (← vectorAt self.components_ m) xmBase xmFiber xmBundle
      .ok (.Compound (cBundle.set m xmBundle))) xBundle
  else
    match self.components_.head? with
    | some front => ops.mergeStates front xBase xFiber xBundle
    | none => .error .undefinedBehaviour

/-- Embedding of `BundleSpace::projectFiber(xBundle, xFiber)`: the result is the output
buffer `xFiber` after the call. -/
def projectFiber (ops : ComponentOperators α) (self : BundleSpace ν)
    (xBundle xFiber : State α) : Except Fault (State α) :=
  let M := toUnsigned self.components_.length
  if M > 1 then
    forLoop 0 M (fun m xFiber => do
      let xmBundle ← component (← xBundle.asCompound) m
      let cFiber ← xFiber.asCompound
      let xmFiber ← component cFiber m
      let xmFiber ← ops.projectFiber (← vectorAt self.components_ m) xmBundle xmFiber
      .ok (.Compound (cFiber.set m xmFiber))) xFiber
  else
    match self.components_.head? with
    | some front => ops.projectFiber front xBundle xFiber
    | none => .error .undefinedBehaviour

/-- Embedding of `BundleSpace::projectBase(xBundle, xBase)`: the result is the output
buffer `xBase` after the call. -/
def projectBase (ops : ComponentOperators α) (self : BundleSpace ν)
    (xBundle xBase : State α) : Except Fault (State α) :=
  let M := toUnsigned self.components_.length
  if M > 1 then
    forLoop 0 M (fun m xBase => do
      let xmBundle ← component (← xBundle.asCompound) m
      let cBase ← xBase.asCompound
      let xmBase ← component cBase m
      let xmBase ← ops.projectBase (← vectorAt self.components_ m) xmBundle xmBase
      .ok (.Compound (cBase.set m xmBase))) xBase
  else
    match self.components_.head? with
    | some front => ops.projectBase front xBundle xBase
    | none => .error .undefinedBehaviour

end BundleSpace

/-- What the external samplers write during one call of `sampleBundle`:
`Bundle_sample` is the state `Bundle_sampler_->sampleUniform` writes, `Fiber_sample`
the state `sampleFiber` writes into `xFiberTmp_`, and `Base_sample` the state the
parent's `sampleFromDatastructure` writes. -/
structure BundleDraw (α : Type) where
  Bundle_sample : State α
  Fiber_sample : State α
  Base_sample : State α

/-- Embedding of `BundleSpace::sampleBundle(xRandom)`: the result is the buffer
`xRandom` after the call. -/
def BundleSpace.sampleBundle {ν α : Type} (ops : ComponentOperators α) (self : BundleSpace ν)
    (draw : BundleDraw α) (xRandom : State α) : Except Fault (State α) :=
  if !self.hasParent then
    .ok draw.Bundle_sample
  else if self.getFiberDimension > 0 then
    self.mergeStates ops draw.Base_sample draw.Fiber_sample xRandom
  else
    .ok draw.Base_sample

/-- The round-trip laws of one component at given states and output buffers, for the
component's operators `ops`: merging `b` and `f` into `out` succeeds and projecting
the result gives back `b` and `f`; and projecting `x` succeeds and merging the two
projections gives back `x`. -/
def ComponentRoundTrip {α : Type} (ops : ComponentOperators α) (c : BundleSpaceComponent)
    (b f x out outB outF : State α) : Prop :=
  (∃ y, ops.mergeStates c b f out = .ok y ∧
      ops.projectBase c y outB = .ok b ∧ ops.projectFiber c y outF = .ok f) ∧
  (∃ xb xf, ops.projectBase c x outB = .ok xb ∧ ops.projectFiber c x outF = .ok xf ∧
      ops.mergeStates c xb xf out = .ok x)

/-- The round-trip laws of a node at given states and output buffers. -/
def NodeRoundTrip {ν α : Type} (ops : ComponentOperators α) (self : BundleSpace ν)
    (b f x out outB outF : State α) : Prop :=
  (∃ y, self.mergeStates ops b f out = .ok y ∧
      self.projectBase ops y outB = .ok b ∧ self.projectFiber ops y outF = .ok f) ∧
  (∃ xb xf, self.projectBase ops x outB = .ok xb ∧ self.projectFiber ops x outF = .ok xf ∧
      self.mergeStates ops xb xf out = .ok x)

/-- Two calls of `mergeStates` with the same Base state `b` and Fiber state `f` on the
output buffers `out` and `out'` both return, with equal output states. -/
def SameOutput {α : Type} (self : QuotientSpace) (b f out out' : State α) : Prop :=
  ∃ y, self.mergeStates b f out = .ok y ∧ self.mergeStates b f out' = .ok y

/-! ## The counter of node identifiers -/

/-- Embedding of the first statement `id_ = counter_++` of the constructors of
`BundleSpace` and `QuotientSpace`, on the static `unsigned int counter_`: the result
is the identifier taken and the counter after the statement. -/
def takeId (counter_ : Nat) : Nat × Nat := (counter_, uadd counter_ 1)

/-- Embedding of `BundleSpace::resetCounter` and `QuotientSpace::resetCounter`: the
counter after the call. -/
def resetCounter (_counter_ : Nat) : Nat := 0

/-- Embedding of the constructor `BundleSpace::BundleSpace(si, parent_)` with the
static counter: the identifier is taken first, then the node is built and validated
as in `BundleSpace.construct`.  The result is the counter after the call, which is
incremented also when the constructor throws, and the outcome: the identifier and
the node. -/
def BundleSpace.constructWithId {ν : Type} [BEq ν] (computeFiberSpace : ComputeFiberSpace)
    (getMeasure : StateSpace → Double) (counter_ : Nat) (si : SpaceInformation ν)
    (parent_ : Option (BundleSpace ν)) : Nat × Except Fault (Nat × BundleSpace ν) :=
  let (id_, counter_) := takeId counter_
  (counter_,
    match BundleSpace.construct computeFiberSpace getMeasure si parent_ with
    | .ok self => .ok (id_, self)
    | .error e => .error e)

/-- Successive calls of the constructor of `BundleSpace`, one per entry of `calls` (the
planning space and the parent of each), each under a caller that catches what the
constructor throws: the result is the counter after the last call and the outcomes
in the order of the calls. -/
def BundleSpace.constructAll {ν : Type} [BEq ν] (computeFiberSpace : ComputeFiberSpace)
    (getMeasure : StateSpace → Double) :
    Nat → List (SpaceInformation ν × Option (BundleSpace ν)) →
      Nat × List (Except Fault (Nat × BundleSpace ν))
  | counter_, [] => (counter_, [])
  | counter_, (si, parent_) :: calls =>
    let (counter_, outcome) :=
      BundleSpace.constructWithId computeFiberSpace getMeasure counter_ si parent_
    let (counter_, outcomes) :=
      BundleSpace.constructAll computeFiberSpace getMeasure counter_ calls
    (counter_, outcome :: outcomes)

/-- The identifiers of the nodes constructed by a sequence of calls of the constructor,
in the order of construction: those of the calls that returned. -/
def constructedIds {ν : Type} (outcomes : List (Except Fault (Nat × BundleSpace ν))) :
    List Nat :=
  outcomes.filterMap (fun outcome =>
    match outcome with
    | .ok (id_, _) => some id_
    | .error _ => none)

/-! ## The two classifiers side by side -/

/-- The type of the bundle-space classifier that corresponds to a type of the legacy
classifier: `IDENTITY_PROJECTION` for each of the six `IDENTITY_SPACE_*` tags, the tag
of the same name for every other tag that has one (`ATOMIC_RN` has none). -/
def QuotientSpaceType.corresponding : QuotientSpaceType → Option BundleSpaceComponentType
  | .UNKNOWN => some .UNKNOWN
  | .ATOMIC_RN => none
  | .IDENTITY_SPACE_RN | .IDENTITY_SPACE_SE2 | .IDENTITY_SPACE_SE2RN
  | .IDENTITY_SPACE_SO2RN | .IDENTITY_SPACE_SE3 | .IDENTITY_SPACE_SE3RN =>
    some .IDENTITY_PROJECTION
  | .RN_RM => some .RN_RM
  | .SE2_R2 => some .SE2_R2
  | .SE2RN_R2 => some .SE2RN_R2
  | .SE2RN_SE2 => some .SE2RN_SE2
  | .SE2RN_SE2RM => some .SE2RN_SE2RM
  | .SO2RN_SO2 => some .SO2RN_SO2
  | .SO2RN_SO2RM => some .SO2RN_SO2RM
  | .SE3_R3 => some .SE3_R3
  | .SE3RN_R3 => some .SE3RN_R3
  | .SE3RN_SE3 => some .SE3RN_SE3
  | .SE3RN_SE3RM => some .SE3RN_SE3RM

/-! ## Sequences of calls on a legacy node, and its parent -/

/-- A call on a node of the legacy hierarchy: `sample` with what the samplers write
during the call, or `clear`. -/
inductive Call (α : Type)
  | sample (draw : Draw α)
  | clear

/-- Successive calls of `sample` and `clear` on the same node and buffer, one per entry
of `calls`, on a node whose problem definition is `pdef_`; the result is the counters
after the last call. -/
def QuotientSpace.run {α π : Type} (self : QuotientSpace) (isValid : State α → Bool)
    (pdef_ : Option π) (q_random : State α) :
    List (Call α) → SampleCounters → Except Fault SampleCounters
  | [], counters => .ok counters
  | .sample draw :: calls, counters => do
    let (_, q_random, counters) ← self.sample isValid draw q_random counters
    self.run isValid pdef_ q_random calls counters
  | .clear :: calls, counters => do
    let counters ← QuotientSpace.clear pdef_ counters
    self.run isValid pdef_ q_random calls counters

/-- Embedding of `QuotientSpace::sampleQuotient(q_random)` on a node with the counters
`counters`: `Q1_sample` is the state `Q1_sampler_->sampleUniform` writes.  The result
is the returned `bool`, the buffer after the call and the node's counters after the
call. -/
def QuotientSpace.sampleQuotient {α : Type} (Q1_sample : State α) (_q_random : State α)
    (counters : SampleCounters) : Bool × State α × SampleCounters :=
  (true, Q1_sample, counters)

/-- Embedding of `QuotientSpace::sample(q_random)` on a node with a parent, with the
counters of both nodes: `parent_sample` is the state the parent's `Q1_sampler_`
writes when `sampleQuotient` is called on it, into `s_Q0_tmp_` or into `q_random`.
The result is the returned `bool`, the buffer `q_random` after the call, the node's
counters and the parent's counters after the call. -/
def QuotientSpace.sampleUnderParent {α : Type} (self : QuotientSpace)
    (isValid : State α → Bool) (X1_sample parent_sample s_Q0_tmp_ : State α)
    (q_random : State α) (counters parentCounters : SampleCounters) :
    Except Fault (Bool × State α × SampleCounters × SampleCounters) := do
  let (q_random, parentCounters) ←
    (if self.X1_dimension_ > 0 then do
      let s_X1_tmp_ := X1_sample
      let (_, s_Q0_tmp_, parentCounters) :=
        QuotientSpace.sampleQuotient parent_sample s_Q0_tmp_ parentCounters
      let q_random ← self.mergeStates s_Q0_tmp_ s_X1_tmp_ q_random
      .ok (q_random, parentCounters)
    else
      let (_, q_random, parentCounters) :=
        QuotientSpace.sampleQuotient parent_sample q_random parentCounters
      .ok (q_random, parentCounters))
  let valid := isValid q_random
  let totalNumberOfSamples_ := uadd counters.totalNumberOfSamples_ 1
  let totalNumberOfFeasibleSamples_ :=
    if valid then uadd counters.totalNumberOfFeasibleSamples_ 1
    else counters.totalNumberOfFeasibleSamples_
  .ok (valid, q_random,
    { totalNumberOfSamples_ := totalNumberOfSamples_,
      totalNumberOfFeasibleSamples_ := totalNumberOfFeasibleSamples_ },
    parentCounters)

/-! ## The unsigned subtractions of the legacy operators -/

/-- The subtractions `a - b` of `unsigned int`s that compute a copy offset or a loop
bound in `QuotientSpace::mergeStates`, as pairs `(a, b)`, case by case; a chain
`a - b - c` is the two subtractions `(a, b)` and `(a - b, c)`. -/
def QuotientSpace.mergeStatesSubtractions (self : QuotientSpace) : List (Nat × Nat) :=
  match self.type_ with
  | .SE3RN_R3 => [(self.X1_dimension_, 3)]
  | .SE2RN_R2 => [(self.X1_dimension_, 1)]
  | .SO2RN_SO2RM =>
    [(self.Q1_dimension_, self.X1_dimension_),
      (usub self.Q1_dimension_ self.X1_dimension_, 1)]
  | .SE2RN_SE2RM =>
    [(self.Q1_dimension_, self.X1_dimension_),
      (usub self.Q1_dimension_ self.X1_dimension_, 3)]
  | .SE3RN_SE3RM =>
    [(self.Q1_dimension_, self.X1_dimension_),
      (usub self.Q1_dimension_ self.X1_dimension_, 6)]
  | _ => []

/-- The subtractions of `unsigned int`s that compute a copy offset or a loop bound in
`QuotientSpace::projectX1Subspace`, as pairs `(a, b)`, case by case. -/
def QuotientSpace.projectX1SubspaceSubtractions (self : QuotientSpace) : List (Nat × Nat) :=
  match self.type_ with
  | .SE3RN_R3 => [(self.X1_dimension_, 3)]
  | .SE2RN_R2 => [(self.X1_dimension_, 1)]
  | .SE2RN_SE2RM | .SO2RN_SO2RM =>
    [(self.Q1_dimension_, self.X1_dimension_),
      (usub self.Q1_dimension_ self.X1_dimension_, 3), (self.Q1_dimension_, 3)]
  | .SE3RN_SE3RM =>
    [(self.Q1_dimension_, self.X1_dimension_),
      (usub self.Q1_dimension_ self.X1_dimension_, 6), (self.Q1_dimension_, 6)]
  | _ => []

/-- The subtractions of `unsigned int`s that compute a loop bound in
`QuotientSpace::projectQ0Subspace`, as pairs `(a, b)`, case by case. -/
def QuotientSpace.projectQ0SubspaceSubtractions (self : QuotientSpace) : List (Nat × Nat) :=
  match self.type_ with
  | .SO2RN_SO2RM => [(self.Q0_dimension_, 1)]
  | .SE2RN_SE2RM => [(self.Q0_dimension_, 3)]
  | .SE3RN_SE3RM => [(self.Q0_dimension_, 6)]
  | _ => []

/-- The subtraction `a - b` of `unsigned int`s wraps around below zero. -/
def WrapsBelowZero (p : Nat × Nat) : Prop := p.1 < p.2

instance (p : Nat × Nat) : Decidable (WrapsBelowZero p) := by
  unfold WrapsBelowZero
  infer_instance

/-! ## Loop lemmas -/

theorem usub_eq {a b : Nat} (hb : b ≤ a) (ha : a < 2 ^ 32) : usub a b = a - b := by
  unfold usub
  omega

theorem uadd_eq {a b : Nat} (h : a + b < 2 ^ 32) : uadd a b = a + b := by
  unfold uadd
  omega

theorem forLoop_nil {σ : Type} (lo hi : Nat) (h : hi ≤ lo) (body : Nat → σ → Except Fault σ)
    (s : σ) : forLoop lo hi body s = .ok s := by
  unfold forLoop
  have : hi - lo = 0 := by omega
  rw [this]
  rfl

theorem forLoop_step {σ : Type} (lo cnt : Nat) (body : Nat → σ → Except Fault σ) (s s1 : σ)
    (h : body lo s = .ok s1) :
    forLoop lo (lo + (cnt + 1)) body s = forLoop (lo + 1) (lo + 1 + cnt) body s1 := by
  unfold forLoop
  have e1 : lo + (cnt + 1) - lo = cnt + 1 := by omega
  have e2 : lo + 1 + cnt - (lo + 1) = cnt := by omega
  rw [e1, e2, List.range'_succ, List.foldlM_cons, h]
  rfl

theorem assignValue_ok {α : Type} (dst src : List α) (i j : Nat) (hi : i < dst.length)
    (hj : j < src.length) :
    assignValue dst i src j = .ok (dst.set i src[j]) := by
  unfold assignValue readValue writeValue
  simp [List.getElem?_eq_getElem hj, hi]

/-- A copy loop `for k in [lo, lo+cnt): dst[k-a] = src[k-b]` runs without fault when
both index ranges lie inside the arrays, keeps the length of `dst`, and leaves
`dst` holding the copied slice and, elsewhere, its previous content. -/
theorem forLoop_assign {α : Type} (src : List α) (fd fs : Nat → Nat) (a b : Nat) :
    ∀ (cnt lo : Nat) (dst : List α), a ≤ lo → b ≤ lo →
      (∀ k, lo ≤ k → k < lo + cnt → fd k = k - a ∧ fs k = k - b) →
      lo + cnt - a ≤ dst.length → lo + cnt - b ≤ src.length →
      ∃ r, forLoop lo (lo + cnt) (fun k d => assignValue d (fd k) src (fs k)) dst = .ok r ∧
        r.length = dst.length ∧
        ∀ i, r[i]? =
          if lo - a ≤ i ∧ i < lo + cnt - a then src[i + a - b]? else dst[i]? := by
  intro cnt
  induction cnt with
  | zero =>
    intro lo dst _ _ _ _ _
    refine ⟨dst, forLoop_nil _ _ (by omega) _ _, rfl, ?_⟩
    intro i
    have : ¬ (lo - a ≤ i ∧ i < lo + 0 - a) := by omega
    rw [if_neg this]
  | succ cnt ih =>
    intro lo dst ha hb hf hd hs
    obtain ⟨hfd, hfs⟩ := hf lo (Nat.le_refl _) (by omega)
    have hi : fd lo < dst.length := by omega
    have hj : fs lo < src.length := by omega
    have hstep := forLoop_step lo cnt (fun k d => assignValue d (fd k) src (fs k)) dst _
      (assignValue_ok dst src (fd lo) (fs lo) hi hj)
    obtain ⟨r, hr, hlen, hget⟩ := ih (lo + 1) (dst.set (fd lo) src[fs lo])
      (by omega) (by omega) (fun k h1 h2 => hf k (by omega) (by omega))
      (by rw [List.length_set]; omega) (by omega)
    refine ⟨r, by rw [hstep]; exact hr, by rw [hlen, List.length_set], ?_⟩
    intro i
    rw [hget i]
    by_cases h1 : lo + 1 - a ≤ i ∧ i < lo + 1 + cnt - a
    · have h2 : lo - a ≤ i ∧ i < lo + (cnt + 1) - a := by omega
      rw [if_pos h1, if_pos h2]
    · rw [if_neg h1]
      by_cases h3 : i = lo - a
      · have h2 : lo - a ≤ i ∧ i < lo + (cnt + 1) - a := by omega
        have e : i + a - b = fs lo := by omega
        have e2 : fd lo = i := by omega
        rw [if_pos h2, e, e2, List.getElem?_set_self (by omega),
          List.getElem?_eq_getElem hj]
      · have h2 : ¬ (lo - a ≤ i ∧ i < lo + (cnt + 1) - a) := by omega
        have e2 : fd lo ≠ i := by omega
        rw [if_neg h2, List.getElem?_set_ne e2]

/-- Closed form of a copy loop `for k in [lo, hi): dst[k-a] = src[k-b]`. -/
theorem forLoop_assign_eq {α : Type} (src dst : List α) (fd fs : Nat → Nat) (a b lo hi : Nat)
    (hlo : lo ≤ hi) (ha : a ≤ lo) (hb : b ≤ lo)
    (hf : ∀ k, lo ≤ k → k < hi → fd k = k - a ∧ fs k = k - b)
    (hd : hi - a ≤ dst.length) (hs : hi - b ≤ src.length) :
    forLoop lo hi (fun k d => assignValue d (fd k) src (fs k)) dst =
      .ok (dst.take (lo - a) ++ ((src.drop (lo - b)).take (hi - lo) ++ dst.drop (hi - a))) := by
  obtain ⟨r, hr, hlen, hget⟩ := forLoop_assign src fd fs a b (hi - lo) lo dst ha hb
    (fun k h1 h2 => hf k h1 (by omega)) (by omega) (by omega)
  have e : lo + (hi - lo) = hi := by omega
  rw [e] at hr hget
  rw [hr]
  congr 1
  apply List.ext_getElem?
  intro i
  rw [hget i]
  by_cases h1 : i < lo - a
  · have h2 : ¬ (lo - a ≤ i ∧ i < hi - a) := by omega
    rw [if_neg h2, List.getElem?_append_left (by rw [List.length_take]; omega),
      List.getElem?_take_of_lt h1]
  · have hl : (List.take (lo - a) dst).length = lo - a := by
      rw [List.length_take]; omega
    rw [List.getElem?_append_right (by omega), hl]
    by_cases h3 : i < hi - a
    · have h2 : lo - a ≤ i ∧ i < hi - a := by omega
      rw [if_pos h2, List.getElem?_append_left (by
        rw [List.length_take, List.length_drop]; omega),
        List.getElem?_take_of_lt (by omega), List.getElem?_drop]
      congr 1
      omega
    · have h2 : ¬ (lo - a ≤ i ∧ i < hi - a) := by omega
      have hl2 : (List.take (hi - lo) (List.drop (lo - b) src)).length = hi - lo := by
        rw [List.length_take, List.length_drop]; omega
      rw [if_neg h2, List.getElem?_append_right (by omega), hl2, List.getElem?_drop]
      congr 1
      omega

/-- The loop `for (k = 0; k < m; k++) dst[k] = src[k]`. -/
theorem forLoop_copy_head {α : Type} (src dst : List α) (m : Nat)
    (hd : m ≤ dst.length) (hs : m ≤ src.length) :
    forLoop 0 m (fun k d => assignValue d k src k) dst = .ok (src.take m ++ dst.drop m) := by
  have h := forLoop_assign_eq src dst (fun k => k) (fun k => k) 0 0 0 m (by omega) (by omega)
    (by omega) (fun k _ _ => ⟨rfl, rfl⟩) (by omega) (by omega)
  simpa using h

/-- The loop `for (k = m; k < hi; k++) dst[k] = src[k - m]`. -/
theorem forLoop_copy_append {α : Type} (src dst : List α) (m hi : Nat) (hm : m ≤ hi)
    (h32 : hi < 2 ^ 32) (hd : hi ≤ dst.length) (hs : hi - m ≤ src.length) :
    forLoop m hi (fun k d => assignValue d k src (usub k m)) dst =
      .ok (dst.take m ++ (src.take (hi - m) ++ dst.drop hi)) := by
  have h := forLoop_assign_eq src dst (fun k => k) (fun k => usub k m) 0 m m hi hm (by omega)
    (by omega) (fun k h1 h2 => ⟨rfl, usub_eq h1 (by omega)⟩) (by omega) (by omega)
  simpa using h

/-- The loop `for (k = m; k < hi; k++) dst[k - m] = src[k]`. -/
theorem forLoop_copy_slice {α : Type} (src dst : List α) (m hi : Nat) (hm : m ≤ hi)
    (h32 : hi < 2 ^ 32) (hd : hi - m ≤ dst.length) (hs : hi ≤ src.length) :
    forLoop m hi (fun k d => assignValue d (usub k m) src k) dst =
      .ok ((src.drop m).take (hi - m) ++ dst.drop (hi - m)) := by
  have h := forLoop_assign_eq src dst (fun k => usub k m) (fun k => k) m 0 m hi hm (by omega)
    (by omega) (fun k h1 h2 => ⟨usub_eq h1 (by omega), rfl⟩) (by omega) (by omega)
  simpa using h

/-- The loop `for (k = 0; k < m; k++) out[k] = b[k]` with `b` of length `m`. -/
theorem forLoop_head {α : Type} (b out : List α) (m : Nat) (hb : b.length = m)
    (hout : m ≤ out.length) :
    forLoop 0 m (fun k d => assignValue d k b k) out = .ok (b ++ out.drop m) := by
  rw [forLoop_copy_head _ _ _ hout (by omega), List.take_of_length_le (by omega)]

/-- The loop `for (k = m; k < n; k++) out[k] = f[k - m]` on a buffer of length `n`
whose first `m` entries are `b`. -/
theorem forLoop_tail {α : Type} (b f rest : List α) (m n : Nat) (hmn : m ≤ n)
    (hn : n < 2 ^ 32) (hb : b.length = m) (hf : f.length = n - m)
    (hrest : rest.length = n - m) :
    forLoop m n (fun k d => assignValue d k f (usub k m)) (b ++ rest) = .ok (b ++ f) := by
  rw [forLoop_copy_append _ _ _ _ hmn hn (by rw [List.length_append]; omega) (by omega),
    List.take_left' hb, List.take_of_length_le (by omega : f.length ≤ n - m),
    List.drop_of_length_le (by rw [List.length_append]; omega), List.append_nil]

/-- The loop `for (k = 0; k < m; k++) out[k] = x[k]` filling a buffer of length `m`. -/
theorem forLoop_take {α : Type} (x outB : List α) (m : Nat) (hx : m ≤ x.length)
    (hoB : outB.length = m) :
    forLoop 0 m (fun k d => assignValue d k x k) outB = .ok (x.take m) := by
  rw [forLoop_copy_head _ _ _ (by omega) hx,
    List.drop_of_length_le (by omega : outB.length ≤ m), List.append_nil]

/-- The loop `for (k = m; k < n; k++) out[k - m] = x[k]` filling a buffer of length
`n - m`. -/
theorem forLoop_drop {α : Type} (x outF : List α) (m n : Nat) (hmn : m ≤ n) (hn : n < 2 ^ 32)
    (hx : x.length = n) (hoF : outF.length = n - m) :
    forLoop m n (fun k d => assignValue d (usub k m) x k) outF = .ok (x.drop m) := by
  rw [forLoop_copy_slice _ _ _ _ hmn hn (by omega) (by omega),
    List.drop_of_length_le (by omega : outF.length ≤ n - m), List.append_nil,
    List.take_of_length_le (by rw [List.length_drop]; omega)]

/-! ## Evaluation lemmas -/

theorem ok_bind {ε α β : Type} (x : α) (f : α → Except ε β) : (Except.ok x >>= f) = f x := by
  simp only [bind, Except.bind]

theorem component_zero {α : Type} (c : State α) (cs : List (State α)) :
    component (c :: cs) 0 = .ok c := by
  simp only [component, List.get?]

theorem component_one {α : Type} (c d : State α) (cs : List (State α)) :
    component (c :: d :: cs) 1 = .ok d := by
  simp only [component, List.get?]

theorem asSO2_SO2 {α : Type} (s : α) : (State.SO2 s).asSO2 = .ok s := by
  simp only [State.asSO2]

theorem asSE2_SE2 {α : Type} (s : SE2State α) : (State.SE2 s).asSE2 = .ok s := by
  simp only [State.asSE2]

theorem asSE3_SE3 {α : Type} (s : SE3State α) : (State.SE3 s).asSE3 = .ok s := by
  simp only [State.asSE3]

theorem asRealVector_RealVector {α : Type} (v : List α) :
    (State.RealVector v).asRealVector = .ok v := by
  simp only [State.asRealVector]

theorem asCompound_Compound {α : Type} (v : List (State α)) :
    (State.Compound v).asCompound = .ok v := by
  simp only [State.asCompound]

theorem set_pair {β : Type} (a b c d : β) : ([a, b].set 0 c).set 1 d = [c, d] := by
  simp only [List.set]

/-! ## The vector-in-vector operators -/

theorem computeQuotientSpace_RN_RM (n m : Nat) (hm : 0 < m) (hmn : m < n) (hn : n < 2 ^ 32) :
    computeQuotientSpace (RealVectorStateSpace n) (RealVectorStateSpace m) =
      .ok (QuotientSpace.mk .RN_RM n m (n - m) (some (RealVectorStateSpace (n - m))) true) := by
  have h1 : n > m ∧ m > 0 := ⟨hmn, hm⟩
  have h2 : ¬ (m = 0 ∨ n = 0) := by omega
  simp [computeQuotientSpace, identifyQuotientSpaceType, RealVectorStateSpace,
    StateSpace.isCompound, StateSpace.getType, StateSpace.getDimension, h1, h2, bind,
    Except.bind, usub_eq (Nat.le_of_lt hmn) hn]

theorem mergeStates_RN_RM {α : Type} (n m : Nat) (hmn : m ≤ n) (hn : n < 2 ^ 32)
    (X1 : StateSpace) (X1d : Nat) (b f out : List α)
    (hb : b.length = m) (hf : f.length = n - m) (hout : out.length = n) :
    (QuotientSpace.mk .RN_RM n m X1d (some X1) true).mergeStates
      (.RealVector b) (.RealVector f) (.RealVector out) = .ok (.RealVector (b ++ f)) := by
  simp only [QuotientSpace.mergeStates]
  rw [if_neg (by simp)]
  simp only [asRealVector_RealVector, ok_bind]
  rw [forLoop_head b out m hb (by omega), ok_bind,
    forLoop_tail b f _ m n hmn hn hb hf (by rw [List.length_drop]; omega), ok_bind]

theorem projectQ0Subspace_RN_RM {α : Type} (n m : Nat) (hmn : m ≤ n)
    (X1 : Option StateSpace) (X1d : Nat) (p : Bool) (x outB : List α)
    (hx : x.length = n) (hoB : outB.length = m) :
    (QuotientSpace.mk .RN_RM n m X1d X1 p).projectQ0Subspace
      (.RealVector x) (.RealVector outB) = .ok (.RealVector (x.take m)) := by
  simp only [QuotientSpace.projectQ0Subspace]
  simp only [asRealVector_RealVector, ok_bind]
  rw [forLoop_take x outB m (by omega) hoB, ok_bind]

theorem projectX1Subspace_RN_RM {α : Type} (n m : Nat) (hmn : m ≤ n) (hn : n < 2 ^ 32)
    (X1 : Option StateSpace) (X1d : Nat) (p : Bool) (x outF : List α)
    (hx : x.length = n) (hoF : outF.length = n - m) :
    (QuotientSpace.mk .RN_RM n m X1d X1 p).projectX1Subspace
      (.RealVector x) (.RealVector outF) = .ok (.RealVector (x.drop m)) := by
  simp only [QuotientSpace.projectX1Subspace]
  simp only [asRealVector_RealVector, ok_bind]
  rw [forLoop_drop x outF m n hmn hn hx hoF, ok_bind]

/-! ## The operators of a pose with extra coordinates over the same pose with fewer -/

theorem computeQuotientSpace_SE2RN_SE2RM (n m : Nat) (hm : 0 < m) (hmn : m < n)
    (hn : n < 2 ^ 32) :
    computeQuotientSpace (XRN SE2StateSpace n) (XRN SE2StateSpace m) =
      .ok (QuotientSpace.mk .SE2RN_SE2RM (3 + n) (3 + m) (n - m)
        (some (RealVectorStateSpace (n - m))) true) := by
  have h1 : m < n ∧ m > 0 := ⟨hmn, hm⟩
  simp [computeQuotientSpace, identifyQuotientSpaceType, XRN, SE2StateSpace, SO2StateSpace,
    RealVectorStateSpace, StateSpace.isCompound, StateSpace.getType, StateSpace.getDimension,
    StateSpace.getSubspaces, vectorAt, toUnsigned, h1, bind, Except.bind,
    usub_eq (Nat.le_of_lt hmn) hn]

theorem computeQuotientSpace_SE3RN_SE3RM (n m : Nat) (hm : 0 < m) (hmn : m < n)
    (hn : n < 2 ^ 32) :
    computeQuotientSpace (XRN SE3StateSpace n) (XRN SE3StateSpace m) =
      .ok (QuotientSpace.mk .SE3RN_SE3RM (6 + n) (6 + m) (n - m)
        (some (RealVectorStateSpace (n - m))) true) := by
  have h1 : m < n ∧ m > 0 := ⟨hmn, hm⟩
  simp [computeQuotientSpace, identifyQuotientSpaceType, XRN, SE3StateSpace, SO3StateSpace,
    RealVectorStateSpace, StateSpace.isCompound, StateSpace.getType, StateSpace.getDimension,
    StateSpace.getSubspaces, vectorAt, toUnsigned, h1, bind, Except.bind,
    usub_eq (Nat.le_of_lt hmn) hn]

theorem mergeStates_SE2RN_SE2RM {α : Type} (n m : Nat) (hmn : m ≤ n) (hn : 3 + n < 2 ^ 32)
    (X1 : StateSpace) (sb so : SE2State α) (vb vf vo : List α)
    (hb : vb.length = m) (hf : vf.length = n - m) (hout : vo.length = n) :
    (QuotientSpace.mk .SE2RN_SE2RM (3 + n) (3 + m) (n - m) (some X1) true).mergeStates
      (.Compound [.SE2 sb, .RealVector vb]) (.RealVector vf)
      (.Compound [.SE2 so, .RealVector vo]) =
      .ok (.Compound [.SE2 sb, .RealVector (vb ++ vf)]) := by
  have e1 : usub (usub (3 + n) (n - m)) 3 = m := by
    rw [usub_eq (by omega) hn, usub_eq (by omega) (by omega)]; omega
  have e2 : uadd m (n - m) = n := by rw [uadd_eq (by omega)]; omega
  simp only [QuotientSpace.mergeStates]
  rw [if_neg (by simp)]
  simp only [asCompound_Compound, ok_bind, component_zero, component_one, asSE2_SE2,
    asRealVector_RealVector, e1, e2]
  rw [forLoop_head vb vo m hb (by omega), ok_bind,
    forLoop_tail vb vf _ m n hmn (by omega) hb hf (by rw [List.length_drop]; omega), ok_bind,
    set_pair]

theorem projectQ0Subspace_SE2RN_SE2RM {α : Type} (n m : Nat) (hmn : m ≤ n)
    (hn : 3 + n < 2 ^ 32) (X1 : Option StateSpace) (X1d : Nat) (p : Bool) (s so : SE2State α)
    (v vo : List α) (hv : v.length = n) (hvo : vo.length = m) :
    (QuotientSpace.mk .SE2RN_SE2RM (3 + n) (3 + m) X1d X1 p).projectQ0Subspace
      (.Compound [.SE2 s, .RealVector v]) (.Compound [.SE2 so, .RealVector vo]) =
      .ok (.Compound [.SE2 s, .RealVector (v.take m)]) := by
  have e1 : usub (3 + m) 3 = m := by rw [usub_eq (by omega) (by omega)]; omega
  simp only [QuotientSpace.projectQ0Subspace]
  simp only [asCompound_Compound, ok_bind, component_zero, component_one, asSE2_SE2,
    asRealVector_RealVector, e1]
  rw [forLoop_take v vo m (by omega) hvo, ok_bind, set_pair]

theorem projectX1Subspace_SE2RN_SE2RM {α : Type} (n m : Nat) (hmn : m ≤ n)
    (hn : 3 + n < 2 ^ 32) (X1 : Option StateSpace) (p : Bool) (s : SE2State α)
    (v vo : List α) (hv : v.length = n) (hvo : vo.length = n - m) :
    (QuotientSpace.mk .SE2RN_SE2RM (3 + n) (3 + m) (n - m) X1 p).projectX1Subspace
      (.Compound [.SE2 s, .RealVector v]) (.RealVector vo) = .ok (.RealVector (v.drop m)) := by
  have e1 : usub (usub (3 + n) (n - m)) 3 = m := by
    rw [usub_eq (by omega) hn, usub_eq (by omega) (by omega)]; omega
  have e2 : usub (3 + n) 3 = n := by rw [usub_eq (by omega) (by omega)]; omega
  simp only [QuotientSpace.projectX1Subspace]
  simp only [asCompound_Compound, ok_bind, component_zero, component_one, asSE2_SE2,
    asRealVector_RealVector, e1, e2]
  rw [forLoop_drop v vo m n hmn (by omega) hv hvo, ok_bind]

theorem mergeStates_SE3RN_SE3RM {α : Type} (n m : Nat) (hmn : m ≤ n) (hn : 6 + n < 2 ^ 32)
    (X1 : StateSpace) (sb so : SE3State α) (vb vf vo : List α)
    (hb : vb.length = m) (hf : vf.length = n - m) (hout : vo.length = n) :
    (QuotientSpace.mk .SE3RN_SE3RM (6 + n) (6 + m) (n - m) (some X1) true).mergeStates
      (.Compound [.SE3 sb, .RealVector vb]) (.RealVector vf)
      (.Compound [.SE3 so, .RealVector vo]) =
      .ok (.Compound [.SE3 sb, .RealVector (vb ++ vf)]) := by
  have e1 : usub (usub (6 + n) (n - m)) 6 = m := by
    rw [usub_eq (by omega) hn, usub_eq (by omega) (by omega)]; omega
  have e2 : uadd m (n - m) = n := by rw [uadd_eq (by omega)]; omega
  simp only [QuotientSpace.mergeStates]
  rw [if_neg (by simp)]
  simp only [asCompound_Compound, ok_bind, component_zero, component_one, asSE3_SE3,
    asRealVector_RealVector, e1, e2]
  rw [forLoop_head vb vo m hb (by omega), ok_bind,
    forLoop_tail vb vf _ m n hmn (by omega) hb hf (by rw [List.length_drop]; omega), ok_bind,
    set_pair]

theorem projectQ0Subspace_SE3RN_SE3RM {α : Type} (n m : Nat) (hmn : m ≤ n)
    (hn : 6 + n < 2 ^ 32) (X1 : Option StateSpace) (X1d : Nat) (p : Bool) (s so : SE3State α)
    (v vo : List α) (hv : v.length = n) (hvo : vo.length = m) :
    (QuotientSpace.mk .SE3RN_SE3RM (6 + n) (6 + m) X1d X1 p).projectQ0Subspace
      (.Compound [.SE3 s, .RealVector v]) (.Compound [.SE3 so, .RealVector vo]) =
      .ok (.Compound [.SE3 s, .RealVector (v.take m)]) := by
  have e1 : usub (6 + m) 6 = m := by rw [usub_eq (by omega) (by omega)]; omega
  simp only [QuotientSpace.projectQ0Subspace]
  simp only [asCompound_Compound, ok_bind, component_zero, component_one, asSE3_SE3,
    asRealVector_RealVector, e1]
  rw [forLoop_take v vo m (by omega) hvo, ok_bind, set_pair]

theorem projectX1Subspace_SE3RN_SE3RM {α : Type} (n m : Nat) (hmn : m ≤ n)
    (hn : 6 + n < 2 ^ 32) (X1 : Option StateSpace) (p : Bool) (s : SE3State α)
    (v vo : List α) (hv : v.length = n) (hvo : vo.length = n - m) :
    (QuotientSpace.mk .SE3RN_SE3RM (6 + n) (6 + m) (n - m) X1 p).projectX1Subspace
      (.Compound [.SE3 s, .RealVector v]) (.RealVector vo) = .ok (.RealVector (v.drop m)) := by
  have e1 : usub (usub (6 + n) (n - m)) 6 = m := by
    rw [usub_eq (by omega) hn, usub_eq (by omega) (by omega)]; omega
  have e2 : usub (6 + n) 6 = n := by rw [usub_eq (by omega) (by omega)]; omega
  simp only [QuotientSpace.projectX1Subspace]
  simp only [asCompound_Compound, ok_bind, component_zero, component_one, asSE3_SE3,
    asRealVector_RealVector, e1, e2]
  rw [forLoop_drop v vo m n hmn (by omega) hv hvo, ok_bind]

/-! ## Claims on the state operators -/

/-- C1: for the vector-in-vector decomposition with Bundle dimension `n` and Base
dimension `m`, `n > m > 0`, the quotient space is constructed, and for every Base
state `b` (`m` coordinates), Fiber state `f` (`n - m` coordinates) and Bundle state
`x` (`n` coordinates), whatever the output buffers hold beforehand:
`projectQ0Subspace (mergeStates b f) = b`, `projectX1Subspace (mergeStates b f) = f`
and `mergeStates (projectQ0Subspace x) (projectX1Subspace x) = x`, as equalities
of the coordinate arrays. -/
theorem C1_RN_RM_round_trip {α : Type} (n m : Nat) (hm : 0 < m) (hmn : m < n)
    (hn : n < 2 ^ 32) (b f x out outB outF : List α) (hb : b.length = m)
    (hf : f.length = n - m) (hx : x.length = n) (hout : out.length = n)
    (hoB : outB.length = m) (hoF : outF.length = n - m) :
    ∃ self, computeQuotientSpace (RealVectorStateSpace n) (RealVectorStateSpace m) = .ok self ∧
      RoundTrip self (.RealVector b) (.RealVector f) (.RealVector x)
        (.RealVector out) (.RealVector outB) (.RealVector outF) := by
  have hle : m ≤ n := Nat.le_of_lt hmn
  have hbf : (b ++ f).length = n := by rw [List.length_append]; omega
  refine ⟨_, computeQuotientSpace_RN_RM n m hm hmn hn, ⟨?_, ?_⟩⟩
  · refine ⟨.RealVector (b ++ f), mergeStates_RN_RM n m hle hn _ _ b f out hb hf hout, ?_, ?_⟩
    · rw [projectQ0Subspace_RN_RM n m hle _ _ _ _ outB hbf hoB, List.take_left' hb]
    · rw [projectX1Subspace_RN_RM n m hle hn _ _ _ _ outF hbf hoF, List.drop_left' hb]
  · refine ⟨.RealVector (x.take m), .RealVector (x.drop m),
      projectQ0Subspace_RN_RM n m hle _ _ _ x outB hx hoB,
      projectX1Subspace_RN_RM n m hle hn _ _ _ x outF hx hoF, ?_⟩
    rw [mergeStates_RN_RM n m hle hn _ _ _ _ out (by rw [List.length_take]; omega)
      (by rw [List.length_drop]; omega) hout, List.take_append_drop]

/-- Witness of C1 at `n = 5`, `m = 3` with natural-number coordinates. -/
theorem C1_RN_RM_round_trip_witness :
    ∃ self, computeQuotientSpace (RealVectorStateSpace 5) (RealVectorStateSpace 3) = .ok self ∧
      RoundTrip self (.RealVector [1, 2, 3]) (.RealVector [4, 5])
        (.RealVector [6, 7, 8, 9, 10]) (.RealVector [0, 0, 0, 0, 0]) (.RealVector [0, 0, 0])
        (.RealVector [0, (0 : Nat)]) :=
  C1_RN_RM_round_trip 5 3 (by decide) (by decide) (by decide) [1, 2, 3] [4, 5]
    [6, 7, 8, 9, 10] [0, 0, 0, 0, 0] [0, 0, 0] [0, 0] rfl rfl rfl rfl rfl rfl

/-- C2 (the code at a failing input): for Bundle `SO2 x R^3` over Base `SO2 x R^2`
the quotient space is constructed, but `projectX1Subspace` of the Bundle state with
vector part `[10, 20, 30]` returns the Fiber `[10]`, the coordinate at index
`m - 2 = 0`, not the trailing coordinate `30` at index `m = 2`; and after
`mergeStates b f` with `f = [30]` the projection returns `[10]`, not `f`. -/
theorem C2_SO2RN_SO2RM_projectX1Subspace_reads_wrong_slot :
    ∃ self, computeQuotientSpace (XRN SO2StateSpace 3) (XRN SO2StateSpace 2) = .ok self ∧
      self.projectX1Subspace (.Compound [.SO2 7, .RealVector [10, 20, 30]])
        (.RealVector [(0 : Nat)]) = .ok (.RealVector [10]) ∧
      ∃ y, self.mergeStates (.Compound [.SO2 7, .RealVector [10, 20]]) (.RealVector [30])
          (.Compound [.SO2 0, .RealVector [0, 0, 0]]) = .ok y ∧
        y = .Compound [.SO2 7, .RealVector [10, 20, 30]] ∧
        self.projectX1Subspace y (.RealVector [(0 : Nat)]) = .ok (.RealVector [10]) :=
  ⟨QuotientSpace.mk .SO2RN_SO2RM 4 3 1 (some (RealVectorStateSpace 1)) true, rfl, rfl,
    .Compound [.SO2 7, .RealVector [10, 20, 30]], rfl, rfl, rfl⟩

/-- C3: for Bundle `SE2 x R^n` over Base `SE2 x R^m` and for Bundle `SE3 x R^n` over
Base `SE3 x R^m`, `0 < m < n`, the quotient space is constructed and, whatever the
output buffers hold beforehand: `projectQ0Subspace` yields the pose and the leading
`m` vector coordinates, `projectX1Subspace` yields the trailing `n - m` vector
coordinates, `mergeStates` yields the pose of the Base state and the vector
coordinates of the Base state followed by those of the Fiber state, and the three
round-trip laws hold. -/
theorem C3_XRN_XRM_slots_and_round_trip {α : Type} (n m : Nat) (hm : 0 < m) (hmn : m < n)
    (hn : 6 + n < 2 ^ 32) (v vb vf vo voB voF : List α)
    (s sb so soB : SE2State α) (t tb tq tqB : SE3State α)
    (hv : v.length = n) (hvb : vb.length = m) (hvf : vf.length = n - m)
    (hvo : vo.length = n) (hvoB : voB.length = m) (hvoF : voF.length = n - m) :
    (∃ self, computeQuotientSpace (XRN SE2StateSpace n) (XRN SE2StateSpace m) = .ok self ∧
      self.projectQ0Subspace (.Compound [.SE2 s, .RealVector v])
          (.Compound [.SE2 soB, .RealVector voB])
        = .ok (.Compound [.SE2 s, .RealVector (v.take m)]) ∧
      self.projectX1Subspace (.Compound [.SE2 s, .RealVector v]) (.RealVector voF)
        = .ok (.RealVector (v.drop m)) ∧
      self.mergeStates (.Compound [.SE2 sb, .RealVector vb]) (.RealVector vf)
          (.Compound [.SE2 so, .RealVector vo])
        = .ok (.Compound [.SE2 sb, .RealVector (vb ++ vf)]) ∧
      RoundTrip self (.Compound [.SE2 sb, .RealVector vb]) (.RealVector vf)
        (.Compound [.SE2 s, .RealVector v]) (.Compound [.SE2 so, .RealVector vo])
        (.Compound [.SE2 soB, .RealVector voB]) (.RealVector voF)) ∧
    (∃ self, computeQuotientSpace (XRN SE3StateSpace n) (XRN SE3StateSpace m) = .ok self ∧
      self.projectQ0Subspace (.Compound [.SE3 t, .RealVector v])
          (.Compound [.SE3 tqB, .RealVector voB])
        = .ok (.Compound [.SE3 t, .RealVector (v.take m)]) ∧
      self.projectX1Subspace (.Compound [.SE3 t, .RealVector v]) (.RealVector voF)
        = .ok (.RealVector (v.drop m)) ∧
      self.mergeStates (.Compound [.SE3 tb, .RealVector vb]) (.RealVector vf)
          (.Compound [.SE3 tq, .RealVector vo])
        = .ok (.Compound [.SE3 tb, .RealVector (vb ++ vf)]) ∧
      RoundTrip self (.Compound [.SE3 tb, .RealVector vb]) (.RealVector vf)
        (.Compound [.SE3 t, .RealVector v]) (.Compound [.SE3 tq, .RealVector vo])
        (.Compound [.SE3 tqB, .RealVector voB]) (.RealVector voF)) := by
  have hle : m ≤ n := Nat.le_of_lt hmn
  have h3 : 3 + n < 2 ^ 32 := by omega
  have hbf : (vb ++ vf).length = n := by rw [List.length_append]; omega
  have htk : (v.take m).length = m := by rw [List.length_take]; omega
  have hdr : (v.drop m).length = n - m := by rw [List.length_drop]; omega
  constructor
  · refine ⟨_, computeQuotientSpace_SE2RN_SE2RM n m hm hmn (by omega),
      projectQ0Subspace_SE2RN_SE2RM n m hle h3 _ _ _ s soB v voB hv hvoB,
      projectX1Subspace_SE2RN_SE2RM n m hle h3 _ _ s v voF hv hvoF,
      mergeStates_SE2RN_SE2RM n m hle h3 _ sb so vb vf vo hvb hvf hvo, ⟨?_, ?_⟩⟩
    · refine ⟨_, mergeStates_SE2RN_SE2RM n m hle h3 _ sb so vb vf vo hvb hvf hvo, ?_, ?_⟩
      · rw [projectQ0Subspace_SE2RN_SE2RM n m hle h3 _ _ _ sb soB _ voB hbf hvoB,
          List.take_left' hvb]
      · rw [projectX1Subspace_SE2RN_SE2RM n m hle h3 _ _ sb _ voF hbf hvoF,
          List.drop_left' hvb]
    · refine ⟨_, _, projectQ0Subspace_SE2RN_SE2RM n m hle h3 _ _ _ s soB v voB hv hvoB,
        projectX1Subspace_SE2RN_SE2RM n m hle h3 _ _ s v voF hv hvoF, ?_⟩
      rw [mergeStates_SE2RN_SE2RM n m hle h3 _ s so _ _ vo htk hdr hvo, List.take_append_drop]
  · refine ⟨_, computeQuotientSpace_SE3RN_SE3RM n m hm hmn (by omega),
      projectQ0Subspace_SE3RN_SE3RM n m hle hn _ _ _ t tqB v voB hv hvoB,
      projectX1Subspace_SE3RN_SE3RM n m hle hn _ _ t v voF hv hvoF,
      mergeStates_SE3RN_SE3RM n m hle hn _ tb tq vb vf vo hvb hvf hvo, ⟨?_, ?_⟩⟩
    · refine ⟨_, mergeStates_SE3RN_SE3RM n m hle hn _ tb tq vb vf vo hvb hvf hvo, ?_, ?_⟩
      · rw [projectQ0Subspace_SE3RN_SE3RM n m hle hn _ _ _ tb tqB _ voB hbf hvoB,
          List.take_left' hvb]
      · rw [projectX1Subspace_SE3RN_SE3RM n m hle hn _ _ tb _ voF hbf hvoF,
          List.drop_left' hvb]
    · refine ⟨_, _, projectQ0Subspace_SE3RN_SE3RM n m hle hn _ _ _ t tqB v voB hv hvoB,
        projectX1Subspace_SE3RN_SE3RM n m hle hn _ _ t v voF hv hvoF, ?_⟩
      rw [mergeStates_SE3RN_SE3RM n m hle hn _ t tq _ _ vo htk hdr hvo, List.take_append_drop]

/-- Witness of C3 at `n = 3`, `m = 1` with natural-number coordinates. -/
theorem C3_XRN_XRM_slots_and_round_trip_witness :
    (∃ self, computeQuotientSpace (XRN SE2StateSpace 3) (XRN SE2StateSpace 1) = .ok self ∧
      self.projectQ0Subspace (.Compound [.SE2 ⟨1, 2, 3⟩, .RealVector [4, 5, 6]])
          (.Compound [.SE2 ⟨0, 0, 0⟩, .RealVector [0]])
        = .ok (.Compound [.SE2 ⟨1, 2, 3⟩, .RealVector [(4 : Nat)]]) ∧
      self.projectX1Subspace (.Compound [.SE2 ⟨1, 2, 3⟩, .RealVector [4, 5, 6]])
          (.RealVector [0, 0])
        = .ok (.RealVector [5, (6 : Nat)]) ∧
      self.mergeStates (.Compound [.SE2 ⟨7, 8, 9⟩, .RealVector [10]]) (.RealVector [11, 12])
          (.Compound [.SE2 ⟨0, 0, 0⟩, .RealVector [0, 0, 0]])
        = .ok (.Compound [.SE2 ⟨7, 8, 9⟩, .RealVector [10, 11, (12 : Nat)]]) ∧
      RoundTrip self (.Compound [.SE2 ⟨7, 8, 9⟩, .RealVector [10]]) (.RealVector [11, 12])
        (.Compound [.SE2 ⟨1, 2, 3⟩, .RealVector [4, 5, 6]])
        (.Compound [.SE2 ⟨0, 0, 0⟩, .RealVector [0, 0, 0]])
        (.Compound [.SE2 ⟨0, 0, 0⟩, .RealVector [0]]) (.RealVector [0, (0 : Nat)])) ∧
    (∃ self, computeQuotientSpace (XRN SE3StateSpace 3) (XRN SE3StateSpace 1) = .ok self ∧
      self.projectQ0Subspace (.Compound [.SE3 ⟨1, 2, 3, ⟨0, 0, 0, 1⟩⟩, .RealVector [4, 5, 6]])
          (.Compound [.SE3 ⟨0, 0, 0, ⟨0, 0, 0, 0⟩⟩, .RealVector [0]])
        = .ok (.Compound [.SE3 ⟨1, 2, 3, ⟨0, 0, 0, 1⟩⟩, .RealVector [(4 : Nat)]]) ∧
      self.projectX1Subspace (.Compound [.SE3 ⟨1, 2, 3, ⟨0, 0, 0, 1⟩⟩, .RealVector [4, 5, 6]])
          (.RealVector [0, 0])
        = .ok (.RealVector [5, (6 : Nat)]) ∧
      self.mergeStates (.Compound [.SE3 ⟨7, 8, 9, ⟨1, 0, 0, 0⟩⟩, .RealVector [10]])
          (.RealVector [11, 12])
          (.Compound [.SE3 ⟨0, 0, 0, ⟨0, 0, 0, 0⟩⟩, .RealVector [0, 0, 0]])
        = .ok (.Compound [.SE3 ⟨7, 8, 9, ⟨1, 0, 0, 0⟩⟩, .RealVector [10, 11, (12 : Nat)]]) ∧
      RoundTrip self (.Compound [.SE3 ⟨7, 8, 9, ⟨1, 0, 0, 0⟩⟩, .RealVector [10]])
        (.RealVector [11, 12])
        (.Compound [.SE3 ⟨1, 2, 3, ⟨0, 0, 0, 1⟩⟩, .RealVector [4, 5, 6]])
        (.Compound [.SE3 ⟨0, 0, 0, ⟨0, 0, 0, 0⟩⟩, .RealVector [0, 0, 0]])
        (.Compound [.SE3 ⟨0, 0, 0, ⟨0, 0, 0, 0⟩⟩, .RealVector [0]])
        (.RealVector [0, (0 : Nat)])) :=
  C3_XRN_XRM_slots_and_round_trip 3 1 (by decide) (by decide) (by decide)
    [4, 5, 6] [10] [11, 12] [0, 0, 0] [0] [0, 0]
    ⟨1, 2, 3⟩ ⟨7, 8, 9⟩ ⟨0, 0, 0⟩ ⟨0, 0, 0⟩
    ⟨1, 2, 3, ⟨0, 0, 0, 1⟩⟩ ⟨7, 8, 9, ⟨1, 0, 0, 0⟩⟩ ⟨0, 0, 0, ⟨0, 0, 0, 0⟩⟩
    ⟨0, 0, 0, ⟨0, 0, 0, 0⟩⟩ rfl rfl rfl rfl rfl rfl

/-! ## Accessors on constructors -/

theorem getType_simple (t : StateSpaceType) (d : Nat) : (StateSpace.simple t d).getType = t :=
  rfl

theorem getType_compound (t : StateSpaceType) (d : Nat) (l : List StateSpace) :
    (StateSpace.compound t d l).getType = t :=
  rfl

theorem getDimension_simple (t : StateSpaceType) (d : Nat) :
    (StateSpace.simple t d).getDimension = d :=
  rfl

theorem getDimension_compound (t : StateSpaceType) (d : Nat) (l : List StateSpace) :
    (StateSpace.compound t d l).getDimension = d :=
  rfl

theorem isCompound_simple (t : StateSpaceType) (d : Nat) :
    (StateSpace.simple t d).isCompound = false :=
  rfl

theorem isCompound_compound (t : StateSpaceType) (d : Nat) (l : List StateSpace) :
    (StateSpace.compound t d l).isCompound = true :=
  rfl

theorem getSubspaces_compound (t : StateSpaceType) (d : Nat) (l : List StateSpace) :
    (StateSpace.compound t d l).getSubspaces = .ok l :=
  rfl

/-! ## Claims on the classifier -/

/-- C4: for a non-composite vector Bundle of dimension `n` and a non-composite
vector Base of dimension `m`, the classifier returns `RN_RM` when `n > m > 0`,
`IDENTITY_PROJECTION` when `n = m > 0`, `EMPTY_SET_PROJECTION` when `m = 0`, and
throws (returning no type) when `n < m`; in particular it throws for Bundle
`R^3` and Base `R^5`. -/
theorem C4_classify_vector_over_vector (n m : Nat) :
    (m < n → 0 < m →
      identifyBundleSpaceComponentType (RealVectorStateSpace n) (some (RealVectorStateSpace m))
        = .ok .RN_RM) ∧
    (n = m → 0 < m →
      identifyBundleSpaceComponentType (RealVectorStateSpace n) (some (RealVectorStateSpace m))
        = .ok .IDENTITY_PROJECTION) ∧
    (m = 0 →
      identifyBundleSpaceComponentType (RealVectorStateSpace n) (some (RealVectorStateSpace m))
        = .ok .EMPTY_SET_PROJECTION) ∧
    (n < m →
      identifyBundleSpaceComponentType (RealVectorStateSpace n) (some (RealVectorStateSpace m))
        = .error (.exception .Invalid_dimensionality)) ∧
    identifyBundleSpaceComponentType (RealVectorStateSpace 3) (some (RealVectorStateSpace 5))
      = .error (.exception .Invalid_dimensionality) := by
  refine ⟨?_, ?_, ?_, ?_, by decide⟩
  · intro h1 h2
    have h : n > m ∧ m > 0 := ⟨h1, h2⟩
    simp [identifyBundleSpaceComponentType, RealVectorStateSpace, isCompound_simple,
      getType_simple, getDimension_simple, h]
  · intro h1 h2
    subst h1
    simp [identifyBundleSpaceComponentType, RealVectorStateSpace, isCompound_simple,
      getType_simple, getDimension_simple, h2]
  · intro h1
    subst h1
    simp [identifyBundleSpaceComponentType, RealVectorStateSpace, StateSpace.isCompound,
      StateSpace.getType, StateSpace.getDimension]
  · intro h1
    have h2 : ¬ (n > m ∧ m > 0) := by omega
    have h3 : ¬ (n = m ∧ m > 0) := by omega
    have h4 : ¬ (m = 0) := by omega
    simp [identifyBundleSpaceComponentType, RealVectorStateSpace, isCompound_simple,
      getType_simple, getDimension_simple, h2, h3, h4]

/-- Witness of C4: the four cases at `(5, 3)`, `(4, 4)`, `(4, 0)` and `(3, 5)`. -/
theorem C4_classify_vector_over_vector_witness :
    identifyBundleSpaceComponentType (RealVectorStateSpace 5) (some (RealVectorStateSpace 3))
      = .ok .RN_RM ∧
    identifyBundleSpaceComponentType (RealVectorStateSpace 4) (some (RealVectorStateSpace 4))
      = .ok .IDENTITY_PROJECTION ∧
    identifyBundleSpaceComponentType (RealVectorStateSpace 4) (some (RealVectorStateSpace 0))
      = .ok .EMPTY_SET_PROJECTION ∧
    identifyBundleSpaceComponentType (RealVectorStateSpace 3) (some (RealVectorStateSpace 5))
      = .error (.exception .Invalid_dimensionality) :=
  ⟨(C4_classify_vector_over_vector 5 3).1 (by decide) (by decide),
   (C4_classify_vector_over_vector 4 4).2.1 rfl (by decide),
   (C4_classify_vector_over_vector 4 0).2.2.1 rfl,
   (C4_classify_vector_over_vector 3 5).2.2.2.1 (by decide)⟩

/-- C5 (the code at a failing input): for Bundle `SE2` and Base `SE2` the
classifier returns `IDENTITY_PROJECTION`, but for Bundle `SE3` and Base `SE3` it
throws "Invalid BundleSpace type" and returns no type. -/
theorem C5_classify_SE3_over_SE3_throws :
    identifyBundleSpaceComponentType SE2StateSpace (some SE2StateSpace)
      = .ok .IDENTITY_PROJECTION ∧
    identifyBundleSpaceComponentType SE3StateSpace (some SE3StateSpace)
      = .error (.exception .Invalid_BundleSpace_type) := by
  decide

/-- C6 (counterexample): the Base `R^0` has dimension 0, yet for the Bundle `SO2`,
a non-composite space that is not a vector space, the classifier does not return
`EMPTY_SET_PROJECTION`: it throws "INVALID_STATE_TYPE". -/
theorem C6_counterexample_SO2_over_R0 :
    (RealVectorStateSpace 0).getDimension = 0 ∧
    identifyBundleSpaceComponentType SO2StateSpace (some (RealVectorStateSpace 0))
      = .error (.exception .INVALID_STATE_TYPE) ∧
    identifyBundleSpaceComponentType SO2StateSpace (some (RealVectorStateSpace 0))
      ≠ .ok .EMPTY_SET_PROJECTION := by
  decide

/-- C6 (amended): for every Base of vector type and dimension 0, the classifier
returns `EMPTY_SET_PROJECTION` when the Bundle is a non-composite vector space,
`SE2`, `SE3`, `SE2 x R^n` or `SE3 x R^n`; for a non-composite Bundle that is not
a vector space it throws "INVALID_STATE_TYPE" whatever the Base. -/
theorem C6_classify_over_zero_dimensional_vector_Base (Base : StateSpace)
    (ht : Base.getType = .STATE_SPACE_REAL_VECTOR) (hd : Base.getDimension = 0) (n : Nat) :
    identifyBundleSpaceComponentType (RealVectorStateSpace n) (some Base)
      = .ok .EMPTY_SET_PROJECTION ∧
    identifyBundleSpaceComponentType SE2StateSpace (some Base) = .ok .EMPTY_SET_PROJECTION ∧
    identifyBundleSpaceComponentType SE3StateSpace (some Base) = .ok .EMPTY_SET_PROJECTION ∧
    identifyBundleSpaceComponentType (XRN SE2StateSpace n) (some Base)
      = .ok .EMPTY_SET_PROJECTION ∧
    identifyBundleSpaceComponentType (XRN SE3StateSpace n) (some Base)
      = .ok .EMPTY_SET_PROJECTION ∧
    (∀ (t : StateSpaceType) (d : Nat) (Base' : StateSpace), t ≠ .STATE_SPACE_REAL_VECTOR →
      identifyBundleSpaceComponentType (.simple t d) (some Base')
        = .error (.exception .INVALID_STATE_TYPE)) := by
  refine ⟨?_, ?_, ?_, ?_, ?_, ?_⟩
  · simp [identifyBundleSpaceComponentType, RealVectorStateSpace, isCompound_simple,
      getType_simple, getDimension_simple, ht, hd]
  · simp [identifyBundleSpaceComponentType, SE2StateSpace, isCompound_compound,
      getType_compound, ht, hd]
  · simp [identifyBundleSpaceComponentType, SE3StateSpace, isCompound_compound,
      getType_compound, ht, hd]
  · simp [identifyBundleSpaceComponentType, XRN, SE2StateSpace, RealVectorStateSpace,
      isCompound_compound, getType_compound, getType_simple, getSubspaces_compound, vectorAt,
      toUnsigned, bind, Except.bind, ht, hd]
  · simp [identifyBundleSpaceComponentType, XRN, SE3StateSpace, RealVectorStateSpace,
      isCompound_compound, getType_compound, getType_simple, getSubspaces_compound, vectorAt,
      toUnsigned, bind, Except.bind, ht, hd]
  · intro t d Base' h
    simp [identifyBundleSpaceComponentType, isCompound_simple, getType_simple, h]

/-- Witness of the amended C6 at the Base `R^0` and `n = 4`. -/
theorem C6_classify_over_zero_dimensional_vector_Base_witness :
    identifyBundleSpaceComponentType (RealVectorStateSpace 4) (some (RealVectorStateSpace 0))
      = .ok .EMPTY_SET_PROJECTION ∧
    identifyBundleSpaceComponentType SE2StateSpace (some (RealVectorStateSpace 0))
      = .ok .EMPTY_SET_PROJECTION ∧
    identifyBundleSpaceComponentType SE3StateSpace (some (RealVectorStateSpace 0))
      = .ok .EMPTY_SET_PROJECTION ∧
    identifyBundleSpaceComponentType (XRN SE2StateSpace 4) (some (RealVectorStateSpace 0))
      = .ok .EMPTY_SET_PROJECTION ∧
    identifyBundleSpaceComponentType (XRN SE3StateSpace 4) (some (RealVectorStateSpace 0))
      = .ok .EMPTY_SET_PROJECTION :=
  have h := C6_classify_over_zero_dimensional_vector_Base (RealVectorStateSpace 0) rfl rfl 4
  ⟨h.1, h.2.1, h.2.2.1, h.2.2.2.1, h.2.2.2.2.1⟩

/-- C7 (the code at the failing inputs): for Bundle `pose x R^n` with `n > 0` and
Base the same pose with `R^0`, the classifier returns `EMPTY_SET_PROJECTION` for
the pose `SE3`, but throws "Invalid dimensions." for the poses `SE2` and `SO2`. -/
theorem C7_classify_XRN_over_XR0 (n : Nat) (hn : 0 < n) :
    identifyBundleSpaceComponentType (XRN SE3StateSpace n) (some (XRN SE3StateSpace 0))
      = .ok .EMPTY_SET_PROJECTION ∧
    identifyBundleSpaceComponentType (XRN SE2StateSpace n) (some (XRN SE2StateSpace 0))
      = .error (.exception .Invalid_dimensions) ∧
    identifyBundleSpaceComponentType (XRN SO2StateSpace n) (some (XRN SO2StateSpace 0))
      = .error (.exception .Invalid_dimensions) := by
  have h1 : ¬ (0 = n) := by omega
  refine ⟨?_, ?_, ?_⟩
  · simp [identifyBundleSpaceComponentType, XRN, SE3StateSpace, RealVectorStateSpace,
      isCompound_compound, getType_compound, getType_simple, getDimension_simple,
      getSubspaces_compound, vectorAt, toUnsigned, bind, Except.bind, h1]
  · simp [identifyBundleSpaceComponentType, XRN, SE2StateSpace, RealVectorStateSpace,
      isCompound_compound, getType_compound, getType_simple, getDimension_simple,
      getSubspaces_compound, vectorAt, toUnsigned, bind, Except.bind, h1]
  · simp [identifyBundleSpaceComponentType, XRN, SO2StateSpace, RealVectorStateSpace,
      isCompound_compound, getType_compound, getType_simple, getDimension_simple,
      getSubspaces_compound, vectorAt, toUnsigned, bind, Except.bind, h1]

/-- Witness of C7 at `n = 1`. -/
theorem C7_classify_XRN_over_XR0_witness :
    identifyBundleSpaceComponentType (XRN SE3StateSpace 1) (some (XRN SE3StateSpace 0))
      = .ok .EMPTY_SET_PROJECTION ∧
    identifyBundleSpaceComponentType (XRN SE2StateSpace 1) (some (XRN SE2StateSpace 0))
      = .error (.exception .Invalid_dimensions) ∧
    identifyBundleSpaceComponentType (XRN SO2StateSpace 1) (some (XRN SO2StateSpace 0))
      = .error (.exception .Invalid_dimensions) :=
  C7_classify_XRN_over_XR0 1 (by decide)

/-- C8: for Bundle `pose x R^n` and Base the same pose with `R^m`, the pose one of
`SE3`, `SE2`, `SO2`: the classifier returns the type `XRN_XRM` of that pose when
`0 < m < n`, `IDENTITY_PROJECTION` when `m = n`, and throws "Invalid dimensions."
when `m > n`. -/
theorem C8_classify_XRN_over_XRM (n m : Nat) :
    (0 < m → m < n →
      identifyBundleSpaceComponentType (XRN SE3StateSpace n) (some (XRN SE3StateSpace m))
        = .ok .SE3RN_SE3RM ∧
      identifyBundleSpaceComponentType (XRN SE2StateSpace n) (some (XRN SE2StateSpace m))
        = .ok .SE2RN_SE2RM ∧
      identifyBundleSpaceComponentType (XRN SO2StateSpace n) (some (XRN SO2StateSpace m))
        = .ok .SO2RN_SO2RM) ∧
    (m = n →
      identifyBundleSpaceComponentType (XRN SE3StateSpace n) (some (XRN SE3StateSpace m))
        = .ok .IDENTITY_PROJECTION ∧
      identifyBundleSpaceComponentType (XRN SE2StateSpace n) (some (XRN SE2StateSpace m))
        = .ok .IDENTITY_PROJECTION ∧
      identifyBundleSpaceComponentType (XRN SO2StateSpace n) (some (XRN SO2StateSpace m))
        = .ok .IDENTITY_PROJECTION) ∧
    (n < m →
      identifyBundleSpaceComponentType (XRN SE3StateSpace n) (some (XRN SE3StateSpace m))
        = .error (.exception .Invalid_dimensions) ∧
      identifyBundleSpaceComponentType (XRN SE2StateSpace n) (some (XRN SE2StateSpace m))
        = .error (.exception .Invalid_dimensions) ∧
      identifyBundleSpaceComponentType (XRN SO2StateSpace n) (some (XRN SO2StateSpace m))
        = .error (.exception .Invalid_dimensions)) := by
  refine ⟨?_, ?_, ?_⟩
  · intro h1 h2
    have h : m < n ∧ 0 < m := ⟨h2, h1⟩
    refine ⟨?_, ?_, ?_⟩
    · simp [identifyBundleSpaceComponentType, XRN, SE3StateSpace, RealVectorStateSpace,
        isCompound_compound, getType_compound, getType_simple, getDimension_simple,
        getSubspaces_compound, vectorAt, toUnsigned, bind, Except.bind, h]
    · simp [identifyBundleSpaceComponentType, XRN, SE2StateSpace, RealVectorStateSpace,
        isCompound_compound, getType_compound, getType_simple, getDimension_simple,
        getSubspaces_compound, vectorAt, toUnsigned, bind, Except.bind, h]
    · simp [identifyBundleSpaceComponentType, XRN, SO2StateSpace, RealVectorStateSpace,
        isCompound_compound, getType_compound, getType_simple, getDimension_simple,
        getSubspaces_compound, vectorAt, toUnsigned, bind, Except.bind, h]
  · intro h1
    subst h1
    refine ⟨?_, ?_, ?_⟩
    · simp [identifyBundleSpaceComponentType, XRN, SE3StateSpace, RealVectorStateSpace,
        isCompound_compound, getType_compound, getType_simple, getDimension_simple,
        getSubspaces_compound, vectorAt, toUnsigned, bind, Except.bind]
    · simp [identifyBundleSpaceComponentType, XRN, SE2StateSpace, RealVectorStateSpace,
        isCompound_compound, getType_compound, getType_simple, getDimension_simple,
        getSubspaces_compound, vectorAt, toUnsigned, bind, Except.bind]
    · simp [identifyBundleSpaceComponentType, XRN, SO2StateSpace, RealVectorStateSpace,
        isCompound_compound, getType_compound, getType_simple, getDimension_simple,
        getSubspaces_compound, vectorAt, toUnsigned, bind, Except.bind]
  · intro h1
    have h2 : ¬ (m < n ∧ 0 < m) := by omega
    have h3 : ¬ (m = n) := by omega
    have h4 : ¬ (m = 0) := by omega
    refine ⟨?_, ?_, ?_⟩
    · simp [identifyBundleSpaceComponentType, XRN, SE3StateSpace, RealVectorStateSpace,
        isCompound_compound, getType_compound, getType_simple, getDimension_simple,
        getSubspaces_compound, vectorAt, toUnsigned, bind, Except.bind, h2, h3, h4]
    · simp [identifyBundleSpaceComponentType, XRN, SE2StateSpace, RealVectorStateSpace,
        isCompound_compound, getType_compound, getType_simple, getDimension_simple,
        getSubspaces_compound, vectorAt, toUnsigned, bind, Except.bind, h2, h3, h4]
    · simp [identifyBundleSpaceComponentType, XRN, SO2StateSpace, RealVectorStateSpace,
        isCompound_compound, getType_compound, getType_simple, getDimension_simple,
        getSubspaces_compound, vectorAt, toUnsigned, bind, Except.bind, h2, h3, h4]

/-- Witness of C8: the three cases at `(n, m) = (4, 2)`, `(4, 4)` and `(2, 4)`, for
the pose `SE3`, `SE2` and `SO2` in turn. -/
theorem C8_classify_XRN_over_XRM_witness :
    identifyBundleSpaceComponentType (XRN SE3StateSpace 4) (some (XRN SE3StateSpace 2))
      = .ok .SE3RN_SE3RM ∧
    identifyBundleSpaceComponentType (XRN SE2StateSpace 4) (some (XRN SE2StateSpace 4))
      = .ok .IDENTITY_PROJECTION ∧
    identifyBundleSpaceComponentType (XRN SO2StateSpace 2) (some (XRN SO2StateSpace 4))
      = .error (.exception .Invalid_dimensions) :=
  ⟨((C8_classify_XRN_over_XRM 4 2).1 (by decide) (by decide)).1,
   ((C8_classify_XRN_over_XRM 4 4).2.1 rfl).2.1,
   ((C8_classify_XRN_over_XRM 2 4).2.2 (by decide)).2.2⟩

/-- C9 (the code at a failing input): for Bundle `SE3 x R^2` and Base `SE2` the
classifier returns `SE3RN_SE3RM`, although the two subspaces of the Base are `R^2`
and `SO2`: the first is not of the pose type `SE3` of the Bundle and the second is
not a vector space. -/
theorem C9_classify_SE3RN_over_SE2_is_SE3RN_SE3RM :
    identifyBundleSpaceComponentType (XRN SE3StateSpace 2) (some SE2StateSpace)
      = .ok .SE3RN_SE3RM ∧
    SE2StateSpace.getSubspaces = .ok [RealVectorStateSpace 2, SO2StateSpace] ∧
    (RealVectorStateSpace 2).getType ≠ .STATE_SPACE_SE3 ∧
    SO2StateSpace.getType ≠ .STATE_SPACE_REAL_VECTOR := by
  refine ⟨by decide, rfl, by decide, by decide⟩

/-- C10 (the code at a failing input): Bundle `SE3 x R^2` and Base `SO2 x R^2` are
descriptors whose dimension is the sum of the dimensions of their subspaces, the
classifier returns `IDENTITY_PROJECTION` for them, and the Bundle has dimension 8
while the Base has dimension 3. -/
theorem C10_classify_identity_with_unequal_dimensions :
    (XRN SE3StateSpace 2).DimensionIsSum ∧ (XRN SO2StateSpace 2).DimensionIsSum ∧
    SE3StateSpace.DimensionIsSum ∧
    identifyBundleSpaceComponentType (XRN SE3StateSpace 2) (some (XRN SO2StateSpace 2))
      = .ok .IDENTITY_PROJECTION ∧
    (XRN SE3StateSpace 2).getDimension = 8 ∧ (XRN SO2StateSpace 2).getDimension = 3 := by
  refine ⟨by decide, by decide, by decide, by decide, rfl, rfl⟩

/-! ## Every path of the classifier assigns a type or throws -/

theorem Settled_ite {c : Prop} [Decidable c] {a b : Except Fault BundleSpaceComponentType}
    (ha : c → Settled a) (hb : ¬ c → Settled b) : Settled (if c then a else b) := by
  by_cases h : c
  · rw [if_pos h]; exact ha h
  · rw [if_neg h]; exact hb h

theorem Settled_bind {β : Type} {x : Except Fault β}
    {f : β → Except Fault BundleSpaceComponentType}
    (hx : ∀ e, x = .error e → Settled (.error e))
    (hf : ∀ v, Settled (f v)) : Settled (x >>= f) := by
  cases x with
  | error e =>
    have h : (Except.error e >>= f) = Except.error e := by simp only [bind, Except.bind]
    rw [h]
    exact hx e rfl
  | ok v =>
    have h : (Except.ok v >>= f) = f v := by simp only [bind, Except.bind]
    rw [h]
    exact hf v

theorem Settled_ok {t : BundleSpaceComponentType} (h : t ≠ .CONSTRAINED_RELAXATION) :
    Settled (.ok t) :=
  h

theorem Settled_exception (w : ExceptionWhat) : Settled (.error (.exception w)) :=
  True.intro

theorem getSubspaces_fault (s : StateSpace) (e : Fault) (h : s.getSubspaces = .error e) :
    Settled (.error e) := by
  cases s with
  | simple t d =>
    simp only [StateSpace.getSubspaces] at h
    cases h
    exact True.intro
  | compound t d l =>
    simp only [StateSpace.getSubspaces] at h
    cases h

theorem vectorAt_fault {β : Type} (v : List β) (i : Nat) (e : Fault)
    (h : vectorAt v i = .error e) : Settled (.error e) := by
  unfold vectorAt at h
  cases hv : v.get? i with
  | none =>
    rw [hv] at h
    cases h
    exact True.intro
  | some x =>
    rw [hv] at h
    cases h

theorem identify_Settled (Bundle : StateSpace) (Base? : Option StateSpace) :
    Settled (identifyBundleSpaceComponentType Bundle Base?) := by
  unfold identifyBundleSpaceComponentType
  cases Base? with
  | none => exact Settled_ok (by decide)
  | some Base =>
    dsimp only
    repeat' first
      | exact Settled_ok (by decide)
      | exact Settled_exception _
      | contradiction
      | (refine Settled_ite (fun _ => ?_) (fun _ => ?_))
      | (refine Settled_bind (getSubspaces_fault _) (fun _ => ?_))
      | (refine Settled_bind (vectorAt_fault _ _) (fun _ => ?_))

/-! ## Claims on the classifier, continued -/

/-- C11: for Bundle `SE2` a Base of vector type and dimension 2 classifies as
`SE2_R2`, for Bundle `SE3` a Base of vector type and dimension 3 classifies as
`SE3_R3`; a Base of vector type of any other non-zero dimension throws "Invalid
dimensions.", and a Base whose type is neither vector nor the Bundle's own type
throws ("INVALID_STATE_TYPE" for `SE2`, "Invalid BundleSpace type" for `SE3`). -/
theorem C11_classify_rigid_body_Bundle (Base : StateSpace) :
    (Base.getType = .STATE_SPACE_REAL_VECTOR → Base.getDimension = 2 →
      identifyBundleSpaceComponentType SE2StateSpace (some Base) = .ok .SE2_R2) ∧
    (Base.getType = .STATE_SPACE_REAL_VECTOR → Base.getDimension = 3 →
      identifyBundleSpaceComponentType SE3StateSpace (some Base) = .ok .SE3_R3) ∧
    (Base.getType = .STATE_SPACE_REAL_VECTOR → Base.getDimension ≠ 2 →
      Base.getDimension ≠ 0 →
      identifyBundleSpaceComponentType SE2StateSpace (some Base)
        = .error (.exception .Invalid_dimensions)) ∧
    (Base.getType = .STATE_SPACE_REAL_VECTOR → Base.getDimension ≠ 3 →
      Base.getDimension ≠ 0 →
      identifyBundleSpaceComponentType SE3StateSpace (some Base)
        = .error (.exception .Invalid_dimensions)) ∧
    (Base.getType ≠ .STATE_SPACE_REAL_VECTOR → Base.getType ≠ .STATE_SPACE_SE2 →
      identifyBundleSpaceComponentType SE2StateSpace (some Base)
        = .error (.exception .INVALID_STATE_TYPE)) ∧
    (Base.getType ≠ .STATE_SPACE_REAL_VECTOR → Base.getType ≠ .STATE_SPACE_SE3 →
      identifyBundleSpaceComponentType SE3StateSpace (some Base)
        = .error (.exception .Invalid_BundleSpace_type)) := by
  refine ⟨?_, ?_, ?_, ?_, ?_, ?_⟩
  · intro ht hd
    simp [identifyBundleSpaceComponentType, SE2StateSpace, isCompound_compound,
      getType_compound, ht, hd]
  · intro ht hd
    simp [identifyBundleSpaceComponentType, SE3StateSpace, isCompound_compound,
      getType_compound, ht, hd]
  · intro ht hd h0
    simp [identifyBundleSpaceComponentType, SE2StateSpace, isCompound_compound,
      getType_compound, ht, hd, h0]
  · intro ht hd h0
    simp [identifyBundleSpaceComponentType, SE3StateSpace, isCompound_compound,
      getType_compound, ht, hd, h0]
  · intro ht hs
    simp [identifyBundleSpaceComponentType, SE2StateSpace, isCompound_compound,
      getType_compound, ht, hs]
  · intro ht hs
    simp [identifyBundleSpaceComponentType, SE3StateSpace, isCompound_compound,
      getType_compound, ht, hs]

/-- Witness of C11 at the Bases `R^2`, `R^3`, `R^5`, `R^5`, `SO2` and `SE2`. -/
theorem C11_classify_rigid_body_Bundle_witness :
    identifyBundleSpaceComponentType SE2StateSpace (some (RealVectorStateSpace 2))
      = .ok .SE2_R2 ∧
    identifyBundleSpaceComponentType SE3StateSpace (some (RealVectorStateSpace 3))
      = .ok .SE3_R3 ∧
    identifyBundleSpaceComponentType SE2StateSpace (some (RealVectorStateSpace 5))
      = .error (.exception .Invalid_dimensions) ∧
    identifyBundleSpaceComponentType SE3StateSpace (some (RealVectorStateSpace 5))
      = .error (.exception .Invalid_dimensions) ∧
    identifyBundleSpaceComponentType SE2StateSpace (some SO2StateSpace)
      = .error (.exception .INVALID_STATE_TYPE) ∧
    identifyBundleSpaceComponentType SE3StateSpace (some SE2StateSpace)
      = .error (.exception .Invalid_BundleSpace_type) :=
  ⟨(C11_classify_rigid_body_Bundle (RealVectorStateSpace 2)).1 rfl rfl,
   (C11_classify_rigid_body_Bundle (RealVectorStateSpace 3)).2.1 rfl rfl,
   (C11_classify_rigid_body_Bundle (RealVectorStateSpace 5)).2.2.1 rfl (by decide) (by decide),
   (C11_classify_rigid_body_Bundle (RealVectorStateSpace 5)).2.2.2.1 rfl (by decide)
     (by decide),
   (C11_classify_rigid_body_Bundle SO2StateSpace).2.2.2.2.1 (by decide) (by decide),
   (C11_classify_rigid_body_Bundle SE2StateSpace).2.2.2.2.2 (by decide) (by decide)⟩

/-- C12: for Bundle `pose x R^n`, for every `n`: a Base of the pose's own type
classifies as `SE3RN_SE3`, `SE2RN_SE2` or `SO2RN_SO2` (so `SE3 x R^4` over `SE3` is
`SE3RN_SE3`); a Base of vector type and dimension 3 under `SE3 x R^n` classifies as
`SE3RN_R3`, one of dimension 2 under `SE2 x R^n` as `SE2RN_R2`; a Base of vector
type of any other non-zero dimension throws "Invalid dimensions." under `SE3 x R^n`
and `SE2 x R^n`, and a non-composite Base of vector type throws "Invalid
BundleSpace type." under `SO2 x R^n`. -/
theorem C12_classify_XRN_over_pose_or_position (n : Nat) (Base : StateSpace) :
    (Base.getType = .STATE_SPACE_SE3 →
      identifyBundleSpaceComponentType (XRN SE3StateSpace n) (some Base) = .ok .SE3RN_SE3) ∧
    (Base.getType = .STATE_SPACE_SE2 →
      identifyBundleSpaceComponentType (XRN SE2StateSpace n) (some Base) = .ok .SE2RN_SE2) ∧
    (Base.getType = .STATE_SPACE_SO2 →
      identifyBundleSpaceComponentType (XRN SO2StateSpace n) (some Base) = .ok .SO2RN_SO2) ∧
    identifyBundleSpaceComponentType (XRN SE3StateSpace 4) (some SE3StateSpace)
      = .ok .SE3RN_SE3 ∧
    (Base.getType = .STATE_SPACE_REAL_VECTOR → Base.getDimension = 3 →
      identifyBundleSpaceComponentType (XRN SE3StateSpace n) (some Base) = .ok .SE3RN_R3) ∧
    (Base.getType = .STATE_SPACE_REAL_VECTOR → Base.getDimension = 2 →
      identifyBundleSpaceComponentType (XRN SE2StateSpace n) (some Base) = .ok .SE2RN_R2) ∧
    (Base.getType = .STATE_SPACE_REAL_VECTOR → Base.getDimension ≠ 3 →
      Base.getDimension ≠ 0 →
      identifyBundleSpaceComponentType (XRN SE3StateSpace n) (some Base)
        = .error (.exception .Invalid_dimensions)) ∧
    (Base.getType = .STATE_SPACE_REAL_VECTOR → Base.getDimension ≠ 2 →
      Base.getDimension ≠ 0 →
      identifyBundleSpaceComponentType (XRN SE2StateSpace n) (some Base)
        = .error (.exception .Invalid_dimensions)) ∧
    (Base.getType = .STATE_SPACE_REAL_VECTOR → Base.isCompound = false →
      identifyBundleSpaceComponentType (XRN SO2StateSpace n) (some Base)
        = .error (.exception .Invalid_BundleSpace_type_dot)) := by
  refine ⟨?_, ?_, ?_, by decide, ?_, ?_, ?_, ?_, ?_⟩
  · intro ht
    simp [identifyBundleSpaceComponentType, XRN, SE3StateSpace, RealVectorStateSpace,
      isCompound_compound, getType_compound, getType_simple, getSubspaces_compound, vectorAt,
      toUnsigned, bind, Except.bind, ht]
  · intro ht
    simp [identifyBundleSpaceComponentType, XRN, SE2StateSpace, RealVectorStateSpace,
      isCompound_compound, getType_compound, getType_simple, getSubspaces_compound, vectorAt,
      toUnsigned, bind, Except.bind, ht]
  · intro ht
    simp [identifyBundleSpaceComponentType, XRN, SO2StateSpace, RealVectorStateSpace,
      isCompound_compound, getType_compound, getType_simple, getSubspaces_compound, vectorAt,
      toUnsigned, bind, Except.bind, ht]
  · intro ht hd
    simp [identifyBundleSpaceComponentType, XRN, SE3StateSpace, RealVectorStateSpace,
      isCompound_compound, getType_compound, getType_simple, getSubspaces_compound, vectorAt,
      toUnsigned, bind, Except.bind, ht, hd]
  · intro ht hd
    simp [identifyBundleSpaceComponentType, XRN, SE2StateSpace, RealVectorStateSpace,
      isCompound_compound, getType_compound, getType_simple, getSubspaces_compound, vectorAt,
      toUnsigned, bind, Except.bind, ht, hd]
  · intro ht hd h0
    simp [identifyBundleSpaceComponentType, XRN, SE3StateSpace, RealVectorStateSpace,
      isCompound_compound, getType_compound, getType_simple, getSubspaces_compound, vectorAt,
      toUnsigned, bind, Except.bind, ht, hd, h0]
  · intro ht hd h0
    simp [identifyBundleSpaceComponentType, XRN, SE2StateSpace, RealVectorStateSpace,
      isCompound_compound, getType_compound, getType_simple, getSubspaces_compound, vectorAt,
      toUnsigned, bind, Except.bind, ht, hd, h0]
  · intro ht hc
    simp [identifyBundleSpaceComponentType, XRN, SO2StateSpace, RealVectorStateSpace,
      isCompound_compound, getType_compound, getType_simple, getSubspaces_compound, vectorAt,
      toUnsigned, bind, Except.bind, ht, hc]

/-- Witness of C12 at `n = 4`, for the Bases `SE3`, `SE2`, `SO2`, `R^3`, `R^2`,
`R^5`, `R^5` and `R^2`. -/
theorem C12_classify_XRN_over_pose_or_position_witness :
    identifyBundleSpaceComponentType (XRN SE3StateSpace 4) (some SE3StateSpace)
      = .ok .SE3RN_SE3 ∧
    identifyBundleSpaceComponentType (XRN SE2StateSpace 4) (some SE2StateSpace)
      = .ok .SE2RN_SE2 ∧
    identifyBundleSpaceComponentType (XRN SO2StateSpace 4) (some SO2StateSpace)
      = .ok .SO2RN_SO2 ∧
    identifyBundleSpaceComponentType (XRN SE3StateSpace 4) (some (RealVectorStateSpace 3))
      = .ok .SE3RN_R3 ∧
    identifyBundleSpaceComponentType (XRN SE2StateSpace 4) (some (RealVectorStateSpace 2))
      = .ok .SE2RN_R2 ∧
    identifyBundleSpaceComponentType (XRN SE3StateSpace 4) (some (RealVectorStateSpace 5))
      = .error (.exception .Invalid_dimensions) ∧
    identifyBundleSpaceComponentType (XRN SE2StateSpace 4) (some (RealVectorStateSpace 5))
      = .error (.exception .Invalid_dimensions) ∧
    identifyBundleSpaceComponentType (XRN SO2StateSpace 4) (some (RealVectorStateSpace 2))
      = .error (.exception .Invalid_BundleSpace_type_dot) :=
  ⟨(C12_classify_XRN_over_pose_or_position 4 SE3StateSpace).1 rfl,
   (C12_classify_XRN_over_pose_or_position 4 SE2StateSpace).2.1 rfl,
   (C12_classify_XRN_over_pose_or_position 4 SO2StateSpace).2.2.1 rfl,
   (C12_classify_XRN_over_pose_or_position 4 (RealVectorStateSpace 3)).2.2.2.2.1 rfl rfl,
   (C12_classify_XRN_over_pose_or_position 4 (RealVectorStateSpace 2)).2.2.2.2.2.1 rfl rfl,
   (C12_classify_XRN_over_pose_or_position 4 (RealVectorStateSpace 5)).2.2.2.2.2.2.1 rfl
     (by decide) (by decide),
   (C12_classify_XRN_over_pose_or_position 4 (RealVectorStateSpace 5)).2.2.2.2.2.2.2.1 rfl
     (by decide) (by decide),
   (C12_classify_XRN_over_pose_or_position 4 (RealVectorStateSpace 2)).2.2.2.2.2.2.2.2 rfl
     rfl⟩

/-- C13 (the code at failing inputs): a Bundle made of the two vector children
`R^2` and `R^3`, and one made of the two composite children `SE2` and `SE2`, are
classified `UNKNOWN` against the non-composite Base `R^2` and against a composite
Base with three subspaces; no exception is thrown. -/
theorem C13_classify_two_children_ignores_Base :
    identifyBundleSpaceComponentType
        (.compound .STATE_SPACE_UNKNOWN 5 [RealVectorStateSpace 2, RealVectorStateSpace 3])
        (some (RealVectorStateSpace 2)) = .ok .UNKNOWN ∧
    identifyBundleSpaceComponentType
        (.compound .STATE_SPACE_UNKNOWN 6 [SE2StateSpace, SE2StateSpace])
        (some (RealVectorStateSpace 2)) = .ok .UNKNOWN ∧
    (RealVectorStateSpace 2).isCompound = false ∧
    identifyBundleSpaceComponentType
        (.compound .STATE_SPACE_UNKNOWN 5 [RealVectorStateSpace 2, RealVectorStateSpace 3])
        (some (.compound .STATE_SPACE_UNKNOWN 3
          [RealVectorStateSpace 1, RealVectorStateSpace 1, RealVectorStateSpace 1]))
      = .ok .UNKNOWN := by
  decide

/-- C14: for a composite Bundle that is not tagged `SE2` or `SE3` and has `k`
subspaces, `k >= 1`, `k != 2`: the classifier returns `UNKNOWN` when the Base is
composite with exactly `k` subspaces, throws "Invalid BundleSpace type." when the
Base is composite with another number of subspaces, and throws it when the Base is
not composite; with 0 subspaces it throws for every Base. -/
theorem C14_classify_other_composite (t : StateSpaceType) (d : Nat) (subs : List StateSpace)
    (ht2 : t ≠ .STATE_SPACE_SE2) (ht3 : t ≠ .STATE_SPACE_SE3) :
    (1 ≤ subs.length → subs.length ≠ 2 → subs.length < 2 ^ 32 →
      (∀ (t' : StateSpaceType) (d' : Nat) (subs' : List StateSpace),
        subs'.length = subs.length →
        identifyBundleSpaceComponentType (.compound t d subs) (some (.compound t' d' subs'))
          = .ok .UNKNOWN) ∧
      (∀ (t' : StateSpaceType) (d' : Nat) (subs' : List StateSpace),
        subs'.length ≠ subs.length → subs'.length < 2 ^ 32 →
        identifyBundleSpaceComponentType (.compound t d subs) (some (.compound t' d' subs'))
          = .error (.exception .Invalid_BundleSpace_type_dot)) ∧
      (∀ (t' : StateSpaceType) (d' : Nat),
        identifyBundleSpaceComponentType (.compound t d subs) (some (.simple t' d'))
          = .error (.exception .Invalid_BundleSpace_type_dot))) ∧
    (∀ Base : StateSpace,
      identifyBundleSpaceComponentType (.compound t d []) (some Base)
        = .error (.exception .Invalid_BundleSpace_type_dot)) := by
  constructor
  · intro h1 h2 h32
    have e : subs.length % 4294967296 = subs.length := by omega
    have h1' : 1 ≤ subs.length % 4294967296 := by omega
    have h2' : ¬ (subs.length % 4294967296 = 2) := by omega
    refine ⟨?_, ?_, ?_⟩
    · intro t' d' subs' hl
      simp only [identifyBundleSpaceComponentType, isCompound_compound, getType_compound,
        getSubspaces_compound, toUnsigned, bind, Except.bind, hl]
      simp [ht2, ht3, h1', h2']
    · intro t' d' subs' hl h32'
      have hne : ¬ (subs.length % 4294967296 = subs'.length % 4294967296) := by omega
      simp only [identifyBundleSpaceComponentType, isCompound_compound, getType_compound,
        getSubspaces_compound, toUnsigned, bind, Except.bind]
      simp [ht2, ht3, h1', h2', hne]
    · intro t' d'
      simp only [identifyBundleSpaceComponentType, isCompound_compound, isCompound_simple,
        getType_compound, getSubspaces_compound, toUnsigned, bind, Except.bind]
      simp [ht2, ht3, h1', h2']
  · intro Base
    simp only [identifyBundleSpaceComponentType, isCompound_compound, getType_compound,
      getSubspaces_compound, toUnsigned, bind, Except.bind]
    simp [ht2, ht3]

/-- Witness of C14 for a Bundle of three vector subspaces, against a Base of three
subspaces, a Base of two subspaces and the non-composite Base `R^3`. -/
theorem C14_classify_other_composite_witness :
    identifyBundleSpaceComponentType
        (.compound .STATE_SPACE_UNKNOWN 3
          [RealVectorStateSpace 1, RealVectorStateSpace 1, RealVectorStateSpace 1])
        (some (.compound .STATE_SPACE_UNKNOWN 3
          [RealVectorStateSpace 1, RealVectorStateSpace 1, RealVectorStateSpace 1]))
      = .ok .UNKNOWN ∧
    identifyBundleSpaceComponentType
        (.compound .STATE_SPACE_UNKNOWN 3
          [RealVectorStateSpace 1, RealVectorStateSpace 1, RealVectorStateSpace 1])
        (some (.compound .STATE_SPACE_UNKNOWN 2
          [RealVectorStateSpace 1, RealVectorStateSpace 1]))
      = .error (.exception .Invalid_BundleSpace_type_dot) ∧
    identifyBundleSpaceComponentType
        (.compound .STATE_SPACE_UNKNOWN 3
          [RealVectorStateSpace 1, RealVectorStateSpace 1, RealVectorStateSpace 1])
        (some (.simple .STATE_SPACE_REAL_VECTOR 3))
      = .error (.exception .Invalid_BundleSpace_type_dot) :=
  have h := (C14_classify_other_composite .STATE_SPACE_UNKNOWN 3
    [RealVectorStateSpace 1, RealVectorStateSpace 1, RealVectorStateSpace 1]
    (by decide) (by decide)).1 (by decide) (by decide) (by decide)
  ⟨h.1 .STATE_SPACE_UNKNOWN 3
      [RealVectorStateSpace 1, RealVectorStateSpace 1, RealVectorStateSpace 1] rfl,
   h.2.1 .STATE_SPACE_UNKNOWN 2 [RealVectorStateSpace 1, RealVectorStateSpace 1]
      (by decide) (by decide),
   h.2.2 .STATE_SPACE_REAL_VECTOR 3⟩

/-- C15: with the Base absent the classifier returns `NO_PROJECTION` for every
Bundle, also for the Bundle `SO2`, for which it throws against every present
Base. -/
theorem C15_classify_without_Base :
    (∀ Bundle : StateSpace,
      identifyBundleSpaceComponentType Bundle none = .ok .NO_PROJECTION) ∧
    (∀ Base : StateSpace,
      identifyBundleSpaceComponentType SO2StateSpace (some Base)
        = .error (.exception .INVALID_STATE_TYPE)) ∧
    identifyBundleSpaceComponentType SO2StateSpace none = .ok .NO_PROJECTION := by
  refine ⟨fun _ => rfl, ?_, rfl⟩
  intro Base
  simp [identifyBundleSpaceComponentType, SO2StateSpace, isCompound_simple, getType_simple]

/-- C16 (the code at failing inputs): for Bundle `SE3 x R^2` or `SE2 x R^2` and the
non-composite Base `SO2` the classifier casts the Base to a compound space and
reads its subspaces, which is undefined behaviour: it yields neither a type nor an
exception.  On every input the outcome is a type, an exception or undefined
behaviour; the local `type` is never returned unassigned. -/
theorem C16_classify_undefined_on_non_composite_Base :
    identifyBundleSpaceComponentType (XRN SE3StateSpace 2) (some SO2StateSpace)
      = .error .undefinedBehaviour ∧
    identifyBundleSpaceComponentType (XRN SE2StateSpace 2) (some SO2StateSpace)
      = .error .undefinedBehaviour ∧
    SO2StateSpace.isCompound = false ∧
    (∀ (Bundle : StateSpace) (Base? : Option StateSpace),
      Settled (identifyBundleSpaceComponentType Bundle Base?)) :=
  ⟨by decide, by decide, rfl, identify_Settled⟩

/-! ## Counting components -/

theorem toInt_toUnsigned {k : Nat} (h : k < 2 ^ 31) : toInt (toUnsigned k) = (k : Int) := by
  have e : k % 2 ^ 32 = k := Nat.mod_eq_of_lt (by omega)
  unfold toInt toUnsigned
  rw [Nat.mod_mod, e, if_pos h]

/-- `GetNumberOfComponents` returns a count for every space: it never throws. -/
theorem GetNumberOfComponents_total (space : StateSpace) :
    ∃ k, GetNumberOfComponents space = .ok k := by
  cases space with
  | simple t d => exact ⟨1, rfl⟩
  | compound t d subs =>
    simp only [GetNumberOfComponents, isCompound_compound, getSubspaces_compound, ok_bind,
      getType_compound, if_true]
    by_cases h2 : toInt (toUnsigned subs.length) = 2
    · rw [if_pos h2]
      by_cases ht : t = .STATE_SPACE_SE2 ∨ t = .STATE_SPACE_SE3
      · rw [if_pos ht]; exact ⟨1, rfl⟩
      · rw [if_neg ht]
        have one : toInt (toUnsigned 1) ≠ 2 := by decide
        have zero : toInt (toUnsigned 0) ≠ 2 := by decide
        match subs, h2 with
        | [], h2 => exact absurd h2 zero
        | [a], h2 => exact absurd h2 one
        | a :: b :: rest, _ =>
          have e0 : vectorAt (a :: b :: rest) 0 = .ok a := rfl
          have e1 : vectorAt (a :: b :: rest) 1 = .ok b := rfl
          rw [e0, ok_bind, e1, ok_bind]
          split
          · exact ⟨1, rfl⟩
          · exact ⟨_, rfl⟩
    · rw [if_neg h2]
      exact ⟨_, rfl⟩

/-- C17: `GetNumberOfComponents` returns 1 for every non-composite space; for a
composite space whose number of subspaces is not 2 it returns that number; for a
composite space with exactly two subspaces it returns 1 if the space is tagged
`SE2` or `SE3`, or if the first subspace is tagged `SO2`, `SO3`, `SE2` or `SE3` and
the second is a vector space, and 2 otherwise. -/
theorem C17_GetNumberOfComponents (t : StateSpaceType) (d : Nat) :
    GetNumberOfComponents (.simple t d) = .ok 1 ∧
    (∀ subs : List StateSpace, subs.length ≠ 2 → subs.length < 2 ^ 31 →
      GetNumberOfComponents (.compound t d subs) = .ok (subs.length : Int)) ∧
    (∀ a b : StateSpace, t = .STATE_SPACE_SE2 ∨ t = .STATE_SPACE_SE3 →
      GetNumberOfComponents (.compound t d [a, b]) = .ok 1) ∧
    (∀ a b : StateSpace, t ≠ .STATE_SPACE_SE2 → t ≠ .STATE_SPACE_SE3 →
      (a.getType = .STATE_SPACE_SO2 ∨ a.getType = .STATE_SPACE_SO3 ∨
        a.getType = .STATE_SPACE_SE2 ∨ a.getType = .STATE_SPACE_SE3) →
      b.getType = .STATE_SPACE_REAL_VECTOR →
      GetNumberOfComponents (.compound t d [a, b]) = .ok 1) ∧
    (∀ a b : StateSpace, t ≠ .STATE_SPACE_SE2 → t ≠ .STATE_SPACE_SE3 →
      ¬ ((a.getType = .STATE_SPACE_SO2 ∨ a.getType = .STATE_SPACE_SO3 ∨
          a.getType = .STATE_SPACE_SE2 ∨ a.getType = .STATE_SPACE_SE3) ∧
        b.getType = .STATE_SPACE_REAL_VECTOR) →
      GetNumberOfComponents (.compound t d [a, b]) = .ok 2) := by
  have two : toInt (toUnsigned 2) = 2 := by decide
  refine ⟨rfl, ?_, ?_, ?_, ?_⟩
  · intro subs h2 h31
    have hne : ¬ ((subs.length : Int) = 2) := by omega
    simp only [GetNumberOfComponents, isCompound_compound, getSubspaces_compound,
      toInt_toUnsigned h31, bind, Except.bind]
    simp [hne]
  · intro a b ht
    have e : toInt (toUnsigned [a, b].length) = 2 := two
    simp only [GetNumberOfComponents, isCompound_compound, getSubspaces_compound,
      getType_compound, e, bind, Except.bind]
    simp [ht]
  · intro a b ht2 ht3 ha hb
    have e : toInt (toUnsigned [a, b].length) = 2 := two
    simp only [GetNumberOfComponents, isCompound_compound, getSubspaces_compound,
      getType_compound, e, bind, Except.bind, vectorAt, List.get?]
    simp only [ht2, ht3, hb, or_self, if_true, if_false, and_true]
    rcases ha with ha | ha | ha | ha <;> simp [ha]
  · intro a b ht2 ht3 hab
    have e : toInt (toUnsigned [a, b].length) = 2 := two
    simp only [GetNumberOfComponents, isCompound_compound, getSubspaces_compound,
      getType_compound, e, bind, Except.bind, vectorAt, List.get?]
    simp only [ht2, ht3, or_self, if_true, if_false]
    have hc : ¬ (a.getType = StateSpaceType.STATE_SPACE_SO2 ∧
          b.getType = StateSpaceType.STATE_SPACE_REAL_VECTOR ∨
        a.getType = StateSpaceType.STATE_SPACE_SO3 ∧
          b.getType = StateSpaceType.STATE_SPACE_REAL_VECTOR ∨
        a.getType = StateSpaceType.STATE_SPACE_SE2 ∧
          b.getType = StateSpaceType.STATE_SPACE_REAL_VECTOR ∨
        a.getType = StateSpaceType.STATE_SPACE_SE3 ∧
          b.getType = StateSpaceType.STATE_SPACE_REAL_VECTOR) := by
      intro h
      apply hab
      rcases h with h | h | h | h
      · exact ⟨Or.inl h.1, h.2⟩
      · exact ⟨Or.inr (Or.inl h.1), h.2⟩
      · exact ⟨Or.inr (Or.inr (Or.inl h.1)), h.2⟩
      · exact ⟨Or.inr (Or.inr (Or.inr h.1)), h.2⟩
    rw [if_neg hc]

/-- Witness of C17 at `R^3`, a composite of three vector spaces, `SE2`, `SO3 x R^2`
and a composite of two vector spaces. -/
theorem C17_GetNumberOfComponents_witness :
    GetNumberOfComponents (RealVectorStateSpace 3) = .ok 1 ∧
    GetNumberOfComponents (.compound .STATE_SPACE_UNKNOWN 3
      [RealVectorStateSpace 1, RealVectorStateSpace 1, RealVectorStateSpace 1]) = .ok 3 ∧
    GetNumberOfComponents SE2StateSpace = .ok 1 ∧
    GetNumberOfComponents (XRN SO3StateSpace 2) = .ok 1 ∧
    GetNumberOfComponents (.compound .STATE_SPACE_UNKNOWN 4
      [RealVectorStateSpace 2, RealVectorStateSpace 2]) = .ok 2 :=
  ⟨(C17_GetNumberOfComponents .STATE_SPACE_REAL_VECTOR 3).1,
   (C17_GetNumberOfComponents .STATE_SPACE_UNKNOWN 3).2.1
     [RealVectorStateSpace 1, RealVectorStateSpace 1, RealVectorStateSpace 1]
     (by decide) (by decide),
   (C17_GetNumberOfComponents .STATE_SPACE_SE2 3).2.2.1 (RealVectorStateSpace 2)
     SO2StateSpace (Or.inl rfl),
   (C17_GetNumberOfComponents .STATE_SPACE_UNKNOWN (3 + 2)).2.2.2.1 SO3StateSpace
     (RealVectorStateSpace 2) (by decide) (by decide) (Or.inr (Or.inl rfl)) rfl,
   (C17_GetNumberOfComponents .STATE_SPACE_UNKNOWN 4).2.2.2.2 (RealVectorStateSpace 2)
     (RealVectorStateSpace 2) (by decide) (by decide) (by decide)⟩

/-! ## What the factory builds -/

/-- What a successful `MakeBundleSpaceComponent` returns. -/
theorem MakeBundleSpaceComponent_ok (cfs : ComputeFiberSpace) (Bundle : StateSpace)
    (Base? : Option StateSpace) (eqv : Bool) (c : BundleSpaceComponent)
    (h : MakeBundleSpaceComponent cfs Bundle Base? eqv = .ok c) :
    ∃ t, identifyBundleSpaceComponentType Bundle Base? = .ok t ∧
      t ≠ .UNKNOWN ∧ t ≠ .CONSTRAINED_RELAXATION ∧
      c.type_ = (if t = .IDENTITY_PROJECTION ∧ eqv = false then .CONSTRAINED_RELAXATION else t) ∧
      c.BundleSpace = Bundle ∧ c.BaseSpace = Base? ∧
      cfs c.type_ Bundle Base? = .ok c.FiberSpace := by
  have hs := identify_Settled Bundle Base?
  unfold MakeBundleSpaceComponent at h
  cases hi : identifyBundleSpaceComponentType Bundle Base? with
  | error e =>
    rw [hi] at h
    simp only [bind, Except.bind] at h
    cases h
  | ok t =>
    rw [hi] at h hs
    refine ⟨t, rfl, ?_⟩
    have hr : t ≠ .CONSTRAINED_RELAXATION := hs
    cases t <;> cases eqv <;> first
      | exact absurd rfl hr
      | (simp only [bind, Except.bind] at h; cases h)
      | (simp only [bind, Except.bind] at h
         revert h
         generalize hF : cfs _ Bundle Base? = F
         cases F with
         | error e => intro h; cases h
         | ok F =>
           intro h
           cases h
           simp at hF
           simp [hF])

theorem forLoop_fault {σ : Type} (lo cnt : Nat) (body : Nat → σ → Except Fault σ) (s : σ)
    (e : Fault) (h : body lo s = .error e) :
    forLoop lo (lo + (cnt + 1)) body s = .error e := by
  unfold forLoop
  have e1 : lo + (cnt + 1) - lo = cnt + 1 := by omega
  rw [e1, List.range'_succ, List.foldlM_cons, h]
  rfl

/-- A loop whose body appends the result of `f m` to the vector it threads returns,
when it returns, the vector extended by the results of `f lo`, `f (lo + 1)`, ... in
this order. -/
theorem forLoop_collect {β : Type} (f : Nat → Except Fault β)
    (body : Nat → List β → Except Fault (List β))
    (hbody : ∀ m acc, body m acc = (f m >>= fun c => .ok (acc ++ [c]))) :
    ∀ (cnt lo : Nat) (acc r : List β), forLoop lo (lo + cnt) body acc = .ok r →
      ∃ l, r = acc ++ l ∧ l.length = cnt ∧ ∀ i c, l[i]? = some c → f (lo + i) = .ok c := by
  intro cnt
  induction cnt with
  | zero =>
    intro lo acc r h
    rw [forLoop_nil _ _ (by omega)] at h
    cases h
    exact ⟨[], by simp, rfl, fun i c hc => by simp at hc⟩
  | succ cnt ih =>
    intro lo acc r h
    cases hf : f lo with
    | error e =>
      have hb : body lo acc = .error e := by
        rw [hbody, hf]; simp only [bind, Except.bind]
      rw [forLoop_fault lo cnt body acc e hb] at h
      cases h
    | ok c =>
      have hb : body lo acc = .ok (acc ++ [c]) := by
        rw [hbody, hf]; simp only [bind, Except.bind]
      rw [forLoop_step lo cnt body acc _ hb] at h
      obtain ⟨l, hr, hl, hget⟩ := ih (lo + 1) (acc ++ [c]) r h
      refine ⟨c :: l, by rw [hr]; simp, by simp [hl], ?_⟩
      intro i c' hc
      cases i with
      | zero =>
        simp at hc
        rw [← hc]
        exact hf
      | succ i =>
        simp at hc
        have := hget i c' hc
        rw [← this]
        congr 1
        omega

theorem forLoop_collect_zero {β : Type} (f : Nat → Except Fault β)
    (body : Nat → List β → Except Fault (List β))
    (hbody : ∀ m acc, body m acc = (f m >>= fun c => .ok (acc ++ [c])))
    (n : Nat) (r : List β) (h : forLoop 0 n body [] = .ok r) :
    r.length = n ∧ ∀ i c, r[i]? = some c → f i = .ok c := by
  have h' : forLoop 0 (0 + n) body [] = .ok r := by rw [Nat.zero_add]; exact h
  obtain ⟨l, hr, hl, hget⟩ := forLoop_collect f body hbody n 0 [] r h'
  rw [List.nil_append] at hr
  subst hr
  refine ⟨hl, fun i c hc => ?_⟩
  have := hget i c hc
  rwa [Nat.zero_add] at this

theorem vectorAt_ok {β : Type} (v : List β) (i : Nat) (x : β) (h : vectorAt v i = .ok x) :
    v[i]? = some x := by
  unfold vectorAt at h
  cases hv : v.get? i with
  | none => rw [hv] at h; cases h
  | some y =>
    rw [hv] at h
    cases h
    simpa using hv

theorem bind_ok_elim {α β : Type} {x : Except Fault α} {f : α → Except Fault β} {b : β}
    (h : (x >>= f) = .ok b) : ∃ a, x = .ok a ∧ f a = .ok b := by
  cases x with
  | error e => simp only [bind, Except.bind] at h; cases h
  | ok a => exact ⟨a, rfl, by simpa only [bind, Except.bind] using h⟩

theorem MakeBundleSpaceComponent_none (cfs : ComputeFiberSpace) (B : StateSpace) (eqv : Bool)
    (c : BundleSpaceComponent) (h : MakeBundleSpaceComponent cfs B none eqv = .ok c) :
    c.BundleSpace = B ∧ c.BaseSpace = none ∧ c.type_ = .NO_PROJECTION := by
  obtain ⟨t, hi, _, _, ht, hB, hQ, _⟩ := MakeBundleSpaceComponent_ok cfs B none eqv c h
  have e : t = .NO_PROJECTION := by
    have : identifyBundleSpaceComponentType B none = .ok .NO_PROJECTION := rfl
    rw [this] at hi
    cases hi
    rfl
  subst e
  exact ⟨hB, hQ, by rw [ht]; simp⟩

theorem MakeBundleSpaceComponents_none {ν : Type} [BEq ν] (cfs : ComputeFiberSpace)
    (Bundle : SpaceInformation ν) (cs : List BundleSpaceComponent) (k : Int)
    (h : MakeBundleSpaceComponents cfs Bundle none = .ok cs)
    (hk : GetNumberOfComponents Bundle.getStateSpace = .ok k) :
    (1 < k → (cs.length : Int) = k ∧
      ∃ subs, Bundle.getStateSpace.getSubspaces = .ok subs ∧
        ∀ (m : Nat) (c : BundleSpaceComponent), cs[m]? = some c →
          subs[m]? = some c.BundleSpace ∧ c.BaseSpace = none ∧
          c.type_ = .NO_PROJECTION) ∧
    (k ≤ 1 → ∃ c, cs = [c] ∧ c.BundleSpace = Bundle.getStateSpace ∧ c.BaseSpace = none ∧
      c.type_ = .NO_PROJECTION) := by
  simp only [MakeBundleSpaceComponents, hk, ok_bind] at h
  by_cases hgt : k > 1
  · rw [if_pos hgt] at h
    obtain ⟨subs, hsubs, hloop⟩ := bind_ok_elim h
    refine ⟨fun _ => ?_, fun hle => absurd hgt (by omega)⟩
    obtain ⟨hlen, hget⟩ := forLoop_collect_zero
      (fun m => vectorAt subs m >>= fun B => MakeBundleSpaceComponent cfs B none false) _
      (fun m acc => by simp only [bind_assoc]) _ _ hloop
    refine ⟨by rw [hlen]; omega, subs, hsubs, fun m c hc => ?_⟩
    obtain ⟨B, hB, hM⟩ := bind_ok_elim (hget m c hc)
    obtain ⟨h1, h2, h3⟩ := MakeBundleSpaceComponent_none cfs B false c hM
    exact ⟨by rw [h1]; exact vectorAt_ok _ _ _ hB, h2, h3⟩
  · rw [if_neg hgt] at h
    obtain ⟨c, hM, hc⟩ := bind_ok_elim h
    refine ⟨fun h1 => absurd h1 hgt, fun _ => ?_⟩
    cases hc
    exact ⟨c, rfl, MakeBundleSpaceComponent_none cfs _ false c hM⟩

theorem MakeBundleSpaceComponents_some {ν : Type} [BEq ν] (cfs : ComputeFiberSpace)
    (Bundle Base : SpaceInformation ν) (cs : List BundleSpaceComponent) (k : Int)
    (h : MakeBundleSpaceComponents cfs Bundle (some Base) = .ok cs)
    (hk : GetNumberOfComponents Bundle.getStateSpace = .ok k) :
    (1 < k → (cs.length : Int) = k ∧
      ∃ subs bsubs, Bundle.getStateSpace.getSubspaces = .ok subs ∧
        Base.getStateSpace.getSubspaces = .ok bsubs ∧
        ∀ (m : Nat) (c : BundleSpaceComponent), cs[m]? = some c →
          subs[m]? = some c.BundleSpace ∧ ∃ b, bsubs[m]? = some b ∧ c.BaseSpace = some b) ∧
    (k ≤ 1 → ∃ c, cs = [c] ∧ c.BundleSpace = Bundle.getStateSpace ∧
      c.BaseSpace = some Base.getStateSpace) := by
  simp only [MakeBundleSpaceComponents, hk, ok_bind] at h
  obtain ⟨kb, hkb, h⟩ := bind_ok_elim h
  by_cases hne : kb ≠ k
  · rw [if_pos hne] at h
    cases h
  · rw [if_neg hne] at h
    by_cases hgt : k > 1
    · rw [if_pos hgt] at h
      obtain ⟨subs, hsubs, h⟩ := bind_ok_elim h
      obtain ⟨bsubs, hbsubs, hloop⟩ := bind_ok_elim h
      refine ⟨fun _ => ?_, fun hle => absurd hgt (by omega)⟩
      obtain ⟨hlen, hget⟩ := forLoop_collect_zero
        (fun m => vectorAt bsubs m >>= fun BaseM => vectorAt subs m >>= fun BundleM =>
          MakeBundleSpaceComponent cfs BundleM (some BaseM)
            (if Base.getStateValidityChecker == Bundle.getStateValidityChecker then true
              else false)) _
        (fun m acc => by simp only [bind_assoc]) _ _ hloop
      refine ⟨by rw [hlen]; omega, subs, bsubs, hsubs, hbsubs, fun m c hc => ?_⟩
      obtain ⟨Q, hQ, hrest⟩ := bind_ok_elim (hget m c hc)
      obtain ⟨B, hB, hM⟩ := bind_ok_elim hrest
      obtain ⟨t, _, _, _, _, h1, h2, _⟩ := MakeBundleSpaceComponent_ok cfs B (some Q) _ c hM
      exact ⟨by rw [h1]; exact vectorAt_ok _ _ _ hB, Q, vectorAt_ok _ _ _ hQ, h2⟩
    · rw [if_neg hgt] at h
      obtain ⟨c, hM, hc⟩ := bind_ok_elim h
      refine ⟨fun h1 => absurd h1 hgt, fun _ => ?_⟩
      cases hc
      obtain ⟨t, _, _, _, _, h1, h2, _⟩ := MakeBundleSpaceComponent_ok cfs _ _ _ c hM
      exact ⟨c, rfl, h1, h2⟩

/-! ## Claims on the component factory -/

/-- C18: when `GetNumberOfComponents` differs between the Base and the Bundle,
`MakeBundleSpaceComponents(Bundle, Base)` throws "Different Number Of Components";
this is its outcome whatever the classifier would make of any pair of subspaces,
and no component is returned. -/
theorem C18_MakeBundleSpaceComponents_count_mismatch {ν : Type} [BEq ν]
    (cfs : ComputeFiberSpace) (Bundle Base : SpaceInformation ν) (nBundle nBase : Int)
    (hBundle : GetNumberOfComponents Bundle.getStateSpace = .ok nBundle)
    (hBase : GetNumberOfComponents Base.getStateSpace = .ok nBase)
    (hne : nBase ≠ nBundle) :
    MakeBundleSpaceComponents cfs Bundle (some Base)
      = .error (.exception .Different_Number_Of_Components) := by
  simp only [MakeBundleSpaceComponents, hBundle, hBase, ok_bind]
  rw [if_pos hne]

/-- Witness of C18: the Bundle is the product of the two agents `R^2` and `R^2`, the
Base the single non-composite space `R^2`. -/
theorem C18_MakeBundleSpaceComponents_count_mismatch_witness :
    GetNumberOfComponents
        (.compound .STATE_SPACE_UNKNOWN 4 [RealVectorStateSpace 2, RealVectorStateSpace 2])
      = .ok 2 ∧
    GetNumberOfComponents (RealVectorStateSpace 2) = .ok 1 ∧
    MakeBundleSpaceComponents noFiberSpace
        (SpaceInformation.mk
          (.compound .STATE_SPACE_UNKNOWN 4 [RealVectorStateSpace 2, RealVectorStateSpace 2])
          (0 : Nat))
        (some (SpaceInformation.mk (RealVectorStateSpace 2) (0 : Nat)))
      = .error (.exception .Different_Number_Of_Components) :=
  ⟨by decide, by decide,
   C18_MakeBundleSpaceComponents_count_mismatch noFiberSpace _ _ 2 1 (by decide) (by decide)
     (by decide)⟩

/-- C20 (counterexample): for a composite Bundle without subspaces and no Base,
`GetNumberOfComponents` is 0, yet `MakeBundleSpaceComponents` succeeds and returns
one component, built from the whole Bundle. -/
theorem C20_counterexample_empty_composite :
    GetNumberOfComponents (.compound .STATE_SPACE_UNKNOWN 0 []) = .ok 0 ∧
    MakeBundleSpaceComponents noFiberSpace
        (SpaceInformation.mk (.compound .STATE_SPACE_UNKNOWN 0 []) (0 : Nat)) none
      = .ok [BundleSpaceComponent.mk (.compound .STATE_SPACE_UNKNOWN 0 []) none
          .NO_PROJECTION none] :=
  ⟨by decide, rfl⟩

/-- C20 (amended): when `MakeBundleSpaceComponents` succeeds and
`GetNumberOfComponents(Bundle)` is `k`: if `k > 1` it returns `k` components and the
`m`-th is built from the `m`-th subspace of the Bundle, paired with the `m`-th
subspace of the Base when a Base is given; if `k <= 1` it returns exactly one
component, built from the whole spaces; and without a Base every returned component
is marked `NO_PROJECTION`. -/
theorem C20_MakeBundleSpaceComponents_in_subspace_order {ν : Type} [BEq ν]
    (cfs : ComputeFiberSpace) (Bundle : SpaceInformation ν)
    (Base? : Option (SpaceInformation ν)) (cs : List BundleSpaceComponent) (k : Int)
    (h : MakeBundleSpaceComponents cfs Bundle Base? = .ok cs)
    (hk : GetNumberOfComponents Bundle.getStateSpace = .ok k) :
    (1 < k → (cs.length : Int) = k ∧
      ∃ subs, Bundle.getStateSpace.getSubspaces = .ok subs ∧
        ∀ (m : Nat) (c : BundleSpaceComponent), cs[m]? = some c →
          subs[m]? = some c.BundleSpace ∧
          match Base? with
          | none => c.BaseSpace = none
          | some Base => ∃ bsubs b, Base.getStateSpace.getSubspaces = .ok bsubs ∧
              bsubs[m]? = some b ∧ c.BaseSpace = some b) ∧
    (k ≤ 1 → ∃ c, cs = [c] ∧ c.BundleSpace = Bundle.getStateSpace ∧
      c.BaseSpace = Base?.map (fun Base => Base.getStateSpace)) ∧
    (Base? = none → ∀ c ∈ cs, c.type_ = .NO_PROJECTION) := by
  cases Base? with
  | none =>
    obtain ⟨h1, h2⟩ := MakeBundleSpaceComponents_none cfs Bundle cs k h hk
    refine ⟨fun hgt => ?_, fun hle => ?_, fun _ c hc => ?_⟩
    · obtain ⟨hlen, subs, hsubs, hget⟩ := h1 hgt
      exact ⟨hlen, subs, hsubs, fun m c hc => ⟨(hget m c hc).1, (hget m c hc).2.1⟩⟩
    · obtain ⟨c, hc, hB, hQ, _⟩ := h2 hle
      exact ⟨c, hc, hB, hQ⟩
    · by_cases hgt : 1 < k
      · obtain ⟨_, subs, _, hget⟩ := h1 hgt
        obtain ⟨m, hm, hcm⟩ := List.getElem_of_mem hc
        exact (hget m c (by rw [List.getElem?_eq_getElem hm, hcm])).2.2
      · obtain ⟨c', hc', _, _, ht⟩ := h2 (by omega)
        rw [hc'] at hc
        rw [List.mem_singleton.mp hc]
        exact ht
  | some Base =>
    obtain ⟨h1, h2⟩ := MakeBundleSpaceComponents_some cfs Bundle Base cs k h hk
    refine ⟨fun hgt => ?_, fun hle => h2 hle, fun hn => by cases hn⟩
    obtain ⟨hlen, subs, bsubs, hsubs, hbsubs, hget⟩ := h1 hgt
    refine ⟨hlen, subs, hsubs, fun m c hc => ⟨(hget m c hc).1, ?_⟩⟩
    obtain ⟨b, hb, hcb⟩ := (hget m c hc).2
    exact ⟨bsubs, b, hbsubs, hb, hcb⟩

/-- Witness of the amended C20: the Bundle is the product of the two agents `R^2`
and `R^3`, without a Base. -/
theorem C20_MakeBundleSpaceComponents_in_subspace_order_witness :
    (1 < (2 : Int) →
      (([BundleSpaceComponent.mk (RealVectorStateSpace 2) none .NO_PROJECTION none,
          BundleSpaceComponent.mk (RealVectorStateSpace 3) none .NO_PROJECTION none].length
          : Nat) : Int) = 2 ∧
      ∃ subs, (StateSpace.compound .STATE_SPACE_UNKNOWN 5
          [RealVectorStateSpace 2, RealVectorStateSpace 3]).getSubspaces = .ok subs ∧
        ∀ (m : Nat) (c : BundleSpaceComponent),
          [BundleSpaceComponent.mk (RealVectorStateSpace 2) none .NO_PROJECTION none,
            BundleSpaceComponent.mk (RealVectorStateSpace 3) none .NO_PROJECTION none][m]?
            = some c →
          subs[m]? = some c.BundleSpace ∧ c.BaseSpace = none) ∧
    ((2 : Int) ≤ 1 → ∃ c,
      [BundleSpaceComponent.mk (RealVectorStateSpace 2) none .NO_PROJECTION none,
        BundleSpaceComponent.mk (RealVectorStateSpace 3) none .NO_PROJECTION none] = [c] ∧
      c.BundleSpace = StateSpace.compound .STATE_SPACE_UNKNOWN 5
        [RealVectorStateSpace 2, RealVectorStateSpace 3] ∧
      c.BaseSpace = none) ∧
    ((none : Option (SpaceInformation Nat)) = none →
      ∀ c ∈ [BundleSpaceComponent.mk (RealVectorStateSpace 2) none .NO_PROJECTION none,
        BundleSpaceComponent.mk (RealVectorStateSpace 3) none .NO_PROJECTION none],
        c.type_ = .NO_PROJECTION) :=
  C20_MakeBundleSpaceComponents_in_subspace_order noFiberSpace
    (SpaceInformation.mk (.compound .STATE_SPACE_UNKNOWN 5
      [RealVectorStateSpace 2, RealVectorStateSpace 3]) (0 : Nat))
    none
    [BundleSpaceComponent.mk (RealVectorStateSpace 2) none .NO_PROJECTION none,
      BundleSpaceComponent.mk (RealVectorStateSpace 3) none .NO_PROJECTION none]
    2 rfl (by decide)

/-! ## The operators of a pose with extra coordinates over the pose or its position -/

theorem computeQuotientSpace_SE2RN_SE2 (n : Nat) :
    computeQuotientSpace (XRN SE2StateSpace n) SE2StateSpace =
      .ok (QuotientSpace.mk .SE2RN_SE2 (3 + n) 3 n (some (RealVectorStateSpace n)) true) := by
  simp [computeQuotientSpace, identifyQuotientSpaceType, XRN, SE2StateSpace, SO2StateSpace,
    RealVectorStateSpace, StateSpace.isCompound, StateSpace.getType, StateSpace.getDimension,
    StateSpace.getSubspaces, vectorAt, toUnsigned, bind, Except.bind]

theorem computeQuotientSpace_SE3RN_SE3 (n : Nat) :
    computeQuotientSpace (XRN SE3StateSpace n) SE3StateSpace =
      .ok (QuotientSpace.mk .SE3RN_SE3 (6 + n) 6 n (some (RealVectorStateSpace n)) true) := by
  simp [computeQuotientSpace, identifyQuotientSpaceType, XRN, SE3StateSpace, SO3StateSpace,
    RealVectorStateSpace, StateSpace.isCompound, StateSpace.getType, StateSpace.getDimension,
    StateSpace.getSubspaces, vectorAt, toUnsigned, bind, Except.bind]

theorem computeQuotientSpace_SO2RN_SO2 (n : Nat) :
    computeQuotientSpace (XRN SO2StateSpace n) SO2StateSpace =
      .ok (QuotientSpace.mk .SO2RN_SO2 (1 + n) 1 n (some (RealVectorStateSpace n)) true) := by
  simp [computeQuotientSpace, identifyQuotientSpaceType, XRN, SO2StateSpace,
    RealVectorStateSpace, StateSpace.isCompound, StateSpace.getType, StateSpace.getDimension,
    StateSpace.getSubspaces, vectorAt, toUnsigned, bind, Except.bind]

theorem computeQuotientSpace_SE2RN_R2 (n : Nat) (hn : 1 + n < 2 ^ 32) :
    computeQuotientSpace (XRN SE2StateSpace n) (RealVectorStateSpace 2) =
      .ok (QuotientSpace.mk .SE2RN_R2 (3 + n) 2 (1 + n) (some (XRN SO2StateSpace n)) true) := by
  simp [computeQuotientSpace, identifyQuotientSpaceType, XRN, SE2StateSpace, SO2StateSpace,
    RealVectorStateSpace, StateSpace.isCompound, StateSpace.getType, StateSpace.getDimension,
    StateSpace.getSubspaces, vectorAt, toUnsigned, bind, Except.bind, uadd_eq hn]

theorem computeQuotientSpace_SE3RN_R3 (n : Nat) (hn : 3 + n < 2 ^ 32) :
    computeQuotientSpace (XRN SE3StateSpace n) (RealVectorStateSpace 3) =
      .ok (QuotientSpace.mk .SE3RN_R3 (6 + n) 3 (3 + n) (some (XRN SO3StateSpace n)) true) := by
  simp [computeQuotientSpace, identifyQuotientSpaceType, XRN, SE3StateSpace, SO3StateSpace,
    RealVectorStateSpace, StateSpace.isCompound, StateSpace.getType, StateSpace.getDimension,
    StateSpace.getSubspaces, vectorAt, toUnsigned, bind, Except.bind, uadd_eq hn]

/-- The loop `for (k = 0; k < n; k++) out[k] = v[k]` on arrays of length `n`. -/
theorem forLoop_all {α : Type} (v out : List α) (n : Nat) (hv : v.length = n)
    (hout : out.length = n) :
    forLoop 0 n (fun k d => assignValue d k v k) out = .ok v := by
  rw [forLoop_take v out n (by omega) hout, List.take_of_length_le (by omega)]

theorem mergeStates_SE2RN_SE2 {α : Type} (n Q1d Q0d : Nat) (X1 : StateSpace)
    (sb so : SE2State α) (vf vo : List α) (hf : vf.length = n) (hout : vo.length = n) :
    (QuotientSpace.mk .SE2RN_SE2 Q1d Q0d n (some X1) true).mergeStates
      (.SE2 sb) (.RealVector vf) (.Compound [.SE2 so, .RealVector vo]) =
      .ok (.Compound [.SE2 sb, .RealVector vf]) := by
  simp only [QuotientSpace.mergeStates]
  rw [if_neg (by simp)]
  simp only [asCompound_Compound, ok_bind, component_zero, component_one, asSE2_SE2,
    asRealVector_RealVector]
  rw [forLoop_all vf vo n hf hout, ok_bind, set_pair]

theorem projectQ0Subspace_SE2RN_SE2 {α : Type} (Q1d Q0d X1d : Nat) (X1 : Option StateSpace)
    (p : Bool) (s so : SE2State α) (v : List α) :
    (QuotientSpace.mk .SE2RN_SE2 Q1d Q0d X1d X1 p).projectQ0Subspace
      (.Compound [.SE2 s, .RealVector v]) (.SE2 so) = .ok (.SE2 s) := by
  simp only [QuotientSpace.projectQ0Subspace]
  simp only [asCompound_Compound, ok_bind, component_zero, asSE2_SE2]

theorem projectX1Subspace_XRN_X {α : Type} (n Q1d Q0d : Nat) (X1 : Option StateSpace)
    (p : Bool) (c : State α) (v vo : List α) (hv : v.length = n) (hvo : vo.length = n) :
    (QuotientSpace.mk .SE2RN_SE2 Q1d Q0d n X1 p).projectX1Subspace
        (.Compound [c, .RealVector v]) (.RealVector vo) = .ok (.RealVector v) ∧
    (QuotientSpace.mk .SE3RN_SE3 Q1d Q0d n X1 p).projectX1Subspace
        (.Compound [c, .RealVector v]) (.RealVector vo) = .ok (.RealVector v) ∧
    (QuotientSpace.mk .SO2RN_SO2 Q1d Q0d n X1 p).projectX1Subspace
        (.Compound [c, .RealVector v]) (.RealVector vo) = .ok (.RealVector v) := by
  refine ⟨?_, ?_, ?_⟩ <;>
  · simp only [QuotientSpace.projectX1Subspace]
    simp only [asCompound_Compound, ok_bind, component_one, asRealVector_RealVector]
    rw [forLoop_all v vo n hv hvo, ok_bind]

theorem mergeStates_SE3RN_SE3 {α : Type} (n Q1d Q0d : Nat) (X1 : StateSpace)
    (sb so : SE3State α) (vf vo : List α) (hf : vf.length = n) (hout : vo.length = n) :
    (QuotientSpace.mk .SE3RN_SE3 Q1d Q0d n (some X1) true).mergeStates
      (.SE3 sb) (.RealVector vf) (.Compound [.SE3 so, .RealVector vo]) =
      .ok (.Compound [.SE3 sb, .RealVector vf]) := by
  simp only [QuotientSpace.mergeStates]
  rw [if_neg (by simp)]
  simp only [asCompound_Compound, ok_bind, component_zero, component_one, asSE3_SE3,
    asRealVector_RealVector]
  rw [forLoop_all vf vo n hf hout, ok_bind, set_pair]

theorem projectQ0Subspace_SE3RN_SE3 {α : Type} (Q1d Q0d X1d : Nat) (X1 : Option StateSpace)
    (p : Bool) (s so : SE3State α) (v : List α) :
    (QuotientSpace.mk .SE3RN_SE3 Q1d Q0d X1d X1 p).projectQ0Subspace
      (.Compound [.SE3 s, .RealVector v]) (.SE3 so) = .ok (.SE3 s) := by
  simp only [QuotientSpace.projectQ0Subspace]
  simp only [asCompound_Compound, ok_bind, component_zero, asSE3_SE3]

theorem mergeStates_SO2RN_SO2 {α : Type} (n Q1d Q0d : Nat) (X1 : StateSpace)
    (sb so : α) (vf vo : List α) (hf : vf.length = n) (hout : vo.length = n) :
    (QuotientSpace.mk .SO2RN_SO2 Q1d Q0d n (some X1) true).mergeStates
      (.SO2 sb) (.RealVector vf) (.Compound [.SO2 so, .RealVector vo]) =
      .ok (.Compound [.SO2 sb, .RealVector vf]) := by
  simp only [QuotientSpace.mergeStates]
  rw [if_neg (by simp)]
  simp only [asCompound_Compound, ok_bind, component_zero, component_one, asSO2_SO2,
    asRealVector_RealVector]
  rw [forLoop_all vf vo n hf hout, ok_bind, set_pair]

theorem projectQ0Subspace_SO2RN_SO2 {α : Type} (Q1d Q0d X1d : Nat) (X1 : Option StateSpace)
    (p : Bool) (s so : α) (v : List α) :
    (QuotientSpace.mk .SO2RN_SO2 Q1d Q0d X1d X1 p).projectQ0Subspace
      (.Compound [.SO2 s, .RealVector v]) (.SO2 so) = .ok (.SO2 s) := by
  simp only [QuotientSpace.projectQ0Subspace]
  simp only [asCompound_Compound, ok_bind, component_zero, asSO2_SO2]

theorem asSO3_SO3 {α : Type} (s : SO3State α) : (State.SO3 s).asSO3 = .ok s := by
  simp only [State.asSO3]

theorem mergeStates_SE2RN_R2 {α : Type} (n Q1d Q0d : Nat) (hn : 1 + n < 2 ^ 32)
    (X1 : StateSpace) (p0 p1 r : α) (so : SE2State α) (vf vo : List α)
    (hf : vf.length = n) (hout : vo.length = n) :
    (QuotientSpace.mk .SE2RN_R2 Q1d Q0d (1 + n) (some X1) true).mergeStates
      (.RealVector [p0, p1]) (.Compound [.SO2 r, .RealVector vf])
      (.Compound [.SE2 so, .RealVector vo]) =
      .ok (.Compound [.SE2 ⟨p0, p1, r⟩, .RealVector vf]) := by
  have e1 : usub (1 + n) 1 = n := by rw [usub_eq (by omega) hn]; omega
  have r0 : readValue [p0, p1] 0 = .ok p0 := rfl
  have r1 : readValue [p0, p1] 1 = .ok p1 := rfl
  simp only [QuotientSpace.mergeStates]
  rw [if_neg (by simp)]
  simp only [asCompound_Compound, ok_bind, component_zero, component_one, asSE2_SE2,
    asSO2_SO2, asRealVector_RealVector, e1, r0, r1]
  rw [forLoop_all vf vo n hf hout, ok_bind, set_pair]

theorem projectQ0Subspace_SE2RN_R2 {α : Type} (Q1d Q0d X1d : Nat) (X1 : Option StateSpace)
    (p : Bool) (s : SE2State α) (v : List α) (o0 o1 : α) :
    (QuotientSpace.mk .SE2RN_R2 Q1d Q0d X1d X1 p).projectQ0Subspace
      (.Compound [.SE2 s, .RealVector v]) (.RealVector [o0, o1]) =
      .ok (.RealVector [s.x, s.y]) := by
  have w0 : writeValue [o0, o1] 0 s.x = .ok [s.x, o1] := rfl
  have w1 : writeValue [s.x, o1] 1 s.y = .ok [s.x, s.y] := rfl
  simp only [QuotientSpace.projectQ0Subspace]
  simp only [asCompound_Compound, ok_bind, component_zero, asSE2_SE2,
    asRealVector_RealVector, w0, w1]

theorem projectX1Subspace_SE2RN_R2 {α : Type} (n Q1d Q0d : Nat) (hn : 1 + n < 2 ^ 32)
    (X1 : Option StateSpace) (p : Bool) (s : SE2State α) (ro : α) (v vo : List α)
    (hv : v.length = n) (hvo : vo.length = n) :
    (QuotientSpace.mk .SE2RN_R2 Q1d Q0d (1 + n) X1 p).projectX1Subspace
      (.Compound [.SE2 s, .RealVector v]) (.Compound [.SO2 ro, .RealVector vo]) =
      .ok (.Compound [.SO2 s.yaw, .RealVector v]) := by
  have e1 : usub (1 + n) 1 = n := by rw [usub_eq (by omega) hn]; omega
  simp only [QuotientSpace.projectX1Subspace]
  simp only [asCompound_Compound, ok_bind, component_zero, component_one, asSE2_SE2,
    asSO2_SO2, asRealVector_RealVector, e1]
  rw [forLoop_all v vo n hv hvo, ok_bind, set_pair]

theorem mergeStates_SE3RN_R3 {α : Type} (n Q1d Q0d : Nat) (hn : 3 + n < 2 ^ 32)
    (X1 : StateSpace) (p0 p1 p2 : α) (q : SO3State α) (so : SE3State α) (vf vo : List α)
    (hf : vf.length = n) (hout : vo.length = n) :
    (QuotientSpace.mk .SE3RN_R3 Q1d Q0d (3 + n) (some X1) true).mergeStates
      (.RealVector [p0, p1, p2]) (.Compound [.SO3 q, .RealVector vf])
      (.Compound [.SE3 so, .RealVector vo]) =
      .ok (.Compound [.SE3 ⟨p0, p1, p2, q⟩, .RealVector vf]) := by
  have e1 : usub (3 + n) 3 = n := by rw [usub_eq (by omega) hn]; omega
  have r0 : readValue [p0, p1, p2] 0 = .ok p0 := rfl
  have r1 : readValue [p0, p1, p2] 1 = .ok p1 := rfl
  have r2 : readValue [p0, p1, p2] 2 = .ok p2 := rfl
  simp only [QuotientSpace.mergeStates]
  rw [if_neg (by simp)]
  simp only [asCompound_Compound, ok_bind, component_zero, component_one, asSE3_SE3,
    asSO3_SO3, asRealVector_RealVector, e1, r0, r1, r2]
  rw [forLoop_all vf vo n hf hout, ok_bind, set_pair]

theorem projectQ0Subspace_SE3RN_R3 {α : Type} (Q1d Q0d X1d : Nat) (X1 : Option StateSpace)
    (p : Bool) (s : SE3State α) (v : List α) (o0 o1 o2 : α) :
    (QuotientSpace.mk .SE3RN_R3 Q1d Q0d X1d X1 p).projectQ0Subspace
      (.Compound [.SE3 s, .RealVector v]) (.RealVector [o0, o1, o2]) =
      .ok (.RealVector [s.x, s.y, s.z]) := by
  have w0 : writeValue [o0, o1, o2] 0 s.x = .ok [s.x, o1, o2] := rfl
  have w1 : writeValue [s.x, o1, o2] 1 s.y = .ok [s.x, s.y, o2] := rfl
  have w2 : writeValue [s.x, s.y, o2] 2 s.z = .ok [s.x, s.y, s.z] := rfl
  simp only [QuotientSpace.projectQ0Subspace]
  simp only [asCompound_Compound, ok_bind, component_zero, asSE3_SE3,
    asRealVector_RealVector, w0, w1, w2]

theorem projectX1Subspace_SE3RN_R3 {α : Type} (n Q1d Q0d : Nat) (hn : 3 + n < 2 ^ 32)
    (X1 : Option StateSpace) (p : Bool) (s : SE3State α) (qo : SO3State α) (v vo : List α)
    (hv : v.length = n) (hvo : vo.length = n) :
    (QuotientSpace.mk .SE3RN_R3 Q1d Q0d (3 + n) X1 p).projectX1Subspace
      (.Compound [.SE3 s, .RealVector v]) (.Compound [.SO3 qo, .RealVector vo]) =
      .ok (.Compound [.SO3 s.rotation, .RealVector v]) := by
  have e1 : usub (3 + n) 3 = n := by rw [usub_eq (by omega) hn]; omega
  simp only [QuotientSpace.projectX1Subspace]
  simp only [asCompound_Compound, ok_bind, component_zero, component_one, asSE3_SE3,
    asSO3_SO3, asRealVector_RealVector, e1]
  rw [forLoop_all v vo n hv hvo, ok_bind, set_pair]

/-! ## The quotient spaces of identity type -/

/-- A quotient space that `computeQuotientSpace` builds with an identity type has no
quotient `X1` and `X1_dimension_ = 0`: the `case` group of the identity types leaves
the returned pointer null. -/
theorem computeQuotientSpace_identity (Q1 Q0 : StateSpace) (self : QuotientSpace)
    (h : computeQuotientSpace Q1 Q0 = .ok self) (hid : self.type_.isIdentity = true) :
    self.X1 = none ∧ self.X1_dimension_ = 0 := by
  unfold computeQuotientSpace at h
  obtain ⟨t, _, h⟩ := bind_ok_elim h
  dsimp only at h
  split at h
  · cases h
  · cases t <;> dsimp only at h <;>
      first
      | (cases h; done)
      | (cases h; exact ⟨rfl, rfl⟩)
      | (repeat (obtain ⟨_, _, h⟩ := bind_ok_elim h)
         cases h; cases hid)

theorem computeQuotientSpace_IDENTITY_SPACE_RN (n : Nat) (hn : 0 < n) :
    computeQuotientSpace (RealVectorStateSpace n) (RealVectorStateSpace n) =
      .ok (QuotientSpace.mk .IDENTITY_SPACE_RN n n 0 none true) := by
  have h2 : ¬ n = 0 := by omega
  simp [computeQuotientSpace, identifyQuotientSpaceType, RealVectorStateSpace,
    StateSpace.isCompound, StateSpace.getType, StateSpace.getDimension, hn, h2, bind,
    Except.bind]

theorem computeQuotientSpace_IDENTITY_SPACE_SE2 :
    computeQuotientSpace SE2StateSpace SE2StateSpace =
      .ok (QuotientSpace.mk .IDENTITY_SPACE_SE2 3 3 0 none true) := by
  rfl

theorem computeQuotientSpace_IDENTITY_SPACE_SE2RN (n : Nat) :
    computeQuotientSpace (XRN SE2StateSpace n) (XRN SE2StateSpace n) =
      .ok (QuotientSpace.mk .IDENTITY_SPACE_SE2RN (3 + n) (3 + n) 0 none true) := by
  simp [computeQuotientSpace, identifyQuotientSpaceType, XRN, SE2StateSpace, SO2StateSpace,
    RealVectorStateSpace, StateSpace.isCompound, StateSpace.getType, StateSpace.getDimension,
    StateSpace.getSubspaces, vectorAt, toUnsigned, bind, Except.bind]

theorem computeQuotientSpace_IDENTITY_SPACE_SO2RN (n : Nat) :
    computeQuotientSpace (XRN SO2StateSpace n) (XRN SO2StateSpace n) =
      .ok (QuotientSpace.mk .IDENTITY_SPACE_SO2RN (1 + n) (1 + n) 0 none true) := by
  simp [computeQuotientSpace, identifyQuotientSpaceType, XRN, SO2StateSpace,
    RealVectorStateSpace, StateSpace.isCompound, StateSpace.getType, StateSpace.getDimension,
    StateSpace.getSubspaces, vectorAt, toUnsigned, bind, Except.bind]

theorem computeQuotientSpace_IDENTITY_SPACE_SE3RN (n : Nat) :
    computeQuotientSpace (XRN SE3StateSpace n) (XRN SE3StateSpace n) =
      .ok (QuotientSpace.mk .IDENTITY_SPACE_SE3RN (6 + n) (6 + n) 0 none true) := by
  simp [computeQuotientSpace, identifyQuotientSpaceType, XRN, SE3StateSpace, SO3StateSpace,
    RealVectorStateSpace, StateSpace.isCompound, StateSpace.getType, StateSpace.getDimension,
    StateSpace.getSubspaces, vectorAt, toUnsigned, bind, Except.bind]

theorem computeQuotientSpace_SO2RN_SO2RM (n m : Nat) (hm : 0 < m) (hmn : m < n)
    (hn : n < 2 ^ 32) :
    computeQuotientSpace (XRN SO2StateSpace n) (XRN SO2StateSpace m) =
      .ok (QuotientSpace.mk .SO2RN_SO2RM (1 + n) (1 + m) (n - m)
        (some (RealVectorStateSpace (n - m))) true) := by
  have h1 : m < n ∧ m > 0 := ⟨hmn, hm⟩
  simp [computeQuotientSpace, identifyQuotientSpaceType, XRN, SO2StateSpace,
    RealVectorStateSpace, StateSpace.isCompound, StateSpace.getType, StateSpace.getDimension,
    StateSpace.getSubspaces, vectorAt, toUnsigned, h1, bind, Except.bind,
    usub_eq (Nat.le_of_lt hmn) hn]

/-- The outcome of the three operators on a quotient space of identity type without
quotient `X1`. -/
theorem identity_operators {α : Type} (self : QuotientSpace)
    (hid : self.type_.isIdentity = true) (q b f buf : State α) :
    self.projectQ0Subspace q buf = .ok q ∧
    self.projectX1Subspace q buf = .error (.exit 0) ∧
    (self.X1 = none → self.mergeStates b f buf = .error .undefinedBehaviour) ∧
    (self.X1.isSome = true → self.hasParent = true →
      self.mergeStates b f buf = .error (.exit 0)) := by
  obtain ⟨t, Q1d, Q0d, X1d, X1, p⟩ := self
  cases t <;> cases hid
  all_goals
    refine ⟨rfl, rfl, ?_, ?_⟩
    · intro h
      have h : X1 = none := h
      subst h
      rfl
    · intro h1 h2
      have h2 : p = true := h2
      subst h2
      cases X1 with
      | none => cases h1
      | some X => rfl

theorem DerivedFiber_of {Q1 Q0 : StateSpace} {self : QuotientSpace}
    (h : computeQuotientSpace Q1 Q0 = .ok self) {t : QuotientSpaceType} {d : Nat}
    (h1 : self.type_ = t) (h2 : self.X1_dimension_ = d) (h3 : self.getX1SpaceDimension = d)
    (h4 : self.X1.isNone = t.isIdentity) (h5 : self.Q0_dimension_ = Q0.getDimension)
    (h6 : self.Q1_dimension_ = Q1.getDimension) (h7 : Q0.getDimension + d = Q1.getDimension) :
    DerivedFiber Q1 Q0 t d := by
  unfold DerivedFiber
  rw [h]
  exact ⟨h1, h2, h3, h4, h5, h6, h7⟩

/-! ## The loop that copies the bounds -/

theorem vectorAt_getElem {β : Type} (v : List β) (i : Nat) (h : i < v.length) :
    vectorAt v i = .ok v[i] := by
  unfold vectorAt
  rw [List.get?_eq_getElem?, List.getElem?_eq_getElem h]

/-- The loop `for k in [lo, lo + cnt): X.setLow(k, L.at(k + M)); X.setHigh(k, H.at(k + M))`
runs without fault when the index ranges lie inside the arrays, keeps the lengths of
the two arrays of `X`, and leaves them holding the copied slices and, elsewhere,
their previous content. -/
theorem forLoop_bounds {α : Type} (L H : List α) (M : Nat) :
    ∀ (cnt lo : Nat) (X : RealVectorBounds α),
      lo + cnt ≤ X.low.length → lo + cnt ≤ X.high.length →
      lo + cnt + M ≤ L.length → lo + cnt + M ≤ H.length → lo + cnt + M ≤ 2 ^ 32 →
      ∃ R, forLoop lo (lo + cnt) (fun k X1_bounds => do
          let X1_bounds ← X1_bounds.setLow k (← vectorAt L (uadd k M))
          X1_bounds.setHigh k (← vectorAt H (uadd k M))) X = .ok R ∧
        R.low.length = X.low.length ∧ R.high.length = X.high.length ∧
        (∀ i, R.low[i]? = if lo ≤ i ∧ i < lo + cnt then L[i + M]? else X.low[i]?) ∧
        (∀ i, R.high[i]? = if lo ≤ i ∧ i < lo + cnt then H[i + M]? else X.high[i]?) := by
  intro cnt
  induction cnt with
  | zero =>
    intro lo X _ _ _ _ _
    refine ⟨X, forLoop_nil _ _ (by omega) _ _, rfl, rfl, ?_, ?_⟩ <;>
    · intro i
      have : ¬ (lo ≤ i ∧ i < lo + 0) := by omega
      rw [if_neg this]
  | succ cnt ih =>
    intro lo X hl hh hL hH h32
    have e : uadd lo M = lo + M := uadd_eq (by omega)
    have hLi : lo + M < L.length := by omega
    have hHi : lo + M < H.length := by omega
    have hbody : (do
          let X1_bounds ← X.setLow lo (← vectorAt L (uadd lo M))
          X1_bounds.setHigh lo (← vectorAt H (uadd lo M))) =
        .ok (RealVectorBounds.mk (X.low.set lo L[lo + M]) (X.high.set lo H[lo + M])) := by
      have hl' : lo < X.low.length := by omega
      have hh' : lo < X.high.length := by omega
      simp only [e, vectorAt_getElem L _ hLi, vectorAt_getElem H _ hHi, ok_bind,
        RealVectorBounds.setLow, RealVectorBounds.setHigh, writeValue, if_pos hl', if_pos hh']
    have hstep := forLoop_step lo cnt (fun k (X1_bounds : RealVectorBounds α) => do
          let X1_bounds ← X1_bounds.setLow k (← vectorAt L (uadd k M))
          X1_bounds.setHigh k (← vectorAt H (uadd k M))) X _ hbody
    obtain ⟨R, hR, hRl, hRh, hgl, hgh⟩ := ih (lo + 1)
      (RealVectorBounds.mk (X.low.set lo L[lo + M]) (X.high.set lo H[lo + M]))
      (by simp only [List.length_set]; omega) (by simp only [List.length_set]; omega)
      (by omega) (by omega) (by omega)
    refine ⟨R, by rw [hstep]; exact hR, by rw [hRl, List.length_set],
      by rw [hRh, List.length_set], ?_, ?_⟩
    · intro i
      rw [hgl i]
      by_cases h1 : lo + 1 ≤ i ∧ i < lo + 1 + cnt
      · have h2 : lo ≤ i ∧ i < lo + (cnt + 1) := by omega
        rw [if_pos h1, if_pos h2]
      · rw [if_neg h1]
        by_cases h3 : i = lo
        · have h2 : lo ≤ i ∧ i < lo + (cnt + 1) := by omega
          subst h3
          rw [if_pos h2, List.getElem?_set_self (by omega), List.getElem?_eq_getElem hLi]
        · have h2 : ¬ (lo ≤ i ∧ i < lo + (cnt + 1)) := by omega
          rw [if_neg h2, List.getElem?_set_ne (by omega)]
    · intro i
      rw [hgh i]
      by_cases h1 : lo + 1 ≤ i ∧ i < lo + 1 + cnt
      · have h2 : lo ≤ i ∧ i < lo + (cnt + 1) := by omega
        rw [if_pos h1, if_pos h2]
      · rw [if_neg h1]
        by_cases h3 : i = lo
        · have h2 : lo ≤ i ∧ i < lo + (cnt + 1) := by omega
          subst h3
          rw [if_pos h2, List.getElem?_set_self (by omega), List.getElem?_eq_getElem hHi]
        · have h2 : ¬ (lo ≤ i ∧ i < lo + (cnt + 1)) := by omega
          rw [if_neg h2, List.getElem?_set_ne (by omega)]

/-- The bounds loop of `computeQuotientSpace` on fresh bounds of `N` entries: it
succeeds, and entry `k` of the result is entry `k + M` of the source, for `k < N`. -/
theorem forLoop_bounds_fresh {α : Type} (L H : List α) (M N : Nat) (zero : α)
    (hL : N + M ≤ L.length) (hH : N + M ≤ H.length) (h32 : N + M ≤ 2 ^ 32) :
    ∃ R, forLoop 0 N (fun k X1_bounds => do
        let X1_bounds ← X1_bounds.setLow k (← vectorAt L (uadd k M))
        X1_bounds.setHigh k (← vectorAt H (uadd k M)))
        (RealVectorBounds.ofDimension N zero) = .ok R ∧
      R.low.length = N ∧ R.high.length = N ∧
      ∀ k, k < N → R.low[k]? = L[M + k]? ∧ R.high[k]? = H[M + k]? := by
  obtain ⟨R, hR, hl, hh, hgl, hgh⟩ := forLoop_bounds L H M N 0
    (RealVectorBounds.ofDimension N zero)
    (by simp [RealVectorBounds.ofDimension]) (by simp [RealVectorBounds.ofDimension])
    (by omega) (by omega) (by omega)
  rw [Nat.zero_add] at hR hgl hgh
  refine ⟨R, hR, by rw [hl]; simp [RealVectorBounds.ofDimension],
    by rw [hh]; simp [RealVectorBounds.ofDimension], ?_⟩
  intro k hk
  have h2 : 0 ≤ k ∧ k < N := ⟨Nat.zero_le _, hk⟩
  rw [hgl k, hgh k, if_pos h2, if_pos h2, Nat.add_comm k M]
  exact ⟨rfl, rfl⟩

/-- The bounds of the quotient for `R^n` over `R^m`. -/
theorem computeQuotientSpaceBounds_RN_RM {α : Type} (getBounds : StateSpace → RealVectorBounds α)
    (zero : α) (n m : Nat) (hm : 0 < m) (hmn : m < n) (hn : n < 2 ^ 32)
    (hlow : (getBounds (RealVectorStateSpace n)).low.length = n)
    (hhigh : (getBounds (RealVectorStateSpace n)).high.length = n) :
    ∃ B, computeQuotientSpaceBounds getBounds zero (RealVectorStateSpace n)
        (RealVectorStateSpace m) = .ok (some B) ∧
      B.low.length = n - m ∧ B.high.length = n - m ∧
      ∀ k, k < n - m →
        B.low[k]? = (getBounds (RealVectorStateSpace n)).low[m + k]? ∧
        B.high[k]? = (getBounds (RealVectorStateSpace n)).high[m + k]? := by
  have h1 : n > m ∧ m > 0 := ⟨hmn, hm⟩
  have h2 : ¬ (m = 0 ∨ n = 0) := by omega
  obtain ⟨R, hR, hl, hh, hget⟩ := forLoop_bounds_fresh
    (getBounds (RealVectorStateSpace n)).low (getBounds (RealVectorStateSpace n)).high
    m (n - m) zero (by omega) (by omega) (by omega)
  refine ⟨R, ?_, hl, hh, hget⟩
  have ht : identifyQuotientSpaceType (RealVectorStateSpace n) (RealVectorStateSpace m)
      = .ok .RN_RM := by
    simp [identifyQuotientSpaceType, RealVectorStateSpace, StateSpace.isCompound,
      StateSpace.getType, StateSpace.getDimension, h1]
  have hd1 : (RealVectorStateSpace n).getDimension = n := rfl
  have hd0 : (RealVectorStateSpace m).getDimension = m := rfl
  unfold computeQuotientSpaceBounds
  rw [ht, ok_bind]
  simp only [hd1, hd0, if_neg h2, usub_eq (Nat.le_of_lt hmn) hn]
  rw [hR, ok_bind]

/-- The bounds of the quotient for `X x R^n` over `X x R^m`, for the poses `SE2`,
`SE3` and `SO2`. -/
theorem computeQuotientSpaceBounds_XRN_XRM {α : Type}
    (getBounds : StateSpace → RealVectorBounds α) (zero : α) (n m : Nat) (hm : 0 < m)
    (hmn : m < n) (hn : n < 2 ^ 32)
    (hlow : (getBounds (RealVectorStateSpace n)).low.length = n)
    (hhigh : (getBounds (RealVectorStateSpace n)).high.length = n)
    (X : StateSpace) (hX : X = SE2StateSpace ∨ X = SE3StateSpace ∨ X = SO2StateSpace) :
    ∃ B, computeQuotientSpaceBounds getBounds zero (XRN X n) (XRN X m) = .ok (some B) ∧
      B.low.length = n - m ∧ B.high.length = n - m ∧
      ∀ k, k < n - m →
        B.low[k]? = (getBounds (RealVectorStateSpace n)).low[m + k]? ∧
        B.high[k]? = (getBounds (RealVectorStateSpace n)).high[m + k]? := by
  have h1 : m < n ∧ m > 0 := ⟨hmn, hm⟩
  obtain ⟨R, hR, hl, hh, hget⟩ := forLoop_bounds_fresh
    (getBounds (RealVectorStateSpace n)).low (getBounds (RealVectorStateSpace n)).high
    m (n - m) zero (by omega) (by omega) (by omega)
  refine ⟨R, ?_, hl, hh, hget⟩
  have hd1 : (RealVectorStateSpace n).getDimension = n := rfl
  have hd0 : (RealVectorStateSpace m).getDimension = m := rfl
  have a1 : vectorAt [X, RealVectorStateSpace n] 1 = .ok (RealVectorStateSpace n) := rfl
  have a0 : vectorAt [X, RealVectorStateSpace m] 1 = .ok (RealVectorStateSpace m) := rfl
  rcases hX with hX | hX | hX <;> subst hX
  · have ht : identifyQuotientSpaceType (XRN SE2StateSpace n) (XRN SE2StateSpace m)
        = .ok .SE2RN_SE2RM := by
      simp [identifyQuotientSpaceType, XRN, SE2StateSpace, SO2StateSpace,
        RealVectorStateSpace, StateSpace.isCompound, StateSpace.getType,
        StateSpace.getDimension, StateSpace.getSubspaces, vectorAt, toUnsigned, h1, bind,
        Except.bind]
    unfold computeQuotientSpaceBounds
    rw [ht, ok_bind]
    have hz : ¬ ((XRN SE2StateSpace m).getDimension = 0 ∨
        (XRN SE2StateSpace n).getDimension = 0) := by
      simp [XRN, SE2StateSpace, StateSpace.getDimension]
    simp only [if_neg hz]
    simp only [XRN, getSubspaces_compound, ok_bind, a1, a0, hd1, hd0,
      usub_eq (Nat.le_of_lt hmn) hn]
    rw [hR, ok_bind]
  · have ht : identifyQuotientSpaceType (XRN SE3StateSpace n) (XRN SE3StateSpace m)
        = .ok .SE3RN_SE3RM := by
      simp [identifyQuotientSpaceType, XRN, SE3StateSpace, SO3StateSpace,
        RealVectorStateSpace, StateSpace.isCompound, StateSpace.getType,
        StateSpace.getDimension, StateSpace.getSubspaces, vectorAt, toUnsigned, h1, bind,
        Except.bind]
    unfold computeQuotientSpaceBounds
    rw [ht, ok_bind]
    have hz : ¬ ((XRN SE3StateSpace m).getDimension = 0 ∨
        (XRN SE3StateSpace n).getDimension = 0) := by
      simp [XRN, SE3StateSpace, StateSpace.getDimension]
    simp only [if_neg hz]
    simp only [XRN, getSubspaces_compound, ok_bind, a1, a0, hd1, hd0,
      usub_eq (Nat.le_of_lt hmn) hn]
    rw [hR, ok_bind]
  · have ht : identifyQuotientSpaceType (XRN SO2StateSpace n) (XRN SO2StateSpace m)
        = .ok .SO2RN_SO2RM := by
      simp [identifyQuotientSpaceType, XRN, SO2StateSpace,
        RealVectorStateSpace, StateSpace.isCompound, StateSpace.getType,
        StateSpace.getDimension, StateSpace.getSubspaces, vectorAt, toUnsigned, h1, bind,
        Except.bind]
    unfold computeQuotientSpaceBounds
    rw [ht, ok_bind]
    have hz : ¬ ((XRN SO2StateSpace m).getDimension = 0 ∨
        (XRN SO2StateSpace n).getDimension = 0) := by
      simp [XRN, SO2StateSpace, StateSpace.getDimension]
    simp only [if_neg hz]
    simp only [XRN, getSubspaces_compound, ok_bind, a1, a0, hd1, hd0,
      usub_eq (Nat.le_of_lt hmn) hn]
    rw [hR, ok_bind]

/-- The bounds of the quotient for `pose x R^n` over the pose and over the position:
the bounds of the vector part `R^n` of the Bundle. -/
theorem computeQuotientSpaceBounds_XRN_X {α : Type}
    (getBounds : StateSpace → RealVectorBounds α) (zero : α) (n : Nat) :
    computeQuotientSpaceBounds getBounds zero (XRN SE2StateSpace n) SE2StateSpace
      = .ok (some (getBounds (RealVectorStateSpace n))) ∧
    computeQuotientSpaceBounds getBounds zero (XRN SE3StateSpace n) SE3StateSpace
      = .ok (some (getBounds (RealVectorStateSpace n))) ∧
    computeQuotientSpaceBounds getBounds zero (XRN SO2StateSpace n) SO2StateSpace
      = .ok (some (getBounds (RealVectorStateSpace n))) ∧
    computeQuotientSpaceBounds getBounds zero (XRN SE2StateSpace n) (RealVectorStateSpace 2)
      = .ok (some (getBounds (RealVectorStateSpace n))) ∧
    computeQuotientSpaceBounds getBounds zero (XRN SE3StateSpace n) (RealVectorStateSpace 3)
      = .ok (some (getBounds (RealVectorStateSpace n))) := by
  refine ⟨?_, ?_, ?_, ?_, ?_⟩ <;>
  simp [computeQuotientSpaceBounds, identifyQuotientSpaceType, XRN, SE2StateSpace,
    SE3StateSpace, SO2StateSpace, SO3StateSpace, RealVectorStateSpace,
    StateSpace.isCompound, StateSpace.getType, StateSpace.getDimension,
    StateSpace.getSubspaces, vectorAt, toUnsigned, bind, Except.bind]

/-! ## Sampling and the counters -/

/-- The result of one call of `sample`, given the state the call leaves in
`q_random`. -/
theorem sample_ok_of {α : Type} (self : QuotientSpace) (isValid : State α → Bool)
    (draw : Draw α) (q_random q : State α) (counters : SampleCounters)
    (hq : (if !self.hasParent then (.ok draw.Q1_sample : Except Fault (State α))
      else if self.X1_dimension_ > 0 then
        self.mergeStates draw.Q0_sample draw.X1_sample q_random
      else .ok draw.Q0_sample) = .ok q) :
    self.sample isValid draw q_random counters =
      .ok (isValid q, q,
        { totalNumberOfSamples_ := uadd counters.totalNumberOfSamples_ 1,
          totalNumberOfFeasibleSamples_ :=
            if isValid q then uadd counters.totalNumberOfFeasibleSamples_ 1
            else counters.totalNumberOfFeasibleSamples_ }) := by
  unfold QuotientSpace.sample
  rw [hq, ok_bind]

/-- Whenever `sample` returns, its result is of the form `sample_ok_of` gives. -/
theorem sample_ok_elim {α : Type} (self : QuotientSpace) (isValid : State α → Bool)
    (draw : Draw α) (q_random : State α) (counters : SampleCounters) (valid : Bool)
    (q : State α) (c : SampleCounters)
    (h : self.sample isValid draw q_random counters = .ok (valid, q, c)) :
    valid = isValid q ∧
    c.totalNumberOfSamples_ = uadd counters.totalNumberOfSamples_ 1 ∧
    c.totalNumberOfFeasibleSamples_ =
      (if valid then uadd counters.totalNumberOfFeasibleSamples_ 1
        else counters.totalNumberOfFeasibleSamples_) := by
  unfold QuotientSpace.sample at h
  obtain ⟨q', _, h⟩ := bind_ok_elim h
  cases h
  exact ⟨rfl, rfl, rfl⟩

/-- After the calls of `sampleRepeatedly` the counter of samples has grown by the
number of calls, modulo `2 ^ 32`. -/
theorem sampleRepeatedly_total {α : Type} (self : QuotientSpace) (isValid : State α → Bool) :
    ∀ (draws : List (Draw α)) (q_random : State α) (counters c : SampleCounters),
      counters.totalNumberOfSamples_ < 2 ^ 32 →
      self.sampleRepeatedly isValid q_random draws counters = .ok c →
      c.totalNumberOfSamples_ = (counters.totalNumberOfSamples_ + draws.length) % 2 ^ 32 := by
  intro draws
  induction draws with
  | nil =>
    intro q_random counters c hlt h
    simp only [QuotientSpace.sampleRepeatedly] at h
    cases h
    rw [List.length_nil, Nat.add_zero, Nat.mod_eq_of_lt hlt]
  | cons draw draws ih =>
    intro q_random counters c hlt h
    simp only [QuotientSpace.sampleRepeatedly] at h
    obtain ⟨⟨valid, q, c1⟩, h1, h2⟩ := bind_ok_elim h
    have hs := (sample_ok_elim self isValid draw q_random counters valid q c1 h1).2.1
    have hc1 : c1.totalNumberOfSamples_ < 2 ^ 32 := by
      rw [hs]; unfold uadd; exact Nat.mod_lt _ (by decide)
    have := ih q c1 c hc1 h2
    rw [this, hs, List.length_cons]
    unfold uadd
    omega

/-- On a node without parent, and on a node whose `X1_dimension_` is 0, every
sequence of calls of `sample` returns. -/
theorem sampleRepeatedly_returns {α : Type} (self : QuotientSpace) (isValid : State α → Bool)
    (hself : self.hasParent = false ∨ self.X1_dimension_ = 0) :
    ∀ (draws : List (Draw α)) (q_random : State α) (counters : SampleCounters),
      ∃ c, self.sampleRepeatedly isValid q_random draws counters = .ok c := by
  intro draws
  induction draws with
  | nil => intro q_random counters; exact ⟨counters, rfl⟩
  | cons draw draws ih =>
    intro q_random counters
    have hq : ∃ q, (if !self.hasParent then (.ok draw.Q1_sample : Except Fault (State α))
        else if self.X1_dimension_ > 0 then
          self.mergeStates draw.Q0_sample draw.X1_sample q_random
        else .ok draw.Q0_sample) = .ok q := by
      rcases hself with hp | hx
      · exact ⟨draw.Q1_sample, by simp [hp]⟩
      · by_cases hp : self.hasParent = true
        · exact ⟨draw.Q0_sample, by simp [hp, hx]⟩
        · exact ⟨draw.Q1_sample, by simp [hp]⟩
    obtain ⟨q, hq⟩ := hq
    obtain ⟨c, hc⟩ := ih q _
    refine ⟨c, ?_⟩
    simp only [QuotientSpace.sampleRepeatedly]
    rw [sample_ok_of self isValid draw q_random q counters hq, ok_bind]
    exact hc

/-! ## Validation of a node -/

theorem error_bind {α β : Type} (e : Fault) (f : α → Except Fault β) :
    ((Except.error e : Except Fault α) >>= f) = .error e := by
  simp only [bind, Except.bind]

namespace BundleSpace

theorem checkBundleSpaceMeasure_eq (getMeasure : StateSpace → Double) (space : StateSpace) :
    checkBundleSpaceMeasure getMeasure space =
      if ZeroOrInfiniteMeasure getMeasure space then
        .error (.exception .Space_has_zero_or_infinite_measure)
      else .ok () := by
  unfold checkBundleSpaceMeasure ZeroOrInfiniteMeasure
  by_cases h1 : (getMeasure space).geInfinity = true <;>
    by_cases h2 : (getMeasure space).leZero = true <;> simp [h1, h2]

theorem checkBundleSpaceMeasure_bad (getMeasure : StateSpace → Double) (space : StateSpace)
    (h : ZeroOrInfiniteMeasure getMeasure space) :
    checkBundleSpaceMeasure getMeasure space =
      .error (.exception .Space_has_zero_or_infinite_measure) := by
  rw [checkBundleSpaceMeasure_eq, if_pos h]

theorem checkBundleSpaceMeasure_good (getMeasure : StateSpace → Double) (space : StateSpace)
    (h : ¬ ZeroOrInfiniteMeasure getMeasure space) :
    checkBundleSpaceMeasure getMeasure space = .ok () := by
  rw [checkBundleSpaceMeasure_eq, if_neg h]

/-- The outcome of `checkBundleSpace` in each case. -/
theorem checkBundleSpace_cases {ν : Type} (getMeasure : StateSpace → Double)
    (self : BundleSpace ν) :
    (ZeroOrInfiniteMeasure getMeasure self.Bundle.getStateSpace →
      checkBundleSpace getMeasure self =
        .error (.exception .Space_has_zero_or_infinite_measure)) ∧
    (∀ Base, self.Base = some Base → ZeroOrInfiniteMeasure getMeasure Base.getStateSpace →
      checkBundleSpace getMeasure self =
        .error (.exception .Space_has_zero_or_infinite_measure)) ∧
    (∀ F, self.Fiber = some F → ZeroOrInfiniteMeasure getMeasure F →
      checkBundleSpace getMeasure self =
        .error (.exception .Space_has_zero_or_infinite_measure)) ∧
    (¬ ZeroOrInfiniteMeasure getMeasure self.Bundle.getStateSpace →
      (∀ Base, self.Base = some Base → ¬ ZeroOrInfiniteMeasure getMeasure Base.getStateSpace) →
      (self.Fiber = none → checkBundleSpace getMeasure self = .ok ()) ∧
      (∀ F, self.Fiber = some F → ¬ ZeroOrInfiniteMeasure getMeasure F →
        checkBundleSpace getMeasure self =
          if uadd self.getBaseDimension F.getDimension ≠ self.getBundleDimension then
            .error (.exception .BundleSpace_Dimensions_are_wrong)
          else .ok ())) := by
  obtain ⟨Bundle, Base, Fiber, comps⟩ := self
  have hB := checkBundleSpaceMeasure_eq getMeasure Bundle.getStateSpace
  by_cases h0 : ZeroOrInfiniteMeasure getMeasure Bundle.getStateSpace
  · rw [if_pos h0] at hB
    have hall : checkBundleSpace getMeasure (BundleSpace.mk Bundle Base Fiber comps) =
        .error (.exception .Space_has_zero_or_infinite_measure) := by
      unfold checkBundleSpace
      dsimp only
      rw [hB, error_bind]
    exact ⟨fun _ => hall, fun _ _ _ => hall, fun _ _ _ => hall, fun h => absurd h0 h⟩
  · rw [if_neg h0] at hB
    cases Base with
    | none =>
      cases Fiber with
      | none =>
        refine ⟨fun h => absurd h h0, fun _ h => (by cases h), fun _ h => (by cases h),
          fun _ _ => ⟨fun _ => ?_, fun _ h => (by cases h)⟩⟩
        unfold checkBundleSpace
        dsimp only
        rw [hB, ok_bind, ok_bind]
      | some F =>
        have hF := checkBundleSpaceMeasure_eq getMeasure F
        refine ⟨fun h => absurd h h0, fun _ h => (by cases h), fun F' h hbad => ?_,
          fun _ _ => ⟨fun h => (by cases h), fun F' h hgood => ?_⟩⟩
        · cases h
          rw [if_pos hbad] at hF
          unfold checkBundleSpace
          dsimp only
          rw [hB, ok_bind, ok_bind, hF, error_bind]
        · cases h
          rw [if_neg hgood] at hF
          unfold checkBundleSpace
          dsimp only
          rw [hB, ok_bind, ok_bind, hF, ok_bind]
          rfl
    | some Q =>
      have hQ := checkBundleSpaceMeasure_eq getMeasure Q.getStateSpace
      by_cases h1 : ZeroOrInfiniteMeasure getMeasure Q.getStateSpace
      · rw [if_pos h1] at hQ
        have hall : checkBundleSpace getMeasure (BundleSpace.mk Bundle (some Q) Fiber comps) =
            .error (.exception .Space_has_zero_or_infinite_measure) := by
          unfold checkBundleSpace
          dsimp only
          rw [hB, ok_bind, hQ, error_bind]
        exact ⟨fun _ => hall, fun _ _ _ => hall, fun _ _ _ => hall,
          fun _ h => absurd h1 (h Q rfl)⟩
      · rw [if_neg h1] at hQ
        cases Fiber with
        | none =>
          refine ⟨fun h => absurd h h0, fun Q' h hbad => ?_, fun _ h => (by cases h),
            fun _ _ => ⟨fun _ => ?_, fun _ h => (by cases h)⟩⟩
          · cases h
            exact absurd hbad h1
          · unfold checkBundleSpace
            dsimp only
            rw [hB, ok_bind, hQ, ok_bind]
        | some F =>
          have hF := checkBundleSpaceMeasure_eq getMeasure F
          refine ⟨fun h => absurd h h0, fun Q' h hbad => ?_, fun F' h hbad => ?_,
            fun _ _ => ⟨fun h => (by cases h), fun F' h hgood => ?_⟩⟩
          · cases h
            exact absurd hbad h1
          · cases h
            rw [if_pos hbad] at hF
            unfold checkBundleSpace
            dsimp only
            rw [hB, ok_bind, hQ, ok_bind, hF, error_bind]
          · cases h
            rw [if_neg hgood] at hF
            unfold checkBundleSpace
            dsimp only
            rw [hB, ok_bind, hQ, ok_bind, hF, ok_bind]
            rfl

/-- A node that the constructor returns has passed `checkBundleSpace`; its `Bundle`
is the space given and its `Base` the parent's `Bundle`. -/
theorem construct_ok {ν : Type} [BEq ν] (cfs : ComputeFiberSpace)
    (getMeasure : StateSpace → Double) (si : SpaceInformation ν)
    (parent_ : Option (BundleSpace ν)) (self : BundleSpace ν)
    (h : construct cfs getMeasure si parent_ = .ok self) :
    checkBundleSpace getMeasure self = .ok () ∧ self.Bundle = si ∧
    self.Base = parent_.map (fun parent => parent.Bundle) := by
  unfold construct at h
  cases parent_ with
  | none =>
    dsimp only at h
    obtain ⟨comps, _, h⟩ := bind_ok_elim h
    obtain ⟨u, hc, h⟩ := bind_ok_elim h
    cases h
    exact ⟨hc, rfl, rfl⟩
  | some parent =>
    dsimp only at h
    obtain ⟨comps, _, h⟩ := bind_ok_elim h
    obtain ⟨F, _, h⟩ := bind_ok_elim h
    obtain ⟨u, hc, h⟩ := bind_ok_elim h
    cases h
    exact ⟨hc, rfl, rfl⟩

/-- The constructor fails whenever the measure of the Bundle is `<= 0` or
infinite. -/
theorem construct_fails {ν : Type} [BEq ν] (cfs : ComputeFiberSpace)
    (getMeasure : StateSpace → Double) (si : SpaceInformation ν)
    (parent_ : Option (BundleSpace ν))
    (hbad : ZeroOrInfiniteMeasure getMeasure si.getStateSpace) :
    ∃ e, construct cfs getMeasure si parent_ = .error e := by
  cases hc : construct cfs getMeasure si parent_ with
  | error e => exact ⟨e, rfl⟩
  | ok self =>
    obtain ⟨h1, h2, _⟩ := construct_ok cfs getMeasure si parent_ self hc
    have h3 := (checkBundleSpace_cases getMeasure self).1 (by rw [h2]; exact hbad)
    rw [h1] at h3
    cases h3

end BundleSpace

/-! ## Rounding of the `double` quotient -/

/-- The rounded quotient is within half a unit of the exact one. -/
theorem roundToNearestEven_bounds (a b : Nat) (hb : 0 < b) :
    2 * (b * roundToNearestEven a b) ≤ 2 * a + b ∧
    2 * a ≤ 2 * (b * roundToNearestEven a b) + b := by
  have h := Nat.div_add_mod a b
  have hr := Nat.mod_lt a hb
  unfold roundToNearestEven
  dsimp only
  split
  · omega
  · split
    · rw [Nat.mul_add, Nat.mul_one]
      omega
    · split
      · omega
      · rw [Nat.mul_add, Nat.mul_one]
        omega

/-- An exact quotient is not changed by the rounding. -/
theorem roundToNearestEven_of_dvd (a b : Nat) (hb : 0 < b) (h : b ∣ a) :
    roundToNearestEven a b = a / b := by
  have hr : a % b = 0 := Nat.mod_eq_zero_of_dvd h
  unfold roundToNearestEven
  dsimp only
  rw [hr, if_pos (by omega)]

theorem log_bounds (d : Nat) (hd : 0 < d) :
    2 ^ Nat.log 2 d ≤ d ∧ d < 2 * 2 ^ Nat.log 2 d := by
  refine ⟨Nat.pow_log_le_self 2 (by omega), ?_⟩
  have := Nat.lt_pow_succ_log_self (show 1 < 2 by decide) d
  rw [Nat.pow_succ] at this
  omega

/-- The significand of `1.0 / d` lies in `[1, 2 ^ (k + 53)]`. -/
theorem significand_bounds (d : Nat) (hd : 0 < d) :
    0 < roundToNearestEven (2 ^ (Nat.log 2 d + 53)) d ∧
    roundToNearestEven (2 ^ (Nat.log 2 d + 53)) d ≤ 2 ^ (Nat.log 2 d + 53) := by
  obtain ⟨h1, h2⟩ := roundToNearestEven_bounds (2 ^ (Nat.log 2 d + 53)) d hd
  obtain ⟨_, l2⟩ := log_bounds d hd
  have hp : 2 ^ (Nat.log 2 d + 53) = 2 ^ Nat.log 2 d * 2 ^ 53 := Nat.pow_add 2 _ 53
  have hpos : 0 < 2 ^ Nat.log 2 d := Nat.pow_pos (by decide)
  constructor
  · rcases Nat.eq_zero_or_pos (roundToNearestEven (2 ^ (Nat.log 2 d + 53)) d) with h0 | h0
    · rw [h0, Nat.mul_zero] at h2
      rw [hp] at h2
      omega
    · exact h0
  · by_contra hgt
    have hgt : 2 ^ (Nat.log 2 d + 53) + 1 ≤ roundToNearestEven (2 ^ (Nat.log 2 d + 53)) d := by
      omega
    have h3 := Nat.mul_le_mul_left d hgt
    rw [Nat.mul_add, Nat.mul_one] at h3
    have h4 : 2 ^ (Nat.log 2 d + 53) ≤ d * 2 ^ (Nat.log 2 d + 53) :=
      Nat.le_mul_of_pos_left _ hd
    omega

theorem doubleReciprocal_eq (d : Nat) :
    doubleReciprocal d =
      (roundToNearestEven (2 ^ (Nat.log 2 d + 53)) d : ℚ) / 2 ^ (Nat.log 2 d + 53) := rfl

/-- The `double` quotient `1.0 / d` is within half a unit in the last place of the exact
quotient `1 / d`. -/
theorem doubleReciprocal_error (d : Nat) (hd : 0 < d) :
    doubleReciprocal d ≤ 1 / (d : ℚ) + 1 / (2 * 2 ^ (Nat.log 2 d + 53)) ∧
    1 / (d : ℚ) ≤ doubleReciprocal d + 1 / (2 * 2 ^ (Nat.log 2 d + 53)) := by
  obtain ⟨h1, h2⟩ := roundToNearestEven_bounds (2 ^ (Nat.log 2 d + 53)) d hd
  rw [doubleReciprocal_eq]
  generalize roundToNearestEven (2 ^ (Nat.log 2 d + 53)) d = M at h1 h2
  have c1 : (2 : ℚ) * ((d : ℚ) * M) ≤ 2 * 2 ^ (Nat.log 2 d + 53) + d := by exact_mod_cast h1
  have c2 : (2 : ℚ) * 2 ^ (Nat.log 2 d + 53) ≤ 2 * ((d : ℚ) * M) + d := by exact_mod_cast h2
  have hP : (0 : ℚ) < 2 ^ (Nat.log 2 d + 53) := by positivity
  have hd' : (0 : ℚ) < (d : ℚ) := by exact_mod_cast hd
  generalize (2 : ℚ) ^ (Nat.log 2 d + 53) = P at c1 c2 hP ⊢
  generalize (M : ℚ) = M' at c1 c2 ⊢
  generalize (d : ℚ) = d' at c1 c2 hd' ⊢
  constructor
  · rw [div_add_div _ _ (ne_of_gt hd') (ne_of_gt (by positivity)),
      div_le_div_iff₀ hP (by positivity)]
    nlinarith [mul_le_mul_of_nonneg_left c1 hP.le]
  · rw [div_add_div _ _ (ne_of_gt hP) (ne_of_gt (by positivity)),
      div_le_div_iff₀ hd' (by positivity)]
    nlinarith [mul_le_mul_of_nonneg_left c2 hP.le]

/-- The `double` quotient `1.0 / d` lies in `(0, 1]`. -/
theorem doubleReciprocal_range (d : Nat) (hd : 0 < d) :
    0 < doubleReciprocal d ∧ doubleReciprocal d ≤ 1 := by
  obtain ⟨h1, h2⟩ := significand_bounds d hd
  rw [doubleReciprocal_eq]
  have hP : (0 : ℚ) < 2 ^ (Nat.log 2 d + 53) := by positivity
  constructor
  · exact div_pos (by exact_mod_cast h1) hP
  · rw [div_le_one hP]
    exact_mod_cast h2

/-- The `double` quotient `1.0 / d` is the exact quotient exactly when `d` is a power
of two. -/
theorem doubleReciprocal_exact_iff (d : Nat) (hd : 0 < d) :
    doubleReciprocal d = 1 / (d : ℚ) ↔ ∃ j, d = 2 ^ j := by
  have hP : (0 : ℚ) < 2 ^ (Nat.log 2 d + 53) := by positivity
  have hd' : (0 : ℚ) < (d : ℚ) := by exact_mod_cast hd
  constructor
  · intro h
    rw [doubleReciprocal_eq, div_eq_div_iff (ne_of_gt hP) (ne_of_gt hd')] at h
    have hN : roundToNearestEven (2 ^ (Nat.log 2 d + 53)) d * d
        = 1 * 2 ^ (Nat.log 2 d + 53) := by exact_mod_cast h
    have hdvd : d ∣ 2 ^ (Nat.log 2 d + 53) :=
      Dvd.intro_left (roundToNearestEven (2 ^ (Nat.log 2 d + 53)) d) (by simpa using hN)
    obtain ⟨j, _, hj⟩ := (Nat.dvd_prime_pow Nat.prime_two).1 hdvd
    exact ⟨j, hj⟩
  · rintro ⟨j, rfl⟩
    rw [doubleReciprocal_eq, Nat.log_pow (by decide),
      roundToNearestEven_of_dvd _ _ hd ⟨2 ^ 53, Nat.pow_add 2 j 53⟩,
      Nat.pow_add, Nat.mul_div_cancel_left _ hd]
    push_cast
    rw [pow_add]
    field_simp
    ring

/-- On the integers up to `2 ^ 52` the `double` quotient `1.0 / d` decreases
strictly. -/
theorem doubleReciprocal_lt (d : Nat) (hd : 0 < d) (h52 : d + 1 ≤ 2 ^ 52) :
    doubleReciprocal (d + 1) < doubleReciprocal d := by
  obtain ⟨_, e1⟩ := doubleReciprocal_error d hd
  obtain ⟨e2, _⟩ := doubleReciprocal_error (d + 1) (Nat.succ_pos d)
  obtain ⟨_, l2⟩ := log_bounds d hd
  have hmono : Nat.log 2 d ≤ Nat.log 2 (d + 1) := Nat.log_mono_right (Nat.le_succ d)
  have hsmall : d * (d + 1) < 2 ^ (Nat.log 2 d + 53) := by
    have hp : 2 ^ (Nat.log 2 d + 53) = 2 * 2 ^ Nat.log 2 d * 2 ^ 52 := by
      rw [Nat.pow_add]
      have : (2 : Nat) ^ 53 = 2 * 2 ^ 52 := by decide
      rw [this]
      ring
    rw [hp]
    exact Nat.mul_lt_mul_of_lt_of_le l2 h52 (by decide)
  have hP : (0 : ℚ) < 2 ^ (Nat.log 2 d + 53) := by positivity
  have hP' : (2 : ℚ) ^ (Nat.log 2 d + 53) ≤ 2 ^ (Nat.log 2 (d + 1) + 53) :=
    pow_le_pow_right₀ (by norm_num) (by omega)
  have hd' : (0 : ℚ) < (d : ℚ) := by exact_mod_cast hd
  have hs' : ((d : ℚ)) * ((d : ℚ) + 1) < 2 ^ (Nat.log 2 d + 53) := by exact_mod_cast hsmall
  have e3 : 1 / (2 * (2 : ℚ) ^ (Nat.log 2 (d + 1) + 53)) ≤ 1 / (2 * 2 ^ (Nat.log 2 d + 53)) :=
    one_div_le_one_div_of_le (by positivity) (by linarith)
  have gap : 1 / (((d + 1 : Nat) : ℚ)) + 1 / (2 ^ (Nat.log 2 d + 53)) < 1 / (d : ℚ) := by
    push_cast
    have h1 : 1 / (2 : ℚ) ^ (Nat.log 2 d + 53) < 1 / ((d : ℚ) * ((d : ℚ) + 1)) :=
      one_div_lt_one_div_of_lt (by positivity) hs'
    have h2 : 1 / ((d : ℚ) * ((d : ℚ) + 1)) = 1 / (d : ℚ) - 1 / ((d : ℚ) + 1) := by
      field_simp
    linarith
  have half : 1 / (2 * (2 : ℚ) ^ (Nat.log 2 d + 53)) + 1 / (2 * 2 ^ (Nat.log 2 d + 53))
      = 1 / 2 ^ (Nat.log 2 d + 53) := by
    field_simp
    ring
  linarith

theorem getImportance_eq (counters : SampleCounters) :
    QuotientSpace.getImportance counters
      = doubleReciprocal (counters.totalNumberOfSamples_ + 1) := rfl

theorem doubleReciprocal_one : doubleReciprocal 1 = 1 := by
  have h := (doubleReciprocal_exact_iff 1 (by decide)).2 ⟨0, rfl⟩
  rw [h]
  norm_num

theorem doubleReciprocal_five : doubleReciprocal 5 = 7205759403792794 / 2 ^ 55 := by
  have hlog : Nat.log 2 5 = 2 :=
    Nat.log_eq_of_pow_le_of_lt_pow (by decide) (by decide)
  have hround : roundToNearestEven (2 ^ (2 + 53)) 5 = 7205759403792794 := by decide
  rw [doubleReciprocal_eq, hlog, hround]
  norm_num

/-! ## Sequences of calls and the counters -/

/-- Whenever `clear` returns, both counters are 0. -/
theorem clear_ok_elim {π : Type} (pdef_ : Option π) (old c : SampleCounters)
    (h : QuotientSpace.clear pdef_ old = .ok c) :
    c = SampleCounters.mk 0 0 := by
  unfold QuotientSpace.clear at h
  cases pdef_ with
  | none => cases h
  | some p => cases h; rfl

/-- On a node without parent, `n` calls of `sample` with the same draw add `n` to the
counter of samples, and to the counter of feasible samples when the draw is
feasible, both modulo `2 ^ 32`. -/
theorem sampleRepeatedly_replicate {α : Type} (self : QuotientSpace)
    (isValid : State α → Bool) (draw : Draw α) (hp : self.hasParent = false) :
    ∀ (n : Nat) (q_random : State α) (counters : SampleCounters),
      counters.totalNumberOfSamples_ < 2 ^ 32 →
      counters.totalNumberOfFeasibleSamples_ < 2 ^ 32 →
      self.sampleRepeatedly isValid q_random (List.replicate n draw) counters =
        .ok (SampleCounters.mk ((counters.totalNumberOfSamples_ + n) % 2 ^ 32)
          (if isValid draw.Q1_sample
            then (counters.totalNumberOfFeasibleSamples_ + n) % 2 ^ 32
            else counters.totalNumberOfFeasibleSamples_)) := by
  intro n
  induction n with
  | zero =>
    intro q_random counters h1 h2
    simp only [List.replicate, QuotientSpace.sampleRepeatedly, Nat.add_zero]
    rw [Nat.mod_eq_of_lt h1, Nat.mod_eq_of_lt h2]
    cases counters
    simp
  | succ n ih =>
    intro q_random counters h1 h2
    simp only [List.replicate, QuotientSpace.sampleRepeatedly]
    rw [sample_ok_of self isValid draw q_random draw.Q1_sample counters (by simp [hp]),
      ok_bind]
    dsimp only
    rw [ih]
    · cases hv : isValid draw.Q1_sample
      · simp only [Bool.false_eq_true, if_false]
        congr 2
        unfold uadd
        omega
      · simp only [if_true]
        congr 2
        · unfold uadd
          omega
        · unfold uadd
          omega
    · unfold uadd
      exact Nat.mod_lt _ (by decide)
    · dsimp only
      split
      · unfold uadd
        exact Nat.mod_lt _ (by decide)
      · exact h2

/-- A sequence of calls that starts with a call of `sample` that returns goes on from
the buffer and the counters that call leaves. -/
theorem run_cons_sample_ok {α π : Type} (self : QuotientSpace) (isValid : State α → Bool)
    (pdef_ : Option π) (draw : Draw α) (calls : List (Call α)) (q_random q : State α)
    (counters c : SampleCounters) (valid : Bool)
    (h : self.sample isValid draw q_random counters = .ok (valid, q, c)) :
    self.run isValid pdef_ q_random (Call.sample draw :: calls) counters =
      self.run isValid pdef_ q calls c := by
  simp only [QuotientSpace.run]
  rw [h, ok_bind]

/-- A sequence of calls of `sample` alone is a run of `sampleRepeatedly`. -/
theorem run_map_sample {α π : Type} (self : QuotientSpace) (isValid : State α → Bool)
    (pdef_ : Option π) :
    ∀ (draws : List (Draw α)) (q_random : State α) (counters : SampleCounters),
      self.run isValid pdef_ q_random (draws.map Call.sample) counters =
        self.sampleRepeatedly isValid q_random draws counters := by
  intro draws
  induction draws with
  | nil => intro q_random counters; rfl
  | cons draw draws ih =>
    intro q_random counters
    simp only [List.map, QuotientSpace.run, QuotientSpace.sampleRepeatedly]
    cases self.sample isValid draw q_random counters with
    | error e => rfl
    | ok r =>
      rw [ok_bind, ok_bind]
      exact ih _ _

/-- The counters after a sequence of calls: the feasible samples are at most the
samples, which are at most the samples at the start plus the number of calls, as long
as that number stays below `2 ^ 32`. -/
theorem run_invariant {α π : Type} (self : QuotientSpace) (isValid : State α → Bool)
    (pdef_ : Option π) :
    ∀ (calls : List (Call α)) (q_random : State α) (counters c : SampleCounters),
      counters.totalNumberOfFeasibleSamples_ ≤ counters.totalNumberOfSamples_ →
      counters.totalNumberOfSamples_ + calls.length < 2 ^ 32 →
      self.run isValid pdef_ q_random calls counters = .ok c →
      c.totalNumberOfFeasibleSamples_ ≤ c.totalNumberOfSamples_ ∧
      c.totalNumberOfSamples_ ≤ counters.totalNumberOfSamples_ + calls.length := by
  intro calls
  induction calls with
  | nil =>
    intro q_random counters c hle _ h
    simp only [QuotientSpace.run] at h
    cases h
    exact ⟨hle, Nat.le_add_right _ _⟩
  | cons call calls ih =>
    intro q_random counters c hle hlen h
    rw [List.length_cons] at hlen
    cases call with
    | sample draw =>
      simp only [QuotientSpace.run] at h
      obtain ⟨⟨valid, q, c1⟩, h1, h2⟩ := bind_ok_elim h
      obtain ⟨_, hs, hf⟩ := sample_ok_elim self isValid draw q_random counters valid q c1 h1
      have e1 : uadd counters.totalNumberOfSamples_ 1 = counters.totalNumberOfSamples_ + 1 :=
        uadd_eq (by omega)
      have e2 : uadd counters.totalNumberOfFeasibleSamples_ 1 =
          counters.totalNumberOfFeasibleSamples_ + 1 := uadd_eq (by omega)
      rw [e1] at hs
      rw [e2] at hf
      have hle1 : c1.totalNumberOfFeasibleSamples_ ≤ c1.totalNumberOfSamples_ := by
        rw [hs, hf]; split <;> omega
      obtain ⟨r1, r2⟩ := ih q c1 c hle1 (by rw [hs]; omega) h2
      refine ⟨r1, ?_⟩
      rw [List.length_cons]
      omega
    | clear =>
      simp only [QuotientSpace.run] at h
      obtain ⟨c1, h1, h2⟩ := bind_ok_elim h
      have hc1 := clear_ok_elim pdef_ counters c1 h1
      subst hc1
      obtain ⟨r1, r2⟩ := ih q_random _ c (Nat.le_refl _) (by dsimp only; omega) h2
      refine ⟨r1, ?_⟩
      dsimp only at r2
      rw [List.length_cons]
      omega

/-- What a sequence of calls returns after a prefix is what its remainder returns from
some buffer and some counters. -/
theorem run_append_elim {α π : Type} (self : QuotientSpace) (isValid : State α → Bool)
    (pdef_ : Option π) (post : List (Call α)) :
    ∀ (pre : List (Call α)) (q_random : State α) (counters c : SampleCounters),
      self.run isValid pdef_ q_random (pre ++ post) counters = .ok c →
      ∃ q c1, self.run isValid pdef_ q post c1 = .ok c := by
  intro pre
  induction pre with
  | nil => intro q_random counters c h; exact ⟨q_random, counters, h⟩
  | cons call pre ih =>
    intro q_random counters c h
    rw [List.cons_append] at h
    cases call with
    | sample draw =>
      simp only [QuotientSpace.run] at h
      obtain ⟨⟨valid, q, c1⟩, _, h2⟩ := bind_ok_elim h
      exact ih q c1 c h2
    | clear =>
      simp only [QuotientSpace.run] at h
      obtain ⟨c1, _, h2⟩ := bind_ok_elim h
      exact ih q_random c1 c h2

/-- On a node without parent, and on a node whose `X1_dimension_` is 0, a sequence of
calls of `sample` and `clear` returns when the problem definition is set or the
sequence has no `clear`. -/
theorem run_returns {α π : Type} (self : QuotientSpace) (isValid : State α → Bool)
    (pdef_ : Option π) (hself : self.hasParent = false ∨ self.X1_dimension_ = 0) :
    ∀ (calls : List (Call α)),
      (pdef_.isSome = true ∨ ∀ call ∈ calls, ∃ draw, call = Call.sample draw) →
      ∀ (q_random : State α) (counters : SampleCounters),
        ∃ c, self.run isValid pdef_ q_random calls counters = .ok c := by
  intro calls
  induction calls with
  | nil => intro _ q_random counters; exact ⟨counters, rfl⟩
  | cons call calls ih =>
    intro hcalls q_random counters
    have hcalls' : pdef_.isSome = true ∨ ∀ call ∈ calls, ∃ draw, call = Call.sample draw := by
      rcases hcalls with h | h
      · exact Or.inl h
      · exact Or.inr (fun call hc => h call (List.mem_cons_of_mem _ hc))
    cases call with
    | sample draw =>
      have hq : ∃ q, (if !self.hasParent then (.ok draw.Q1_sample : Except Fault (State α))
          else if self.X1_dimension_ > 0 then
            self.mergeStates draw.Q0_sample draw.X1_sample q_random
          else .ok draw.Q0_sample) = .ok q := by
        rcases hself with hp | hx
        · exact ⟨draw.Q1_sample, by simp [hp]⟩
        · by_cases hp : self.hasParent = true
          · exact ⟨draw.Q0_sample, by simp [hp, hx]⟩
          · exact ⟨draw.Q1_sample, by simp [hp]⟩
      obtain ⟨q, hq⟩ := hq
      obtain ⟨c, hc⟩ := ih hcalls' q _
      refine ⟨c, ?_⟩
      simp only [QuotientSpace.run]
      rw [sample_ok_of self isValid draw q_random q counters hq, ok_bind]
      exact hc
    | clear =>
      have hsome : ∃ p, pdef_ = some p := by
        rcases hcalls with h | h
        · exact Option.isSome_iff_exists.1 h
        · obtain ⟨draw, hd⟩ := h _ (List.mem_cons_self _ _)
          cases hd
      obtain ⟨p, rfl⟩ := hsome
      obtain ⟨c, hc⟩ := ih hcalls' q_random (SampleCounters.mk 0 0)
      refine ⟨c, ?_⟩
      simp only [QuotientSpace.run, QuotientSpace.clear]
      rw [ok_bind]
      exact hc

/-! ## Claims on the nodes and on the legacy operators -/

/-- C21 (counterexample): the node built for Bundle `R^2` over a parent with Bundle
`R^0`, with a component that derives no Fiber, has no Fiber; its validation
succeeds although `dimension(Base) + dimension(Fiber) = 0 + 0` differs from
`dimension(Bundle) = 2`. -/
theorem C21_counterexample_node_without_Fiber :
    ∃ parent self : BundleSpace Nat,
      BundleSpace.construct noFiberSpace (fun _ => .finite 1)
        (SpaceInformation.mk (RealVectorStateSpace 0) 0) none = .ok parent ∧
      BundleSpace.construct noFiberSpace (fun _ => .finite 1)
        (SpaceInformation.mk (RealVectorStateSpace 2) 0) (some parent) = .ok self ∧
      BundleSpace.checkBundleSpace (fun _ => .finite 1) self = .ok () ∧
      self.Fiber = none ∧ self.getBaseDimension = 0 ∧ self.getFiberDimension = 0 ∧
      self.getBundleDimension = 2 := by
  have hm : ∀ s, ¬ ZeroOrInfiniteMeasure (fun _ => Double.finite 1) s := by
    intro s
    simp [ZeroOrInfiniteMeasure, Double.leZero, Double.geInfinity]
  have hc : ∀ s, BundleSpace.checkBundleSpaceMeasure (fun _ => Double.finite 1) s = .ok () :=
    fun s => BundleSpace.checkBundleSpaceMeasure_good _ s (hm s)
  refine ⟨BundleSpace.mk (SpaceInformation.mk (RealVectorStateSpace 0) 0) none none
      [BundleSpaceComponent.mk (RealVectorStateSpace 0) none .NO_PROJECTION none],
    BundleSpace.mk (SpaceInformation.mk (RealVectorStateSpace 2) 0)
      (some (SpaceInformation.mk (RealVectorStateSpace 0) 0)) none
      [BundleSpaceComponent.mk (RealVectorStateSpace 2) (some (RealVectorStateSpace 0))
        .EMPTY_SET_PROJECTION none], ?_, ?_, ?_, rfl, rfl, rfl, rfl⟩
  · have h1 : MakeBundleSpaceComponents noFiberSpace
        (SpaceInformation.mk (RealVectorStateSpace 0) (0 : Nat)) none =
        .ok [BundleSpaceComponent.mk (RealVectorStateSpace 0) none .NO_PROJECTION none] := rfl
    unfold BundleSpace.construct
    dsimp only
    rw [h1, ok_bind]
    unfold BundleSpace.checkBundleSpace
    dsimp only
    rw [hc, ok_bind, ok_bind, ok_bind]
  · have h1 : MakeBundleSpaceComponents noFiberSpace
        (SpaceInformation.mk (RealVectorStateSpace 2) (0 : Nat))
        (some (SpaceInformation.mk (RealVectorStateSpace 0) 0)) =
        .ok [BundleSpaceComponent.mk (RealVectorStateSpace 2) (some (RealVectorStateSpace 0))
          .EMPTY_SET_PROJECTION none] := rfl
    have h2 : BundleSpace.MakeFiberSpace
        [BundleSpaceComponent.mk (RealVectorStateSpace 2) (some (RealVectorStateSpace 0))
          .EMPTY_SET_PROJECTION none] = .ok none := rfl
    unfold BundleSpace.construct
    dsimp only
    rw [h1, ok_bind, h2, ok_bind]
    unfold BundleSpace.checkBundleSpace
    dsimp only
    rw [hc, ok_bind, hc, ok_bind, ok_bind]
  · unfold BundleSpace.checkBundleSpace
    dsimp only
    rw [hc, ok_bind, hc, ok_bind]

/-- C21 (amended): for a node that has a Fiber, if `checkBundleSpace` succeeds then
`dimension(Base) + dimension(Fiber) = dimension(Bundle)`, also for every node the
constructor returns, and `checkBundleSpace` fails whenever the three dimensions do
not add up; on a node without Fiber the dimensions are not compared: its validation
succeeds as soon as the measures of Bundle and Base are positive and finite. -/
theorem C21_checkBundleSpace_dimension_sum {ν : Type} [BEq ν]
    (getMeasure : StateSpace → Double) (self : BundleSpace ν) (F : StateSpace)
    (hF : self.Fiber = some F) (hdim : self.getBaseDimension + F.getDimension < 2 ^ 32) :
    (BundleSpace.checkBundleSpace getMeasure self = .ok () →
      self.getBaseDimension + self.getFiberDimension = self.getBundleDimension) ∧
    (∀ cfs si parent_, BundleSpace.construct cfs getMeasure si parent_ = .ok self →
      self.getBaseDimension + self.getFiberDimension = self.getBundleDimension) ∧
    (self.getBaseDimension + self.getFiberDimension ≠ self.getBundleDimension →
      ∃ e, BundleSpace.checkBundleSpace getMeasure self = .error e) ∧
    (∀ node : BundleSpace ν, node.Fiber = none →
      ¬ ZeroOrInfiniteMeasure getMeasure node.Bundle.getStateSpace →
      (∀ Base, node.Base = some Base →
        ¬ ZeroOrInfiniteMeasure getMeasure Base.getStateSpace) →
      BundleSpace.checkBundleSpace getMeasure node = .ok ()) := by
  have hFd : self.getFiberDimension = F.getDimension := by
    unfold BundleSpace.getFiberDimension
    rw [hF]
  have hcases := BundleSpace.checkBundleSpace_cases getMeasure self
  have key : BundleSpace.checkBundleSpace getMeasure self = .ok () →
      self.getBaseDimension + self.getFiberDimension = self.getBundleDimension := by
    intro hok
    by_cases h0 : ZeroOrInfiniteMeasure getMeasure self.Bundle.getStateSpace
    · rw [hcases.1 h0] at hok; cases hok
    · by_cases h1 : ∃ Base, self.Base = some Base ∧
          ZeroOrInfiniteMeasure getMeasure Base.getStateSpace
      · obtain ⟨Base, hb, hbad⟩ := h1
        rw [hcases.2.1 Base hb hbad] at hok; cases hok
      · by_cases h2 : ZeroOrInfiniteMeasure getMeasure F
        · rw [hcases.2.2.1 F hF h2] at hok; cases hok
        · have := (hcases.2.2.2 h0 (fun Base hb hbad => h1 ⟨Base, hb, hbad⟩)).2 F hF h2
          rw [this, uadd_eq hdim] at hok
          by_cases hs : self.getBaseDimension + F.getDimension ≠ self.getBundleDimension
          · rw [if_pos hs] at hok; cases hok
          · rw [hFd]; exact not_not.mp hs
  refine ⟨key, fun cfs si parent_ h =>
      key (BundleSpace.construct_ok cfs getMeasure si parent_ self h).1, ?_, ?_⟩
  · intro hne
    cases hc : BundleSpace.checkBundleSpace getMeasure self with
    | error e => exact ⟨e, rfl⟩
    | ok u => exact absurd (key hc) hne
  · intro node hnF h0 h1
    exact ((BundleSpace.checkBundleSpace_cases getMeasure node).2.2.2 h0 h1).1 hnF

/-- Witness of the amended C21: Bundle `R^5`, Base `R^3`, Fiber `R^2`, all of
measure 1. -/
theorem C21_checkBundleSpace_dimension_sum_witness :
    BundleSpace.checkBundleSpace (fun _ => .finite 1)
        (BundleSpace.mk (SpaceInformation.mk (RealVectorStateSpace 5) (0 : Nat))
          (some (SpaceInformation.mk (RealVectorStateSpace 3) 0))
          (some (RealVectorStateSpace 2)) []) = .ok () ∧
    (3 : Nat) + 2 = 5 := by
  have hm : ∀ s, ¬ ZeroOrInfiniteMeasure (fun _ => Double.finite 1) s := by
    intro s
    simp [ZeroOrInfiniteMeasure, Double.leZero, Double.geInfinity]
  have hok : BundleSpace.checkBundleSpace (fun _ => .finite 1)
        (BundleSpace.mk (SpaceInformation.mk (RealVectorStateSpace 5) (0 : Nat))
          (some (SpaceInformation.mk (RealVectorStateSpace 3) 0))
          (some (RealVectorStateSpace 2)) []) = .ok () :=
    (((BundleSpace.checkBundleSpace_cases _ _).2.2.2 (hm _) (fun _ _ => hm _)).2
      (RealVectorStateSpace 2) rfl (hm _)).trans rfl
  exact ⟨hok, (C21_checkBundleSpace_dimension_sum (fun _ => .finite 1)
    (BundleSpace.mk (SpaceInformation.mk (RealVectorStateSpace 5) (0 : Nat))
      (some (SpaceInformation.mk (RealVectorStateSpace 3) 0))
      (some (RealVectorStateSpace 2)) []) (RealVectorStateSpace 2) rfl (by decide)).1 hok⟩

/-- C22: `checkBundleSpaceMeasure` throws exactly when the measure is `<= 0` or
infinite; `checkBundleSpace` fails if and only if the Bundle, a present Base or a
present Fiber has such a measure, or a present Fiber violates the dimension sum, and
it fails by one of its two exceptions; and the constructor fails for every Bundle of
infinite measure. -/
theorem C22_checkBundleSpace_fails_iff {ν : Type} [BEq ν]
    (getMeasure : StateSpace → Double) (self : BundleSpace ν)
    (hdim : self.getBaseDimension + self.getFiberDimension < 2 ^ 32) :
    (∀ space, BundleSpace.checkBundleSpaceMeasure getMeasure space =
        .error (.exception .Space_has_zero_or_infinite_measure) ↔
      ((getMeasure space).leZero = true ∨ (getMeasure space).geInfinity = true)) ∧
    (∀ space, BundleSpace.checkBundleSpaceMeasure getMeasure space = .ok () ↔
      ¬ ((getMeasure space).leZero = true ∨ (getMeasure space).geInfinity = true)) ∧
    ((∃ e, BundleSpace.checkBundleSpace getMeasure self = .error e) ↔
      (ZeroOrInfiniteMeasure getMeasure self.Bundle.getStateSpace ∨
        (∃ Base, self.Base = some Base ∧
          ZeroOrInfiniteMeasure getMeasure Base.getStateSpace) ∨
        (∃ F, self.Fiber = some F ∧ (ZeroOrInfiniteMeasure getMeasure F ∨
          self.getBaseDimension + F.getDimension ≠ self.getBundleDimension)))) ∧
    (BundleSpace.checkBundleSpace getMeasure self = .ok () ∨
      BundleSpace.checkBundleSpace getMeasure self =
        .error (.exception .Space_has_zero_or_infinite_measure) ∨
      BundleSpace.checkBundleSpace getMeasure self =
        .error (.exception .BundleSpace_Dimensions_are_wrong)) ∧
    (∀ (cfs : ComputeFiberSpace) (si : SpaceInformation ν) (parent_ : Option (BundleSpace ν)),
      getMeasure si.getStateSpace = .posInf →
      ∃ e, BundleSpace.construct cfs getMeasure si parent_ = .error e) := by
  have hcases := BundleSpace.checkBundleSpace_cases getMeasure self
  -- the outcome, by cases
  have hout : (ZeroOrInfiniteMeasure getMeasure self.Bundle.getStateSpace ∨
        (∃ Base, self.Base = some Base ∧
          ZeroOrInfiniteMeasure getMeasure Base.getStateSpace) ∨
        (∃ F, self.Fiber = some F ∧ (ZeroOrInfiniteMeasure getMeasure F ∨
          self.getBaseDimension + F.getDimension ≠ self.getBundleDimension))) ∧
      (BundleSpace.checkBundleSpace getMeasure self =
          .error (.exception .Space_has_zero_or_infinite_measure) ∨
        BundleSpace.checkBundleSpace getMeasure self =
          .error (.exception .BundleSpace_Dimensions_are_wrong)) ∨
      ¬ (ZeroOrInfiniteMeasure getMeasure self.Bundle.getStateSpace ∨
        (∃ Base, self.Base = some Base ∧
          ZeroOrInfiniteMeasure getMeasure Base.getStateSpace) ∨
        (∃ F, self.Fiber = some F ∧ (ZeroOrInfiniteMeasure getMeasure F ∨
          self.getBaseDimension + F.getDimension ≠ self.getBundleDimension))) ∧
      BundleSpace.checkBundleSpace getMeasure self = .ok () := by
    by_cases h0 : ZeroOrInfiniteMeasure getMeasure self.Bundle.getStateSpace
    · exact .inl ⟨.inl h0, .inl (hcases.1 h0)⟩
    · by_cases h1 : ∃ Base, self.Base = some Base ∧
          ZeroOrInfiniteMeasure getMeasure Base.getStateSpace
      · obtain ⟨Base, hb, hbad⟩ := h1
        exact .inl ⟨.inr (.inl ⟨Base, hb, hbad⟩), .inl (hcases.2.1 Base hb hbad)⟩
      · have h1' : ∀ Base, self.Base = some Base →
            ¬ ZeroOrInfiniteMeasure getMeasure Base.getStateSpace :=
          fun Base hb hbad => h1 ⟨Base, hb, hbad⟩
        cases hF : self.Fiber with
        | none =>
          refine .inr ⟨?_, (hcases.2.2.2 h0 h1').1 hF⟩
          rintro (h | h | ⟨F, hF', _⟩)
          · exact h0 h
          · exact h1 h
          · cases hF'
        | some F =>
          have hFd : self.getFiberDimension = F.getDimension := by
            unfold BundleSpace.getFiberDimension
            rw [hF]
          by_cases h2 : ZeroOrInfiniteMeasure getMeasure F
          · exact .inl ⟨.inr (.inr ⟨F, rfl, .inl h2⟩), .inl (hcases.2.2.1 F hF h2)⟩
          · have hch := (hcases.2.2.2 h0 h1').2 F hF h2
            rw [uadd_eq (by rw [← hFd]; exact hdim)] at hch
            by_cases hs : self.getBaseDimension + F.getDimension ≠ self.getBundleDimension
            · rw [if_pos hs] at hch
              exact .inl ⟨.inr (.inr ⟨F, rfl, .inr hs⟩), .inr hch⟩
            · rw [if_neg hs] at hch
              refine .inr ⟨?_, hch⟩
              rintro (h | h | ⟨F', hF', h | h⟩)
              · exact h0 h
              · exact h1 h
              · cases hF'; exact h2 h
              · cases hF'; exact hs h
  refine ⟨?_, ?_, ?_, ?_, ?_⟩
  · intro space
    rw [BundleSpace.checkBundleSpaceMeasure_eq]
    by_cases h : ZeroOrInfiniteMeasure getMeasure space
    · rw [if_pos h]; exact ⟨fun _ => h, fun _ => rfl⟩
    · rw [if_neg h]; exact ⟨fun h' => (by cases h'), fun h' => absurd h' h⟩
  · intro space
    rw [BundleSpace.checkBundleSpaceMeasure_eq]
    by_cases h : ZeroOrInfiniteMeasure getMeasure space
    · rw [if_pos h]; exact ⟨fun h' => (by cases h'), fun h' => absurd h h'⟩
    · rw [if_neg h]; exact ⟨fun _ => h, fun _ => rfl⟩
  · rcases hout with ⟨hbad, h | h⟩ | ⟨hgood, h⟩
    · exact ⟨fun _ => hbad, fun _ => ⟨_, h⟩⟩
    · exact ⟨fun _ => hbad, fun _ => ⟨_, h⟩⟩
    · exact ⟨fun ⟨e, he⟩ => (by rw [h] at he; cases he), fun hb => absurd hb hgood⟩
  · rcases hout with ⟨_, h | h⟩ | ⟨_, h⟩
    · exact .inr (.inl h)
    · exact .inr (.inr h)
    · exact .inl h
  · intro cfs si parent_ hinf
    exact BundleSpace.construct_fails cfs getMeasure si parent_
      (.inr (by rw [hinf]; rfl))

/-- Witness of C22: a node without parent whose Bundle `R^2` has infinite measure. -/
theorem C22_checkBundleSpace_fails_iff_witness :
    BundleSpace.checkBundleSpace (fun _ => .posInf)
        (BundleSpace.mk (SpaceInformation.mk (RealVectorStateSpace 2) (0 : Nat)) none none [])
      = .error (.exception .Space_has_zero_or_infinite_measure) ∧
    ((∃ e, BundleSpace.checkBundleSpace (fun _ => .posInf)
        (BundleSpace.mk (SpaceInformation.mk (RealVectorStateSpace 2) (0 : Nat)) none none [])
        = .error e) ↔
      (ZeroOrInfiniteMeasure (fun _ => .posInf) (RealVectorStateSpace 2) ∨
        (∃ Base, (none : Option (SpaceInformation Nat)) = some Base ∧
          ZeroOrInfiniteMeasure (fun _ => .posInf) Base.getStateSpace) ∨
        (∃ F, (none : Option StateSpace) = some F ∧
          (ZeroOrInfiniteMeasure (fun _ => .posInf) F ∨ 0 + F.getDimension ≠ 2)))) ∧
    ∃ e, BundleSpace.construct noFiberSpace (fun _ => .posInf)
      (SpaceInformation.mk (RealVectorStateSpace 2) (0 : Nat)) none = .error e :=
  have h := C22_checkBundleSpace_fails_iff (fun _ => .posInf)
    (BundleSpace.mk (SpaceInformation.mk (RealVectorStateSpace 2) (0 : Nat)) none none [])
    (by decide)
  ⟨rfl, h.2.2.1, h.2.2.2.2 noFiberSpace _ none rfl⟩

/-- C23: for the vector-in-vector decomposition with `n > m > 0` the quotient space
is constructed and `mergeStates b f`, for a Base state `b` of `m` coordinates and a
Fiber state `f` of `n - m` coordinates, is the concatenation `b ++ f`, whatever the
output buffer holds beforehand: it has `n` coordinates, coordinate `k` is `b[k]` for
`k < m` and `f[k - m]` for `m <= k < n`. -/
theorem C23_mergeStates_RN_RM_concatenates {α : Type} (n m : Nat) (hm : 0 < m) (hmn : m < n)
    (hn : n < 2 ^ 32) (b f out : List α) (hb : b.length = m) (hf : f.length = n - m)
    (hout : out.length = n) :
    computeQuotientSpace (RealVectorStateSpace n) (RealVectorStateSpace m) =
      .ok (QuotientSpace.mk .RN_RM n m (n - m) (some (RealVectorStateSpace (n - m))) true) ∧
    (QuotientSpace.mk .RN_RM n m (n - m) (some (RealVectorStateSpace (n - m))) true).mergeStates
      (.RealVector b) (.RealVector f) (.RealVector out) = .ok (.RealVector (b ++ f)) ∧
    (b ++ f).length = n ∧
    (∀ k, k < m → (b ++ f)[k]? = b[k]?) ∧
    (∀ k, m ≤ k → k < n → (b ++ f)[k]? = f[k - m]?) := by
  refine ⟨computeQuotientSpace_RN_RM n m hm hmn hn,
    mergeStates_RN_RM n m (Nat.le_of_lt hmn) hn _ _ b f out hb hf hout,
    by rw [List.length_append]; omega, ?_, ?_⟩
  · intro k hk
    rw [List.getElem?_append_left (by omega)]
  · intro k hk _
    rw [List.getElem?_append_right (by omega), hb]

/-- Witness of C23 at `n = 5`, `m = 3`: merging `[0.1, 0.2, 0.3]` and `[0.4, 0.5]`
gives `[0.1, 0.2, 0.3, 0.4, 0.5]`. -/
theorem C23_mergeStates_RN_RM_concatenates_witness :
    computeQuotientSpace (RealVectorStateSpace 5) (RealVectorStateSpace 3) =
      .ok (QuotientSpace.mk .RN_RM 5 3 2 (some (RealVectorStateSpace 2)) true) ∧
    (QuotientSpace.mk .RN_RM 5 3 2 (some (RealVectorStateSpace 2)) true).mergeStates
      (.RealVector [0.1, 0.2, 0.3]) (.RealVector [0.4, 0.5])
      (.RealVector [0, 0, 0, 0, (0 : ℚ)]) = .ok (.RealVector [0.1, 0.2, 0.3, 0.4, 0.5]) :=
  have h := C23_mergeStates_RN_RM_concatenates 5 3 (by decide) (by decide) (by decide)
    [0.1, 0.2, 0.3] [0.4, 0.5] [0, 0, 0, 0, (0 : ℚ)] rfl rfl rfl
  ⟨h.1, h.2.1⟩

/-- C24: for Bundle `SE2` over Base `R^2` and Bundle `SE3` over Base `R^3` the
quotient space is constructed; `mergeStates` of a position `p` and a rotation `r`
yields the pose with position `p` and rotation `r` (for `SE2`: `x = p[0]`,
`y = p[1]`, `yaw = r`), whatever the output buffer holds beforehand;
`projectX1Subspace` of that pose returns `r` and `projectQ0Subspace` returns `p`. -/
theorem C24_rigid_body_over_position {α : Type} (p0 p1 p2 r o o0 o1 o2 : α)
    (q oq : SO3State α) (out2 : SE2State α) (out3 : SE3State α) :
    (computeQuotientSpace SE2StateSpace (RealVectorStateSpace 2) =
        .ok (QuotientSpace.mk .SE2_R2 3 2 1 (some SO2StateSpace) true) ∧
      (QuotientSpace.mk .SE2_R2 3 2 1 (some SO2StateSpace) true).mergeStates
        (.RealVector [p0, p1]) (.SO2 r) (.SE2 out2) = .ok (.SE2 ⟨p0, p1, r⟩) ∧
      (QuotientSpace.mk .SE2_R2 3 2 1 (some SO2StateSpace) true).projectX1Subspace
        (.SE2 ⟨p0, p1, r⟩) (.SO2 o) = .ok (.SO2 r) ∧
      (QuotientSpace.mk .SE2_R2 3 2 1 (some SO2StateSpace) true).projectQ0Subspace
        (.SE2 ⟨p0, p1, r⟩) (.RealVector [o0, o1]) = .ok (.RealVector [p0, p1])) ∧
    (computeQuotientSpace SE3StateSpace (RealVectorStateSpace 3) =
        .ok (QuotientSpace.mk .SE3_R3 6 3 3 (some SO3StateSpace) true) ∧
      (QuotientSpace.mk .SE3_R3 6 3 3 (some SO3StateSpace) true).mergeStates
        (.RealVector [p0, p1, p2]) (.SO3 q) (.SE3 out3) = .ok (.SE3 ⟨p0, p1, p2, q⟩) ∧
      (QuotientSpace.mk .SE3_R3 6 3 3 (some SO3StateSpace) true).projectX1Subspace
        (.SE3 ⟨p0, p1, p2, q⟩) (.SO3 oq) = .ok (.SO3 q) ∧
      (QuotientSpace.mk .SE3_R3 6 3 3 (some SO3StateSpace) true).projectQ0Subspace
        (.SE3 ⟨p0, p1, p2, q⟩) (.RealVector [o0, o1, o2]) = .ok (.RealVector [p0, p1, p2])) :=
  ⟨⟨rfl, rfl, rfl, rfl⟩, ⟨rfl, rfl, rfl, rfl⟩⟩

/-- C25: for Bundle `SE2 x R^n`, `SE3 x R^n` and `SO2 x R^n` over the pose itself
(Fiber `R^n`), for Bundle `SE2 x R^n` over `R^2` (Fiber `SO2 x R^n`) and for Bundle
`SE3 x R^n` over `R^3` (Fiber `SO3 x R^n`), the quotient space is constructed and the
three round-trip laws hold for all states, whatever the output buffers hold
beforehand: `projectQ0Subspace (mergeStates b f) = b`,
`projectX1Subspace (mergeStates b f) = f` and
`mergeStates (projectQ0Subspace x) (projectX1Subspace x) = x`, as equalities of the
vector coordinates, angles and quaternion components. -/
theorem C25_XRN_over_pose_or_position_round_trip {α : Type} (n : Nat) (hn : 6 + n < 2 ^ 32)
    (v vf vo voF : List α) (hv : v.length = n) (hvf : vf.length = n) (hvo : vo.length = n)
    (hvoF : voF.length = n)
    (s sb so soB : SE2State α) (t tb tq tqB : SE3State α) (a ab ao aoB : α)
    (p0 p1 p2 o0 o1 o2 r ro : α) (q qo : SO3State α) :
    (∃ self, computeQuotientSpace (XRN SE2StateSpace n) SE2StateSpace = .ok self ∧
      RoundTrip self (.SE2 sb) (.RealVector vf) (.Compound [.SE2 s, .RealVector v])
        (.Compound [.SE2 so, .RealVector vo]) (.SE2 soB) (.RealVector voF)) ∧
    (∃ self, computeQuotientSpace (XRN SE3StateSpace n) SE3StateSpace = .ok self ∧
      RoundTrip self (.SE3 tb) (.RealVector vf) (.Compound [.SE3 t, .RealVector v])
        (.Compound [.SE3 tq, .RealVector vo]) (.SE3 tqB) (.RealVector voF)) ∧
    (∃ self, computeQuotientSpace (XRN SO2StateSpace n) SO2StateSpace = .ok self ∧
      RoundTrip self (.SO2 ab) (.RealVector vf) (.Compound [.SO2 a, .RealVector v])
        (.Compound [.SO2 ao, .RealVector vo]) (.SO2 aoB) (.RealVector voF)) ∧
    (∃ self, computeQuotientSpace (XRN SE2StateSpace n) (RealVectorStateSpace 2) = .ok self ∧
      RoundTrip self (.RealVector [p0, p1]) (.Compound [.SO2 r, .RealVector vf])
        (.Compound [.SE2 s, .RealVector v]) (.Compound [.SE2 so, .RealVector vo])
        (.RealVector [o0, o1]) (.Compound [.SO2 ro, .RealVector voF])) ∧
    (∃ self, computeQuotientSpace (XRN SE3StateSpace n) (RealVectorStateSpace 3) = .ok self ∧
      RoundTrip self (.RealVector [p0, p1, p2]) (.Compound [.SO3 q, .RealVector vf])
        (.Compound [.SE3 t, .RealVector v]) (.Compound [.SE3 tq, .RealVector vo])
        (.RealVector [o0, o1, o2]) (.Compound [.SO3 qo, .RealVector voF])) := by
  have h1 : 1 + n < 2 ^ 32 := by omega
  have h3 : 3 + n < 2 ^ 32 := by omega
  refine ⟨⟨_, computeQuotientSpace_SE2RN_SE2 n, ⟨?_, ?_⟩⟩,
    ⟨_, computeQuotientSpace_SE3RN_SE3 n, ⟨?_, ?_⟩⟩,
    ⟨_, computeQuotientSpace_SO2RN_SO2 n, ⟨?_, ?_⟩⟩,
    ⟨_, computeQuotientSpace_SE2RN_R2 n h1, ⟨?_, ?_⟩⟩,
    ⟨_, computeQuotientSpace_SE3RN_R3 n h3, ⟨?_, ?_⟩⟩⟩
  · exact ⟨_, mergeStates_SE2RN_SE2 n _ _ _ sb so vf vo hvf hvo,
      projectQ0Subspace_SE2RN_SE2 _ _ _ _ _ sb soB vf,
      (projectX1Subspace_XRN_X n _ _ _ _ (.SE2 sb) vf voF hvf hvoF).1⟩
  · exact ⟨_, _, projectQ0Subspace_SE2RN_SE2 _ _ _ _ _ s soB v,
      (projectX1Subspace_XRN_X n _ _ _ _ (.SE2 s) v voF hv hvoF).1,
      mergeStates_SE2RN_SE2 n _ _ _ s so v vo hv hvo⟩
  · exact ⟨_, mergeStates_SE3RN_SE3 n _ _ _ tb tq vf vo hvf hvo,
      projectQ0Subspace_SE3RN_SE3 _ _ _ _ _ tb tqB vf,
      (projectX1Subspace_XRN_X n _ _ _ _ (.SE3 tb) vf voF hvf hvoF).2.1⟩
  · exact ⟨_, _, projectQ0Subspace_SE3RN_SE3 _ _ _ _ _ t tqB v,
      (projectX1Subspace_XRN_X n _ _ _ _ (.SE3 t) v voF hv hvoF).2.1,
      mergeStates_SE3RN_SE3 n _ _ _ t tq v vo hv hvo⟩
  · exact ⟨_, mergeStates_SO2RN_SO2 n _ _ _ ab ao vf vo hvf hvo,
      projectQ0Subspace_SO2RN_SO2 _ _ _ _ _ ab aoB vf,
      (projectX1Subspace_XRN_X n _ _ _ _ (.SO2 ab) vf voF hvf hvoF).2.2⟩
  · exact ⟨_, _, projectQ0Subspace_SO2RN_SO2 _ _ _ _ _ a aoB v,
      (projectX1Subspace_XRN_X n _ _ _ _ (.SO2 a) v voF hv hvoF).2.2,
      mergeStates_SO2RN_SO2 n _ _ _ a ao v vo hv hvo⟩
  · exact ⟨_, mergeStates_SE2RN_R2 n _ _ h1 _ p0 p1 r so vf vo hvf hvo,
      projectQ0Subspace_SE2RN_R2 _ _ _ _ _ ⟨p0, p1, r⟩ vf o0 o1,
      projectX1Subspace_SE2RN_R2 n _ _ h1 _ _ ⟨p0, p1, r⟩ ro vf voF hvf hvoF⟩
  · exact ⟨_, _, projectQ0Subspace_SE2RN_R2 _ _ _ _ _ s v o0 o1,
      projectX1Subspace_SE2RN_R2 n _ _ h1 _ _ s ro v voF hv hvoF,
      mergeStates_SE2RN_R2 n _ _ h1 _ s.x s.y s.yaw so v vo hv hvo⟩
  · exact ⟨_, mergeStates_SE3RN_R3 n _ _ h3 _ p0 p1 p2 q tq vf vo hvf hvo,
      projectQ0Subspace_SE3RN_R3 _ _ _ _ _ ⟨p0, p1, p2, q⟩ vf o0 o1 o2,
      projectX1Subspace_SE3RN_R3 n _ _ h3 _ _ ⟨p0, p1, p2, q⟩ qo vf voF hvf hvoF⟩
  · exact ⟨_, _, projectQ0Subspace_SE3RN_R3 _ _ _ _ _ t v o0 o1 o2,
      projectX1Subspace_SE3RN_R3 n _ _ h3 _ _ t qo v voF hv hvoF,
      mergeStates_SE3RN_R3 n _ _ h3 _ t.x t.y t.z t.rotation tq v vo hv hvo⟩

/-- Witness of C25 at `n = 2` with natural-number coordinates. -/
theorem C25_XRN_over_pose_or_position_round_trip_witness :
    (∃ self, computeQuotientSpace (XRN SE2StateSpace 2) SE2StateSpace = .ok self ∧
      RoundTrip self (.SE2 ⟨7, 8, 9⟩) (.RealVector [10, 11])
        (.Compound [.SE2 ⟨1, 2, 3⟩, .RealVector [4, 5]])
        (.Compound [.SE2 ⟨0, 0, 0⟩, .RealVector [0, 0]]) (.SE2 ⟨0, 0, 0⟩)
        (.RealVector [0, (0 : Nat)])) ∧
    (∃ self, computeQuotientSpace (XRN SE3StateSpace 2) SE3StateSpace = .ok self ∧
      RoundTrip self (.SE3 ⟨7, 8, 9, ⟨1, 0, 0, 0⟩⟩) (.RealVector [10, 11])
        (.Compound [.SE3 ⟨1, 2, 3, ⟨0, 0, 0, 1⟩⟩, .RealVector [4, 5]])
        (.Compound [.SE3 ⟨0, 0, 0, ⟨0, 0, 0, 0⟩⟩, .RealVector [0, 0]])
        (.SE3 ⟨0, 0, 0, ⟨0, 0, 0, 0⟩⟩) (.RealVector [0, (0 : Nat)])) ∧
    (∃ self, computeQuotientSpace (XRN SO2StateSpace 2) SO2StateSpace = .ok self ∧
      RoundTrip self (.SO2 12) (.RealVector [10, 11])
        (.Compound [.SO2 6, .RealVector [4, 5]])
        (.Compound [.SO2 0, .RealVector [0, 0]]) (.SO2 0) (.RealVector [0, (0 : Nat)])) ∧
    (∃ self, computeQuotientSpace (XRN SE2StateSpace 2) (RealVectorStateSpace 2) = .ok self ∧
      RoundTrip self (.RealVector [13, 14]) (.Compound [.SO2 19, .RealVector [10, 11]])
        (.Compound [.SE2 ⟨1, 2, 3⟩, .RealVector [4, 5]])
        (.Compound [.SE2 ⟨0, 0, 0⟩, .RealVector [0, 0]])
        (.RealVector [0, 0]) (.Compound [.SO2 0, .RealVector [0, (0 : Nat)]])) ∧
    (∃ self, computeQuotientSpace (XRN SE3StateSpace 2) (RealVectorStateSpace 3) = .ok self ∧
      RoundTrip self (.RealVector [13, 14, 15])
        (.Compound [.SO3 ⟨0, 1, 0, 0⟩, .RealVector [10, 11]])
        (.Compound [.SE3 ⟨1, 2, 3, ⟨0, 0, 0, 1⟩⟩, .RealVector [4, 5]])
        (.Compound [.SE3 ⟨0, 0, 0, ⟨0, 0, 0, 0⟩⟩, .RealVector [0, 0]])
        (.RealVector [0, 0, 0]) (.Compound [.SO3 ⟨0, 0, 0, 0⟩, .RealVector [0, (0 : Nat)]])) :=
  C25_XRN_over_pose_or_position_round_trip 2 (by decide) [4, 5] [10, 11] [0, 0] [0, 0]
    rfl rfl rfl rfl ⟨1, 2, 3⟩ ⟨7, 8, 9⟩ ⟨0, 0, 0⟩ ⟨0, 0, 0⟩
    ⟨1, 2, 3, ⟨0, 0, 0, 1⟩⟩ ⟨7, 8, 9, ⟨1, 0, 0, 0⟩⟩ ⟨0, 0, 0, ⟨0, 0, 0, 0⟩⟩
    ⟨0, 0, 0, ⟨0, 0, 0, 0⟩⟩ 6 12 0 0 13 14 15 0 0 0 19 0 ⟨0, 1, 0, 0⟩ ⟨0, 0, 0, 0⟩

/-- C26 (the code at failing inputs): on every quotient space that
`computeQuotientSpace` builds with an identity type, `projectQ0Subspace` returns the
Bundle state unchanged and `projectX1Subspace` reports the error and ends the process
with `exit(0)`; `mergeStates`, however, dereferences the null pointer `X1` before it
reaches its `switch`, which is undefined behaviour, so its own error path for the
identity types is never reached. -/
theorem C26_identity_mergeStates_dereferences_null_X1 {α : Type} (Q1 Q0 : StateSpace)
    (self : QuotientSpace) (h : computeQuotientSpace Q1 Q0 = .ok self)
    (hid : self.type_.isIdentity = true) (q b f buf : State α) :
    self.projectQ0Subspace q buf = .ok q ∧
    self.projectX1Subspace q buf = .error (.exit 0) ∧
    self.X1 = none ∧
    self.mergeStates b f buf = .error .undefinedBehaviour := by
  have hX := (computeQuotientSpace_identity Q1 Q0 self h hid).1
  have hop := identity_operators self hid q b f buf
  exact ⟨hop.1, hop.2.1, hX, hop.2.2.1 hX⟩

/-- Witness of C26: `R^3` over `R^3`. -/
theorem C26_identity_mergeStates_dereferences_null_X1_witness :
    computeQuotientSpace (RealVectorStateSpace 3) (RealVectorStateSpace 3) =
      .ok (QuotientSpace.mk .IDENTITY_SPACE_RN 3 3 0 none true) ∧
    (QuotientSpace.mk .IDENTITY_SPACE_RN 3 3 0 none true).projectQ0Subspace
      (.RealVector [1, 2, (3 : Nat)]) (.RealVector [0, 0, 0]) = .ok (.RealVector [1, 2, 3]) ∧
    (QuotientSpace.mk .IDENTITY_SPACE_RN 3 3 0 none true).projectX1Subspace
      (.RealVector [1, 2, (3 : Nat)]) (.RealVector [0, 0, 0]) = .error (.exit 0) ∧
    (QuotientSpace.mk .IDENTITY_SPACE_RN 3 3 0 none true).X1 = none ∧
    (QuotientSpace.mk .IDENTITY_SPACE_RN 3 3 0 none true).mergeStates
      (.RealVector [1, 2, (3 : Nat)]) (.RealVector []) (.RealVector [0, 0, 0])
      = .error .undefinedBehaviour :=
  ⟨rfl, C26_identity_mergeStates_dereferences_null_X1 (RealVectorStateSpace 3)
    (RealVectorStateSpace 3) (QuotientSpace.mk .IDENTITY_SPACE_RN 3 3 0 none true) rfl rfl
    (.RealVector [1, 2, 3]) (.RealVector [1, 2, 3]) (.RealVector []) (.RealVector [0, 0, 0])⟩

/-- C27: the quotient space that `computeQuotientSpace` derives has the dimension
fixed by the type: `n - m` for `R^n` over `R^m` and for `pose x R^n` over
`pose x R^m` (`0 < m < n`), 1 for `SE2` over `R^2`, 3 for `SE3` over `R^3`, `n` for
`SE2 x R^n`, `SE3 x R^n`, `SO2 x R^n` over the pose, `1 + n` for `SE2 x R^n` over
`R^2`, `3 + n` for `SE3 x R^n` over `R^3`, for every `n`; there is no quotient
(dimension 0) for the identity shapes `R^n` over `R^n` (`0 < n`), `SE2` over `SE2`
and `pose x R^n` over itself; in each of these cases
`dimension(Q0) + dimension(X1) = dimension(Q1)`.  For the identity shape `SE3` over
`SE3` the classifier assigns `IDENTITY_SPACE_SE3` and then ends the process with
`exit(0)`: no quotient space is constructed, of whatever dimension. -/
theorem C27_derived_Fiber_dimension_but_SE3_identity_exits (n m : Nat)
    (hn : 6 + n < 2 ^ 32) :
    (0 < m → m < n →
      DerivedFiber (RealVectorStateSpace n) (RealVectorStateSpace m) .RN_RM (n - m) ∧
      DerivedFiber (XRN SE2StateSpace n) (XRN SE2StateSpace m) .SE2RN_SE2RM (n - m) ∧
      DerivedFiber (XRN SE3StateSpace n) (XRN SE3StateSpace m) .SE3RN_SE3RM (n - m) ∧
      DerivedFiber (XRN SO2StateSpace n) (XRN SO2StateSpace m) .SO2RN_SO2RM (n - m)) ∧
    DerivedFiber SE2StateSpace (RealVectorStateSpace 2) .SE2_R2 1 ∧
    DerivedFiber SE3StateSpace (RealVectorStateSpace 3) .SE3_R3 3 ∧
    DerivedFiber (XRN SE2StateSpace n) SE2StateSpace .SE2RN_SE2 n ∧
    DerivedFiber (XRN SE3StateSpace n) SE3StateSpace .SE3RN_SE3 n ∧
    DerivedFiber (XRN SO2StateSpace n) SO2StateSpace .SO2RN_SO2 n ∧
    DerivedFiber (XRN SE2StateSpace n) (RealVectorStateSpace 2) .SE2RN_R2 (1 + n) ∧
    DerivedFiber (XRN SE3StateSpace n) (RealVectorStateSpace 3) .SE3RN_R3 (3 + n) ∧
    (0 < n →
      DerivedFiber (RealVectorStateSpace n) (RealVectorStateSpace n) .IDENTITY_SPACE_RN 0) ∧
    DerivedFiber SE2StateSpace SE2StateSpace .IDENTITY_SPACE_SE2 0 ∧
    DerivedFiber (XRN SE2StateSpace n) (XRN SE2StateSpace n) .IDENTITY_SPACE_SE2RN 0 ∧
    DerivedFiber (XRN SE3StateSpace n) (XRN SE3StateSpace n) .IDENTITY_SPACE_SE3RN 0 ∧
    DerivedFiber (XRN SO2StateSpace n) (XRN SO2StateSpace n) .IDENTITY_SPACE_SO2RN 0 ∧
    (DerivedFiber (XRN SE3StateSpace 4) SE3StateSpace .SE3RN_SE3 4 ∧
      SE3StateSpace.getDimension = 6 ∧ (XRN SE3StateSpace 4).getDimension = 10) ∧
    (identifyQuotientSpaceType SE3StateSpace SE3StateSpace = .error (.exit 0) ∧
      computeQuotientSpace SE3StateSpace SE3StateSpace = .error (.exit 0) ∧
      ∀ t d, ¬ DerivedFiber SE3StateSpace SE3StateSpace t d) := by
  refine ⟨fun hm hmn => ⟨
      DerivedFiber_of (computeQuotientSpace_RN_RM n m hm hmn (by omega)) rfl rfl rfl rfl
        rfl rfl ?_,
      DerivedFiber_of (computeQuotientSpace_SE2RN_SE2RM n m hm hmn (by omega)) rfl rfl rfl rfl
        ?_ ?_ ?_,
      DerivedFiber_of (computeQuotientSpace_SE3RN_SE3RM n m hm hmn (by omega)) rfl rfl rfl rfl
        ?_ ?_ ?_,
      DerivedFiber_of (computeQuotientSpace_SO2RN_SO2RM n m hm hmn (by omega)) rfl rfl rfl rfl
        ?_ ?_ ?_⟩,
    by decide, by decide,
    DerivedFiber_of (computeQuotientSpace_SE2RN_SE2 n) rfl rfl rfl rfl rfl ?_ ?_,
    DerivedFiber_of (computeQuotientSpace_SE3RN_SE3 n) rfl rfl rfl rfl rfl ?_ ?_,
    DerivedFiber_of (computeQuotientSpace_SO2RN_SO2 n) rfl rfl rfl rfl rfl ?_ ?_,
    DerivedFiber_of (computeQuotientSpace_SE2RN_R2 n (by omega)) rfl rfl ?_ rfl rfl ?_ ?_,
    DerivedFiber_of (computeQuotientSpace_SE3RN_R3 n (by omega)) rfl rfl ?_ rfl rfl ?_ ?_,
    fun h0 => DerivedFiber_of (computeQuotientSpace_IDENTITY_SPACE_RN n h0) rfl rfl rfl rfl
      rfl rfl rfl,
    by decide,
    DerivedFiber_of (computeQuotientSpace_IDENTITY_SPACE_SE2RN n) rfl rfl rfl rfl ?_ ?_ rfl,
    DerivedFiber_of (computeQuotientSpace_IDENTITY_SPACE_SE3RN n) rfl rfl rfl rfl ?_ ?_ rfl,
    DerivedFiber_of (computeQuotientSpace_IDENTITY_SPACE_SO2RN n) rfl rfl rfl rfl ?_ ?_ rfl,
    ⟨by decide, rfl, rfl⟩, rfl, rfl, fun t d h => (by
      have e : computeQuotientSpace SE3StateSpace SE3StateSpace = .error (.exit 0) := rfl
      unfold DerivedFiber at h
      rw [e] at h
      exact h)⟩
  all_goals
    simp only [XRN, SE2StateSpace, SE3StateSpace, SO2StateSpace, SO3StateSpace,
      RealVectorStateSpace, getDimension_compound, getDimension_simple,
      QuotientSpace.getX1SpaceDimension]
    try omega

/-- Witness of C27 at `n = 1`, `m = 0`: the shapes that depend on `n` alone. -/
theorem C27_derived_Fiber_dimension_but_SE3_identity_exits_witness :
    DerivedFiber (XRN SE3StateSpace 1) SE3StateSpace .SE3RN_SE3 1 ∧
    DerivedFiber (XRN SE2StateSpace 1) (RealVectorStateSpace 2) .SE2RN_R2 2 ∧
    DerivedFiber (RealVectorStateSpace 1) (RealVectorStateSpace 1) .IDENTITY_SPACE_RN 0 ∧
    computeQuotientSpace SE3StateSpace SE3StateSpace = .error (.exit 0) :=
  have h := C27_derived_Fiber_dimension_but_SE3_identity_exits 1 0 (by decide)
  ⟨h.2.2.2.2.1, h.2.2.2.2.2.2.1, h.2.2.2.2.2.2.2.2.1 (by decide),
    h.2.2.2.2.2.2.2.2.2.2.2.2.2.2.2.1⟩

/-- C28: the bounds that `computeQuotientSpace` gives the quotient are those of the
matching Bundle coordinates.  For `R^n` over `R^m` and for `pose x R^n` over
`pose x R^m` (`0 < m < n`, the bounds of the Bundle's vector part having `n` entries)
the quotient gets `n - m` bounds and the `k`-th (low and high) is the `(m + k)`-th of
the Bundle's vector part; for `pose x R^n` over the pose or over the position the
quotient gets the bounds of the Bundle's vector part.  The construction returns, so
no `at()` throws and no write falls outside the arrays. -/
theorem C28_Fiber_bounds_inherited {α : Type} (getBounds : StateSpace → RealVectorBounds α)
    (zero : α) (n m : Nat) (hm : 0 < m) (hmn : m < n) (hn : n < 2 ^ 32)
    (hlow : (getBounds (RealVectorStateSpace n)).low.length = n)
    (hhigh : (getBounds (RealVectorStateSpace n)).high.length = n) :
    (∃ B, computeQuotientSpaceBounds getBounds zero (RealVectorStateSpace n)
        (RealVectorStateSpace m) = .ok (some B) ∧
      B.low.length = n - m ∧ B.high.length = n - m ∧
      ∀ k, k < n - m →
        B.low[k]? = (getBounds (RealVectorStateSpace n)).low[m + k]? ∧
        B.high[k]? = (getBounds (RealVectorStateSpace n)).high[m + k]?) ∧
    (∀ X, X = SE2StateSpace ∨ X = SE3StateSpace ∨ X = SO2StateSpace →
      ∃ B, computeQuotientSpaceBounds getBounds zero (XRN X n) (XRN X m) = .ok (some B) ∧
        B.low.length = n - m ∧ B.high.length = n - m ∧
        ∀ k, k < n - m →
          B.low[k]? = (getBounds (RealVectorStateSpace n)).low[m + k]? ∧
          B.high[k]? = (getBounds (RealVectorStateSpace n)).high[m + k]?) ∧
    computeQuotientSpaceBounds getBounds zero (XRN SE2StateSpace n) SE2StateSpace
      = .ok (some (getBounds (RealVectorStateSpace n))) ∧
    computeQuotientSpaceBounds getBounds zero (XRN SE3StateSpace n) SE3StateSpace
      = .ok (some (getBounds (RealVectorStateSpace n))) ∧
    computeQuotientSpaceBounds getBounds zero (XRN SO2StateSpace n) SO2StateSpace
      = .ok (some (getBounds (RealVectorStateSpace n))) ∧
    computeQuotientSpaceBounds getBounds zero (XRN SE2StateSpace n) (RealVectorStateSpace 2)
      = .ok (some (getBounds (RealVectorStateSpace n))) ∧
    computeQuotientSpaceBounds getBounds zero (XRN SE3StateSpace n) (RealVectorStateSpace 3)
      = .ok (some (getBounds (RealVectorStateSpace n))) :=
  ⟨computeQuotientSpaceBounds_RN_RM getBounds zero n m hm hmn hn hlow hhigh,
    fun X hX => computeQuotientSpaceBounds_XRN_XRM getBounds zero n m hm hmn hn hlow hhigh X hX,
    computeQuotientSpaceBounds_XRN_X getBounds zero n⟩

/-- Witness of C28 at `n = 5`, `m = 3` with the bounds `[0, 1]^d` on every vector
space of dimension `d`: the quotient gets the bounds `[0, 1]^2`. -/
theorem C28_Fiber_bounds_inherited_witness :
    computeQuotientSpaceBounds
        (fun s => RealVectorBounds.mk (List.replicate s.getDimension (0 : Nat))
          (List.replicate s.getDimension 1))
        0 (RealVectorStateSpace 5) (RealVectorStateSpace 3)
      = .ok (some (RealVectorBounds.mk [0, 0] [1, 1])) ∧
    ∃ B, computeQuotientSpaceBounds
        (fun s => RealVectorBounds.mk (List.replicate s.getDimension (0 : Nat))
          (List.replicate s.getDimension 1))
        0 (RealVectorStateSpace 5) (RealVectorStateSpace 3) = .ok (some B) ∧
      B.low.length = 5 - 3 ∧ B.high.length = 5 - 3 ∧
      ∀ k, k < 5 - 3 →
        B.low[k]? = (List.replicate 5 (0 : Nat))[3 + k]? ∧
        B.high[k]? = (List.replicate 5 (1 : Nat))[3 + k]? :=
  ⟨rfl, (C28_Fiber_bounds_inherited
    (fun s => RealVectorBounds.mk (List.replicate s.getDimension (0 : Nat))
      (List.replicate s.getDimension 1))
    0 5 3 (by decide) (by decide) (by decide) rfl rfl).1⟩

/-- C29 (counterexample): a call of `sample` on counters `(4294967295, 7)` leaves the
counter of samples at 0, not at 4294967296; and on a node without parent, `2 ^ 32`
calls since construction leave the counter of samples at 0, not at `2 ^ 32`. -/
theorem C29_counterexample_counter_of_samples_wraps :
    (QuotientSpace.mk .RN_RM 3 2 1 (some (RealVectorStateSpace 1)) false).sample
        (fun _ => true) (Draw.mk (.RealVector [1, 2, (3 : Nat)]) (.RealVector []) (.RealVector []))
        (.RealVector [0, 0, 0]) (SampleCounters.mk 4294967295 7)
      = .ok (true, .RealVector [1, 2, 3], SampleCounters.mk 0 8) ∧
    (QuotientSpace.mk .RN_RM 3 2 1 (some (RealVectorStateSpace 1)) false).sampleRepeatedly
        (fun _ => true) (.RealVector [0, 0, 0])
        (List.replicate (2 ^ 32)
          (Draw.mk (.RealVector [1, 2, (3 : Nat)]) (.RealVector []) (.RealVector [])))
        SampleCounters.fresh
      = .ok (SampleCounters.mk 0 0) := by
  refine ⟨rfl, ?_⟩
  rw [sampleRepeatedly_replicate _ _ _ rfl (2 ^ 32) _ _ (by decide) (by decide)]
  rfl

/-- C29 (amended): a call of `sample` returns on a node without parent, on a node with
`X1_dimension_ = 0`, and whenever `mergeStates` succeeds; whenever it returns, the
verdict is that of the feasibility check on the state produced, the counter of
samples has grown by 1 modulo `2 ^ 32` (by exactly 1 below 4294967295, where it wraps
around to 0), and the counter of feasible samples has grown by 1 modulo `2 ^ 32` if
the verdict is `true` and not at all otherwise.  After `k` calls since construction or
`clear` the counter of samples is `k` modulo `2 ^ 32`, which is `k` for `k < 2 ^ 32`. -/
theorem C29_sample_counters_modulo (α π : Type) (self : QuotientSpace)
    (isValid : State α → Bool) (draw : Draw α) (q_random : State α)
    (counters : SampleCounters) :
    (self.hasParent = false →
      self.sample isValid draw q_random counters =
        .ok (isValid draw.Q1_sample, draw.Q1_sample,
          { totalNumberOfSamples_ := (counters.totalNumberOfSamples_ + 1) % 2 ^ 32,
            totalNumberOfFeasibleSamples_ :=
              if isValid draw.Q1_sample
              then (counters.totalNumberOfFeasibleSamples_ + 1) % 2 ^ 32
              else counters.totalNumberOfFeasibleSamples_ })) ∧
    (self.hasParent = true → self.X1_dimension_ = 0 →
      self.sample isValid draw q_random counters =
        .ok (isValid draw.Q0_sample, draw.Q0_sample,
          { totalNumberOfSamples_ := (counters.totalNumberOfSamples_ + 1) % 2 ^ 32,
            totalNumberOfFeasibleSamples_ :=
              if isValid draw.Q0_sample
              then (counters.totalNumberOfFeasibleSamples_ + 1) % 2 ^ 32
              else counters.totalNumberOfFeasibleSamples_ })) ∧
    (self.hasParent = true → 0 < self.X1_dimension_ → ∀ q,
      self.mergeStates draw.Q0_sample draw.X1_sample q_random = .ok q →
      self.sample isValid draw q_random counters =
        .ok (isValid q, q,
          { totalNumberOfSamples_ := (counters.totalNumberOfSamples_ + 1) % 2 ^ 32,
            totalNumberOfFeasibleSamples_ :=
              if isValid q then (counters.totalNumberOfFeasibleSamples_ + 1) % 2 ^ 32
              else counters.totalNumberOfFeasibleSamples_ })) ∧
    (∀ valid q c, self.sample isValid draw q_random counters = .ok (valid, q, c) →
      valid = isValid q ∧
      c.totalNumberOfSamples_ = (counters.totalNumberOfSamples_ + 1) % 2 ^ 32 ∧
      c.totalNumberOfFeasibleSamples_ =
        (if valid then (counters.totalNumberOfFeasibleSamples_ + 1) % 2 ^ 32
          else counters.totalNumberOfFeasibleSamples_) ∧
      (counters.totalNumberOfSamples_ < 4294967295 →
        c.totalNumberOfSamples_ = counters.totalNumberOfSamples_ + 1) ∧
      (counters.totalNumberOfSamples_ = 4294967295 → c.totalNumberOfSamples_ = 0) ∧
      (counters.totalNumberOfFeasibleSamples_ < 4294967295 →
        c.totalNumberOfFeasibleSamples_ =
          counters.totalNumberOfFeasibleSamples_ + if valid then 1 else 0) ∧
      (counters.totalNumberOfFeasibleSamples_ = 4294967295 → valid = true →
        c.totalNumberOfFeasibleSamples_ = 0)) ∧
    (∀ (draws : List (Draw α)) (pdef_ : Option π) (old start c : SampleCounters),
      start = SampleCounters.fresh ∨ QuotientSpace.clear pdef_ old = .ok start →
      self.sampleRepeatedly isValid q_random draws start = .ok c →
      c.totalNumberOfSamples_ = draws.length % 2 ^ 32 ∧
      (draws.length < 2 ^ 32 → c.totalNumberOfSamples_ = draws.length)) ∧
    (self.hasParent = false ∨ self.X1_dimension_ = 0 →
      ∀ (draws : List (Draw α)) (start : SampleCounters),
        ∃ c, self.sampleRepeatedly isValid q_random draws start = .ok c) := by
  have key : ∀ q, (if !self.hasParent then (.ok draw.Q1_sample : Except Fault (State α))
        else if self.X1_dimension_ > 0 then
          self.mergeStates draw.Q0_sample draw.X1_sample q_random
        else .ok draw.Q0_sample) = .ok q →
      self.sample isValid draw q_random counters =
        .ok (isValid q, q,
          { totalNumberOfSamples_ := (counters.totalNumberOfSamples_ + 1) % 2 ^ 32,
            totalNumberOfFeasibleSamples_ :=
              if isValid q then (counters.totalNumberOfFeasibleSamples_ + 1) % 2 ^ 32
              else counters.totalNumberOfFeasibleSamples_ }) := by
    intro q hq
    rw [sample_ok_of self isValid draw q_random q counters hq]
    rfl
  refine ⟨fun hp => key _ (by simp [hp]), fun hp hx => key _ (by simp [hp, hx]),
    fun hp hx q hq => key q (by simp [hp, hx, hq]), ?_, ?_, ?_⟩
  · intro valid q c h
    obtain ⟨h1, h2, h3⟩ := sample_ok_elim self isValid draw q_random counters valid q c h
    unfold uadd at h2 h3
    refine ⟨h1, h2, h3, ?_, ?_, ?_, ?_⟩
    · intro hlt; rw [h2]; omega
    · intro heq; rw [h2, heq]; rfl
    · intro hlt
      rw [h3]
      cases valid
      · rfl
      · simp only [if_true]; omega
    · intro heq hv
      rw [h3, hv, heq]
      rfl
  · intro draws pdef_ old start c hstart h
    have h0 : start = SampleCounters.mk 0 0 := by
      rcases hstart with h | h
      · exact h
      · exact clear_ok_elim pdef_ old start h
    subst h0
    have hmod := sampleRepeatedly_total self isValid draws q_random _ c
      (show (0 : Nat) < 2 ^ 32 by decide) h
    rw [Nat.zero_add] at hmod
    exact ⟨hmod, fun hlt => by rw [hmod]; exact Nat.mod_eq_of_lt hlt⟩
  · intro hself draws start
    exact sampleRepeatedly_returns self isValid hself draws q_random _

/-- Witness of C29: a call on the quotient space of `R^3` over `R^2`, which merges the
parent's sample `[1, 2]` and the sample `[3]` of `X1`, with a feasibility check that
accepts every state, on counters `(4, 2)`. -/
theorem C29_sample_counters_modulo_witness :
    (QuotientSpace.mk .RN_RM 3 2 1 (some (RealVectorStateSpace 1)) true).sample
        (fun _ => true)
        (Draw.mk (.RealVector [0, 0, 0]) (.RealVector [3]) (.RealVector [1, (2 : Nat)]))
        (.RealVector [0, 0, 0]) (SampleCounters.mk 4 2)
      = .ok (true, .RealVector [1, 2, 3], SampleCounters.mk 5 3) :=
  (C29_sample_counters_modulo Nat Unit
    (QuotientSpace.mk .RN_RM 3 2 1 (some (RealVectorStateSpace 1)) true)
    (fun _ => true)
    (Draw.mk (.RealVector [0, 0, 0]) (.RealVector [3]) (.RealVector [1, (2 : Nat)]))
    (.RealVector [0, 0, 0]) (SampleCounters.mk 4 2)).2.2.1
    rfl (by decide) (.RealVector [1, 2, 3]) rfl

/-- C30 (counterexample): at the counter 4 `getImportance` returns the `double`
`7205759403792794 / 2 ^ 55 = 0.200000000000000011...`, which is greater than `1 / 5`;
and the call of `sample` on the counter 4294967295 does not decrease it: the counter
wraps around to 0 and `getImportance` goes from `1 / 2 ^ 32` to 1. -/
theorem C30_counterexample_one_fifth_is_rounded :
    QuotientSpace.getImportance (SampleCounters.mk 4 2) = 7205759403792794 / 2 ^ 55 ∧
    QuotientSpace.getImportance (SampleCounters.mk 4 2) ≠ 1 / (1 + ((4 : Nat) : ℚ)) ∧
    1 / 5 < QuotientSpace.getImportance (SampleCounters.mk 4 2) ∧
    (QuotientSpace.mk .RN_RM 3 2 1 (some (RealVectorStateSpace 1)) false).sample
        (fun _ => true) (Draw.mk (.RealVector [1, 2, (3 : Nat)]) (.RealVector []) (.RealVector []))
        (.RealVector [0, 0, 0]) (SampleCounters.mk 4294967295 7)
      = .ok (true, .RealVector [1, 2, 3], SampleCounters.mk 0 8) ∧
    QuotientSpace.getImportance (SampleCounters.mk 4294967295 7) = 1 / 2 ^ 32 ∧
    QuotientSpace.getImportance (SampleCounters.mk 0 8) = 1 ∧
    QuotientSpace.getImportance (SampleCounters.mk 4294967295 7)
      < QuotientSpace.getImportance (SampleCounters.mk 0 8) := by
  have h5 : QuotientSpace.getImportance (SampleCounters.mk 4 2) = 7205759403792794 / 2 ^ 55 :=
    doubleReciprocal_five
  have h1 : QuotientSpace.getImportance (SampleCounters.mk 0 8) = 1 := doubleReciprocal_one
  have h32 : QuotientSpace.getImportance (SampleCounters.mk 4294967295 7) = 1 / 2 ^ 32 := by
    have h := (doubleReciprocal_exact_iff (4294967295 + 1) (by decide)).2 ⟨32, by decide⟩
    rw [getImportance_eq]
    dsimp only
    rw [h]
    norm_num
  refine ⟨h5, ?_, ?_, rfl, h32, h1, ?_⟩
  · rw [h5]; norm_num
  · rw [h5]; norm_num
  · rw [h32, h1]; norm_num

/-- C30 (amended): `getImportance` returns the `double` nearest to `1 / (1 + N)` for the
counter of samples `N`: it differs from `1 / (1 + N)` by at most half a unit in the
last place, `1 / 2 ^ (k + 54)` with `2 ^ k <= N + 1 < 2 ^ (k + 1)`, and equals it
exactly when `N + 1` is a power of two.  It lies in `(0, 1]` and is 1 on a fresh and on
a cleared node.  A call of `sample` that returns makes it strictly smaller when the
counter is below 4294967295; at 4294967295 the counter wraps around and
`getImportance` goes from `1 / 2 ^ 32` up to 1. -/
theorem C30_getImportance_is_the_rounded_quotient (α π : Type) (counters : SampleCounters) :
    (QuotientSpace.getImportance counters
        ≤ 1 / (1 + (counters.totalNumberOfSamples_ : ℚ))
          + 1 / 2 ^ (Nat.log 2 (counters.totalNumberOfSamples_ + 1) + 54) ∧
      1 / (1 + (counters.totalNumberOfSamples_ : ℚ))
        ≤ QuotientSpace.getImportance counters
          + 1 / 2 ^ (Nat.log 2 (counters.totalNumberOfSamples_ + 1) + 54)) ∧
    (QuotientSpace.getImportance counters = 1 / (1 + (counters.totalNumberOfSamples_ : ℚ)) ↔
      ∃ j, counters.totalNumberOfSamples_ + 1 = 2 ^ j) ∧
    0 < QuotientSpace.getImportance counters ∧ QuotientSpace.getImportance counters ≤ 1 ∧
    QuotientSpace.getImportance SampleCounters.fresh = 1 ∧
    (∀ (pdef_ : Option π) (cleared : SampleCounters),
      QuotientSpace.clear pdef_ counters = .ok cleared →
      QuotientSpace.getImportance cleared = 1) ∧
    (∀ (self : QuotientSpace) (isValid : State α → Bool) (draw : Draw α) (q_random q : State α)
      (valid : Bool) (c : SampleCounters),
      self.sample isValid draw q_random counters = .ok (valid, q, c) →
      (counters.totalNumberOfSamples_ < 4294967295 →
        QuotientSpace.getImportance c < QuotientSpace.getImportance counters) ∧
      (counters.totalNumberOfSamples_ = 4294967295 →
        QuotientSpace.getImportance counters = 1 / 2 ^ 32 ∧
        QuotientSpace.getImportance c = 1)) := by
  have hcast : (1 : ℚ) + (counters.totalNumberOfSamples_ : ℚ)
      = ((counters.totalNumberOfSamples_ + 1 : Nat) : ℚ) := by
    push_cast; ring
  have hpow : (2 : ℚ) ^ (Nat.log 2 (counters.totalNumberOfSamples_ + 1) + 54)
      = 2 * 2 ^ (Nat.log 2 (counters.totalNumberOfSamples_ + 1) + 53) := by
    rw [show Nat.log 2 (counters.totalNumberOfSamples_ + 1) + 54
      = (Nat.log 2 (counters.totalNumberOfSamples_ + 1) + 53) + 1 from rfl, pow_succ]
    ring
  rw [hcast, hpow, getImportance_eq]
  refine ⟨doubleReciprocal_error _ (Nat.succ_pos _),
    doubleReciprocal_exact_iff _ (Nat.succ_pos _),
    (doubleReciprocal_range _ (Nat.succ_pos _)).1,
    (doubleReciprocal_range _ (Nat.succ_pos _)).2, doubleReciprocal_one, ?_, ?_⟩
  · intro pdef_ cleared h
    rw [clear_ok_elim pdef_ counters cleared h]
    exact doubleReciprocal_one
  · intro self isValid draw q_random q valid c h
    obtain ⟨_, hs, _⟩ := sample_ok_elim self isValid draw q_random counters valid q c h
    unfold uadd at hs
    rw [getImportance_eq, hs]
    constructor
    · intro hlt
      rw [Nat.mod_eq_of_lt (by omega)]
      exact doubleReciprocal_lt _ (Nat.succ_pos _) (by omega)
    · intro heq
      rw [heq]
      constructor
      · have h := (doubleReciprocal_exact_iff (4294967295 + 1) (by decide)).2
          ⟨32, by decide⟩
        rw [h]
        norm_num
      · exact doubleReciprocal_one

/-- Witness of C30: the call of `sample` on the counters `(4, 2)` of the quotient space
of `R^3` over `R^2` makes `getImportance` strictly smaller. -/
theorem C30_getImportance_is_the_rounded_quotient_witness :
    QuotientSpace.getImportance (SampleCounters.mk 5 3)
      < QuotientSpace.getImportance (SampleCounters.mk 4 2) :=
  ((C30_getImportance_is_the_rounded_quotient Nat Unit (SampleCounters.mk 4 2)).2.2.2.2.2.2
    (QuotientSpace.mk .RN_RM 3 2 1 (some (RealVectorStateSpace 1)) true) (fun _ => true)
    (Draw.mk (.RealVector [0, 0, 0]) (.RealVector [3]) (.RealVector [1, (2 : Nat)]))
    (.RealVector [0, 0, 0]) (.RealVector [1, 2, 3]) true (SampleCounters.mk 5 3) rfl).1
    (by decide)

/-! ## Lemmas on the factory, the classifiers, the node operators and the counters -/

/-- Every component that `MakeBundleSpaceComponents` returns is the result of a call of
`MakeBundleSpaceComponent`. -/
theorem MakeBundleSpaceComponents_mem {ν : Type} [BEq ν] (cfs : ComputeFiberSpace)
    (Bundle : SpaceInformation ν) (Base? : Option (SpaceInformation ν))
    (cs : List BundleSpaceComponent)
    (h : MakeBundleSpaceComponents cfs Bundle Base? = .ok cs) :
    ∀ c ∈ cs, ∃ B Q eqv, MakeBundleSpaceComponent cfs B Q eqv = .ok c := by
  intro c hc
  obtain ⟨i, hi, hci⟩ := List.getElem_of_mem hc
  have hget : cs[i]? = some c := by rw [List.getElem?_eq_getElem hi, hci]
  cases Base? with
  | none =>
    simp only [MakeBundleSpaceComponents] at h
    obtain ⟨k, _, h⟩ := bind_ok_elim h
    by_cases hgt : k > 1
    · rw [if_pos hgt] at h
      obtain ⟨subs, _, hloop⟩ := bind_ok_elim h
      obtain ⟨_, hg⟩ := forLoop_collect_zero
        (fun m => vectorAt subs m >>= fun BundleM => MakeBundleSpaceComponent cfs BundleM none false)
        _ (fun m acc => by simp only [bind, Except.bind]; cases vectorAt subs m <;> rfl)
        _ cs hloop
      obtain ⟨B, _, hM⟩ := bind_ok_elim (hg i c hget)
      exact ⟨B, none, false, hM⟩
    · rw [if_neg hgt] at h
      obtain ⟨c', hM, h⟩ := bind_ok_elim h
      cases h
      rw [List.mem_singleton.mp hc]
      exact ⟨_, none, false, hM⟩
  | some Base =>
    simp only [MakeBundleSpaceComponents] at h
    obtain ⟨k, _, h⟩ := bind_ok_elim h
    obtain ⟨kb, _, h⟩ := bind_ok_elim h
    by_cases hne : kb ≠ k
    · rw [if_pos hne] at h
      cases h
    · rw [if_neg hne] at h
      by_cases hgt : k > 1
      · rw [if_pos hgt] at h
        obtain ⟨subs, _, h⟩ := bind_ok_elim h
        obtain ⟨bsubs, _, hloop⟩ := bind_ok_elim h
        obtain ⟨_, hg⟩ := forLoop_collect_zero
          (fun m => vectorAt bsubs m >>= fun BaseM => vectorAt subs m >>= fun BundleM =>
            MakeBundleSpaceComponent cfs BundleM (some BaseM)
              (if Base.getStateValidityChecker == Bundle.getStateValidityChecker then true
                else false))
          _ (fun m acc => by
            simp only [bind, Except.bind]
            cases vectorAt bsubs m <;> cases vectorAt subs m <;> rfl)
          _ cs hloop
        obtain ⟨Q, _, h2⟩ := bind_ok_elim (hg i c hget)
        obtain ⟨B, _, hM⟩ := bind_ok_elim h2
        exact ⟨B, some Q, _, hM⟩
      · rw [if_neg hgt] at h
        obtain ⟨c', hM, h⟩ := bind_ok_elim h
        cases h
        rw [List.mem_singleton.mp hc]
        exact ⟨_, _, _, hM⟩

/-- The bundle-space classifier agrees with the legacy classifier wherever the latter
returns a type. -/
theorem identify_conservative (Q1 Q0 : StateSpace) (t : QuotientSpaceType)
    (h : identifyQuotientSpaceType Q1 Q0 = .ok t) :
    ∃ t', t.corresponding = some t' ∧
      identifyBundleSpaceComponentType Q1 (some Q0) = .ok t' := by
  unfold identifyQuotientSpaceType at h
  unfold identifyBundleSpaceComponentType
  dsimp only
  by_cases hc : (!Q1.isCompound) = true
  · rw [if_pos hc] at h ⊢
    by_cases h1 : Q1.getType = .STATE_SPACE_REAL_VECTOR
    · rw [if_pos h1] at h ⊢
      by_cases h2 : Q0.getType = .STATE_SPACE_REAL_VECTOR
      · rw [if_pos h2] at h ⊢
        try dsimp only at h
        try dsimp only
        by_cases h3 : Q1.getDimension > Q0.getDimension ∧ Q0.getDimension > 0
        · rw [if_pos h3] at h ⊢
          cases h
          exact ⟨_, rfl, rfl⟩
        · rw [if_neg h3] at h ⊢
          by_cases h4 : Q1.getDimension = Q0.getDimension ∧ Q0.getDimension > 0
          · rw [if_pos h4] at h ⊢
            cases h
            exact ⟨_, rfl, rfl⟩
          · rw [if_neg h4] at h
            cases h
      · rw [if_neg h2] at h
        cases h
    · rw [if_neg h1] at h
      cases h
  · rw [if_neg hc] at h ⊢
    by_cases h1 : Q1.getType = .STATE_SPACE_SE2
    · rw [if_pos h1] at h ⊢
      by_cases h2 : Q0.getType = .STATE_SPACE_REAL_VECTOR
      · rw [if_pos h2] at h ⊢
        by_cases h3 : Q0.getDimension = 2
        · rw [if_pos h3] at h ⊢
          cases h
          exact ⟨_, rfl, rfl⟩
        · rw [if_neg h3] at h
          cases h
      · rw [if_neg h2] at h ⊢
        by_cases h3 : Q0.getType = .STATE_SPACE_SE2
        · rw [if_pos h3] at h ⊢
          cases h
          exact ⟨_, rfl, rfl⟩
        · rw [if_neg h3] at h
          cases h
    · rw [if_neg h1] at h ⊢
      by_cases h2 : Q1.getType = .STATE_SPACE_SE3
      · rw [if_pos h2] at h ⊢
        by_cases h3 : Q0.getType = .STATE_SPACE_REAL_VECTOR
        · rw [if_pos h3] at h ⊢
          by_cases h4 : Q0.getDimension = 3
          · rw [if_pos h4] at h ⊢
            cases h
            exact ⟨_, rfl, rfl⟩
          · rw [if_neg h4] at h
            cases h
        · rw [if_neg h3] at h
          split at h <;> cases h
      · rw [if_neg h2] at h ⊢
        obtain ⟨subs, hsubs, h⟩ := bind_ok_elim h
        rw [hsubs, ok_bind]
        try dsimp only at h
        try dsimp only
        by_cases h3 : toUnsigned subs.length = 2
        · rw [if_pos h3] at h ⊢
          obtain ⟨A0, hA0, h⟩ := bind_ok_elim h
          obtain ⟨A1, hA1, h⟩ := bind_ok_elim h
          rw [hA0, ok_bind, hA1, ok_bind]
          try dsimp only at h
          try dsimp only
          by_cases h4 : A0.getType = .STATE_SPACE_SE3 ∧ A1.getType = .STATE_SPACE_REAL_VECTOR
          · rw [if_pos h4] at h ⊢
            try dsimp only at h
            try dsimp only
            by_cases h5 : Q0.getType = .STATE_SPACE_SE3
            · rw [if_pos h5] at h ⊢
              cases h
              exact ⟨_, rfl, rfl⟩
            · rw [if_neg h5] at h ⊢
              by_cases h6 : Q0.getType = .STATE_SPACE_REAL_VECTOR
              · rw [if_pos h6] at h ⊢
                try dsimp only at h
                try dsimp only
                by_cases h7 : Q0.getDimension = 3
                · rw [if_pos h7] at h ⊢
                  cases h
                  exact ⟨_, rfl, rfl⟩
                · rw [if_neg h7] at h
                  cases h
              · rw [if_neg h6] at h ⊢
                obtain ⟨bsubs, hbsubs, h⟩ := bind_ok_elim h
                rw [hbsubs, ok_bind]
                try dsimp only at h
                try dsimp only
                by_cases h7 : toUnsigned bsubs.length = 2
                · rw [if_pos h7, if_pos h4] at h ⊢
                  obtain ⟨C1, hC1, h⟩ := bind_ok_elim h
                  rw [hC1, ok_bind]
                  try dsimp only at h
                  try dsimp only
                  by_cases h8 : C1.getDimension < A1.getDimension ∧ C1.getDimension > 0
                  · rw [if_pos h8] at h ⊢
                    cases h
                    exact ⟨_, rfl, rfl⟩
                  · rw [if_neg h8] at h ⊢
                    by_cases h9 : C1.getDimension = A1.getDimension
                    · rw [if_pos h9] at h ⊢
                      cases h
                      exact ⟨_, rfl, rfl⟩
                    · rw [if_neg h9] at h
                      cases h
                · rw [if_neg h7] at h
                  cases h
          · rw [if_neg h4] at h ⊢
            by_cases h4' : A0.getType = .STATE_SPACE_SE2 ∧
                A1.getType = .STATE_SPACE_REAL_VECTOR
            · rw [if_pos h4'] at h ⊢
              try dsimp only at h
              try dsimp only
              by_cases h5 : Q0.getType = .STATE_SPACE_SE2
              · rw [if_pos h5] at h ⊢
                cases h
                exact ⟨_, rfl, rfl⟩
              · rw [if_neg h5] at h ⊢
                by_cases h6 : Q0.getType = .STATE_SPACE_REAL_VECTOR
                · rw [if_pos h6] at h ⊢
                  try dsimp only at h
                  try dsimp only
                  by_cases h7 : Q0.getDimension = 2
                  · rw [if_pos h7] at h ⊢
                    cases h
                    exact ⟨_, rfl, rfl⟩
                  · rw [if_neg h7] at h
                    cases h
                · rw [if_neg h6] at h ⊢
                  obtain ⟨bsubs, hbsubs, h⟩ := bind_ok_elim h
                  rw [hbsubs, ok_bind]
                  try dsimp only at h
                  try dsimp only
                  by_cases h7 : toUnsigned bsubs.length = 2
                  · rw [if_pos h7, if_pos h4'] at h ⊢
                    obtain ⟨C1, hC1, h⟩ := bind_ok_elim h
                    rw [hC1, ok_bind]
                    try dsimp only at h
                    try dsimp only
                    by_cases h8 : C1.getDimension < A1.getDimension ∧ C1.getDimension > 0
                    · rw [if_pos h8] at h ⊢
                      cases h
                      exact ⟨_, rfl, rfl⟩
                    · rw [if_neg h8] at h ⊢
                      by_cases h9 : C1.getDimension = A1.getDimension
                      · rw [if_pos h9] at h ⊢
                        cases h
                        exact ⟨_, rfl, rfl⟩
                      · rw [if_neg h9] at h
                        cases h
                  · rw [if_neg h7] at h
                    cases h
            · rw [if_neg h4'] at h ⊢
              by_cases h4'' : A0.getType = .STATE_SPACE_SO2 ∧
                  A1.getType = .STATE_SPACE_REAL_VECTOR
              · rw [if_pos h4''] at h ⊢
                by_cases h5 : Q0.getType = .STATE_SPACE_SO2
                · rw [if_pos h5] at h ⊢
                  cases h
                  exact ⟨_, rfl, rfl⟩
                · rw [if_neg h5] at h ⊢
                  by_cases h6 : Q0.isCompound = true
                  · rw [if_pos h6] at h ⊢
                    obtain ⟨bsubs, hbsubs, h⟩ := bind_ok_elim h
                    rw [hbsubs, ok_bind]
                    try dsimp only at h
                    try dsimp only
                    by_cases h7 : toUnsigned bsubs.length = 2
                    · rw [if_pos h7, if_pos h4''] at h ⊢
                      obtain ⟨C1, hC1, h⟩ := bind_ok_elim h
                      rw [hC1, ok_bind]
                      try dsimp only at h
                      try dsimp only
                      by_cases h8 : C1.getDimension < A1.getDimension ∧ C1.getDimension > 0
                      · rw [if_pos h8] at h ⊢
                        cases h
                        exact ⟨_, rfl, rfl⟩
                      · rw [if_neg h8] at h ⊢
                        by_cases h9 : C1.getDimension = A1.getDimension
                        · rw [if_pos h9] at h ⊢
                          cases h
                          exact ⟨_, rfl, rfl⟩
                        · rw [if_neg h9] at h
                          cases h
                    · rw [if_neg h7] at h
                      cases h
                  · rw [if_neg h6] at h
                    cases h
              · rw [if_neg h4''] at h
                cases h
        · rw [if_neg h3] at h
          cases h

/-! ## The dispatch of the node operators over the components -/

/-- A loop that replaces, for `m` in `[lo, lo + cnt)`, the `m`-th sub-state of the
compound buffer it threads by `rs[m]`, leaves the other sub-states as they were. -/
theorem forLoop_substates {α : Type} (body : Nat → State α → Except Fault (State α))
    (rs : List (State α)) :
    ∀ (cnt lo : Nat) (os : List (State α)), lo + cnt ≤ os.length → lo + cnt ≤ rs.length →
      (∀ (m : Nat) (os' : List (State α)), lo ≤ m → m < lo + cnt →
        os'.length = os.length → os'[m]? = os[m]? →
        ∀ y, rs[m]? = some y → body m (.Compound os') = .ok (.Compound (os'.set m y))) →
      ∃ Y, forLoop lo (lo + cnt) body (.Compound os) = .ok (.Compound Y) ∧
        Y.length = os.length ∧
        ∀ i, Y[i]? = if lo ≤ i ∧ i < lo + cnt then rs[i]? else os[i]? := by
  intro cnt
  induction cnt with
  | zero =>
    intro lo os _ _ _
    refine ⟨os, forLoop_nil _ _ (by omega) _ _, rfl, fun i => ?_⟩
    have : ¬ (lo ≤ i ∧ i < lo + 0) := by omega
    rw [if_neg this]
  | succ cnt ih =>
    intro lo os ho hr hbody
    have hlo : lo < rs.length := by omega
    have hy : rs[lo]? = some rs[lo] := List.getElem?_eq_getElem hlo
    have h1 := hbody lo os (Nat.le_refl _) (by omega) rfl rfl rs[lo] hy
    have hstep := forLoop_step lo cnt body (.Compound os) _ h1
    obtain ⟨Y, hY, hlen, hget⟩ := ih (lo + 1) (os.set lo rs[lo])
      (by rw [List.length_set]; omega) (by omega)
      (fun m os' hm1 hm2 hl hg y hry =>
        hbody m os' (by omega) (by omega) (by rw [hl, List.length_set])
          (by rw [hg, List.getElem?_set_ne (by omega)]) y hry)
    refine ⟨Y, by rw [hstep]; exact hY, by rw [hlen, List.length_set], fun i => ?_⟩
    rw [hget i]
    by_cases h2 : lo + 1 ≤ i ∧ i < lo + 1 + cnt
    · have h3 : lo ≤ i ∧ i < lo + (cnt + 1) := by omega
      rw [if_pos h2, if_pos h3]
    · rw [if_neg h2]
      by_cases h4 : i = lo
      · have h3 : lo ≤ i ∧ i < lo + (cnt + 1) := by omega
        subst h4
        rw [if_pos h3, List.getElem?_set_self (by omega), hy]
      · have h3 : ¬ (lo ≤ i ∧ i < lo + (cnt + 1)) := by omega
        rw [if_neg h3, List.getElem?_set_ne (by omega)]

theorem component_getElem {α : Type} (cs : List (State α)) (i : Nat) (x : State α)
    (h : cs[i]? = some x) : component cs i = .ok x := by
  unfold component
  rw [List.get?_eq_getElem?, h]

theorem vectorAt_of_getElem {β : Type} (v : List β) (i : Nat) (x : β)
    (h : v[i]? = some x) : vectorAt v i = .ok x := by
  unfold vectorAt
  rw [List.get?_eq_getElem?, h]

theorem getElem?_some_of_lt {β : Type} (l : List β) (i : Nat) (h : i < l.length) :
    ∃ x, l[i]? = some x :=
  ⟨l[i], List.getElem?_eq_getElem h⟩

/-- A list that has the length of `rs` and agrees with `rs` at every index below that
length is `rs`. -/
theorem eq_of_getElem?_lt {β : Type} (Y rs : List β) (hl : Y.length = rs.length)
    (h : ∀ i, i < rs.length → Y[i]? = rs[i]?) : Y = rs := by
  apply List.ext_getElem?
  intro i
  by_cases hi : i < rs.length
  · exact h i hi
  · rw [List.getElem?_eq_none (by omega), List.getElem?_eq_none (by omega)]

namespace BundleSpace
variable {ν α : Type}

/-- The node operator `mergeStates` on a node with `M > 1` components: sub-state `m`
of the output is the result `ys[m]` of component `m`, for `m < M`, the rest of the
output buffer is as before. -/
theorem mergeStates_many (ops : ComponentOperators α) (self : BundleSpace ν)
    (bs fs os ys : List (State α)) (hM : 1 < self.components_.length)
    (h32 : self.components_.length < 2 ^ 32)
    (hb : self.components_.length ≤ bs.length) (hf : self.components_.length ≤ fs.length)
    (ho : self.components_.length ≤ os.length) (hy : self.components_.length ≤ ys.length)
    (hop : ∀ (m : Nat) (c : BundleSpaceComponent) (b f o y : State α),
      self.components_[m]? = some c → bs[m]? = some b →
      fs[m]? = some f → os[m]? = some o → ys[m]? = some y →
      ops.mergeStates c b f o = .ok y) :
    ∃ Y, self.mergeStates ops (.Compound bs) (.Compound fs) (.Compound os)
        = .ok (.Compound Y) ∧
      Y.length = os.length ∧
      ∀ i, Y[i]? = if i < self.components_.length then ys[i]? else os[i]? := by
  have hM' : toUnsigned self.components_.length = self.components_.length :=
    Nat.mod_eq_of_lt h32
  obtain ⟨Y, hY, hlen, hget⟩ := forLoop_substates
    (fun m xBundle => do
      let xmBase ← component (← (State.Compound bs).asCompound) m
      let xmFiber ← component (← (State.Compound fs).asCompound) m
      let cBundle ← xBundle.asCompound
      let xmBundle ← component cBundle m
      let xmBundle ← ops.mergeStates (← vectorAt self.components_ m) xmBase xmFiber xmBundle
      .ok (.Compound (cBundle.set m xmBundle))) ys self.components_.length 0 os
    (by omega) (by omega)
    (by
      intro m os' _ hm hl hg y hym
      have hm' : m < self.components_.length := by omega
      obtain ⟨b, hbm⟩ := getElem?_some_of_lt bs m (by omega)
      obtain ⟨f, hfm⟩ := getElem?_some_of_lt fs m (by omega)
      obtain ⟨o, hom⟩ := getElem?_some_of_lt os m (by omega)
      obtain ⟨c, hcm⟩ := getElem?_some_of_lt self.components_ m hm'
      simp only [asCompound_Compound, ok_bind, component_getElem bs m b hbm,
        component_getElem fs m f hfm, component_getElem os' m o (by rw [hg, hom]),
        vectorAt_of_getElem _ m c hcm, hop m c b f o y hcm hbm hfm hom hym])
  rw [Nat.zero_add] at hY hget
  refine ⟨Y, ?_, hlen, fun i => ?_⟩
  · unfold mergeStates
    simp only [hM']
    rw [if_pos hM]
    exact hY
  · rw [hget i]
    simp only [Nat.zero_le, true_and]

theorem projectFiber_many (ops : ComponentOperators α) (self : BundleSpace ν)
    (xs os ys : List (State α)) (hM : 1 < self.components_.length)
    (h32 : self.components_.length < 2 ^ 32)
    (hx : self.components_.length ≤ xs.length)
    (ho : self.components_.length ≤ os.length) (hy : self.components_.length ≤ ys.length)
    (hop : ∀ (m : Nat) (c : BundleSpaceComponent) (x o y : State α),
      self.components_[m]? = some c → xs[m]? = some x →
      os[m]? = some o → ys[m]? = some y → ops.projectFiber c x o = .ok y) :
    ∃ Y, self.projectFiber ops (.Compound xs) (.Compound os) = .ok (.Compound Y) ∧
      Y.length = os.length ∧
      ∀ i, Y[i]? = if i < self.components_.length then ys[i]? else os[i]? := by
  have hM' : toUnsigned self.components_.length = self.components_.length :=
    Nat.mod_eq_of_lt h32
  obtain ⟨Y, hY, hlen, hget⟩ := forLoop_substates
    (fun m xFiber => do
      let xmBundle ← component (← (State.Compound xs).asCompound) m
      let cFiber ← xFiber.asCompound
      let xmFiber ← component cFiber m
      let xmFiber ← ops.projectFiber (← vectorAt self.components_ m) xmBundle xmFiber
      .ok (.Compound (cFiber.set m xmFiber))) ys self.components_.length 0 os
    (by omega) (by omega)
    (by
      intro m os' _ hm hl hg y hym
      have hm' : m < self.components_.length := by omega
      obtain ⟨x, hxm⟩ := getElem?_some_of_lt xs m (by omega)
      obtain ⟨o, hom⟩ := getElem?_some_of_lt os m (by omega)
      obtain ⟨c, hcm⟩ := getElem?_some_of_lt self.components_ m hm'
      simp only [asCompound_Compound, ok_bind, component_getElem xs m x hxm,
        component_getElem os' m o (by rw [hg, hom]),
        vectorAt_of_getElem _ m c hcm, hop m c x o y hcm hxm hom hym])
  rw [Nat.zero_add] at hY hget
  refine ⟨Y, ?_, hlen, fun i => ?_⟩
  · unfold projectFiber
    simp only [hM']
    rw [if_pos hM]
    exact hY
  · rw [hget i]
    simp only [Nat.zero_le, true_and]

theorem projectBase_many (ops : ComponentOperators α) (self : BundleSpace ν)
    (xs os ys : List (State α)) (hM : 1 < self.components_.length)
    (h32 : self.components_.length < 2 ^ 32)
    (hx : self.components_.length ≤ xs.length)
    (ho : self.components_.length ≤ os.length) (hy : self.components_.length ≤ ys.length)
    (hop : ∀ (m : Nat) (c : BundleSpaceComponent) (x o y : State α),
      self.components_[m]? = some c → xs[m]? = some x →
      os[m]? = some o → ys[m]? = some y → ops.projectBase c x o = .ok y) :
    ∃ Y, self.projectBase ops (.Compound xs) (.Compound os) = .ok (.Compound Y) ∧
      Y.length = os.length ∧
      ∀ i, Y[i]? = if i < self.components_.length then ys[i]? else os[i]? := by
  have hM' : toUnsigned self.components_.length = self.components_.length :=
    Nat.mod_eq_of_lt h32
  obtain ⟨Y, hY, hlen, hget⟩ := forLoop_substates
    (fun m xBase => do
      let xmBundle ← component (← (State.Compound xs).asCompound) m
      let cBase ← xBase.asCompound
      let xmBase ← component cBase m
      let xmBase ← ops.projectBase (← vectorAt self.components_ m) xmBundle xmBase
      .ok (.Compound (cBase.set m xmBase))) ys self.components_.length 0 os
    (by omega) (by omega)
    (by
      intro m os' _ hm hl hg y hym
      have hm' : m < self.components_.length := by omega
      obtain ⟨x, hxm⟩ := getElem?_some_of_lt xs m (by omega)
      obtain ⟨o, hom⟩ := getElem?_some_of_lt os m (by omega)
      obtain ⟨c, hcm⟩ := getElem?_some_of_lt self.components_ m hm'
      simp only [asCompound_Compound, ok_bind, component_getElem xs m x hxm,
        component_getElem os' m o (by rw [hg, hom]),
        vectorAt_of_getElem _ m c hcm, hop m c x o y hcm hxm hom hym])
  rw [Nat.zero_add] at hY hget
  refine ⟨Y, ?_, hlen, fun i => ?_⟩
  · unfold projectBase
    simp only [hM']
    rw [if_pos hM]
    exact hY
  · rw [hget i]
    simp only [Nat.zero_le, true_and]

/-- On a node with exactly one component the three node operators are the
component's operators. -/
theorem operators_single (ops : ComponentOperators α) (self : BundleSpace ν)
    (c : BundleSpaceComponent) (hc : self.components_ = [c]) (b f x : State α) :
    self.mergeStates ops b f x = ops.mergeStates c b f x ∧
    self.projectFiber ops x f = ops.projectFiber c x f ∧
    self.projectBase ops x b = ops.projectBase c x b := by
  have h1 : ¬ (toUnsigned [c].length > 1) := by
    have : toUnsigned 1 = 1 := by decide
    rw [List.length_singleton, this]
    omega
  refine ⟨?_, ?_, ?_⟩
  · unfold mergeStates
    simp only [hc]
    rw [if_neg h1]
    rfl
  · unfold projectFiber
    simp only [hc]
    rw [if_neg h1]
    rfl
  · unfold projectBase
    simp only [hc]
    rw [if_neg h1]
    rfl

end BundleSpace

/-- Results that exist index by index can be collected in a list. -/
theorem exists_list_of_forall {β : Type} (P : Nat → β → Prop) :
    ∀ M : Nat, (∀ m, m < M → ∃ y, P m y) →
      ∃ ys : List β, ys.length = M ∧ ∀ (m : Nat) (y : β), ys[m]? = some y → P m y := by
  intro M
  induction M with
  | zero => intro _; exact ⟨[], rfl, fun m y h => by simp at h⟩
  | succ M ih =>
    intro h
    obtain ⟨ys, hl, hys⟩ := ih (fun m hm => h m (by omega))
    obtain ⟨y, hy⟩ := h M (by omega)
    refine ⟨ys ++ [y], by rw [List.length_append, hl]; rfl, fun m z hz => ?_⟩
    by_cases hm : m < M
    · rw [List.getElem?_append_left (by omega)] at hz
      exact hys m z hz
    · by_cases hm' : m = M
      · subst hm'
        rw [List.getElem?_append_right (by omega), hl, Nat.sub_self] at hz
        cases hz
        exact hy
      · rw [List.getElem?_eq_none (by rw [List.length_append, hl]; simp; omega)] at hz
        cases hz

/-- The round-trip laws of a node with `M > 1` components follow from those of its
components. -/
theorem NodeRoundTrip_of_components {ν α : Type} (ops : ComponentOperators α)
    (self : BundleSpace ν) (bs fs xs os obs ofs : List (State α))
    (hM : 1 < self.components_.length) (h32 : self.components_.length < 2 ^ 32)
    (hb : bs.length = self.components_.length) (hf : fs.length = self.components_.length)
    (hx : xs.length = self.components_.length) (ho : os.length = self.components_.length)
    (hob : obs.length = self.components_.length)
    (hof : ofs.length = self.components_.length)
    (hrt : ∀ (m : Nat) (c : BundleSpaceComponent) (b f x o ob of : State α),
      self.components_[m]? = some c → bs[m]? = some b → fs[m]? = some f →
      xs[m]? = some x → os[m]? = some o → obs[m]? = some ob → ofs[m]? = some of →
      ComponentRoundTrip ops c b f x o ob of) :
    NodeRoundTrip ops self (.Compound bs) (.Compound fs) (.Compound xs) (.Compound os)
      (.Compound obs) (.Compound ofs) := by
  -- everything that exists at the index `m`
  have hall : ∀ m, m < self.components_.length →
      ∃ c b f x o ob of, self.components_[m]? = some c ∧ bs[m]? = some b ∧
        fs[m]? = some f ∧ xs[m]? = some x ∧ os[m]? = some o ∧ obs[m]? = some ob ∧
        ofs[m]? = some of := by
    intro m hm
    obtain ⟨c, hc⟩ := getElem?_some_of_lt self.components_ m hm
    obtain ⟨b, hb'⟩ := getElem?_some_of_lt bs m (by omega)
    obtain ⟨f, hf'⟩ := getElem?_some_of_lt fs m (by omega)
    obtain ⟨x, hx'⟩ := getElem?_some_of_lt xs m (by omega)
    obtain ⟨o, ho'⟩ := getElem?_some_of_lt os m (by omega)
    obtain ⟨ob, hob'⟩ := getElem?_some_of_lt obs m (by omega)
    obtain ⟨of, hof'⟩ := getElem?_some_of_lt ofs m (by omega)
    exact ⟨c, b, f, x, o, ob, of, hc, hb', hf', hx', ho', hob', hof'⟩
  constructor
  · -- merge, then project
    obtain ⟨ys, hyl, hys⟩ := exists_list_of_forall
      (fun m y => ∀ (c : BundleSpaceComponent) (b f o ob of : State α),
        self.components_[m]? = some c → bs[m]? = some b → fs[m]? = some f →
        os[m]? = some o → obs[m]? = some ob → ofs[m]? = some of →
        ops.mergeStates c b f o = .ok y ∧ ops.projectBase c y ob = .ok b ∧
        ops.projectFiber c y of = .ok f)
      self.components_.length (by
        intro m hm
        obtain ⟨c, b, f, x, o, ob, of, hc, hb', hf', hx', ho', hob', hof'⟩ := hall m hm
        obtain ⟨⟨y, h1, h2, h3⟩, _⟩ := hrt m c b f x o ob of hc hb' hf' hx' ho' hob' hof'
        refine ⟨y, fun c' b' f' o' ob' of' hc2 hb2 hf2 ho2 hob2 hof2 => ?_⟩
        rw [hc] at hc2; rw [hb'] at hb2; rw [hf'] at hf2; rw [ho'] at ho2
        rw [hob'] at hob2; rw [hof'] at hof2
        cases hc2; cases hb2; cases hf2; cases ho2; cases hob2; cases hof2
        exact ⟨h1, h2, h3⟩)
    have hlt : ∀ (m : Nat) (y : State α), ys[m]? = some y →
        m < self.components_.length := by
      intro m y h
      by_contra hn
      rw [List.getElem?_eq_none (by omega)] at h
      cases h
    obtain ⟨Y, hY, hYl, hYg⟩ := BundleSpace.mergeStates_many ops self bs fs os ys hM h32
      (by omega) (by omega) (by omega) (by omega)
      (fun m c b f o y hc hb' hf' ho' hy' => by
        obtain ⟨_, _, _, _, _, ob, of, _, _, _, _, _, hob', hof'⟩ := hall m (hlt m y hy')
        exact (hys m y hy' c b f o ob of hc hb' hf' ho' hob' hof').1)
    have hYeq : Y = ys := eq_of_getElem?_lt Y ys (by omega)
      (fun i hi => by rw [hYg i, if_pos (by omega)])
    subst hYeq
    obtain ⟨B, hB, hBl, hBg⟩ := BundleSpace.projectBase_many ops self Y obs bs hM h32
      (by omega) (by omega) (by omega)
      (fun m c y ob b hc hy' hob' hb' => by
        obtain ⟨_, _, f, _, o, _, of, _, _, hf', _, ho', _, hof'⟩ := hall m (hlt m y hy')
        exact (hys m y hy' c b f o ob of hc hb' hf' ho' hob' hof').2.1)
    have hBeq : B = bs := eq_of_getElem?_lt B bs (by omega)
      (fun i hi => by rw [hBg i, if_pos (by omega)])
    subst hBeq
    obtain ⟨F, hF, hFl, hFg⟩ := BundleSpace.projectFiber_many ops self Y ofs fs hM h32
      (by omega) (by omega) (by omega)
      (fun m c y of f hc hy' hof' hf' => by
        obtain ⟨_, b, _, _, o, ob, _, _, hb', _, _, ho', hob', _⟩ := hall m (hlt m y hy')
        exact (hys m y hy' c b f o ob of hc hb' hf' ho' hob' hof').2.2)
    have hFeq : F = fs := eq_of_getElem?_lt F fs (by omega)
      (fun i hi => by rw [hFg i, if_pos (by omega)])
    subst hFeq
    exact ⟨_, hY, hB, hF⟩
  · -- project, then merge
    obtain ⟨ps, hpl, hps⟩ := exists_list_of_forall
      (fun m (p : State α × State α) => ∀ (c : BundleSpaceComponent) (x o ob of : State α),
        self.components_[m]? = some c → xs[m]? = some x →
        os[m]? = some o → obs[m]? = some ob → ofs[m]? = some of →
        ops.projectBase c x ob = .ok p.1 ∧ ops.projectFiber c x of = .ok p.2 ∧
        ops.mergeStates c p.1 p.2 o = .ok x)
      self.components_.length (by
        intro m hm
        obtain ⟨c, b, f, x, o, ob, of, hc, hb', hf', hx', ho', hob', hof'⟩ := hall m hm
        obtain ⟨_, ⟨xb, xf, h1, h2, h3⟩⟩ := hrt m c b f x o ob of hc hb' hf' hx' ho' hob' hof'
        refine ⟨(xb, xf), fun c' x' o' ob' of' hc2 hx2 ho2 hob2 hof2 => ?_⟩
        rw [hc] at hc2; rw [hx'] at hx2; rw [ho'] at ho2
        rw [hob'] at hob2; rw [hof'] at hof2
        cases hc2; cases hx2; cases ho2; cases hob2; cases hof2
        exact ⟨h1, h2, h3⟩)
    have hp1 : ∀ (m : Nat) (y : State α), (ps.map Prod.fst)[m]? = some y →
        ∃ p : State α × State α, ps[m]? = some p ∧ p.1 = y := by
      intro m y h
      rw [List.getElem?_map] at h
      cases hq : ps[m]? with
      | none => rw [hq] at h; cases h
      | some p => rw [hq] at h; cases h; exact ⟨p, rfl, rfl⟩
    have hp2 : ∀ (m : Nat) (y : State α), (ps.map Prod.snd)[m]? = some y →
        ∃ p : State α × State α, ps[m]? = some p ∧ p.2 = y := by
      intro m y h
      rw [List.getElem?_map] at h
      cases hq : ps[m]? with
      | none => rw [hq] at h; cases h
      | some p => rw [hq] at h; cases h; exact ⟨p, rfl, rfl⟩
    have hlt : ∀ (m : Nat) (p : State α × State α), ps[m]? = some p →
        m < self.components_.length := by
      intro m p h
      by_contra hn
      rw [List.getElem?_eq_none (by omega)] at h
      cases h
    obtain ⟨B, hB, hBl, hBg⟩ := BundleSpace.projectBase_many ops self xs obs
      (ps.map Prod.fst) hM h32 (by omega) (by omega) (by rw [List.length_map]; omega)
      (fun m c x ob y hc hx' hob' hy' => by
        obtain ⟨p, hp, hpe⟩ := hp1 m y hy'
        obtain ⟨_, _, _, _, o, _, of, _, _, _, _, ho', _, hof'⟩ := hall m (hlt m p hp)
        rw [← hpe]
        exact (hps m p hp c x o ob of hc hx' ho' hob' hof').1)
    have hBeq : B = ps.map Prod.fst := eq_of_getElem?_lt B _
      (by rw [List.length_map]; omega)
      (fun i hi => by rw [hBg i, if_pos (by rw [List.length_map] at hi; omega)])
    subst hBeq
    obtain ⟨F, hF, hFl, hFg⟩ := BundleSpace.projectFiber_many ops self xs ofs
      (ps.map Prod.snd) hM h32 (by omega) (by omega) (by rw [List.length_map]; omega)
      (fun m c x of y hc hx' hof' hy' => by
        obtain ⟨p, hp, hpe⟩ := hp2 m y hy'
        obtain ⟨_, _, _, _, o, ob, _, _, _, _, _, ho', hob', _⟩ := hall m (hlt m p hp)
        rw [← hpe]
        exact (hps m p hp c x o ob of hc hx' ho' hob' hof').2.1)
    have hFeq : F = ps.map Prod.snd := eq_of_getElem?_lt F _
      (by rw [List.length_map]; omega)
      (fun i hi => by rw [hFg i, if_pos (by rw [List.length_map] at hi; omega)])
    subst hFeq
    obtain ⟨Y, hY, hYl, hYg⟩ := BundleSpace.mergeStates_many ops self (ps.map Prod.fst)
      (ps.map Prod.snd) os xs hM h32 (by rw [List.length_map]; omega)
      (by rw [List.length_map]; omega) (by omega) (by omega)
      (fun m c b f o x hc hb' hf' ho' hx' => by
        obtain ⟨p, hp, hpe⟩ := hp1 m b hb'
        obtain ⟨p', hp', hpe'⟩ := hp2 m f hf'
        rw [hp] at hp'
        cases hp'
        obtain ⟨_, _, _, _, _, ob, of, _, _, _, _, _, hob', hof'⟩ := hall m (hlt m p hp)
        rw [← hpe, ← hpe']
        exact (hps m p hp c x o ob of hc hx' ho' hob' hof').2.2)
    have hYeq : Y = xs := eq_of_getElem?_lt Y xs (by omega)
      (fun i hi => by rw [hYg i, if_pos (by omega)])
    subst hYeq
    exact ⟨_, _, hB, hF, hY⟩

theorem mergeStates_SO2RN_SO2RM {α : Type} (n m : Nat) (hmn : m ≤ n) (hn : 1 + n < 2 ^ 32)
    (X1 : StateSpace) (sb so : α) (vb vf vo : List α)
    (hb : vb.length = m) (hf : vf.length = n - m) (hout : vo.length = n) :
    (QuotientSpace.mk .SO2RN_SO2RM (1 + n) (1 + m) (n - m) (some X1) true).mergeStates
      (.Compound [.SO2 sb, .RealVector vb]) (.RealVector vf)
      (.Compound [.SO2 so, .RealVector vo]) =
      .ok (.Compound [.SO2 sb, .RealVector (vb ++ vf)]) := by
  have e1 : usub (usub (1 + n) (n - m)) 1 = m := by
    rw [usub_eq (by omega) hn, usub_eq (by omega) (by omega)]; omega
  have e2 : uadd m (n - m) = n := by rw [uadd_eq (by omega)]; omega
  simp only [QuotientSpace.mergeStates]
  rw [if_neg (by simp)]
  simp only [asCompound_Compound, ok_bind, component_zero, component_one, asSO2_SO2,
    asRealVector_RealVector, e1, e2]
  rw [forLoop_head vb vo m hb (by omega), ok_bind,
    forLoop_tail vb vf _ m n hmn (by omega) hb hf (by rw [List.length_drop]; omega), ok_bind,
    set_pair]

/-! ## Sampling under a parent -/

/-- The result of `sample` on a node with a parent, given the state the call leaves in
`q_random`: the counters of the parent are those before the call. -/
theorem sampleUnderParent_eq {α : Type} (self : QuotientSpace) (isValid : State α → Bool)
    (X1_sample parent_sample s_Q0_tmp_ q_random : State α)
    (counters parentCounters : SampleCounters) :
    self.sampleUnderParent isValid X1_sample parent_sample s_Q0_tmp_ q_random counters
        parentCounters =
      (if self.X1_dimension_ > 0 then self.mergeStates parent_sample X1_sample q_random
        else .ok parent_sample) >>= fun q =>
      .ok (isValid q, q,
        { totalNumberOfSamples_ := uadd counters.totalNumberOfSamples_ 1,
          totalNumberOfFeasibleSamples_ :=
            if isValid q then uadd counters.totalNumberOfFeasibleSamples_ 1
            else counters.totalNumberOfFeasibleSamples_ },
        parentCounters) := by
  unfold QuotientSpace.sampleUnderParent
  simp only [QuotientSpace.sampleQuotient]
  by_cases hx : self.X1_dimension_ > 0
  · rw [if_pos hx, if_pos hx]
    cases hm : self.mergeStates parent_sample X1_sample q_random with
    | error e => simp only [bind, Except.bind]
    | ok q => simp only [bind, Except.bind]
  · rw [if_neg hx, if_neg hx]
    simp only [bind, Except.bind]

/-! ## The identifiers of the nodes -/

theorem constructAll_cons {ν : Type} [BEq ν] (cfs : ComputeFiberSpace)
    (getMeasure : StateSpace → Double) (counter_ : Nat) (si : SpaceInformation ν)
    (parent_ : Option (BundleSpace ν))
    (calls : List (SpaceInformation ν × Option (BundleSpace ν))) :
    BundleSpace.constructAll cfs getMeasure counter_ ((si, parent_) :: calls) =
      ((BundleSpace.constructAll cfs getMeasure (uadd counter_ 1) calls).1,
        (match BundleSpace.construct cfs getMeasure si parent_ with
          | .ok self => .ok (counter_, self)
          | .error e => .error e) ::
        (BundleSpace.constructAll cfs getMeasure (uadd counter_ 1) calls).2) := by
  rfl

theorem constructedIds_cons_ok {ν : Type} (id_ : Nat) (self : BundleSpace ν)
    (outcomes : List (Except Fault (Nat × BundleSpace ν))) :
    constructedIds (.ok (id_, self) :: outcomes) = id_ :: constructedIds outcomes := by
  simp only [constructedIds, List.filterMap_cons]

theorem constructedIds_cons_error {ν : Type} (e : Fault)
    (outcomes : List (Except Fault (Nat × BundleSpace ν))) :
    constructedIds (.error e :: outcomes) = constructedIds outcomes := by
  simp only [constructedIds, List.filterMap_cons]

/-- The outcomes of a sequence of constructor calls that starts at `counter_` and does
not exhaust the `unsigned int`s: one outcome per call, the `i`-th call that returns
has taken `counter_ + i`, the identifiers of the nodes lie in the range of the calls
and increase strictly, and the counter ends at `counter_` plus the number of calls. -/
theorem constructAll_spec {ν : Type} [BEq ν] (cfs : ComputeFiberSpace)
    (getMeasure : StateSpace → Double) :
    ∀ (calls : List (SpaceInformation ν × Option (BundleSpace ν))) (counter_ : Nat),
      counter_ + calls.length < 2 ^ 32 →
      (BundleSpace.constructAll cfs getMeasure counter_ calls).1 = counter_ + calls.length ∧
      (BundleSpace.constructAll cfs getMeasure counter_ calls).2.length = calls.length ∧
      (∀ (i id_ : Nat) (self : BundleSpace ν),
        (BundleSpace.constructAll cfs getMeasure counter_ calls).2[i]? = some (.ok (id_, self))
          → id_ = counter_ + i) ∧
      (∀ id_ ∈ constructedIds (BundleSpace.constructAll cfs getMeasure counter_ calls).2,
        counter_ ≤ id_ ∧ id_ < counter_ + calls.length) ∧
      (constructedIds (BundleSpace.constructAll cfs getMeasure counter_ calls).2).Pairwise
        (fun a b => a < b) ∧
      ((∀ o ∈ (BundleSpace.constructAll cfs getMeasure counter_ calls).2,
          ∃ p, o = Except.ok p) →
        constructedIds (BundleSpace.constructAll cfs getMeasure counter_ calls).2
          = List.range' counter_ calls.length) := by
  intro calls
  induction calls with
  | nil =>
    intro counter_ _
    refine ⟨rfl, rfl, ?_, ?_, ?_, fun _ => rfl⟩
    · intro i id_ self h
      simp [BundleSpace.constructAll] at h
    · intro id_ h
      simp [BundleSpace.constructAll, constructedIds] at h
    · simp [BundleSpace.constructAll, constructedIds]
  | cons call calls ih =>
    intro counter_ h32
    obtain ⟨si, parent_⟩ := call
    rw [List.length_cons] at h32
    have e1 : uadd counter_ 1 = counter_ + 1 := uadd_eq (by omega)
    obtain ⟨r1, r2, r3, r4, r5, r6⟩ := ih (counter_ + 1) (by omega)
    rw [constructAll_cons, e1]
    dsimp only
    refine ⟨by rw [r1, List.length_cons]; omega, by simp only [List.length_cons, r2], ?_, ?_, ?_, ?_⟩
    · intro i id_ self h
      cases i with
      | zero =>
        rw [List.getElem?_cons_zero] at h
        cases hc : BundleSpace.construct cfs getMeasure si parent_ with
        | error e => rw [hc] at h; cases h
        | ok node => rw [hc] at h; cases h; rfl
      | succ i =>
        rw [List.getElem?_cons_succ] at h
        have := r3 i id_ self h
        omega
    · intro id_ h
      cases hc : BundleSpace.construct cfs getMeasure si parent_ with
      | error e =>
        rw [hc] at h
        dsimp only at h
        rw [constructedIds_cons_error] at h
        have := r4 id_ h
        rw [List.length_cons]
        omega
      | ok node =>
        rw [hc] at h
        dsimp only at h
        rw [constructedIds_cons_ok, List.mem_cons] at h
        rw [List.length_cons]
        rcases h with h | h
        · omega
        · have := r4 id_ h
          omega
    · cases hc : BundleSpace.construct cfs getMeasure si parent_ with
      | error e =>
        dsimp only
        rw [constructedIds_cons_error]
        exact r5
      | ok node =>
        dsimp only
        rw [constructedIds_cons_ok, List.pairwise_cons]
        exact ⟨fun b hb => by have := (r4 b hb).1; omega, r5⟩
    · intro hall
      cases hc : BundleSpace.construct cfs getMeasure si parent_ with
      | error e =>
        rw [hc] at hall
        obtain ⟨p, hp⟩ := hall _ (List.mem_cons_self _ _)
        cases hp
      | ok node =>
        rw [hc] at hall
        dsimp only
        rw [constructedIds_cons_ok, List.length_cons, List.range'_succ,
          r6 (fun o ho => hall o (List.mem_cons_of_mem _ ho))]

/-! ## Claims on sampling, the node operators, the identifiers and the counters -/

/-- C31: the state a call of sampling leaves in the output buffer.  For the node of the
bundle-space hierarchy (`sampleBundle`): the draw of the Bundle sampler without
parent; with a parent and Fiber dimension > 0 what `mergeStates` makes of the state
of the parent and the draw of the Fiber sampler; with a parent and Fiber dimension 0
the state of the parent, unmodified.  For the legacy node (`sample`) the same three
cases, and `sample` fails exactly as `mergeStates` does. -/
theorem C31_state_produced_by_sampling {ν α : Type} (ops : ComponentOperators α)
    (node : BundleSpace ν) (bdraw : BundleDraw α) (xRandom : State α)
    (self : QuotientSpace) (isValid : State α → Bool) (draw : Draw α) (q_random : State α)
    (counters : SampleCounters) :
    (node.hasParent = false →
      node.sampleBundle ops bdraw xRandom = .ok bdraw.Bundle_sample) ∧
    (node.hasParent = true → 0 < node.getFiberDimension →
      node.sampleBundle ops bdraw xRandom =
        node.mergeStates ops bdraw.Base_sample bdraw.Fiber_sample xRandom) ∧
    (node.hasParent = true → node.getFiberDimension = 0 →
      node.sampleBundle ops bdraw xRandom = .ok bdraw.Base_sample) ∧
    (self.hasParent = false →
      ∃ valid c, self.sample isValid draw q_random counters
        = .ok (valid, draw.Q1_sample, c)) ∧
    (self.hasParent = true → 0 < self.X1_dimension_ →
      (∀ q, self.mergeStates draw.Q0_sample draw.X1_sample q_random = .ok q →
        ∃ valid c, self.sample isValid draw q_random counters = .ok (valid, q, c)) ∧
      (∀ e, self.mergeStates draw.Q0_sample draw.X1_sample q_random = .error e →
        self.sample isValid draw q_random counters = .error e)) ∧
    (self.hasParent = true → self.X1_dimension_ = 0 →
      ∃ valid c, self.sample isValid draw q_random counters
        = .ok (valid, draw.Q0_sample, c)) := by
  refine ⟨?_, ?_, ?_, ?_, ?_, ?_⟩
  · intro hp
    simp [BundleSpace.sampleBundle, hp]
  · intro hp hf
    simp [BundleSpace.sampleBundle, hp, hf]
  · intro hp hf
    simp [BundleSpace.sampleBundle, hp, hf]
  · intro hp
    exact ⟨_, _, sample_ok_of self isValid draw q_random _ counters (by simp [hp])⟩
  · intro hp hx
    refine ⟨fun q hq => ⟨_, _, sample_ok_of self isValid draw q_random q counters
      (by simp [hp, hx, hq])⟩, fun e he => ?_⟩
    unfold QuotientSpace.sample
    have : (if !self.hasParent then (.ok draw.Q1_sample : Except Fault (State α))
        else if self.X1_dimension_ > 0 then
          self.mergeStates draw.Q0_sample draw.X1_sample q_random
        else .ok draw.Q0_sample) = .error e := by simp [hp, hx, he]
    rw [this, error_bind]
  · intro hp hx
    exact ⟨_, _, sample_ok_of self isValid draw q_random _ counters (by simp [hp, hx])⟩

/-- Witness of C31: the legacy node of `R^3` over `R^2` merges the parent's state
`[1, 2]` and the Fiber draw `[3]` into `[1, 2, 3]`. -/
theorem C31_state_produced_by_sampling_witness :
    ∃ valid c, (QuotientSpace.mk .RN_RM 3 2 1 (some (RealVectorStateSpace 1)) true).sample
        (fun _ => true)
        (Draw.mk (.RealVector [0, 0, 0]) (.RealVector [3]) (.RealVector [1, (2 : Nat)]))
        (.RealVector [0, 0, 0]) (SampleCounters.mk 0 0)
      = .ok (valid, .RealVector [1, 2, 3], c) :=
  ((C31_state_produced_by_sampling
    (ComponentOperators.mk (fun _ b _ _ => .ok b) (fun _ x _ => .ok x) (fun _ x _ => .ok x))
    (BundleSpace.mk (SpaceInformation.mk (RealVectorStateSpace 4) 0) none none []
      : BundleSpace Nat)
    (BundleDraw.mk (.RealVector []) (.RealVector []) (.RealVector []))
    (.RealVector [])
    (QuotientSpace.mk .RN_RM 3 2 1 (some (RealVectorStateSpace 1)) true)
    (fun _ => true)
    (Draw.mk (.RealVector [0, 0, 0]) (.RealVector [3]) (.RealVector [1, (2 : Nat)]))
    (.RealVector [0, 0, 0]) (SampleCounters.mk 0 0)).2.2.2.2.1 rfl (by decide)).1
    (.RealVector [1, 2, 3]) rfl

/-- C32: on a node with `M > 1` components (`M < 2 ^ 32`) the node operators
`mergeStates`, `projectBase` and `projectFiber` put into sub-state `m` of the output
buffer the result of component `m` on the `m`-th sub-states, for every `m < M`, and
leave the rest of the output buffer as it was; on a node with one component they are
that component's operators; and the round-trip laws of the node follow from those of
its components. -/
theorem C32_node_operators_dispatch {ν α : Type} (ops : ComponentOperators α)
    (self : BundleSpace ν) (h32 : self.components_.length < 2 ^ 32) :
    (1 < self.components_.length →
      (∀ bs fs os ys : List (State α), self.components_.length ≤ bs.length →
        self.components_.length ≤ fs.length → self.components_.length ≤ os.length →
        self.components_.length ≤ ys.length →
        (∀ (m : Nat) (c : BundleSpaceComponent) (b f o y : State α),
          self.components_[m]? = some c → bs[m]? = some b → fs[m]? = some f →
          os[m]? = some o → ys[m]? = some y → ops.mergeStates c b f o = .ok y) →
        ∃ Y, self.mergeStates ops (.Compound bs) (.Compound fs) (.Compound os)
            = .ok (.Compound Y) ∧
          Y.length = os.length ∧
          ∀ i, Y[i]? = if i < self.components_.length then ys[i]? else os[i]?) ∧
      (∀ xs os ys : List (State α), self.components_.length ≤ xs.length →
        self.components_.length ≤ os.length → self.components_.length ≤ ys.length →
        (∀ (m : Nat) (c : BundleSpaceComponent) (x o y : State α),
          self.components_[m]? = some c → xs[m]? = some x → os[m]? = some o →
          ys[m]? = some y → ops.projectBase c x o = .ok y) →
        ∃ Y, self.projectBase ops (.Compound xs) (.Compound os) = .ok (.Compound Y) ∧
          Y.length = os.length ∧
          ∀ i, Y[i]? = if i < self.components_.length then ys[i]? else os[i]?) ∧
      (∀ xs os ys : List (State α), self.components_.length ≤ xs.length →
        self.components_.length ≤ os.length → self.components_.length ≤ ys.length →
        (∀ (m : Nat) (c : BundleSpaceComponent) (x o y : State α),
          self.components_[m]? = some c → xs[m]? = some x → os[m]? = some o →
          ys[m]? = some y → ops.projectFiber c x o = .ok y) →
        ∃ Y, self.projectFiber ops (.Compound xs) (.Compound os) = .ok (.Compound Y) ∧
          Y.length = os.length ∧
          ∀ i, Y[i]? = if i < self.components_.length then ys[i]? else os[i]?) ∧
      (∀ bs fs xs os obs ofs : List (State α), bs.length = self.components_.length →
        fs.length = self.components_.length → xs.length = self.components_.length →
        os.length = self.components_.length → obs.length = self.components_.length →
        ofs.length = self.components_.length →
        (∀ (m : Nat) (c : BundleSpaceComponent) (b f x o ob of : State α),
          self.components_[m]? = some c → bs[m]? = some b → fs[m]? = some f →
          xs[m]? = some x → os[m]? = some o → obs[m]? = some ob → ofs[m]? = some of →
          ComponentRoundTrip ops c b f x o ob of) →
        NodeRoundTrip ops self (.Compound bs) (.Compound fs) (.Compound xs) (.Compound os)
          (.Compound obs) (.Compound ofs))) ∧
    (∀ c, self.components_ = [c] →
      (∀ b f x : State α,
        self.mergeStates ops b f x = ops.mergeStates c b f x ∧
        self.projectFiber ops x f = ops.projectFiber c x f ∧
        self.projectBase ops x b = ops.projectBase c x b) ∧
      (∀ b f x out outB outF : State α, ComponentRoundTrip ops c b f x out outB outF →
        NodeRoundTrip ops self b f x out outB outF)) := by
  refine ⟨fun hM => ⟨?_, ?_, ?_, ?_⟩, fun c hc => ⟨?_, ?_⟩⟩
  · intro bs fs os ys hb hf ho hy hop
    exact BundleSpace.mergeStates_many ops self bs fs os ys hM h32 hb hf ho hy hop
  · intro xs os ys hx ho hy hop
    exact BundleSpace.projectBase_many ops self xs os ys hM h32 hx ho hy hop
  · intro xs os ys hx ho hy hop
    exact BundleSpace.projectFiber_many ops self xs os ys hM h32 hx ho hy hop
  · intro bs fs xs os obs ofs hb hf hx ho hob hof hrt
    exact NodeRoundTrip_of_components ops self bs fs xs os obs ofs hM h32 hb hf hx ho hob hof
      hrt
  · intro b f x
    exact BundleSpace.operators_single ops self c hc b f x
  · intro b f x out outB outF hrt
    obtain ⟨⟨y, h1, h2, h3⟩, ⟨xb, xf, h4, h5, h6⟩⟩ := hrt
    refine ⟨⟨y, ?_, ?_, ?_⟩, ⟨xb, xf, ?_, ?_, ?_⟩⟩
    · rw [(BundleSpace.operators_single ops self c hc b f out).1]; exact h1
    · rw [(BundleSpace.operators_single ops self c hc outB outF y).2.2]; exact h2
    · rw [(BundleSpace.operators_single ops self c hc outB outF y).2.1]; exact h3
    · rw [(BundleSpace.operators_single ops self c hc outB outF x).2.2]; exact h4
    · rw [(BundleSpace.operators_single ops self c hc outB outF x).2.1]; exact h5
    · rw [(BundleSpace.operators_single ops self c hc xb xf out).1]; exact h6

/-- Witness of C32 on a node with two components, with component operators that copy
the Base sub-state: the node merge of `([1], [2])` with any Fibers into the buffer
`([0], [0])` is `([1], [2])`. -/
theorem C32_node_operators_dispatch_witness :
    ∃ Y, (BundleSpace.mk (SpaceInformation.mk (RealVectorStateSpace 4) 0) none none
          [BundleSpaceComponent.mk (RealVectorStateSpace 2) (some (RealVectorStateSpace 1))
            .RN_RM (some (RealVectorStateSpace 1)),
           BundleSpaceComponent.mk (RealVectorStateSpace 2) (some (RealVectorStateSpace 1))
            .RN_RM (some (RealVectorStateSpace 1))] : BundleSpace Nat).mergeStates
        (ComponentOperators.mk (fun _ b _ _ => .ok b) (fun _ x _ => .ok x)
          (fun _ x _ => .ok x))
        (.Compound [.RealVector [1], .RealVector [(2 : Nat)]])
        (.Compound [.RealVector [3], .RealVector [4]])
        (.Compound [.RealVector [0], .RealVector [0]]) = .ok (.Compound Y) ∧
      Y.length = 2 ∧
      ∀ i, Y[i]? = if i < 2 then [State.RealVector [1], .RealVector [(2 : Nat)]][i]?
        else [State.RealVector [0], .RealVector [(0 : Nat)]][i]? :=
  ((C32_node_operators_dispatch
    (ComponentOperators.mk (fun _ b _ _ => .ok b) (fun _ x _ => .ok x) (fun _ x _ => .ok x))
    (BundleSpace.mk (SpaceInformation.mk (RealVectorStateSpace 4) 0) none none
      [BundleSpaceComponent.mk (RealVectorStateSpace 2) (some (RealVectorStateSpace 1))
        .RN_RM (some (RealVectorStateSpace 1)),
       BundleSpaceComponent.mk (RealVectorStateSpace 2) (some (RealVectorStateSpace 1))
        .RN_RM (some (RealVectorStateSpace 1))] : BundleSpace Nat)
    (by decide)).1 (by decide)).1
    [.RealVector [1], .RealVector [2]] [.RealVector [3], .RealVector [4]]
    [.RealVector [0], .RealVector [0]] [.RealVector [1], .RealVector [2]]
    (Nat.le_refl 2) (Nat.le_refl 2) (Nat.le_refl 2) (Nat.le_refl 2)
    (fun _ _ b _ _ y _ hb _ _ hy => by rw [hb] at hy; cases hy; rfl)

/-- C33 (counterexample): after a reset, the constructor call for Bundle `SO2` under a
parent with Bundle `R^2` throws, having taken the identifier 0; the next call, for
Bundle `R^2` without parent, returns the first node constructed after the reset, and
the node has the identifier 1, not 0. -/
theorem C33_counterexample_failed_constructor_takes_an_id :
    ∃ parent self : BundleSpace Nat,
      BundleSpace.construct noFiberSpace (fun _ => .finite 1)
        (SpaceInformation.mk (RealVectorStateSpace 2) 0) none = .ok parent ∧
      BundleSpace.constructAll noFiberSpace (fun _ => .finite 1) (resetCounter 7)
        [(SpaceInformation.mk SO2StateSpace 0, some parent),
          (SpaceInformation.mk (RealVectorStateSpace 2) 0, none)]
        = (2, [.error (.exception .INVALID_STATE_TYPE), .ok (1, self)]) ∧
      constructedIds [(.error (.exception .INVALID_STATE_TYPE) :
        Except Fault (Nat × BundleSpace Nat)), .ok (1, self)] = [1] := by
  have hm : ∀ s, ¬ ZeroOrInfiniteMeasure (fun _ => Double.finite 1) s := by
    intro s
    simp [ZeroOrInfiniteMeasure, Double.leZero, Double.geInfinity]
  have hc : ∀ s, BundleSpace.checkBundleSpaceMeasure (fun _ => Double.finite 1) s = .ok () :=
    fun s => BundleSpace.checkBundleSpaceMeasure_good _ s (hm s)
  have h1 : MakeBundleSpaceComponents noFiberSpace
      (SpaceInformation.mk (RealVectorStateSpace 2) (0 : Nat)) none =
      .ok [BundleSpaceComponent.mk (RealVectorStateSpace 2) none .NO_PROJECTION none] := rfl
  have h2 : MakeBundleSpaceComponents noFiberSpace
      (SpaceInformation.mk SO2StateSpace (0 : Nat))
      (some (SpaceInformation.mk (RealVectorStateSpace 2) 0)) =
      .error (.exception .INVALID_STATE_TYPE) := rfl
  have hp : BundleSpace.construct noFiberSpace (fun _ => .finite 1)
      (SpaceInformation.mk (RealVectorStateSpace 2) (0 : Nat)) none =
      .ok (BundleSpace.mk (SpaceInformation.mk (RealVectorStateSpace 2) 0) none none
        [BundleSpaceComponent.mk (RealVectorStateSpace 2) none .NO_PROJECTION none]) := by
    unfold BundleSpace.construct
    dsimp only
    rw [h1, ok_bind]
    unfold BundleSpace.checkBundleSpace
    dsimp only
    rw [hc, ok_bind, ok_bind, ok_bind]
  have hf : BundleSpace.construct noFiberSpace (fun _ => .finite 1)
      (SpaceInformation.mk SO2StateSpace (0 : Nat))
      (some (BundleSpace.mk (SpaceInformation.mk (RealVectorStateSpace 2) 0) none none
        [BundleSpaceComponent.mk (RealVectorStateSpace 2) none .NO_PROJECTION none])) =
      .error (.exception .INVALID_STATE_TYPE) := by
    unfold BundleSpace.construct
    dsimp only
    rw [h2, error_bind]
  refine ⟨_, BundleSpace.mk (SpaceInformation.mk (RealVectorStateSpace 2) 0) none none
    [BundleSpaceComponent.mk (RealVectorStateSpace 2) none .NO_PROJECTION none], hp, ?_, rfl⟩
  rw [constructAll_cons, constructAll_cons, hf, hp]
  rfl

/-- C33 (amended): the identifiers count the calls of the constructor, not the nodes.
From the counter 0, which is its value at the start of the process and after
`resetCounter`, and for fewer than `2 ^ 32` calls: the call number `i` (from 0) that
returns gives its node the identifier `i`; the identifiers of the nodes constructed
increase strictly in construction order and are pairwise distinct; when no call fails
the nodes have the identifiers `0, 1, ..., k - 1`; and the counter ends at the number
of calls. -/
theorem C33_identifiers_count_constructor_calls {ν : Type} [BEq ν] (cfs : ComputeFiberSpace)
    (getMeasure : StateSpace → Double) (old : Nat)
    (calls : List (SpaceInformation ν × Option (BundleSpace ν)))
    (h32 : calls.length < 2 ^ 32) :
    resetCounter old = 0 ∧ takeId (resetCounter old) = (0, 1) ∧
    (BundleSpace.constructAll cfs getMeasure (resetCounter old) calls).1 = calls.length ∧
    (BundleSpace.constructAll cfs getMeasure (resetCounter old) calls).2.length
      = calls.length ∧
    (∀ (i id_ : Nat) (self : BundleSpace ν),
      (BundleSpace.constructAll cfs getMeasure (resetCounter old) calls).2[i]?
        = some (.ok (id_, self)) → id_ = i) ∧
    (constructedIds (BundleSpace.constructAll cfs getMeasure (resetCounter old) calls).2
      ).Pairwise (fun a b => a < b) ∧
    (constructedIds (BundleSpace.constructAll cfs getMeasure (resetCounter old) calls).2
      ).Nodup ∧
    ((∀ o ∈ (BundleSpace.constructAll cfs getMeasure (resetCounter old) calls).2,
        ∃ p, o = Except.ok p) →
      constructedIds (BundleSpace.constructAll cfs getMeasure (resetCounter old) calls).2
        = List.range calls.length) := by
  obtain ⟨r1, r2, r3, _, r5, r6⟩ := constructAll_spec cfs getMeasure calls 0 (by omega)
  have e : resetCounter old = 0 := rfl
  rw [e]
  refine ⟨rfl, rfl, by rw [r1]; omega, r2, ?_, r5, ?_, ?_⟩
  · intro i id_ self h
    have := r3 i id_ self h
    omega
  · exact r5.imp (fun h => Nat.ne_of_lt h)
  · intro hall
    rw [r6 hall, List.range_eq_range']

/-- Witness of C33: two calls of the constructor after a reset leave the counter
at 2. -/
theorem C33_identifiers_count_constructor_calls_witness :
    (BundleSpace.constructAll noFiberSpace (fun _ => .finite 1) (resetCounter 7)
      [(SpaceInformation.mk SO2StateSpace (0 : Nat), none),
        (SpaceInformation.mk (RealVectorStateSpace 2) 0, none)]).1 = 2 :=
  (C33_identifiers_count_constructor_calls noFiberSpace (fun _ => .finite 1) 7
    [(SpaceInformation.mk SO2StateSpace (0 : Nat), none),
      (SpaceInformation.mk (RealVectorStateSpace 2) 0, none)] (by decide)).2.2.1

/-- C34: `MakeBundleSpaceComponent` throws "BundleSpaceType not yet implemented."
whenever the classifier returns `UNKNOWN`; a component that it builds, and every
component that `MakeBundleSpaceComponents` returns, carries one of the fifteen types
other than `UNKNOWN`. -/
theorem C34_UNKNOWN_is_never_built (ν : Type) [BEq ν] (cfs : ComputeFiberSpace)
    (Bundle : StateSpace) (Base? : Option StateSpace) (areValidityCheckersEquivalent : Bool) :
    (identifyBundleSpaceComponentType Bundle Base? = .ok .UNKNOWN →
      MakeBundleSpaceComponent cfs Bundle Base? areValidityCheckersEquivalent
        = .error (.exception .BundleSpaceType_not_yet_implemented)) ∧
    (∀ c, MakeBundleSpaceComponent cfs Bundle Base? areValidityCheckersEquivalent = .ok c →
      c.type_ ≠ .UNKNOWN ∧
      c.type_ ∈ [BundleSpaceComponentType.NO_PROJECTION, .EMPTY_SET_PROJECTION,
        .IDENTITY_PROJECTION, .CONSTRAINED_RELAXATION, .RN_RM, .SE2_R2, .SE2RN_R2, .SE2RN_SE2,
        .SE2RN_SE2RM, .SO2RN_SO2, .SO2RN_SO2RM, .SE3_R3, .SE3RN_R3, .SE3RN_SE3,
        .SE3RN_SE3RM]) ∧
    (∀ (Bundle' : SpaceInformation ν) (Base'? : Option (SpaceInformation ν))
      (cs : List BundleSpaceComponent),
      MakeBundleSpaceComponents cfs Bundle' Base'? = .ok cs → ∀ c ∈ cs, c.type_ ≠ .UNKNOWN) := by
  have key : ∀ B Q eqv c, MakeBundleSpaceComponent cfs B Q eqv = .ok c →
      c.type_ ≠ .UNKNOWN := by
    intro B Q eqv c h
    obtain ⟨t, _, hu, _, ht, _⟩ := MakeBundleSpaceComponent_ok cfs B Q eqv c h
    rw [ht]
    split
    · decide
    · exact hu
  refine ⟨?_, ?_, ?_⟩
  · intro h
    unfold MakeBundleSpaceComponent
    rw [h, ok_bind]
    rfl
  · intro c h
    have hu := key _ _ _ c h
    refine ⟨hu, ?_⟩
    revert hu
    cases c.type_ <;> simp
  · intro Bundle' Base'? cs h c hc
    obtain ⟨B, Q, eqv, hM⟩ := MakeBundleSpaceComponents_mem cfs Bundle' Base'? cs h c hc
    exact key B Q eqv c hM

/-- Witness of C34: the Bundle of three vector subspaces over a Base of three vector
subspaces is classified `UNKNOWN`, and no component is built. -/
theorem C34_UNKNOWN_is_never_built_witness :
    identifyBundleSpaceComponentType
        (.compound .STATE_SPACE_UNKNOWN 3
          [RealVectorStateSpace 1, RealVectorStateSpace 1, RealVectorStateSpace 1])
        (some (.compound .STATE_SPACE_UNKNOWN 3
          [RealVectorStateSpace 1, RealVectorStateSpace 1, RealVectorStateSpace 1]))
      = .ok .UNKNOWN ∧
    MakeBundleSpaceComponent noFiberSpace
        (.compound .STATE_SPACE_UNKNOWN 3
          [RealVectorStateSpace 1, RealVectorStateSpace 1, RealVectorStateSpace 1])
        (some (.compound .STATE_SPACE_UNKNOWN 3
          [RealVectorStateSpace 1, RealVectorStateSpace 1, RealVectorStateSpace 1])) true
      = .error (.exception .BundleSpaceType_not_yet_implemented) :=
  ⟨rfl, (C34_UNKNOWN_is_never_built Nat noFiberSpace _ _ true).1 rfl⟩

/-- C35: the bundle-space classifier is a conservative extension of the legacy
classifier: whenever `identifyQuotientSpaceType` returns a type `t` for Bundle `Q1`
and Base `Q0`, the type has a corresponding type of the bundle-space classifier
(`IDENTITY_PROJECTION` for the six `IDENTITY_SPACE_*` tags, the tag of the same name
otherwise), and `identifyBundleSpaceComponentType` returns that type on the same
pair. -/
theorem C35_classifier_conservative_extension (Q1 Q0 : StateSpace) (t : QuotientSpaceType)
    (h : identifyQuotientSpaceType Q1 Q0 = .ok t) :
    ∃ t', t.corresponding = some t' ∧
      (t.isIdentity = true → t' = .IDENTITY_PROJECTION) ∧
      identifyBundleSpaceComponentType Q1 (some Q0) = .ok t' := by
  obtain ⟨t', h1, h2⟩ := identify_conservative Q1 Q0 t h
  refine ⟨t', h1, ?_, h2⟩
  intro hid
  cases t <;> simp [QuotientSpaceType.isIdentity] at hid <;>
    simp only [QuotientSpaceType.corresponding, Option.some.injEq] at h1 <;> exact h1.symm

/-- Witness of C35 for `SE3 x R^4` over `SE3 x R^2`: both classifiers return
`SE3RN_SE3RM`. -/
theorem C35_classifier_conservative_extension_witness :
    identifyQuotientSpaceType (XRN SE3StateSpace 4) (XRN SE3StateSpace 2) = .ok .SE3RN_SE3RM ∧
    ∃ t', QuotientSpaceType.SE3RN_SE3RM.corresponding = some t' ∧
      (QuotientSpaceType.SE3RN_SE3RM.isIdentity = true → t' = .IDENTITY_PROJECTION) ∧
      identifyBundleSpaceComponentType (XRN SE3StateSpace 4) (some (XRN SE3StateSpace 2))
        = .ok t' :=
  ⟨rfl, C35_classifier_conservative_extension (XRN SE3StateSpace 4) (XRN SE3StateSpace 2)
    .SE3RN_SE3RM rfl⟩

/-- C36: for each of the eleven decomposition types that support `mergeStates`, on the
quotient space that `computeQuotientSpace` builds for spaces of the type's shape, two
calls with the same Base state and the same Fiber state return equal output states,
whatever the two output buffers hold beforehand: every coordinate of the output is
written. -/
theorem C36_mergeStates_overwrites_output {α : Type} (n m : Nat) (hm : 0 < m) (hmn : m < n)
    (hn : 6 + n < 2 ^ 32) (vb vd vf vo vo' : List α) (hvb : vb.length = m)
    (hvd : vd.length = n - m) (hvf : vf.length = n) (hvo : vo.length = n)
    (hvo' : vo'.length = n) (p0 p1 p2 r ab ao ao' : α) (q : SO3State α)
    (sb so so' : SE2State α) (tb tq tq' : SE3State α) :
    (∃ self, computeQuotientSpace (RealVectorStateSpace n) (RealVectorStateSpace m) = .ok self ∧
      SameOutput self (.RealVector vb) (.RealVector vd) (.RealVector vo) (.RealVector vo')) ∧
    (∃ self, computeQuotientSpace SE2StateSpace (RealVectorStateSpace 2) = .ok self ∧
      SameOutput self (.RealVector [p0, p1]) (.SO2 r) (.SE2 so) (.SE2 so')) ∧
    (∃ self, computeQuotientSpace SE3StateSpace (RealVectorStateSpace 3) = .ok self ∧
      SameOutput self (.RealVector [p0, p1, p2]) (.SO3 q) (.SE3 tq) (.SE3 tq')) ∧
    (∃ self, computeQuotientSpace (XRN SE2StateSpace n) SE2StateSpace = .ok self ∧
      SameOutput self (.SE2 sb) (.RealVector vf) (.Compound [.SE2 so, .RealVector vo])
        (.Compound [.SE2 so', .RealVector vo'])) ∧
    (∃ self, computeQuotientSpace (XRN SE3StateSpace n) SE3StateSpace = .ok self ∧
      SameOutput self (.SE3 tb) (.RealVector vf) (.Compound [.SE3 tq, .RealVector vo])
        (.Compound [.SE3 tq', .RealVector vo'])) ∧
    (∃ self, computeQuotientSpace (XRN SO2StateSpace n) SO2StateSpace = .ok self ∧
      SameOutput self (.SO2 ab) (.RealVector vf) (.Compound [.SO2 ao, .RealVector vo])
        (.Compound [.SO2 ao', .RealVector vo'])) ∧
    (∃ self, computeQuotientSpace (XRN SE2StateSpace n) (RealVectorStateSpace 2) = .ok self ∧
      SameOutput self (.RealVector [p0, p1]) (.Compound [.SO2 r, .RealVector vf])
        (.Compound [.SE2 so, .RealVector vo]) (.Compound [.SE2 so', .RealVector vo'])) ∧
    (∃ self, computeQuotientSpace (XRN SE3StateSpace n) (RealVectorStateSpace 3) = .ok self ∧
      SameOutput self (.RealVector [p0, p1, p2]) (.Compound [.SO3 q, .RealVector vf])
        (.Compound [.SE3 tq, .RealVector vo]) (.Compound [.SE3 tq', .RealVector vo'])) ∧
    (∃ self, computeQuotientSpace (XRN SE2StateSpace n) (XRN SE2StateSpace m) = .ok self ∧
      SameOutput self (.Compound [.SE2 sb, .RealVector vb]) (.RealVector vd)
        (.Compound [.SE2 so, .RealVector vo]) (.Compound [.SE2 so', .RealVector vo'])) ∧
    (∃ self, computeQuotientSpace (XRN SE3StateSpace n) (XRN SE3StateSpace m) = .ok self ∧
      SameOutput self (.Compound [.SE3 tb, .RealVector vb]) (.RealVector vd)
        (.Compound [.SE3 tq, .RealVector vo]) (.Compound [.SE3 tq', .RealVector vo'])) ∧
    (∃ self, computeQuotientSpace (XRN SO2StateSpace n) (XRN SO2StateSpace m) = .ok self ∧
      SameOutput self (.Compound [.SO2 ab, .RealVector vb]) (.RealVector vd)
        (.Compound [.SO2 ao, .RealVector vo]) (.Compound [.SO2 ao', .RealVector vo'])) := by
  have hle : m ≤ n := Nat.le_of_lt hmn
  have h1 : 1 + n < 2 ^ 32 := by omega
  have h3 : 3 + n < 2 ^ 32 := by omega
  refine ⟨⟨_, computeQuotientSpace_RN_RM n m hm hmn (by omega), _,
      mergeStates_RN_RM n m hle (by omega) _ _ vb vd vo hvb hvd hvo,
      mergeStates_RN_RM n m hle (by omega) _ _ vb vd vo' hvb hvd hvo'⟩,
    ⟨_, rfl, _, rfl, rfl⟩, ⟨_, rfl, _, rfl, rfl⟩,
    ⟨_, computeQuotientSpace_SE2RN_SE2 n, _,
      mergeStates_SE2RN_SE2 n _ _ _ sb so vf vo hvf hvo,
      mergeStates_SE2RN_SE2 n _ _ _ sb so' vf vo' hvf hvo'⟩,
    ⟨_, computeQuotientSpace_SE3RN_SE3 n, _,
      mergeStates_SE3RN_SE3 n _ _ _ tb tq vf vo hvf hvo,
      mergeStates_SE3RN_SE3 n _ _ _ tb tq' vf vo' hvf hvo'⟩,
    ⟨_, computeQuotientSpace_SO2RN_SO2 n, _,
      mergeStates_SO2RN_SO2 n _ _ _ ab ao vf vo hvf hvo,
      mergeStates_SO2RN_SO2 n _ _ _ ab ao' vf vo' hvf hvo'⟩,
    ⟨_, computeQuotientSpace_SE2RN_R2 n h1, _,
      mergeStates_SE2RN_R2 n _ _ h1 _ p0 p1 r so vf vo hvf hvo,
      mergeStates_SE2RN_R2 n _ _ h1 _ p0 p1 r so' vf vo' hvf hvo'⟩,
    ⟨_, computeQuotientSpace_SE3RN_R3 n h3, _,
      mergeStates_SE3RN_R3 n _ _ h3 _ p0 p1 p2 q tq vf vo hvf hvo,
      mergeStates_SE3RN_R3 n _ _ h3 _ p0 p1 p2 q tq' vf vo' hvf hvo'⟩,
    ⟨_, computeQuotientSpace_SE2RN_SE2RM n m hm hmn (by omega), _,
      mergeStates_SE2RN_SE2RM n m hle h3 _ sb so vb vd vo hvb hvd hvo,
      mergeStates_SE2RN_SE2RM n m hle h3 _ sb so' vb vd vo' hvb hvd hvo'⟩,
    ⟨_, computeQuotientSpace_SE3RN_SE3RM n m hm hmn (by omega), _,
      mergeStates_SE3RN_SE3RM n m hle hn _ tb tq vb vd vo hvb hvd hvo,
      mergeStates_SE3RN_SE3RM n m hle hn _ tb tq' vb vd vo' hvb hvd hvo'⟩,
    ⟨_, computeQuotientSpace_SO2RN_SO2RM n m hm hmn (by omega), _,
      mergeStates_SO2RN_SO2RM n m hle h1 _ ab ao vb vd vo hvb hvd hvo,
      mergeStates_SO2RN_SO2RM n m hle h1 _ ab ao' vb vd vo' hvb hvd hvo'⟩⟩

/-- Witness of C36 at `n = 3`, `m = 1` for `SO2 x R^3` over `SO2 x R^1`: the output
buffers `(0, [0, 0, 0])` and `(9, [9, 9, 9])` both end as `(7, [10, 20, 30])`. -/
theorem C36_mergeStates_overwrites_output_witness :
    ∃ self, computeQuotientSpace (XRN SO2StateSpace 3) (XRN SO2StateSpace 1) = .ok self ∧
      SameOutput self (.Compound [.SO2 7, .RealVector [10]]) (.RealVector [20, 30])
        (.Compound [.SO2 0, .RealVector [0, 0, 0]])
        (.Compound [.SO2 9, .RealVector [9, 9, (9 : Nat)]]) :=
  (C36_mergeStates_overwrites_output 3 1 (by decide) (by decide) (by decide)
    [10] [20, 30] [1, 2, 3] [0, 0, 0] [9, 9, 9] rfl rfl rfl rfl rfl 0 0 0 0 7 0 9
    ⟨0, 0, 0, 1⟩ ⟨0, 0, 0⟩ ⟨0, 0, 0⟩ ⟨0, 0, 0⟩ ⟨0, 0, 0, ⟨0, 0, 0, 1⟩⟩
    ⟨0, 0, 0, ⟨0, 0, 0, 1⟩⟩ ⟨0, 0, 0, ⟨0, 0, 0, 1⟩⟩).2.2.2.2.2.2.2.2.2.2

/-- C37 (counterexample): on a node without parent, one infeasible sample followed by
`2 ^ 32 - 1` feasible ones, from the fresh counters, leaves the counter of samples at
0 and the counter of feasible samples at 4294967295. -/
theorem C37_counterexample_samples_wrap_below_feasible :
    (QuotientSpace.mk .RN_RM 3 2 1 (some (RealVectorStateSpace 1)) false).run
        (fun q => Except.toBool (State.asRealVector q)) (none : Option Unit)
        (.RealVector [0, 0, 0])
        (.sample (Draw.mk (.Compound []) (.RealVector []) (.RealVector [])) ::
          (List.replicate 4294967295
            (Draw.mk (.RealVector [1, 2, (3 : Nat)]) (.RealVector []) (.RealVector []))
          ).map Call.sample)
        SampleCounters.fresh
      = .ok (SampleCounters.mk 0 4294967295) ∧
    ¬ ((SampleCounters.mk 0 4294967295).totalNumberOfFeasibleSamples_
      ≤ (SampleCounters.mk 0 4294967295).totalNumberOfSamples_) := by
  refine ⟨?_, by decide⟩
  have hs : (QuotientSpace.mk .RN_RM 3 2 1 (some (RealVectorStateSpace 1)) false).sample
      (fun q => Except.toBool (State.asRealVector q))
      (Draw.mk (.Compound []) (.RealVector []) (.RealVector []))
      (.RealVector [0, 0, (0 : Nat)]) SampleCounters.fresh
      = .ok (false, .Compound [], SampleCounters.mk 1 0) := rfl
  rw [run_cons_sample_ok _ _ _ _ _ _ _ _ _ _ hs, run_map_sample,
    sampleRepeatedly_replicate _ _ _ rfl 4294967295 _ _ (by decide) (by decide)]
  rfl

/-- C37 (amended): after a sequence of fewer than `2 ^ 32` calls of `sample` and
`clear` on a fresh node, and after such a sequence that follows a `clear`, whatever
was called before it, the counter of feasible samples is at most the counter of
samples.  Whenever `clear` returns, both counters are 0; it returns when the problem
definition is set, and otherwise dereferences the null `pdef_`.  On a node without
parent or with `X1_dimension_ = 0` the sequence returns when the problem definition
is set or no `clear` is called. -/
theorem C37_feasible_at_most_total_below_wrap {α π : Type} (self : QuotientSpace)
    (isValid : State α → Bool) (pdef_ : Option π) (q_random : State α)
    (calls : List (Call α)) (hlen : calls.length < 2 ^ 32) :
    (∀ c, self.run isValid pdef_ q_random calls SampleCounters.fresh = .ok c →
      c.totalNumberOfFeasibleSamples_ ≤ c.totalNumberOfSamples_) ∧
    (∀ (before : List (Call α)) (start c : SampleCounters),
      self.run isValid pdef_ q_random (before ++ Call.clear :: calls) start = .ok c →
      c.totalNumberOfFeasibleSamples_ ≤ c.totalNumberOfSamples_) ∧
    (∀ old cleared, QuotientSpace.clear pdef_ old = .ok cleared →
      cleared.totalNumberOfSamples_ = 0 ∧ cleared.totalNumberOfFeasibleSamples_ = 0) ∧
    (∀ (p : π) old, QuotientSpace.clear (some p) old = .ok (SampleCounters.mk 0 0)) ∧
    (∀ old, QuotientSpace.clear (none : Option π) old = .error .undefinedBehaviour) ∧
    (self.hasParent = false ∨ self.X1_dimension_ = 0 →
      pdef_.isSome = true ∨ (∀ call ∈ calls, ∃ draw, call = Call.sample draw) →
      ∃ c, self.run isValid pdef_ q_random calls SampleCounters.fresh = .ok c) := by
  refine ⟨fun c h => ?_, fun before start c h => ?_, fun old cleared h => ?_,
    fun _ _ => rfl, fun _ => rfl, fun hself hcalls => ?_⟩
  · exact (run_invariant self isValid pdef_ calls q_random _ c (Nat.le_refl _)
      (by simp only [SampleCounters.fresh]; omega) h).1
  · obtain ⟨q, c1, h1⟩ := run_append_elim self isValid pdef_ _ before q_random start c h
    simp only [QuotientSpace.run] at h1
    obtain ⟨c2, h2, h3⟩ := bind_ok_elim h1
    have hc2 := clear_ok_elim pdef_ c1 c2 h2
    subst hc2
    exact (run_invariant self isValid pdef_ calls q _ c (Nat.le_refl _)
      (by dsimp only; omega) h3).1
  · rw [clear_ok_elim pdef_ old cleared h]
    exact ⟨rfl, rfl⟩
  · exact run_returns self isValid pdef_ hself calls hcalls q_random _

/-- Witness of C37: on a node without parent whose problem definition is set, with a
feasibility check that accepts the vector states, two samples of which the first is
infeasible, a `clear`, and a feasible sample leave the counters `(1, 1)`. -/
theorem C37_feasible_at_most_total_below_wrap_witness :
    (QuotientSpace.mk .RN_RM 3 2 1 (some (RealVectorStateSpace 1)) false).run
        (fun q => Except.toBool (State.asRealVector q)) (some ()) (.RealVector [0, 0, 0])
        [.sample (Draw.mk (.Compound []) (.RealVector [3]) (.RealVector [1, (2 : Nat)])),
         .sample (Draw.mk (.RealVector [1, 2, 3]) (.RealVector [3]) (.RealVector [1, 2])),
         .clear,
         .sample (Draw.mk (.RealVector [1, 2, 3]) (.RealVector [3]) (.RealVector [1, 2]))]
        SampleCounters.fresh = .ok (SampleCounters.mk 1 1) ∧
      (SampleCounters.mk 1 1).totalNumberOfFeasibleSamples_
        ≤ (SampleCounters.mk 1 1).totalNumberOfSamples_ :=
  ⟨rfl, (C37_feasible_at_most_total_below_wrap
    (QuotientSpace.mk .RN_RM 3 2 1 (some (RealVectorStateSpace 1)) false)
    (fun q => Except.toBool (State.asRealVector q)) (some ()) (.RealVector [0, 0, 0])
    [.sample (Draw.mk (.Compound []) (.RealVector [3]) (.RealVector [1, (2 : Nat)])),
     .sample (Draw.mk (.RealVector [1, 2, 3]) (.RealVector [3]) (.RealVector [1, 2])),
     .clear,
     .sample (Draw.mk (.RealVector [1, 2, 3]) (.RealVector [3]) (.RealVector [1, 2]))]
    (by decide)).1 (SampleCounters.mk 1 1) rfl⟩

/-- C38: `GetNumberOfComponents` counts the compound `SO3 x R^n` as one component, and
the classifier throws "Invalid BundleSpace type." for the Bundle `SO3 x R^n` against
every present Base. -/
theorem C38_SO3RN_counted_but_not_classified (n : Nat) :
    GetNumberOfComponents (XRN SO3StateSpace n) = .ok 1 ∧
    (∀ Base : StateSpace,
      identifyBundleSpaceComponentType (XRN SO3StateSpace n) (some Base)
        = .error (.exception .Invalid_BundleSpace_type_dot)) ∧
    identifyBundleSpaceComponentType (XRN SO3StateSpace n) none = .ok .NO_PROJECTION := by
  refine ⟨?_, ?_, rfl⟩
  · have two : toInt (toUnsigned 2) = 2 := by decide
    simp [GetNumberOfComponents, XRN, SO3StateSpace, RealVectorStateSpace,
      isCompound_compound, getSubspaces_compound, getType_compound, getType_simple, vectorAt,
      bind, Except.bind, two]
  · intro Base
    simp [identifyBundleSpaceComponentType, XRN, SO3StateSpace, RealVectorStateSpace,
      isCompound_compound, isCompound_simple, getSubspaces_compound, getType_compound,
      getType_simple, vectorAt, toUnsigned, bind, Except.bind]

/-- C39: a call of `sample` on a node with a parent, whenever it returns, leaves the
counters of the parent as they were; `sampleQuotient`, through which the parent is
asked for a state, returns `true`, writes the draw of the sampler and changes no
counter; the call returns when `X1_dimension_` is 0 and whenever `mergeStates`
succeeds; and what it returns and does to the node's own counters is what `sample`
gives with the state `sampleQuotient` wrote as the state of the parent. -/
theorem C39_sample_leaves_parent_counters {α : Type} (self : QuotientSpace)
    (isValid : State α → Bool) (X1_sample parent_sample s_Q0_tmp_ q_random : State α)
    (counters parentCounters : SampleCounters) :
    (∀ valid q c pc,
      self.sampleUnderParent isValid X1_sample parent_sample s_Q0_tmp_ q_random counters
        parentCounters = .ok (valid, q, c, pc) →
      pc = parentCounters ∧
      pc.totalNumberOfSamples_ = parentCounters.totalNumberOfSamples_ ∧
      pc.totalNumberOfFeasibleSamples_ = parentCounters.totalNumberOfFeasibleSamples_) ∧
    (∀ buffer : State α,
      QuotientSpace.sampleQuotient parent_sample buffer parentCounters
        = (true, parent_sample, parentCounters)) ∧
    (self.X1_dimension_ = 0 →
      ∃ valid c, self.sampleUnderParent isValid X1_sample parent_sample s_Q0_tmp_ q_random
        counters parentCounters = .ok (valid, parent_sample, c, parentCounters)) ∧
    (∀ q, 0 < self.X1_dimension_ →
      self.mergeStates parent_sample X1_sample q_random = .ok q →
      ∃ valid c, self.sampleUnderParent isValid X1_sample parent_sample s_Q0_tmp_ q_random
        counters parentCounters = .ok (valid, q, c, parentCounters)) ∧
    (self.hasParent = true → ∀ Q1_sample valid q c,
      (self.sampleUnderParent isValid X1_sample parent_sample s_Q0_tmp_ q_random counters
          parentCounters = .ok (valid, q, c, parentCounters) ↔
        self.sample isValid (Draw.mk Q1_sample X1_sample parent_sample) q_random counters
          = .ok (valid, q, c))) := by
  rw [sampleUnderParent_eq]
  refine ⟨?_, fun _ => rfl, ?_, ?_, ?_⟩
  · intro valid q c pc h
    obtain ⟨q', _, h⟩ := bind_ok_elim h
    cases h
    exact ⟨rfl, rfl, rfl⟩
  · intro hx
    rw [if_neg (by omega), ok_bind]
    exact ⟨_, _, rfl⟩
  · intro q hx hq
    rw [if_pos hx, hq, ok_bind]
    exact ⟨_, _, rfl⟩
  · intro hp Q1_sample valid q c
    unfold QuotientSpace.sample
    have e : (if !self.hasParent then (.ok Q1_sample : Except Fault (State α))
        else if self.X1_dimension_ > 0 then
          self.mergeStates parent_sample X1_sample q_random
        else .ok parent_sample) =
        (if self.X1_dimension_ > 0 then self.mergeStates parent_sample X1_sample q_random
          else .ok parent_sample) := by simp [hp]
    simp only []
    rw [e]
    cases (if self.X1_dimension_ > 0 then self.mergeStates parent_sample X1_sample q_random
        else .ok parent_sample) with
    | error e =>
      rw [error_bind, error_bind]
      constructor <;> (intro h; cases h)
    | ok q' =>
      rw [ok_bind, ok_bind]
      constructor
      · intro h; cases h; rfl
      · intro h; cases h; rfl

/-- Witness of C39: the node of `R^3` over `R^2` with counters `(4, 2)` under a parent
with counters `(9, 5)`: the call returns with the state `[1, 2, 3]`, and the parent
still has `(9, 5)`. -/
theorem C39_sample_leaves_parent_counters_witness :
    ∃ valid c, QuotientSpace.sampleUnderParent
        (QuotientSpace.mk .RN_RM 3 2 1 (some (RealVectorStateSpace 1)) true) (fun _ => true)
        (.RealVector [3]) (.RealVector [1, (2 : Nat)]) (.RealVector [0, 0])
        (.RealVector [0, 0, 0]) (SampleCounters.mk 4 2) (SampleCounters.mk 9 5)
      = .ok (valid, .RealVector [1, 2, 3], c, SampleCounters.mk 9 5) :=
  (C39_sample_leaves_parent_counters
    (QuotientSpace.mk .RN_RM 3 2 1 (some (RealVectorStateSpace 1)) true) (fun _ => true)
    (.RealVector [3]) (.RealVector [1, (2 : Nat)]) (.RealVector [0, 0])
    (.RealVector [0, 0, 0]) (SampleCounters.mk 4 2) (SampleCounters.mk 9 5)).2.2.2.1
    (.RealVector [1, 2, 3]) (by decide) rfl

/-- C40: on the quotient spaces that `computeQuotientSpace` builds for the shapes of
the types whose operators subtract (`0 < m < n`), no subtraction of `mergeStates` and
of `projectQ0Subspace` wraps around below zero, and none of `projectX1Subspace` does
for `SE2 x R^n` over `SE2 x R^m`, `SE3 x R^n` over `SE3 x R^m`, `SE2 x R^n` over `R^2`
and `SE3 x R^n` over `R^3`; the operators of every other type subtract nothing.  For
`SO2 x R^n` over `SO2 x R^m` the subtractions of `projectX1Subspace` are
`(1 + n) - (n - m)`, `(1 + m) - 3` and `(1 + n) - 3`, and one of them wraps around
exactly when `m = 1`: the start offset is then `2 ^ 32 - 1` and the call leaves the
Fiber buffer as it was. -/
theorem C40_SO2RN_SO2RM_offset_wraps_below_zero {α : Type} (n m : Nat) (hm : 0 < m)
    (hmn : m < n) (hn : 6 + n < 2 ^ 32) :
    (∃ self, computeQuotientSpace (XRN SO2StateSpace n) (XRN SO2StateSpace m) = .ok self ∧
      (∀ p ∈ self.mergeStatesSubtractions, ¬ WrapsBelowZero p) ∧
      (∀ p ∈ self.projectQ0SubspaceSubtractions, ¬ WrapsBelowZero p) ∧
      self.projectX1SubspaceSubtractions = [(1 + n, n - m), (1 + m, 3), (1 + n, 3)] ∧
      ((∃ p ∈ self.projectX1SubspaceSubtractions, WrapsBelowZero p) ↔ m = 1) ∧
      (m = 1 →
        usub (usub self.Q1_dimension_ self.X1_dimension_) 3 = 2 ^ 32 - 1 ∧
        ∀ (a : α) (v w : List α),
          self.projectX1Subspace (.Compound [.SO2 a, .RealVector v]) (.RealVector w)
            = .ok (.RealVector w))) ∧
    (∃ self, computeQuotientSpace (XRN SE2StateSpace n) (XRN SE2StateSpace m) = .ok self ∧
      (∀ p ∈ self.mergeStatesSubtractions, ¬ WrapsBelowZero p) ∧
      (∀ p ∈ self.projectQ0SubspaceSubtractions, ¬ WrapsBelowZero p) ∧
      (∀ p ∈ self.projectX1SubspaceSubtractions, ¬ WrapsBelowZero p)) ∧
    (∃ self, computeQuotientSpace (XRN SE3StateSpace n) (XRN SE3StateSpace m) = .ok self ∧
      (∀ p ∈ self.mergeStatesSubtractions, ¬ WrapsBelowZero p) ∧
      (∀ p ∈ self.projectQ0SubspaceSubtractions, ¬ WrapsBelowZero p) ∧
      (∀ p ∈ self.projectX1SubspaceSubtractions, ¬ WrapsBelowZero p)) ∧
    (∃ self, computeQuotientSpace (XRN SE2StateSpace n) (RealVectorStateSpace 2) = .ok self ∧
      (∀ p ∈ self.mergeStatesSubtractions, ¬ WrapsBelowZero p) ∧
      (∀ p ∈ self.projectQ0SubspaceSubtractions, ¬ WrapsBelowZero p) ∧
      (∀ p ∈ self.projectX1SubspaceSubtractions, ¬ WrapsBelowZero p)) ∧
    (∃ self, computeQuotientSpace (XRN SE3StateSpace n) (RealVectorStateSpace 3) = .ok self ∧
      (∀ p ∈ self.mergeStatesSubtractions, ¬ WrapsBelowZero p) ∧
      (∀ p ∈ self.projectQ0SubspaceSubtractions, ¬ WrapsBelowZero p) ∧
      (∀ p ∈ self.projectX1SubspaceSubtractions, ¬ WrapsBelowZero p)) ∧
    (∀ self : QuotientSpace,
      self.type_ ∉ [QuotientSpaceType.SO2RN_SO2RM, .SE2RN_SE2RM, .SE3RN_SE3RM, .SE2RN_R2,
        .SE3RN_R3] →
      self.mergeStatesSubtractions = [] ∧ self.projectQ0SubspaceSubtractions = [] ∧
      self.projectX1SubspaceSubtractions = []) := by
  have u1 : usub (1 + n) (n - m) = 1 + m := by
    rw [usub_eq (by omega) (by omega)]; omega
  have u3 : usub (3 + n) (n - m) = 3 + m := by
    rw [usub_eq (by omega) (by omega)]; omega
  have u6 : usub (6 + n) (n - m) = 6 + m := by
    rw [usub_eq (by omega) (by omega)]; omega
  refine ⟨⟨_, computeQuotientSpace_SO2RN_SO2RM n m hm hmn (by omega), ?_, ?_, ?_, ?_, ?_⟩,
    ⟨_, computeQuotientSpace_SE2RN_SE2RM n m hm hmn (by omega), ?_, ?_, ?_⟩,
    ⟨_, computeQuotientSpace_SE3RN_SE3RM n m hm hmn (by omega), ?_, ?_, ?_⟩,
    ⟨_, computeQuotientSpace_SE2RN_R2 n (by omega), ?_, ?_, ?_⟩,
    ⟨_, computeQuotientSpace_SE3RN_R3 n (by omega), ?_, ?_, ?_⟩, ?_⟩
  · simp only [QuotientSpace.mergeStatesSubtractions, u1, WrapsBelowZero]
    intro p hp
    simp only [List.mem_cons, List.mem_singleton, List.not_mem_nil, or_false] at hp
    rcases hp with rfl | rfl <;> simp only [] <;> omega
  · simp only [QuotientSpace.projectQ0SubspaceSubtractions, WrapsBelowZero]
    intro p hp
    simp only [List.mem_singleton] at hp
    subst hp
    simp only []
    omega
  · simp only [QuotientSpace.projectX1SubspaceSubtractions, u1]
  · simp only [QuotientSpace.projectX1SubspaceSubtractions, u1, WrapsBelowZero]
    constructor
    · rintro ⟨p, hp, hw⟩
      simp only [List.mem_cons, List.mem_singleton, List.not_mem_nil, or_false] at hp
      rcases hp with rfl | rfl | rfl <;> simp only [] at hw <;> omega
    · intro h1
      exact ⟨(1 + m, 3), by simp, by simp only []; omega⟩
  · intro h1
    subst h1
    have e : usub (usub (1 + n) (n - 1)) 3 = 2 ^ 32 - 1 := by
      rw [u1]; decide
    refine ⟨e, fun a v w => ?_⟩
    simp only [QuotientSpace.projectX1Subspace]
    simp only [asCompound_Compound, ok_bind, component_one, asRealVector_RealVector]
    rw [forLoop_nil _ _ (by rw [e, usub_eq (by omega) (by omega)]; omega), ok_bind]
  · simp only [QuotientSpace.mergeStatesSubtractions, u3, WrapsBelowZero]
    intro p hp
    simp only [List.mem_cons, List.mem_singleton, List.not_mem_nil, or_false] at hp
    rcases hp with rfl | rfl <;> simp only [] <;> omega
  · simp only [QuotientSpace.projectQ0SubspaceSubtractions, WrapsBelowZero]
    intro p hp
    simp only [List.mem_singleton] at hp
    subst hp
    simp only []
    omega
  · simp only [QuotientSpace.projectX1SubspaceSubtractions, u3, WrapsBelowZero]
    intro p hp
    simp only [List.mem_cons, List.mem_singleton, List.not_mem_nil, or_false] at hp
    rcases hp with rfl | rfl | rfl <;> simp only [] <;> omega
  · simp only [QuotientSpace.mergeStatesSubtractions, u6, WrapsBelowZero]
    intro p hp
    simp only [List.mem_cons, List.mem_singleton, List.not_mem_nil, or_false] at hp
    rcases hp with rfl | rfl <;> simp only [] <;> omega
  · simp only [QuotientSpace.projectQ0SubspaceSubtractions, WrapsBelowZero]
    intro p hp
    simp only [List.mem_singleton] at hp
    subst hp
    simp only []
    omega
  · simp only [QuotientSpace.projectX1SubspaceSubtractions, u6, WrapsBelowZero]
    intro p hp
    simp only [List.mem_cons, List.mem_singleton, List.not_mem_nil, or_false] at hp
    rcases hp with rfl | rfl | rfl <;> simp only [] <;> omega
  · simp only [QuotientSpace.mergeStatesSubtractions, WrapsBelowZero]
    intro p hp
    simp only [List.mem_singleton] at hp
    subst hp
    simp only []
    omega
  · simp only [QuotientSpace.projectQ0SubspaceSubtractions]
    intro p hp
    cases hp
  · simp only [QuotientSpace.projectX1SubspaceSubtractions, WrapsBelowZero]
    intro p hp
    simp only [List.mem_singleton] at hp
    subst hp
    simp only []
    omega
  · simp only [QuotientSpace.mergeStatesSubtractions, WrapsBelowZero]
    intro p hp
    simp only [List.mem_singleton] at hp
    subst hp
    simp only []
    omega
  · simp only [QuotientSpace.projectQ0SubspaceSubtractions]
    intro p hp
    cases hp
  · simp only [QuotientSpace.projectX1SubspaceSubtractions, WrapsBelowZero]
    intro p hp
    simp only [List.mem_singleton] at hp
    subst hp
    simp only []
    omega
  · intro self hself
    simp only [List.mem_cons, List.mem_singleton, List.not_mem_nil, or_false, not_or] at hself
    obtain ⟨h1, h2, h3, h4, h5⟩ := hself
    unfold QuotientSpace.mergeStatesSubtractions QuotientSpace.projectQ0SubspaceSubtractions
      QuotientSpace.projectX1SubspaceSubtractions
    cases ht : self.type_ <;> simp_all

/-- Witness of C40 for `SO2 x R^2` over `SO2 x R^1`: the start offset `3 - 1 - 3` of
`projectX1Subspace` wraps around to `2 ^ 32 - 1`, and the projection of the Bundle
state `(7, [10, 20])` leaves the Fiber buffer `[0]` as it was. -/
theorem C40_SO2RN_SO2RM_offset_wraps_below_zero_witness :
    ∃ self, computeQuotientSpace (XRN SO2StateSpace 2) (XRN SO2StateSpace 1) = .ok self ∧
      (∃ p ∈ self.projectX1SubspaceSubtractions, WrapsBelowZero p) ∧
      usub (usub self.Q1_dimension_ self.X1_dimension_) 3 = 2 ^ 32 - 1 ∧
      self.projectX1Subspace (.Compound [.SO2 7, .RealVector [10, 20]])
        (.RealVector [(0 : Nat)]) = .ok (.RealVector [0]) :=
  match (C40_SO2RN_SO2RM_offset_wraps_below_zero 2 1 (by decide) (by decide)
    (by decide)).1 with
  | ⟨self, h, _, _, _, hw, hx⟩ =>
    ⟨self, h, hw.2 rfl, (hx rfl).1, (hx rfl).2 7 [10, 20] [0]⟩

end ompl
